import Mathlib

/-!
# libarcp 1.1.1: wire codec, transport framer and exchange engine

A shallow embedding of `src/ARCP-linux/libarcp-1.1.1-2/arcp.c` (with the types and
constants of `arcp.h`), followed by theorems about it.

Conventions of the embedding.

* Unsigned C scalars are `Nat`, signed ones are `Int`.  Every conversion the C code
  performs implicitly (storing an `int` into a `uint16`, reading a `uint8` into an
  `int8`, ...) is written out with `uint8_of`, `int16_of`, ...
* The types `uint8`, `int8`, `uint16`, `int16`, `uint32` and `int32` of `arcp.h` have the
  width their names give.  This is so on the targets `arcp.h` names for them (gcc on
  32-bit Linux, the AVR cross compiler).  Where the fallback
  `typedef unsigned long int uint32` is in force and `long` has 64 bits, `uint32_of` and
  `int32_of` are not the conversions the compiler makes.
* A `float` is carried as its IEEE-754 binary32 bit pattern (the code only ever moves it
  through a `union { uint32 i; float f; }`).
* A pointer to an array is a `List`; the count field that goes with it is kept as a field
  of its own, as in the C structure.  A fixed-size array is a `List` of that size.
* A stream holds its bytes in the list `data`; `head` and `end_` are the offsets of the C
  pointers from `data`.  A byte read outside `data` is 0 and a store outside it is dropped;
  past the bounds test of the typed operations this happens only on a stream whose `end_`
  lies outside `data`, such as one that `arcp_stream_setsize` has not sized.
* A C union is an inductive type with one constructor per member.  Reading a member other
  than the one the value was built with yields the zero that `calloc` left there.
* `malloc` and `calloc` succeed.  What `malloc` returns is not initialised: the bytes it
  holds are the parameter `mem`.
* A local variable the C code reads without having initialised it is a parameter
  (`decode_locals`).
* A loop whose termination is not structural takes fuel; `none` means the fuel ran out.
* `arcp_pulsecode_setbit` stores to an element of an array whose size it has just set;
  a store outside the array has no defined result, and the function returns `none`.
* The static counter `exchange_id` is an argument of the functions that use it, and part of
  what they return.
-/

namespace ARCP

/-! ## Constants (`arcp.h`) -/

abbrev ARCP_VERSION_MAJOR : Nat := 0x01
abbrev ARCP_VERSION_MINOR : Nat := 0x01

/-- Version number as sent through the ARCP: 8 bits major, 8 bits minor. -/
def ARCP_VERSION_WORD (major minor : Nat) : Nat := (major <<< 8) ||| minor

abbrev ARCP_VERSION_1_0 : Nat := ARCP_VERSION_WORD 1 0
abbrev ARCP_VERSION_1_1 : Nat := ARCP_VERSION_WORD 1 1

abbrev ARCP_MSG_MAX_SIZE : Nat := 1024
abbrev ARCP_MAX_PULSESEQ_SIZE : Nat := 500
abbrev ARCP_MAX_PULSECODE_SIZE : Nat := 512
abbrev ARCP_MAX_N_CHASSIS_FANS : Nat := 8
abbrev ARCP_MAX_N_RF_CARDS : Nat := 9
abbrev ARCP_MAX_N_RF_CARD_OUTPUT : Nat := 8
abbrev ARCP_MAX_PULSE_SEQ_LENGTH : Nat := 1024
abbrev ARCP_STX2_MAX_N_STX2_UNITS : Nat := 10
abbrev ARCP_STX2_EXTCOMB_MAX_N_TEMPERATURES : Nat := 4
abbrev ARCP_STX2_EXTCOMB_MAX_N_OUTPUTS : Nat := 6
abbrev ARCP_BSM_MAX_N_TEMPERATURES : Nat := 8
abbrev ARCP_BSM_MAX_N_PHASES : Nat := 32

abbrev ARCP_MAGIC_NUMBER : Nat := 0x41524350

abbrev ARCP_MSG_COMMAND : Nat := 0
abbrev ARCP_MSG_RESPONSE : Nat := 1

abbrev ARCP_MODULE_ANY : Int := -1
abbrev ARCP_MODULE_NONE : Int := -1
abbrev ARCP_MODULE_MASTER : Int := 0
abbrev ARCP_MODULE_STX2 : Int := 1
abbrev ARCP_MODULE_BSM : Int := 2

abbrev ARCP_ERROR_NOT_CMD : Int := -128
abbrev ARCP_ERROR_UNKNOWN_CMD : Int := -127
abbrev ARCP_CMD_RESET : Int := 0x0000
abbrev ARCP_CMD_PING : Int := 0x0001
abbrev ARCP_CMD_GET_SYSID : Int := 0x0002
abbrev ARCP_CMD_GET_SYSSTAT : Int := 0x0010
abbrev ARCP_CMD_SET_MODULE_ENABLE : Int := 0x0020
abbrev ARCP_CMD_SET_PULSE_PARAM : Int := 0x0101
abbrev ARCP_CMD_SET_PULSE_SEQ : Int := 0x0102
abbrev ARCP_CMD_SET_PULSE_SEQ_IDX : Int := 0x0103
abbrev ARCP_CMD_SET_TRIG_PARAM : Int := 0x0110
abbrev ARCP_CMD_SET_USRCTL_ENABLE : Int := 0x01f0
abbrev ARCP_CMD_SET_PHASE : Int := 0x0200

abbrev ARCP_ERROR_INTERNAL : Int := -128
abbrev ARCP_ERROR_LOCAL : Int := -127
abbrev ARCP_ERROR_SEQUENCE : Int := -126
abbrev ARCP_ERROR_BADMSG : Int := -125
abbrev ARCP_ERROR_BAD_PROTO_VER : Int := -124
abbrev ARCP_ERROR_BAD_RESPONSE : Int := -123
abbrev ARCP_ERROR_CONN_TIMEOUT : Int := -122
abbrev ARCP_ERROR_CONN_DROPPED : Int := -121
abbrev ARCP_ERROR_UNKNOWN_RESP : Int := -120
abbrev ARCP_ERROR_NOT_RESP : Int := -119
abbrev ARCP_RESP : Int := -2
abbrev ARCP_RESP_UNK : Int := -2
abbrev ARCP_RESP_NAK : Int := -1
abbrev ARCP_RESP_ACK : Int := 0
abbrev ARCP_RESP_SYSID : Int := 0x02
abbrev ARCP_RESP_SYSSTAT : Int := 0x10

abbrev ARCP_HEADER_SIZE : Nat := 11

abbrev ARCP_STX2_UNIT_NONE : Nat := 0x00
abbrev ARCP_STX2_UNIT_EXT_COMBINER_SPLITTER : Nat := 0x01

/-- Flags used internally by `arcp_socket_process`. -/
abbrev MSG_ARCP : Nat := 0x0001
abbrev MSG_ASCII : Nat := 0x0002

/-! ## C integer conversions -/

/-- Conversion to `uint8`. -/
def uint8_of (v : Int) : Nat := (v % 256).toNat
/-- Conversion to `uint16`. -/
def uint16_of (v : Int) : Nat := (v % 65536).toNat
/-- Conversion to `uint32`. -/
def uint32_of (v : Int) : Nat := (v % 4294967296).toNat
/-- Conversion to `int8` (two's complement). -/
def int8_of (v : Int) : Int := (v + 128) % 256 - 128
/-- Conversion to `int16` (two's complement). -/
def int16_of (v : Int) : Int := (v + 32768) % 65536 - 32768
/-- Conversion to `int32` (two's complement). -/
def int32_of (v : Int) : Int := (v + 2147483648) % 4294967296 - 2147483648

/-- A C loop `for (i = 0; i < n; i++) body`, the state the body changes made explicit. -/
def for_loop {σ : Type} (n : Nat) (body : Nat → σ → σ) (s : σ) : σ :=
  (List.range n).foldl (fun st i => body i st) s

/-- A C loop `for (i = 0; i < n; i++) body` whose counter `i` is a `uint8`: the increment
wraps from 255 to 0.  Started at `i`; `none` when the fuel runs out first. -/
def for_loop_uint8 {σ : Type} (n : Nat) (body : Nat → σ → σ) : Nat → Nat → σ → Option σ
  | 0, _, _ => none
  | fuel + 1, i, s =>
    if i < n then for_loop_uint8 n body fuel ((i + 1) % 256) (body i s) else some s

/-! ## Data types (`arcp.h`) -/

/-- A pulse code of arbitrary length: `size` and `code_length` in bits, `data` in bytes. -/
structure arcp_pulsecode_t where
  size : Nat
  code_length : Nat
  data : List Nat
deriving DecidableEq

structure arcp_pulseseq_entry_t where
  slot : Nat
  flags : Nat
deriving DecidableEq

structure arcp_phase_entry_t where
  channel : Nat
  phase : Nat
deriving DecidableEq

structure arcp_pulse_t where
  pulse_shape : Int
  pulse_ampl : Nat
  pulse_options : Nat
  pulse_width_ns : Nat
  code : Option arcp_pulsecode_t
deriving DecidableEq

structure arcp_pulseseq_t where
  length : Nat
  seq : List arcp_pulseseq_entry_t
deriving DecidableEq

structure arcp_trigger_t where
  trigger_source : Nat
  ext_trigger_options : Nat
  int_trigger_freq : Nat
  pulse_predelay : Nat
deriving DecidableEq

/-- The union `data` of `arcp_sysid_t`; `none` is the zeroed union. -/
inductive arcp_sysid_data_t where
  | none
  | stx2 (card_map : Nat) (pulse_slot_length : Nat)
  | bsm (channel_map : Nat)
deriving DecidableEq

structure arcp_sysid_t where
  module_type : Int
  module_version : Nat
  firmware_version : Nat
  ctrl_board_logic_version : Nat
  data : arcp_sysid_data_t
deriving DecidableEq

structure arcp_rf_card_output_stat_t where
  forward_power : Nat
  return_loss : Int
deriving DecidableEq

structure arcp_rf_card_stat_t where
  rail_supply : Nat
  heatsink_temp : Int
  n_rf_outputs : Nat
  output_stat : List arcp_rf_card_output_stat_t
deriving DecidableEq

abbrev arcp_extcomb_output_stat_t := arcp_rf_card_output_stat_t

/-- Status of an external combiner: `temperature` has 4 slots, `output` has 6. -/
structure arcp_extcomb_stat_t where
  flags : Nat
  unit_type : Nat
  n_temperatures : Nat
  temperature : List Int
  n_outputs : Nat
  output : List arcp_extcomb_output_stat_t
deriving DecidableEq

structure arcp_extunit_stat_t where
  flags : Nat
  type : Nat
deriving DecidableEq

/-- Union of the STX2 unit status structures. -/
inductive arcp_stx2unit_union_t where
  | unit (u : arcp_extunit_stat_t)
  | comb (c : arcp_extcomb_stat_t)
deriving DecidableEq

structure arcp_stx2stat_t where
  status_code : Nat
  chassis_datasize : Nat
  rail_supply : Nat
  rail_aux : Nat
  ambient_temp : Int
  n_chassis_fans : Nat
  fan_speed : List Nat
  card_map : Nat
  n_rf_cards : Nat
  rf_card_stat : List arcp_rf_card_stat_t
  n_units : Nat
  unit_stat : List arcp_stx2unit_union_t
deriving DecidableEq

/-- Status of a BSM: `fan_speed` and `heatsink_temp` have 8 slots each. -/
structure arcp_bsmstat_t where
  status_code : Nat
  rail_supply : Nat
  rail_aux : Nat
  ambient_temp : Int
  channel_map : Nat
  n_fans : Nat
  fan_speed : List Nat
  n_heatsink_temps : Nat
  heatsink_temp : List Int
deriving DecidableEq

/-- The union `data` of `arcp_sysstat_t`; `null` is the NULL pointer. -/
inductive arcp_sysstat_data_t where
  | null
  | stx2 (stx2 : arcp_stx2stat_t)
  | bsm (bsm : arcp_bsmstat_t)
deriving DecidableEq

structure arcp_sysstat_t where
  module_type : Int
  module_status : Int
  data : arcp_sysstat_data_t
deriving DecidableEq

structure arcp_msg_header_t where
  magic_num : Nat
  msg_length : Nat
  exchange_id : Nat
  msg_type : Nat
  protocol_version : Nat
deriving DecidableEq

/-- The union `arcp_msg_t`, one constructor per member (the bare `header` member is the
`header` of each). -/
inductive arcp_msg_t where
  | command (header : arcp_msg_header_t) (id : Int)
  | cmd_enable (header : arcp_msg_header_t) (cmd_id : Int) (enable : Int)
  | cmd_set_pulse_param (header : arcp_msg_header_t) (cmd_id : Int)
      (pulse_map_index : Nat) (pulse_param : arcp_pulse_t)
  | cmd_set_pulse_seq (header : arcp_msg_header_t) (cmd_id : Int) (seq : arcp_pulseseq_t)
  | cmd_set_pulse_seq_idx (header : arcp_msg_header_t) (cmd_id : Int) (seq_index : Nat)
  | cmd_set_trig_param (header : arcp_msg_header_t) (cmd_id : Int)
      (trig_param : arcp_trigger_t)
  | cmd_usrctl_enable (header : arcp_msg_header_t) (cmd_id : Int) (enable : Int)
  | cmd_set_phase (header : arcp_msg_header_t) (cmd_id : Int) (phase_slot : Nat)
      (n_phases : Nat) (phases : List arcp_phase_entry_t)
  | response (header : arcp_msg_header_t) (id : Int) (info_code : Int)
  | resp_sysid (header : arcp_msg_header_t) (resp_id : Int) (info_code : Int)
      (sysid : arcp_sysid_t)
  | resp_sysstat (header : arcp_msg_header_t) (resp_id : Int) (info_code : Int)
      (sysstat : arcp_sysstat_t)
deriving DecidableEq

/-- The ARCP message stream: `head` and `end_` are the offsets of the C pointers `head`
and `end` from `data`. -/
structure arcp_stream_t where
  size : Nat
  data : List Nat
  head : Nat
  end_ : Int
  err : Nat
deriving DecidableEq

/-! ## Zeroed objects and union members -/

def arcp_rf_card_output_stat_t.zero : arcp_rf_card_output_stat_t :=
  { forward_power := 0, return_loss := 0 }

def arcp_rf_card_stat_t.zero : arcp_rf_card_stat_t :=
  { rail_supply := 0, heatsink_temp := 0, n_rf_outputs := 0, output_stat := [] }

def arcp_pulseseq_entry_t.zero : arcp_pulseseq_entry_t := { slot := 0, flags := 0 }

def arcp_phase_entry_t.zero : arcp_phase_entry_t := { channel := 0, phase := 0 }

def arcp_stx2unit_union_t.zero : arcp_stx2unit_union_t := .unit { flags := 0, type := 0 }

/-- Member `unit` of the union (a prefix of the member `comb`). -/
def arcp_stx2unit_union_t.unit_v : arcp_stx2unit_union_t → arcp_extunit_stat_t
  | .unit u => u
  | .comb c => { flags := c.flags, type := c.unit_type }

/-- Member `comb` of the union. -/
def arcp_stx2unit_union_t.comb_v : arcp_stx2unit_union_t → arcp_extcomb_stat_t
  | .comb c => c
  | .unit u =>
    { flags := u.flags, unit_type := u.type, n_temperatures := 0,
      temperature := List.replicate ARCP_STX2_EXTCOMB_MAX_N_TEMPERATURES 0, n_outputs := 0,
      output := List.replicate ARCP_STX2_EXTCOMB_MAX_N_OUTPUTS arcp_rf_card_output_stat_t.zero }

def arcp_stx2stat_t.zero : arcp_stx2stat_t :=
  { status_code := 0, chassis_datasize := 0, rail_supply := 0, rail_aux := 0,
    ambient_temp := 0, n_chassis_fans := 0, fan_speed := [], card_map := 0, n_rf_cards := 0,
    rf_card_stat := [], n_units := 0, unit_stat := [] }

def arcp_bsmstat_t.zero : arcp_bsmstat_t :=
  { status_code := 0, rail_supply := 0, rail_aux := 0, ambient_temp := 0, channel_map := 0,
    n_fans := 0, fan_speed := List.replicate ARCP_MAX_N_CHASSIS_FANS 0, n_heatsink_temps := 0,
    heatsink_temp := List.replicate ARCP_BSM_MAX_N_TEMPERATURES 0 }

/-- Member `data.stx2.card_map`. -/
def arcp_sysid_t.stx2_card_map (sysid : arcp_sysid_t) : Nat :=
  match sysid.data with
  | .stx2 card_map _ => card_map
  | _ => 0

/-- Member `data.stx2.pulse_slot_length`. -/
def arcp_sysid_t.stx2_pulse_slot_length (sysid : arcp_sysid_t) : Nat :=
  match sysid.data with
  | .stx2 _ pulse_slot_length => pulse_slot_length
  | _ => 0

/-- Member `data.bsm.channel_map`. -/
def arcp_sysid_t.bsm_channel_map (sysid : arcp_sysid_t) : Nat :=
  match sysid.data with
  | .bsm channel_map => channel_map
  | _ => 0

/-- The object `data.stx2` points to. -/
def arcp_sysstat_t.stx2 (sysstat : arcp_sysstat_t) : arcp_stx2stat_t :=
  match sysstat.data with
  | .stx2 s => s
  | _ => arcp_stx2stat_t.zero

/-- The object `data.bsm` points to. -/
def arcp_sysstat_t.bsm (sysstat : arcp_sysstat_t) : arcp_bsmstat_t :=
  match sysstat.data with
  | .bsm b => b
  | _ => arcp_bsmstat_t.zero

/-- Member `header`. -/
def arcp_msg_t.header : arcp_msg_t → arcp_msg_header_t
  | .command h _ => h
  | .cmd_enable h _ _ => h
  | .cmd_set_pulse_param h _ _ _ => h
  | .cmd_set_pulse_seq h _ _ => h
  | .cmd_set_pulse_seq_idx h _ _ => h
  | .cmd_set_trig_param h _ _ => h
  | .cmd_usrctl_enable h _ _ => h
  | .cmd_set_phase h _ _ _ _ => h
  | .response h _ _ => h
  | .resp_sysid h _ _ _ => h
  | .resp_sysstat h _ _ _ => h

/-- Assignment to the member `header`. -/
def arcp_msg_t.set_header (msg : arcp_msg_t) (h : arcp_msg_header_t) : arcp_msg_t :=
  match msg with
  | .command _ i => .command h i
  | .cmd_enable _ i e => .cmd_enable h i e
  | .cmd_set_pulse_param _ i x p => .cmd_set_pulse_param h i x p
  | .cmd_set_pulse_seq _ i s => .cmd_set_pulse_seq h i s
  | .cmd_set_pulse_seq_idx _ i x => .cmd_set_pulse_seq_idx h i x
  | .cmd_set_trig_param _ i t => .cmd_set_trig_param h i t
  | .cmd_usrctl_enable _ i e => .cmd_usrctl_enable h i e
  | .cmd_set_phase _ i a n p => .cmd_set_phase h i a n p
  | .response _ i c => .response h i c
  | .resp_sysid _ i c s => .resp_sysid h i c s
  | .resp_sysstat _ i c s => .resp_sysstat h i c s

/-- Member `command.id`, which is also `response.id` and every `cmd_id` and `resp_id`. -/
def arcp_msg_t.id : arcp_msg_t → Int
  | .command _ i => i
  | .cmd_enable _ i _ => i
  | .cmd_set_pulse_param _ i _ _ => i
  | .cmd_set_pulse_seq _ i _ => i
  | .cmd_set_pulse_seq_idx _ i _ => i
  | .cmd_set_trig_param _ i _ => i
  | .cmd_usrctl_enable _ i _ => i
  | .cmd_set_phase _ i _ _ _ => i
  | .response _ i _ => i
  | .resp_sysid _ i _ _ => i
  | .resp_sysstat _ i _ _ => i

/-- Assignment to the member `command.id` (or `response.id`). -/
def arcp_msg_t.set_id (msg : arcp_msg_t) (i : Int) : arcp_msg_t :=
  match msg with
  | .command h _ => .command h i
  | .cmd_enable h _ e => .cmd_enable h i e
  | .cmd_set_pulse_param h _ x p => .cmd_set_pulse_param h i x p
  | .cmd_set_pulse_seq h _ s => .cmd_set_pulse_seq h i s
  | .cmd_set_pulse_seq_idx h _ x => .cmd_set_pulse_seq_idx h i x
  | .cmd_set_trig_param h _ t => .cmd_set_trig_param h i t
  | .cmd_usrctl_enable h _ e => .cmd_usrctl_enable h i e
  | .cmd_set_phase h _ a n p => .cmd_set_phase h i a n p
  | .response h _ c => .response h i c
  | .resp_sysid h _ c s => .resp_sysid h i c s
  | .resp_sysstat h _ c s => .resp_sysstat h i c s

/-- Member `cmd_enable.enable`, which is also `cmd_usrctl_enable.enable`. -/
def arcp_msg_t.enable : arcp_msg_t → Int
  | .cmd_enable _ _ e => e
  | .cmd_usrctl_enable _ _ e => e
  | _ => 0

/-- Member `cmd_set_pulse_param.pulse_map_index`. -/
def arcp_msg_t.pulse_map_index : arcp_msg_t → Nat
  | .cmd_set_pulse_param _ _ x _ => x
  | _ => 0

/-- Member `cmd_set_pulse_param.pulse_param`. -/
def arcp_msg_t.pulse_param : arcp_msg_t → arcp_pulse_t
  | .cmd_set_pulse_param _ _ _ p => p
  | _ => { pulse_shape := 0, pulse_ampl := 0, pulse_options := 0, pulse_width_ns := 0,
           code := none }

/-- The object `cmd_set_pulse_seq.seq` points to. -/
def arcp_msg_t.seq : arcp_msg_t → arcp_pulseseq_t
  | .cmd_set_pulse_seq _ _ s => s
  | _ => { length := 0, seq := [] }

/-- Member `cmd_set_pulse_seq_idx.seq_index`. -/
def arcp_msg_t.seq_index : arcp_msg_t → Nat
  | .cmd_set_pulse_seq_idx _ _ x => x
  | _ => 0

/-- Member `cmd_set_trig_param.trig_param`. -/
def arcp_msg_t.trig_param : arcp_msg_t → arcp_trigger_t
  | .cmd_set_trig_param _ _ t => t
  | _ => { trigger_source := 0, ext_trigger_options := 0, int_trigger_freq := 0,
           pulse_predelay := 0 }

/-- Member `cmd_set_phase.phase_slot`. -/
def arcp_msg_t.phase_slot : arcp_msg_t → Nat
  | .cmd_set_phase _ _ a _ _ => a
  | _ => 0

/-- Member `cmd_set_phase.n_phases`. -/
def arcp_msg_t.n_phases : arcp_msg_t → Nat
  | .cmd_set_phase _ _ _ n _ => n
  | _ => 0

/-- The array `cmd_set_phase.phases` points to. -/
def arcp_msg_t.phases : arcp_msg_t → List arcp_phase_entry_t
  | .cmd_set_phase _ _ _ _ p => p
  | _ => []

/-- Member `response.info_code`. -/
def arcp_msg_t.info_code : arcp_msg_t → Int
  | .response _ _ c => c
  | .resp_sysid _ _ c _ => c
  | .resp_sysstat _ _ c _ => c
  | _ => 0

/-- The object `resp_sysid.sysid` points to. -/
def arcp_msg_t.sysid : arcp_msg_t → arcp_sysid_t
  | .resp_sysid _ _ _ s => s
  | _ => { module_type := 0, module_version := 0, firmware_version := 0,
           ctrl_board_logic_version := 0, data := .none }

/-- The object `resp_sysstat.sysstat` points to. -/
def arcp_msg_t.sysstat : arcp_msg_t → arcp_sysstat_t
  | .resp_sysstat _ _ _ s => s
  | _ => { module_type := 0, module_status := 0, data := .null }

/-! ## Domain containers -/

/-- Resizes the array `buf` of `old_size` elements to `new_size` elements: the leading
`min old_size new_size` elements are kept, the new ones are zero. -/
def set_new_size {α : Type} (zero : α) (buf : List α) (new_size old_size : Nat) : List α :=
  if new_size = old_size then buf
  else
    let n := if new_size > old_size then old_size else new_size
    buf.take n ++ List.replicate (new_size - old_size) zero

def arcp_pulsecode_getsize (code : arcp_pulsecode_t) : Nat := code.size

def arcp_pulsecode_setsize (code : arcp_pulsecode_t) (newsize : Nat) :
    Int × arcp_pulsecode_t :=
  if code.size = newsize then (0, code)
  else if newsize > ARCP_MAX_PULSECODE_SIZE then (-1, code)
  else
    let osize := uint16_of (if code.size = 0 then 0 else 1 + (code.size - 1) / 8 : Nat)
    let nsize := uint16_of (if newsize = 0 then 0 else 1 + (newsize - 1) / 8 : Nat)
    let buf := set_new_size 0 code.data nsize osize
    (0, { code with data := buf, size := newsize })

def arcp_pulsecode_new (size : Nat) : Option arcp_pulsecode_t :=
  if size = 0 then none
  else
    let res : arcp_pulsecode_t := { size := 0, code_length := 0, data := [] }
    let r := arcp_pulsecode_setsize res size
    if r.1 < 0 then none
    else some { r.2 with code_length := 0 }

def arcp_pulsecode_getdata (code : arcp_pulsecode_t) : List Nat := code.data

def arcp_pulsecode_getlength (code : Option arcp_pulsecode_t) : Nat :=
  match code with
  | some c => c.code_length
  | none => 1

def arcp_pulsecode_setlength (code : arcp_pulsecode_t) (new_length : Nat) :
    Int × arcp_pulsecode_t :=
  if code.size < new_length then
    let r := arcp_pulsecode_setsize code new_length
    if r.1 < 0 then (-1, r.2)
    else (0, { r.2 with code_length := new_length })
  else (0, { code with code_length := new_length })

def arcp_pulsecode_getbit (code : Option arcp_pulsecode_t) (bitnum : Nat) : Nat :=
  match code with
  | some c =>
    if bitnum < c.code_length then
      (if c.data.getD (bitnum / 8) 0 &&& (1 <<< (bitnum % 8)) ≠ 0 then 1 else 0)
    else 0
  | none => 0

/-- Sets the given bit to the requested value.  `bitnum` is a `uint16`, `value` a `uint8`.
Returns the return value and the code; `none`: the byte `data[bitnum/8]` that the function
stores to lies outside the array `data`. -/
def arcp_pulsecode_setbit (code : arcp_pulsecode_t) (bitnum : Nat) (value : Nat) :
    Option (Int × arcp_pulsecode_t) :=
  let r := if bitnum ≥ code.size then arcp_pulsecode_setsize code (uint16_of (bitnum + 1 : Nat))
           else (0, code)
  if r.1 < 0 then some (-1, r.2)
  else
    let code := r.2
    if code.data.length ≤ bitnum / 8 then none
    else
      let byte := code.data.getD (bitnum / 8) 0
      let byte := if value ≠ 0 then byte ||| uint8_of (1 <<< (bitnum % 8) : Nat)
                  else byte &&& uint8_of (-1 - ((1 <<< (bitnum % 8) : Nat) : Int))
      let code := { code with data := code.data.set (bitnum / 8) byte }
      if bitnum ≥ code.code_length then
        some (0, { code with code_length := uint16_of (bitnum + 1 : Nat) })
      else some (0, code)

def arcp_pulseseq_set_length (seq : arcp_pulseseq_t) (seq_length : Nat) :
    Int × arcp_pulseseq_t :=
  if seq_length > ARCP_MAX_PULSESEQ_SIZE then (ARCP_ERROR_INTERNAL, seq)
  else
    let buf := set_new_size arcp_pulseseq_entry_t.zero seq.seq seq_length seq.length
    (0, { seq with seq := buf, length := seq_length })

def arcp_pulseseq_new (length : Nat) : Option arcp_pulseseq_t :=
  let res : arcp_pulseseq_t := { length := 0, seq := [] }
  let r := arcp_pulseseq_set_length res length
  if r.1 < 0 then none else some r.2

def arcp_pulseseq_set_entry (seq : arcp_pulseseq_t) (entry : Nat) (slot flags : Nat) :
    Int × arcp_pulseseq_t :=
  if entry ≥ seq.length then (-1, seq)
  else (0, { seq with seq := seq.seq.set entry { slot := slot, flags := flags } })

def arcp_stx2stat_new : arcp_stx2stat_t := arcp_stx2stat_t.zero

def arcp_stx2stat_set_n_chassis_fans (stat : arcp_stx2stat_t) (n_chassis_fans : Nat) :
    Int × arcp_stx2stat_t :=
  if n_chassis_fans > ARCP_MAX_N_CHASSIS_FANS then (ARCP_ERROR_LOCAL, stat)
  else
    let buf := set_new_size 0 stat.fan_speed n_chassis_fans stat.n_chassis_fans
    (0, { stat with fan_speed := buf, n_chassis_fans := n_chassis_fans,
                    chassis_datasize := uint8_of (7 + 2 * n_chassis_fans : Nat) })

def arcp_stx2stat_set_n_rf_cards (stat : arcp_stx2stat_t) (n_rf_cards : Nat) :
    Int × arcp_stx2stat_t :=
  let buf := set_new_size arcp_rf_card_stat_t.zero stat.rf_card_stat n_rf_cards stat.n_rf_cards
  (0, { stat with rf_card_stat := buf, n_rf_cards := n_rf_cards })

def arcp_stx2stat_set_n_rf_outputs (stat : arcp_stx2stat_t) (card_index : Nat)
    (n_rf_outputs : Nat) : Int × arcp_stx2stat_t :=
  if card_index ≥ stat.n_rf_cards then (ARCP_ERROR_INTERNAL, stat)
  else
    let card := stat.rf_card_stat.getD card_index arcp_rf_card_stat_t.zero
    let buf := set_new_size arcp_rf_card_output_stat_t.zero card.output_stat n_rf_outputs
      card.n_rf_outputs
    let card : arcp_rf_card_stat_t :=
      { card with output_stat := buf, n_rf_outputs := n_rf_outputs }
    (0, { stat with rf_card_stat := stat.rf_card_stat.set card_index card })

def arcp_stx2stat_set_n_units (stat : arcp_stx2stat_t) (n_units : Nat) :
    Int × arcp_stx2stat_t :=
  if n_units > ARCP_STX2_MAX_N_STX2_UNITS then (ARCP_ERROR_INTERNAL, stat)
  else
    let buf := set_new_size arcp_stx2unit_union_t.zero stat.unit_stat n_units stat.n_units
    (0, { stat with unit_stat := buf, n_units := n_units })

def arcp_bsmstat_new : arcp_bsmstat_t := arcp_bsmstat_t.zero

def arcp_bsmstat_set_n_fans (stat : arcp_bsmstat_t) (n_fans : Nat) : Int × arcp_bsmstat_t :=
  if n_fans > ARCP_MAX_N_CHASSIS_FANS then (ARCP_ERROR_LOCAL, stat)
  else (0, { stat with n_fans := n_fans })

def arcp_sysid_new : arcp_sysid_t :=
  { module_type := 0, module_version := 0, firmware_version := 0,
    ctrl_board_logic_version := 0, data := .none }

def arcp_sysstat_new : arcp_sysstat_t :=
  { module_type := -1, module_status := 0, data := .null }

def arcp_sysstat_set_moduletype (sysstat : arcp_sysstat_t) (type : Int) :
    Int × arcp_sysstat_t :=
  if sysstat.module_type ≥ 0 then (ARCP_ERROR_INTERNAL, sysstat)
  else if type = ARCP_MODULE_STX2 then
    (0, { sysstat with data := .stx2 arcp_stx2stat_new, module_type := type })
  else if type = ARCP_MODULE_BSM then
    (0, { sysstat with data := .bsm arcp_bsmstat_new, module_type := type })
  else (0, { sysstat with module_type := type })

/-! ## Messages -/

def arcp_id_is_response (id : Int) : Bool := id ≥ ARCP_RESP

def arcp_msg_new (type : Nat) : Option arcp_msg_t :=
  if type ≠ ARCP_MSG_COMMAND ∧ type ≠ ARCP_MSG_RESPONSE then none
  else
    let header : arcp_msg_header_t :=
      { magic_num := ARCP_MAGIC_NUMBER, msg_length := 0, exchange_id := 0, msg_type := type,
        protocol_version := 0 }
    if type = ARCP_MSG_COMMAND then some (.command header (-1))
    else some (.response header (-1) 0)

def arcp_msg_get_cmd_id (msg : arcp_msg_t) : Int :=
  if msg.header.msg_type ≠ ARCP_MSG_COMMAND then ARCP_ERROR_NOT_CMD else msg.id

def arcp_msg_set_cmd_id (msg : arcp_msg_t) (id : Int) : Int × arcp_msg_t :=
  if msg.header.msg_type ≠ ARCP_MSG_COMMAND then (ARCP_ERROR_NOT_CMD, msg)
  else if msg.id ≠ -1 then (ARCP_ERROR_INTERNAL, msg)
  else (0, msg.set_id id)

def arcp_msg_get_resp_id (msg : arcp_msg_t) : Int :=
  if msg.header.msg_type ≠ ARCP_MSG_RESPONSE then ARCP_ERROR_NOT_RESP else msg.id

def arcp_msg_set_resp_id (msg : arcp_msg_t) (id : Int) : Int × arcp_msg_t :=
  if msg.header.msg_type ≠ ARCP_MSG_RESPONSE then (ARCP_ERROR_NOT_RESP, msg)
  else if msg.id ≠ -1 then (ARCP_ERROR_INTERNAL, msg)
  else (0, msg.set_id id)

/-- Size added by one STX2 unit in `arcp_msg_set_stream_size` (the body of its second
loop), `len` being a `uint16`. -/
def stream_size_unit (unit_stat : List arcp_stx2unit_union_t) (idx : Nat) (len : Nat) : Nat :=
  let u := unit_stat.getD idx arcp_stx2unit_union_t.zero
  if u.unit_v.type = ARCP_STX2_UNIT_EXT_COMBINER_SPLITTER then
    let len := (len + 2) % 65536
    let len := (len + u.comb_v.n_temperatures) % 65536
    (len + (4 * u.comb_v.n_outputs) % 65536) % 65536
  else len

/-- The case `ARCP_MODULE_STX2` of `arcp_msg_set_stream_size`: the value of its `uint16 len`
after the case, from its value `len` before. -/
def stream_size_stx2 (stx2 : arcp_stx2stat_t) (len : Nat) : Nat :=
  let len := (len + (13 + 2 * stx2.n_chassis_fans) % 65536) % 65536
  let len := for_loop stx2.n_rf_cards (fun idx len =>
    (len + (5 + 4 * (stx2.rf_card_stat.getD idx arcp_rf_card_stat_t.zero).n_rf_outputs)
      % 65536) % 65536) len
  if stx2.n_units ≠ 0 then
    let len := (len + 2 * stx2.n_units) % 65536
    for_loop stx2.n_units (stream_size_unit stx2.unit_stat) len
  else len

/-- The case `ARCP_MSG_COMMAND` of `arcp_msg_set_stream_size`. -/
def stream_size_cmd (msg : arcp_msg_t) : Nat :=
  if msg.id = ARCP_CMD_SET_MODULE_ENABLE ∨ msg.id = ARCP_CMD_SET_USRCTL_ENABLE then
    ARCP_HEADER_SIZE + 3
  else if msg.id = ARCP_CMD_SET_PULSE_PARAM then
    let len := ARCP_HEADER_SIZE + 14
    if msg.pulse_param.code ≠ none ∧ arcp_pulsecode_getlength msg.pulse_param.code ≠ 0 then
      (len + (1 + (arcp_pulsecode_getlength msg.pulse_param.code - 1) / 8) % 65536) % 65536
    else len
  else if msg.id = ARCP_CMD_SET_PULSE_SEQ then
    (ARCP_HEADER_SIZE + 2 + 2 + 2 * msg.seq.length) % 65536
  else if msg.id = ARCP_CMD_SET_PULSE_SEQ_IDX then ARCP_HEADER_SIZE + 2 + 2
  else if msg.id = ARCP_CMD_SET_TRIG_PARAM then ARCP_HEADER_SIZE + 2 + 6
  else if msg.id = ARCP_CMD_SET_PHASE then
    (ARCP_HEADER_SIZE + 2 + 2 + 2 + msg.n_phases * 6) % 65536
  else ARCP_HEADER_SIZE + 2

/-- The case `ARCP_MSG_RESPONSE` of `arcp_msg_set_stream_size`. -/
def stream_size_resp (msg : arcp_msg_t) : Nat :=
  if msg.id = ARCP_RESP_SYSID then
    let len := ARCP_HEADER_SIZE + 11
    if msg.sysid.module_type = ARCP_MODULE_STX2 then len + 6
    else if msg.sysid.module_type = ARCP_MODULE_BSM then len + 2
    else len
  else if msg.id = ARCP_RESP_SYSSTAT then
    let len := ARCP_HEADER_SIZE + 6
    if msg.sysstat.module_type = ARCP_MODULE_STX2 then stream_size_stx2 msg.sysstat.stx2 len
    else if msg.sysstat.module_type = ARCP_MODULE_BSM then
      let bsm := msg.sysstat.bsm
      let len := (len + (11 + 2 * bsm.n_fans) % 65536) % 65536
      (len + bsm.n_heatsink_temps % 65536) % 65536
    else len
  else ARCP_HEADER_SIZE + 4

/-- The value `arcp_msg_set_stream_size` computes in its `uint16 len`. -/
def stream_size_len (msg : arcp_msg_t) : Nat :=
  if msg.header.msg_type = ARCP_MSG_COMMAND then stream_size_cmd msg
  else if msg.header.msg_type = ARCP_MSG_RESPONSE then stream_size_resp msg
  else 0

/-- Returns the message size and stores it in the `msg_length` field of the header. -/
def arcp_msg_set_stream_size (msg : arcp_msg_t) : Nat × arcp_msg_t :=
  let len := stream_size_len msg
  (len, msg.set_header { msg.header with msg_length := len })

/-! ## Stream buffer -/

def arcp_stream_new : arcp_stream_t :=
  { size := 0, data := [], head := 0, end_ := 0, err := 0 }

def arcp_stream_error (stream : arcp_stream_t) : Bool := stream.err ≠ 0

/-- Reads a 32 bit integer at the head; `data` is what `*data` held before the call.
Returns the return value, the stream and what `*data` holds afterwards. -/
def arcp_stream_get_int32 (stream : arcp_stream_t) (data : Int) :
    Int × arcp_stream_t × Int :=
  if stream.err ≠ 0 ∨ (stream.head : Int) + 4 - 1 > stream.end_ then
    (ARCP_ERROR_BADMSG, { stream with err := 1 }, data)
  else
    (0, { stream with head := stream.head + 4 },
      int32_of ((((stream.data.getD stream.head 0 * 256
        + stream.data.getD (stream.head + 1) 0) * 256
        + stream.data.getD (stream.head + 2) 0) * 256
        + stream.data.getD (stream.head + 3) 0 : Nat) : Int))

def arcp_stream_get_int16 (stream : arcp_stream_t) (data : Int) :
    Int × arcp_stream_t × Int :=
  if stream.err ≠ 0 ∨ (stream.head : Int) + 2 - 1 > stream.end_ then
    (ARCP_ERROR_BADMSG, { stream with err := 1 }, data)
  else
    (0, { stream with head := stream.head + 2 },
      int16_of ((stream.data.getD stream.head 0 * 256
        + stream.data.getD (stream.head + 1) 0 : Nat) : Int))

def arcp_stream_get_int8 (stream : arcp_stream_t) (data : Int) :
    Int × arcp_stream_t × Int :=
  if stream.err ≠ 0 ∨ (stream.head : Int) + 1 - 1 > stream.end_ then
    (ARCP_ERROR_BADMSG, { stream with err := 1 }, data)
  else
    (0, { stream with head := stream.head + 1 },
      int8_of ((stream.data.getD stream.head 0 : Nat) : Int))

def arcp_stream_store_int32 (stream : arcp_stream_t) (data : Int) : Int × arcp_stream_t :=
  if stream.err ≠ 0 ∨ (stream.head : Int) + 4 - 1 > stream.end_ then
    (ARCP_ERROR_BADMSG, { stream with err := 1 })
  else
    let v := uint32_of data
    (0, { stream with
          data := (((stream.data.set stream.head (v / 16777216 % 256)).set
            (stream.head + 1) (v / 65536 % 256)).set
            (stream.head + 2) (v / 256 % 256)).set (stream.head + 3) (v % 256),
          head := stream.head + 4 })

def arcp_stream_store_int16 (stream : arcp_stream_t) (data : Int) : Int × arcp_stream_t :=
  if stream.err ≠ 0 ∨ (stream.head : Int) + 2 - 1 > stream.end_ then
    (ARCP_ERROR_BADMSG, { stream with err := 1 })
  else
    let v := uint16_of data
    (0, { stream with
          data := (stream.data.set stream.head (v / 256 % 256)).set (stream.head + 1) (v % 256),
          head := stream.head + 2 })

def arcp_stream_store_int8 (stream : arcp_stream_t) (data : Int) : Int × arcp_stream_t :=
  if stream.err ≠ 0 ∨ (stream.head : Int) + 1 - 1 > stream.end_ then
    (ARCP_ERROR_BADMSG, { stream with err := 1 })
  else
    (0, { stream with data := stream.data.set stream.head (uint8_of data),
                      head := stream.head + 1 })

/-- The macro `arcp_stream_get_uint32`: the destination is a `uint32`. -/
def arcp_stream_get_uint32 (stream : arcp_stream_t) (data : Nat) :
    Int × arcp_stream_t × Nat :=
  let r := arcp_stream_get_int32 stream (int32_of data)
  (r.1, r.2.1, uint32_of r.2.2)

/-- The macro `arcp_stream_get_uint16`: the destination is a `uint16`. -/
def arcp_stream_get_uint16 (stream : arcp_stream_t) (data : Nat) :
    Int × arcp_stream_t × Nat :=
  let r := arcp_stream_get_int16 stream (int16_of data)
  (r.1, r.2.1, uint16_of r.2.2)

/-- The macro `arcp_stream_get_uint8`: the destination is a `uint8`. -/
def arcp_stream_get_uint8 (stream : arcp_stream_t) (data : Nat) :
    Int × arcp_stream_t × Nat :=
  let r := arcp_stream_get_int8 stream (int8_of data)
  (r.1, r.2.1, uint8_of r.2.2)

/-- Reads a float, as its bit pattern.  The local union `d` is not initialised, and is
read only after a successful get has written it: it starts as 0 here. -/
def arcp_stream_get_float (stream : arcp_stream_t) (data : Nat) :
    Int × arcp_stream_t × Nat :=
  let r := arcp_stream_get_uint32 stream 0
  if r.1 ≠ 0 then (r.1, r.2.1, data) else (0, r.2.1, r.2.2)

/-- Stores a float, given as its bit pattern. -/
def arcp_stream_store_float (stream : arcp_stream_t) (data : Nat) : Int × arcp_stream_t :=
  arcp_stream_store_int32 stream data

def arcp_stream_reset (stream : arcp_stream_t) : Int × arcp_stream_t :=
  (0, { stream with head := 0, err := 0 })

/-- Sizes the stream to `newsize` bytes; the new bytes are those of `mem`. -/
def arcp_stream_setsize (mem : Nat → Nat) (stream : arcp_stream_t) (newsize : Nat) :
    Int × arcp_stream_t :=
  if newsize = stream.size then (0, stream)
  else if newsize > ARCP_MSG_MAX_SIZE then (ARCP_ERROR_BADMSG, { stream with data := [] })
  else
    (0, { stream with size := newsize,
                      data := (List.range newsize).map (fun i => mem i % 256),
                      head := 0, end_ := (newsize : Int) - 1 })

/-! ## Encoding

`store_arcp_cmd` and `store_arcp_resp` are given case by case: each case of their `switch`
statements is a definition of its own. -/

/-- The case `ARCP_CMD_SET_PULSE_PARAM` of `store_arcp_cmd`. -/
def store_pulse_param (stream : arcp_stream_t) (msg : arcp_msg_t) : arcp_stream_t :=
  let stream := (arcp_stream_store_int8 stream msg.pulse_map_index).2
  let stream := (arcp_stream_store_int8 stream msg.pulse_param.pulse_shape).2
  let stream := (arcp_stream_store_int16 stream msg.pulse_param.pulse_ampl).2
  let stream := (arcp_stream_store_int16 stream msg.pulse_param.pulse_options).2
  let stream := (arcp_stream_store_int32 stream msg.pulse_param.pulse_width_ns).2
  if msg.pulse_param.code ≠ none ∧ arcp_pulsecode_getlength msg.pulse_param.code ≠ 0 then
    let stream :=
      (arcp_stream_store_int16 stream (arcp_pulsecode_getlength msg.pulse_param.code)).2
    for_loop ((arcp_pulsecode_getlength msg.pulse_param.code - 1) / 8 + 1)
      (fun i stream => (arcp_stream_store_int8 stream
        (((msg.pulse_param.code.map arcp_pulsecode_getdata).getD []).getD i 0)).2) stream
  else
    (arcp_stream_store_int16 stream 0).2

/-- The case `ARCP_CMD_SET_PULSE_SEQ` of `store_arcp_cmd`: returns `err` and the stream. -/
def store_pulse_seq (stream : arcp_stream_t) (msg : arcp_msg_t) : Int × arcp_stream_t :=
  if msg.seq.length > ARCP_MAX_PULSE_SEQ_LENGTH then (ARCP_ERROR_BADMSG, stream)
  else
    let stream := (arcp_stream_store_int16 stream msg.seq.length).2
    (0, for_loop msg.seq.length (fun i stream =>
      let stream := (arcp_stream_store_int8 stream
        (msg.seq.seq.getD i arcp_pulseseq_entry_t.zero).slot).2
      (arcp_stream_store_int8 stream
        (msg.seq.seq.getD i arcp_pulseseq_entry_t.zero).flags).2) stream)

/-- The case `ARCP_CMD_SET_TRIG_PARAM` of `store_arcp_cmd`. -/
def store_trig_param (stream : arcp_stream_t) (msg : arcp_msg_t) : arcp_stream_t :=
  let stream := (arcp_stream_store_int8 stream msg.trig_param.trigger_source).2
  let stream := (arcp_stream_store_int8 stream msg.trig_param.ext_trigger_options).2
  let stream := (arcp_stream_store_int16 stream msg.trig_param.int_trigger_freq).2
  (arcp_stream_store_int16 stream msg.trig_param.pulse_predelay).2

/-- The case `ARCP_CMD_SET_PHASE` of `store_arcp_cmd`: returns `err` and the stream. -/
def store_phase (stream : arcp_stream_t) (msg : arcp_msg_t) : Int × arcp_stream_t :=
  if msg.n_phases > ARCP_BSM_MAX_N_PHASES then (ARCP_ERROR_BADMSG, stream)
  else
    let stream := (arcp_stream_store_int16 stream msg.phase_slot).2
    let stream := (arcp_stream_store_int16 stream msg.n_phases).2
    (0, for_loop msg.n_phases (fun i stream =>
      let stream := (arcp_stream_store_int16 stream
        (msg.phases.getD i arcp_phase_entry_t.zero).channel).2
      (arcp_stream_store_float stream
        (msg.phases.getD i arcp_phase_entry_t.zero).phase).2) stream)

/-- The `switch` of `store_arcp_cmd`: returns `err` and the stream. -/
def store_arcp_cmd_switch (stream : arcp_stream_t) (msg : arcp_msg_t) :
    Int × arcp_stream_t :=
  if msg.id = ARCP_CMD_SET_MODULE_ENABLE then
    (0, (arcp_stream_store_int8 stream msg.enable).2)
  else if msg.id = ARCP_CMD_SET_PULSE_PARAM then (0, store_pulse_param stream msg)
  else if msg.id = ARCP_CMD_SET_PULSE_SEQ then store_pulse_seq stream msg
  else if msg.id = ARCP_CMD_SET_PULSE_SEQ_IDX then
    (0, (arcp_stream_store_int16 stream msg.seq_index).2)
  else if msg.id = ARCP_CMD_SET_TRIG_PARAM then (0, store_trig_param stream msg)
  else if msg.id = ARCP_CMD_SET_USRCTL_ENABLE then
    (0, (arcp_stream_store_int8 stream msg.enable).2)
  else if msg.id = ARCP_CMD_SET_PHASE then store_phase stream msg
  else (0, stream)

def store_arcp_cmd (stream : arcp_stream_t) (msg : arcp_msg_t) : Int × arcp_stream_t :=
  let stream := (arcp_stream_store_int16 stream msg.id).2
  let r := store_arcp_cmd_switch stream msg
  if arcp_stream_error r.2 then (ARCP_ERROR_BADMSG, r.2) else r

/-- Body of the loop of `store_arcp_resp` over the outputs of an RF card (and of a
combiner). -/
def store_output_stat (output : List arcp_rf_card_output_stat_t) (j : Nat)
    (stream : arcp_stream_t) : arcp_stream_t :=
  let stream := (arcp_stream_store_int16 stream
    (output.getD j arcp_rf_card_output_stat_t.zero).forward_power).2
  (arcp_stream_store_int16 stream (output.getD j arcp_rf_card_output_stat_t.zero).return_loss).2

/-- Body of the loop of `store_arcp_resp` over the RF cards. -/
def store_rf_card (rf_card_stat : List arcp_rf_card_stat_t) (i : Nat) (stream : arcp_stream_t) :
    arcp_stream_t :=
  let card := rf_card_stat.getD i arcp_rf_card_stat_t.zero
  let stream := (arcp_stream_store_int16 stream card.rail_supply).2
  let stream := (arcp_stream_store_int16 stream card.heatsink_temp).2
  let stream := (arcp_stream_store_int8 stream card.n_rf_outputs).2
  for_loop card.n_rf_outputs (store_output_stat card.output_stat) stream

/-- Body of the loop of `store_arcp_resp` over the STX2 units. -/
def store_stx2_unit (unit_stat : List arcp_stx2unit_union_t) (i : Nat) (stream : arcp_stream_t) :
    arcp_stream_t :=
  let u := unit_stat.getD i arcp_stx2unit_union_t.zero
  let stream := (arcp_stream_store_int8 stream u.unit_v.flags).2
  let stream := (arcp_stream_store_int8 stream u.unit_v.type).2
  if u.unit_v.type = ARCP_STX2_UNIT_EXT_COMBINER_SPLITTER then
    let stream := (arcp_stream_store_int8 stream u.comb_v.n_temperatures).2
    let stream := for_loop u.comb_v.n_temperatures (fun j stream =>
      (arcp_stream_store_int8 stream (u.comb_v.temperature.getD j 0)).2) stream
    let stream := (arcp_stream_store_int8 stream u.comb_v.n_outputs).2
    for_loop u.comb_v.n_outputs (store_output_stat u.comb_v.output) stream
  else stream

/-- The case `ARCP_RESP_SYSID` of `store_arcp_resp`. -/
def store_sysid (stream : arcp_stream_t) (sysid : arcp_sysid_t) : arcp_stream_t :=
  let stream := (arcp_stream_store_int8 stream sysid.module_type).2
  let stream := (arcp_stream_store_int16 stream sysid.module_version).2
  let stream := (arcp_stream_store_int16 stream sysid.firmware_version).2
  let stream := (arcp_stream_store_int16 stream sysid.ctrl_board_logic_version).2
  if sysid.module_type = ARCP_MODULE_STX2 then
    let stream := (arcp_stream_store_int16 stream sysid.stx2_card_map).2
    (arcp_stream_store_int32 stream sysid.stx2_pulse_slot_length).2
  else if sysid.module_type = ARCP_MODULE_BSM then
    (arcp_stream_store_int16 stream sysid.bsm_channel_map).2
  else stream

/-- The case `ARCP_MODULE_STX2` of the case `ARCP_RESP_SYSSTAT` of `store_arcp_resp`. -/
def store_stx2stat (stream : arcp_stream_t) (stx2 : arcp_stx2stat_t) : arcp_stream_t :=
  let stream := (arcp_stream_store_int16 stream stx2.status_code).2
  let stream := (arcp_stream_store_int8 stream stx2.chassis_datasize).2
  let stream := (arcp_stream_store_int16 stream stx2.rail_supply).2
  let stream := (arcp_stream_store_int16 stream stx2.rail_aux).2
  let stream := (arcp_stream_store_int8 stream stx2.ambient_temp).2
  let stream := (arcp_stream_store_int8 stream stx2.n_chassis_fans).2
  let stream := for_loop stx2.n_chassis_fans (fun i stream =>
    (arcp_stream_store_int16 stream (stx2.fan_speed.getD i 0)).2) stream
  let stream := (arcp_stream_store_int16 stream stx2.card_map).2
  let stream := (arcp_stream_store_int8 stream stx2.n_rf_cards).2
  let stream := for_loop stx2.n_rf_cards (store_rf_card stx2.rf_card_stat) stream
  let stream := (arcp_stream_store_int8 stream stx2.n_units).2
  for_loop stx2.n_units (store_stx2_unit stx2.unit_stat) stream

/-- The case `ARCP_MODULE_BSM` of the case `ARCP_RESP_SYSSTAT` of `store_arcp_resp`. -/
def store_bsmstat (stream : arcp_stream_t) (bsm : arcp_bsmstat_t) : arcp_stream_t :=
  let stream := (arcp_stream_store_int16 stream bsm.status_code).2
  let stream := (arcp_stream_store_int16 stream bsm.rail_supply).2
  let stream := (arcp_stream_store_int16 stream bsm.rail_aux).2
  let stream := (arcp_stream_store_int8 stream bsm.ambient_temp).2
  let stream := (arcp_stream_store_int16 stream bsm.channel_map).2
  let stream := (arcp_stream_store_int8 stream bsm.n_fans).2
  let stream := for_loop bsm.n_fans (fun i stream =>
    (arcp_stream_store_int16 stream (bsm.fan_speed.getD i 0)).2) stream
  let stream := (arcp_stream_store_int8 stream bsm.n_heatsink_temps).2
  for_loop bsm.n_heatsink_temps (fun i stream =>
    (arcp_stream_store_int8 stream (bsm.heatsink_temp.getD i 0)).2) stream

/-- The case `ARCP_RESP_SYSSTAT` of `store_arcp_resp`. -/
def store_sysstat (stream : arcp_stream_t) (sysstat : arcp_sysstat_t) : arcp_stream_t :=
  let stream := (arcp_stream_store_int8 stream sysstat.module_type).2
  let stream := (arcp_stream_store_int8 stream sysstat.module_status).2
  if sysstat.module_type = ARCP_MODULE_STX2 then store_stx2stat stream sysstat.stx2
  else if sysstat.module_type = ARCP_MODULE_BSM then store_bsmstat stream sysstat.bsm
  else stream

def store_arcp_resp (stream : arcp_stream_t) (msg : arcp_msg_t) : Int × arcp_stream_t :=
  let stream := (arcp_stream_store_int16 stream msg.id).2
  let stream := (arcp_stream_store_int16 stream msg.info_code).2
  let stream : arcp_stream_t :=
    if msg.id = ARCP_RESP_SYSID then store_sysid stream msg.sysid
    else if msg.id = ARCP_RESP_SYSSTAT then store_sysstat stream msg.sysstat
    else stream
  if arcp_stream_error stream then (ARCP_ERROR_BADMSG, stream) else (0, stream)

/-- Encodes the message into a new stream.  Returns the return value, `*enc_stream` and
the message (whose `msg_length` the call has set). -/
def arcp_msg_encode (mem : Nat → Nat) (msg : arcp_msg_t) :
    Int × Option arcp_stream_t × arcp_msg_t :=
  let r := arcp_msg_set_stream_size msg
  let msg_size := r.1
  let msg := r.2
  if msg_size = 0 ∨ msg_size > ARCP_MSG_MAX_SIZE then (ARCP_ERROR_BADMSG, none, msg)
  else
    let r := arcp_stream_setsize mem arcp_stream_new msg_size
    if r.1 < 0 then (ARCP_ERROR_LOCAL, none, msg)
    else
      let stream := r.2
      let stream := (arcp_stream_store_int32 stream msg.header.magic_num).2
      let stream := (arcp_stream_store_int16 stream msg.header.msg_length).2
      let stream := (arcp_stream_store_int16 stream msg.header.exchange_id).2
      let stream := (arcp_stream_store_int8 stream msg.header.msg_type).2
      let stream := (arcp_stream_store_int16 stream msg.header.protocol_version).2
      let r : Int × arcp_stream_t :=
        if msg.header.msg_type = ARCP_MSG_COMMAND then store_arcp_cmd stream msg
        else if msg.header.msg_type = ARCP_MSG_RESPONSE then store_arcp_resp stream msg
        else (0, stream)
      if r.1 < 0 then (r.1, none, msg) else (r.1, some r.2, msg)

/-! ## Decoding

`decode_arcp_cmd`, `decode_arcp_resp` and the STX2 case of the latter are given piece by
piece, in the order of the C text: each case of a `switch` statement and each block of the
STX2 case is a definition of its own. -/

/-- What the decoder's uninitialised storage holds: the locals `magic_num`, `msg_length`,
`xchg_id` and `msg_type` of `arcp_stream_decode`, the local `len` of the `SET_PULSE_SEQ`
case of `decode_arcp_cmd`, the local `i` of `decode_arcp_resp`, and the array `malloc`
returns for the phases of a `SET_PHASE` command. -/
structure decode_locals where
  magic_num : Nat
  msg_length : Nat
  xchg_id : Nat
  msg_type : Nat
  len : Nat
  i : Int
  phases : Nat → arcp_phase_entry_t

/-- The end of `decode_arcp_cmd` and `decode_arcp_resp`: a stream error overrides `err`. -/
def decode_finish (err : Int) (stream : arcp_stream_t) (msg : arcp_msg_t) :
    Int × arcp_stream_t × arcp_msg_t :=
  if arcp_stream_error stream then (ARCP_ERROR_BADMSG, stream, msg) else (err, stream, msg)

/-- Body of the loop of `decode_arcp_cmd` that loads the bytes of a pulse code. -/
def decode_pulsecode_byte (i : Nat) (st : arcp_stream_t × arcp_pulsecode_t) :
    arcp_stream_t × arcp_pulsecode_t :=
  let r := arcp_stream_get_uint8 st.1 (st.2.data.getD i 0)
  (r.2.1, { st.2 with data := st.2.data.set i r.2.2 })

/-- Body of the loop of `decode_arcp_cmd` that loads the entries of a pulse sequence. -/
def decode_pulseseq_entry (i : Nat) (st : arcp_stream_t × arcp_pulseseq_t) :
    arcp_stream_t × arcp_pulseseq_t :=
  let e := st.2.seq.getD i arcp_pulseseq_entry_t.zero
  let r1 := arcp_stream_get_uint8 st.1 e.slot
  let r2 := arcp_stream_get_uint8 r1.2.1 e.flags
  (r2.2.1, { st.2 with seq := st.2.seq.set i { slot := r1.2.2, flags := r2.2.2 } })

/-- Body of the loop of `decode_arcp_cmd` that loads the entries of a phase table. -/
def decode_phase_entry (i : Nat) (st : arcp_stream_t × List arcp_phase_entry_t) :
    arcp_stream_t × List arcp_phase_entry_t :=
  let e := st.2.getD i arcp_phase_entry_t.zero
  let r1 := arcp_stream_get_uint16 st.1 e.channel
  let r2 := arcp_stream_get_float r1.2.1 e.phase
  (r2.2.1, st.2.set i { channel := r1.2.2, phase := r2.2.2 })

/-- The case `ARCP_CMD_SET_PULSE_PARAM` of `decode_arcp_cmd`.  The loop counter `i` of the
C function is a `uint8`.  `none`: the fuel ran out. -/
def decode_pulse_param (fuel : Nat) (stream : arcp_stream_t) (msg : arcp_msg_t) :
    Option (Int × arcp_stream_t × arcp_msg_t) :=
  let h := msg.header
  let id := msg.id
  let p := msg.pulse_param
  let r1 := arcp_stream_get_uint8 stream msg.pulse_map_index
  let r2 := arcp_stream_get_int8 r1.2.1 p.pulse_shape
  let r3 := arcp_stream_get_uint16 r2.2.1 p.pulse_ampl
  let r4 := arcp_stream_get_uint16 r3.2.1 p.pulse_options
  let r5 := arcp_stream_get_uint32 r4.2.1 p.pulse_width_ns
  let p : arcp_pulse_t :=
    { p with pulse_shape := r2.2.2, pulse_ampl := r3.2.2, pulse_options := r4.2.2,
             pulse_width_ns := r5.2.2 }
  let r6 := arcp_stream_get_uint16 r5.2.1 0
  let stream := r6.2.1
  let len := r6.2.2
  if len > ARCP_MAX_PULSECODE_SIZE then
    some (decode_finish ARCP_ERROR_BADMSG stream (.cmd_set_pulse_param h id r1.2.2 p))
  else if len ≠ 0 then
    match arcp_pulsecode_new len with
    | none => some (decode_finish ARCP_ERROR_LOCAL stream (.cmd_set_pulse_param h id r1.2.2 p))
    | some code =>
      let rc := arcp_pulsecode_setlength code len
      if rc.1 < 0 then
        some (decode_finish ARCP_ERROR_LOCAL stream
          (.cmd_set_pulse_param h id r1.2.2 { p with code := some rc.2 }))
      else
        (for_loop_uint8 (1 + (len - 1) / 8) decode_pulsecode_byte fuel 0 (stream, rc.2)).map
          (fun st => decode_finish 0 st.1
            (.cmd_set_pulse_param h id r1.2.2 { p with code := some st.2 }))
  else
    some (decode_finish 0 stream (.cmd_set_pulse_param h id r1.2.2 { p with code := none }))

/-- The case `ARCP_CMD_SET_PULSE_SEQ` of `decode_arcp_cmd`.  The loop counter `i` of the C
function is a `uint8`, the length it is compared with a `uint16`.  `none`: the fuel ran
out. -/
def decode_pulse_seq (fuel : Nat) (u : decode_locals) (stream : arcp_stream_t)
    (msg : arcp_msg_t) : Option (Int × arcp_stream_t × arcp_msg_t) :=
  let r := arcp_stream_get_uint16 stream u.len
  let stream := r.2.1
  let len := r.2.2
  if len > ARCP_MAX_PULSE_SEQ_LENGTH then
    some (decode_finish ARCP_ERROR_BADMSG stream msg)
  else
    match arcp_pulseseq_new len with
    | none => some (decode_finish ARCP_ERROR_LOCAL stream msg)
    | some seq =>
      (for_loop_uint8 len decode_pulseseq_entry fuel 0 (stream, seq)).map
        (fun st => decode_finish 0 st.1 (.cmd_set_pulse_seq msg.header msg.id st.2))

/-- The case `ARCP_CMD_SET_PHASE` of `decode_arcp_cmd`.  The loop counter `i` of the C
function is a `uint8`.  `none`: the fuel ran out. -/
def decode_phase (fuel : Nat) (u : decode_locals) (stream : arcp_stream_t)
    (msg : arcp_msg_t) : Option (Int × arcp_stream_t × arcp_msg_t) :=
  let h := msg.header
  let id := msg.id
  let r1 := arcp_stream_get_uint16 stream msg.phase_slot
  let r2 := arcp_stream_get_uint16 r1.2.1 msg.n_phases
  let stream := r2.2.1
  let n_phases := r2.2.2
  if n_phases > ARCP_BSM_MAX_N_PHASES then
    some (ARCP_ERROR_BADMSG, stream, .cmd_set_phase h id r1.2.2 n_phases msg.phases)
  else
    let phases := (List.range n_phases).map u.phases
    (for_loop_uint8 n_phases decode_phase_entry fuel 0 (stream, phases)).map
      (fun st => decode_finish 0 st.1 (.cmd_set_phase h id r1.2.2 n_phases st.2))

/-- The `switch` of `decode_arcp_cmd`, the command id being in `msg`. -/
def decode_arcp_cmd_switch (fuel : Nat) (u : decode_locals) (stream : arcp_stream_t)
    (msg : arcp_msg_t) : Option (Int × arcp_stream_t × arcp_msg_t) :=
  let h := msg.header
  let id := msg.id
  if id = ARCP_CMD_SET_MODULE_ENABLE then
    let r := arcp_stream_get_int8 stream msg.enable
    some (decode_finish 0 r.2.1 (.cmd_enable h id r.2.2))
  else if id = ARCP_CMD_SET_PULSE_PARAM then decode_pulse_param fuel stream msg
  else if id = ARCP_CMD_SET_PULSE_SEQ then decode_pulse_seq fuel u stream msg
  else if id = ARCP_CMD_SET_PULSE_SEQ_IDX then
    let r := arcp_stream_get_uint16 stream msg.seq_index
    some (decode_finish 0 r.2.1 (.cmd_set_pulse_seq_idx h id r.2.2))
  else if id = ARCP_CMD_SET_TRIG_PARAM then
    let t := msg.trig_param
    let r1 := arcp_stream_get_uint8 stream t.trigger_source
    let r2 := arcp_stream_get_uint8 r1.2.1 t.ext_trigger_options
    let r3 := arcp_stream_get_uint16 r2.2.1 t.int_trigger_freq
    let r4 := arcp_stream_get_uint16 r3.2.1 t.pulse_predelay
    some (decode_finish 0 r4.2.1 (.cmd_set_trig_param h id
      { trigger_source := r1.2.2, ext_trigger_options := r2.2.2, int_trigger_freq := r3.2.2,
        pulse_predelay := r4.2.2 }))
  else if id = ARCP_CMD_SET_USRCTL_ENABLE then
    let r := arcp_stream_get_int8 stream msg.enable
    some (decode_finish 0 r.2.1 (.cmd_usrctl_enable h id r.2.2))
  else if id = ARCP_CMD_SET_PHASE then decode_phase fuel u stream msg
  else some (decode_finish 0 stream msg)

/-- Decodes the command details from the stream into `msg`.  `none`: the fuel ran out. -/
def decode_arcp_cmd (fuel : Nat) (u : decode_locals) (stream : arcp_stream_t)
    (msg : arcp_msg_t) : Option (Int × arcp_stream_t × arcp_msg_t) :=
  let r := arcp_stream_get_int16 stream msg.id
  decode_arcp_cmd_switch fuel u r.2.1 (msg.set_id r.2.2)

/-- State of the STX2 part of `decode_arcp_resp`: the stream, the locals `stx2stat`, `err`
and `byte`. -/
structure decode_stx2_state where
  stream : arcp_stream_t
  stx2stat : arcp_stx2stat_t
  err : Int
  byte : Nat

/-- Body of the loop over the outputs of an RF card (and of a combiner). -/
def decode_output_stat (j : Nat) (st : arcp_stream_t × List arcp_rf_card_output_stat_t) :
    arcp_stream_t × List arcp_rf_card_output_stat_t :=
  let o := st.2.getD j arcp_rf_card_output_stat_t.zero
  let r1 := arcp_stream_get_uint16 st.1 o.forward_power
  let r2 := arcp_stream_get_int16 r1.2.1 o.return_loss
  (r2.2.1, st.2.set j { forward_power := r1.2.2, return_loss := r2.2.2 })

/-- Body of the loop of `decode_arcp_resp` over the RF cards. -/
def decode_rf_card (i : Nat) (st : decode_stx2_state) : decode_stx2_state :=
  let card := st.stx2stat.rf_card_stat.getD i arcp_rf_card_stat_t.zero
  let r1 := arcp_stream_get_uint16 st.stream card.rail_supply
  let r2 := arcp_stream_get_int16 r1.2.1 card.heatsink_temp
  let card : arcp_rf_card_stat_t := { card with rail_supply := r1.2.2, heatsink_temp := r2.2.2 }
  let stat : arcp_stx2stat_t :=
    { st.stx2stat with rf_card_stat := st.stx2stat.rf_card_stat.set i card }
  let r3 := arcp_stream_get_uint8 r2.2.1 st.byte
  let stream := r3.2.1
  let byte := r3.2.2
  let rs : Int × arcp_stx2stat_t :=
    if byte > ARCP_MAX_N_RF_CARD_OUTPUT then (ARCP_ERROR_BADMSG, stat)
    else arcp_stx2stat_set_n_rf_outputs stat i byte
  let err := rs.1
  let stat := rs.2
  if err = 0 then
    let card := stat.rf_card_stat.getD i arcp_rf_card_stat_t.zero
    let ro := for_loop card.n_rf_outputs decode_output_stat (stream, card.output_stat)
    let card : arcp_rf_card_stat_t := { card with output_stat := ro.2 }
    { stream := ro.1, stx2stat := { stat with rf_card_stat := stat.rf_card_stat.set i card },
      err := err, byte := byte }
  else { stream := stream, stx2stat := stat, err := err, byte := byte }

/-- Assignment to the member `unit.flags` of the union. -/
def arcp_stx2unit_union_t.set_flags (x : arcp_stx2unit_union_t) (v : Nat) :
    arcp_stx2unit_union_t :=
  match x with
  | .unit u => .unit { u with flags := v }
  | .comb c => .comb { c with flags := v }

/-- Assignment to the member `unit.type` of the union. -/
def arcp_stx2unit_union_t.set_type (x : arcp_stx2unit_union_t) (v : Nat) :
    arcp_stx2unit_union_t :=
  match x with
  | .unit u => .unit { u with type := v }
  | .comb c => .comb { c with unit_type := v }

/-- Body of the loop over the temperatures of a combiner. -/
def decode_temperature (j : Nat) (st : arcp_stream_t × List Int) : arcp_stream_t × List Int :=
  let r := arcp_stream_get_int8 st.1 (st.2.getD j 0)
  (r.2.1, st.2.set j r.2.2)

/-- Body of the loop of `decode_arcp_resp` over the STX2 units; the loop runs while
`err == 0`. -/
def decode_stx2_unit (i : Nat) (st : decode_stx2_state) : decode_stx2_state :=
  if st.err ≠ 0 then st
  else
    let x := st.stx2stat.unit_stat.getD i arcp_stx2unit_union_t.zero
    let r1 := arcp_stream_get_uint8 st.stream x.unit_v.flags
    let x := x.set_flags r1.2.2
    let r2 := arcp_stream_get_uint8 r1.2.1 x.unit_v.type
    let x := x.set_type r2.2.2
    let stream := r2.2.1
    if x.unit_v.type = ARCP_STX2_UNIT_EXT_COMBINER_SPLITTER then
      let r3 := arcp_stream_get_uint8 stream st.byte
      let stream := r3.2.1
      let byte := r3.2.2
      let c := x.comb_v
      let s1 : Int × arcp_stream_t × arcp_extcomb_stat_t :=
        if byte > ARCP_STX2_EXTCOMB_MAX_N_TEMPERATURES then (ARCP_ERROR_BADMSG, stream, c)
        else
          let c : arcp_extcomb_stat_t := { c with n_temperatures := byte }
          let rt := for_loop c.n_temperatures decode_temperature (stream, c.temperature)
          (st.err, rt.1, { c with temperature := rt.2 })
      let err := s1.1
      let stream := s1.2.1
      let c := s1.2.2
      let r4 := if err = 0 then arcp_stream_get_uint8 stream byte else (0, stream, byte)
      let stream := r4.2.1
      let byte := r4.2.2
      let err := if err = 0 ∧ byte > ARCP_STX2_EXTCOMB_MAX_N_OUTPUTS then ARCP_ERROR_BADMSG
                 else err
      let s2 : arcp_stream_t × arcp_extcomb_stat_t :=
        if err = 0 then
          let c : arcp_extcomb_stat_t := { c with n_outputs := byte }
          let ro := for_loop c.n_outputs decode_output_stat (stream, c.output)
          (ro.1, { c with output := ro.2 })
        else (stream, c)
      { stream := s2.1,
        stx2stat := { st.stx2stat with unit_stat := st.stx2stat.unit_stat.set i (.comb s2.2) },
        err := err, byte := byte }
    else
      { st with stream := stream,
                stx2stat := { st.stx2stat with unit_stat := st.stx2stat.unit_stat.set i x } }

/-- The `ARCP_MODULE_STX2` case of `decode_arcp_resp`, first block: the chassis fields up
to the number of fans. -/
def decode_stx2_chassis (stream : arcp_stream_t) : decode_stx2_state :=
  let stat := arcp_stx2stat_new
  let r1 := arcp_stream_get_uint16 stream stat.status_code
  let r2 := arcp_stream_get_uint8 r1.2.1 stat.chassis_datasize
  let r3 := arcp_stream_get_uint16 r2.2.1 stat.rail_supply
  let r4 := arcp_stream_get_uint16 r3.2.1 stat.rail_aux
  let r5 := arcp_stream_get_int8 r4.2.1 stat.ambient_temp
  let stat : arcp_stx2stat_t :=
    { stat with status_code := r1.2.2, chassis_datasize := r2.2.2, rail_supply := r3.2.2,
                rail_aux := r4.2.2, ambient_temp := r5.2.2 }
  let r6 := arcp_stream_get_uint8 r5.2.1 0
  let byte := r6.2.2
  let rs : Int × arcp_stx2stat_t :=
    if byte > ARCP_MAX_N_CHASSIS_FANS then (ARCP_ERROR_BADMSG, stat)
    else arcp_stx2stat_set_n_chassis_fans stat byte
  { stream := r6.2.1, stx2stat := rs.2, err := rs.1, byte := byte }

/-- Second block: under `if (err == 0)`, the fan speeds, the card map and the number of RF
cards. -/
def decode_stx2_fans (st : decode_stx2_state) : decode_stx2_state :=
  if st.err = 0 then
    let rf := for_loop st.stx2stat.n_chassis_fans (fun i (x : arcp_stream_t × List Nat) =>
      let r := arcp_stream_get_uint16 x.1 (x.2.getD i 0)
      (r.2.1, x.2.set i r.2.2)) (st.stream, st.stx2stat.fan_speed)
    let r7 := arcp_stream_get_uint16 rf.1 st.stx2stat.card_map
    let stat : arcp_stx2stat_t := { st.stx2stat with fan_speed := rf.2, card_map := r7.2.2 }
    let r8 := arcp_stream_get_uint8 r7.2.1 st.byte
    let byte := r8.2.2
    let rs : Int × arcp_stx2stat_t :=
      if byte > ARCP_MAX_N_RF_CARDS then (ARCP_ERROR_BADMSG, stat)
      else arcp_stx2stat_set_n_rf_cards stat byte
    { stream := r8.2.1, stx2stat := rs.2, err := rs.1, byte := byte }
  else st

/-- Third block: under `if (err == 0)`, the loop over the RF cards. -/
def decode_stx2_cards (st : decode_stx2_state) : decode_stx2_state :=
  if st.err = 0 then for_loop st.stx2stat.n_rf_cards decode_rf_card st else st

/-- Fourth block: the number of units. -/
def decode_stx2_n_units (st : decode_stx2_state) : decode_stx2_state :=
  let st : decode_stx2_state := { st with byte := 0 }
  let st : decode_stx2_state :=
    if st.err = 0 then
      let r := arcp_stream_get_uint8 st.stream st.byte
      { st with stream := r.2.1, byte := r.2.2 }
    else st
  if st.byte > ARCP_STX2_MAX_N_STX2_UNITS then { st with err := ARCP_ERROR_BADMSG }
  else
    let rs := arcp_stx2stat_set_n_units st.stx2stat st.byte
    if rs.1 ≠ 0 then { st with stx2stat := rs.2, err := ARCP_ERROR_LOCAL }
    else { st with stx2stat := rs.2 }

/-- The `ARCP_MODULE_STX2` case of `decode_arcp_resp`, up to the point where `stx2stat` is
attached or freed: the four blocks above, then the loop over the units. -/
def decode_stx2stat (stream : arcp_stream_t) : decode_stx2_state :=
  let st := decode_stx2_chassis stream
  let st := decode_stx2_fans st
  let st := decode_stx2_cards st
  let st := decode_stx2_n_units st
  for_loop st.stx2stat.n_units decode_stx2_unit st

/-- The `ARCP_MODULE_BSM` case of `decode_arcp_resp`, up to the point where `bsmstat` is
attached or freed.  Returns the stream, `bsmstat` and `err`. -/
def decode_bsmstat (stream : arcp_stream_t) : arcp_stream_t × arcp_bsmstat_t × Int :=
  let stat := arcp_bsmstat_new
  let r1 := arcp_stream_get_uint16 stream stat.status_code
  let r2 := arcp_stream_get_uint16 r1.2.1 stat.rail_supply
  let r3 := arcp_stream_get_uint16 r2.2.1 stat.rail_aux
  let r4 := arcp_stream_get_int8 r3.2.1 stat.ambient_temp
  let r5 := arcp_stream_get_uint16 r4.2.1 stat.channel_map
  let stat : arcp_bsmstat_t :=
    { stat with status_code := r1.2.2, rail_supply := r2.2.2, rail_aux := r3.2.2,
                ambient_temp := r4.2.2, channel_map := r5.2.2 }
  let r6 := arcp_stream_get_uint8 r5.2.1 0
  let stream := r6.2.1
  let byte := r6.2.2
  let rs : Int × arcp_bsmstat_t :=
    if byte > ARCP_MAX_N_CHASSIS_FANS then (ARCP_ERROR_BADMSG, stat)
    else arcp_bsmstat_set_n_fans stat byte
  let err := rs.1
  let stat := rs.2
  if err = 0 then
    let rf := for_loop stat.n_fans (fun i (x : arcp_stream_t × List Nat) =>
      let r := arcp_stream_get_uint16 x.1 (x.2.getD i 0)
      (r.2.1, x.2.set i r.2.2)) (stream, stat.fan_speed)
    let stat : arcp_bsmstat_t := { stat with fan_speed := rf.2 }
    let r7 := arcp_stream_get_uint8 rf.1 byte
    let stream := r7.2.1
    let byte := r7.2.2
    let rs : Int × arcp_bsmstat_t :=
      if byte > ARCP_BSM_MAX_N_TEMPERATURES then (ARCP_ERROR_BADMSG, stat)
      else (err, { stat with n_heatsink_temps := byte })
    let err := rs.1
    let stat := rs.2
    if err = 0 then
      let rt := for_loop stat.n_heatsink_temps decode_temperature (stream, stat.heatsink_temp)
      (rt.1, { stat with heatsink_temp := rt.2 }, err)
    else (stream, stat, err)
  else (stream, stat, err)

/-- The case `ARCP_RESP_SYSID` of `decode_arcp_resp`. -/
def decode_sysid (stream : arcp_stream_t) (h : arcp_msg_header_t) (id info_code : Int) :
    Int × arcp_stream_t × arcp_msg_t :=
  let sysid := arcp_sysid_new
  let r1 := arcp_stream_get_int8 stream sysid.module_type
  let r2 := arcp_stream_get_uint16 r1.2.1 sysid.module_version
  let r3 := arcp_stream_get_uint16 r2.2.1 sysid.firmware_version
  let r4 := arcp_stream_get_uint16 r3.2.1 sysid.ctrl_board_logic_version
  let sysid : arcp_sysid_t :=
    { sysid with module_type := r1.2.2, module_version := r2.2.2,
                 firmware_version := r3.2.2, ctrl_board_logic_version := r4.2.2 }
  let stream := r4.2.1
  if sysid.module_type = ARCP_MODULE_STX2 then
    let r5 := arcp_stream_get_uint16 stream sysid.stx2_card_map
    let r6 := arcp_stream_get_uint32 r5.2.1 sysid.stx2_pulse_slot_length
    decode_finish 0 r6.2.1 (.resp_sysid h id info_code
      { sysid with data := .stx2 r5.2.2 r6.2.2 })
  else if sysid.module_type = ARCP_MODULE_BSM then
    let r5 := arcp_stream_get_uint16 stream sysid.bsm_channel_map
    decode_finish 0 r5.2.1 (.resp_sysid h id info_code { sysid with data := .bsm r5.2.2 })
  else decode_finish 0 stream (.resp_sysid h id info_code sysid)

/-- The case `ARCP_RESP_SYSSTAT` of `decode_arcp_resp`. -/
def decode_sysstat (stream : arcp_stream_t) (h : arcp_msg_header_t) (id info_code : Int) :
    Int × arcp_stream_t × arcp_msg_t :=
  let sysstat := arcp_sysstat_new
  let r1 := arcp_stream_get_int8 stream sysstat.module_type
  let r2 := arcp_stream_get_int8 r1.2.1 sysstat.module_status
  let sysstat : arcp_sysstat_t :=
    { sysstat with module_type := r1.2.2, module_status := r2.2.2 }
  let stream := r2.2.1
  if sysstat.module_type = ARCP_MODULE_STX2 then
    let st := decode_stx2stat stream
    if st.err = 0 then
      decode_finish st.err st.stream (.resp_sysstat h id info_code
        { sysstat with data := .stx2 st.stx2stat })
    else decode_finish st.err st.stream (.resp_sysstat h id info_code sysstat)
  else if sysstat.module_type = ARCP_MODULE_BSM then
    let rb := decode_bsmstat stream
    if rb.2.2 = 0 then
      decode_finish rb.2.2 rb.1 (.resp_sysstat h id info_code
        { sysstat with data := .bsm rb.2.1 })
    else decode_finish rb.2.2 rb.1 (.resp_sysstat h id info_code sysstat)
  else decode_finish 0 stream (.resp_sysstat h id info_code sysstat)

/-- Decodes the response details from the stream into `msg`. -/
def decode_arcp_resp (u : decode_locals) (stream : arcp_stream_t) (msg : arcp_msg_t) :
    Int × arcp_stream_t × arcp_msg_t :=
  let r := arcp_stream_get_int16 stream u.i
  let stream := r.2.1
  let rs := arcp_msg_set_resp_id msg r.2.2
  if rs.1 < 0 then (ARCP_ERROR_LOCAL, stream, rs.2)
  else
    let msg := rs.2
    let r := arcp_stream_get_int16 stream msg.info_code
    let stream := r.2.1
    let h := msg.header
    let id := msg.id
    let info_code := r.2.2
    if id = ARCP_RESP_SYSID then decode_sysid stream h id info_code
    else if id = ARCP_RESP_SYSSTAT then decode_sysstat stream h id info_code
    else decode_finish 0 stream (.response h id info_code)

/-- The end of `arcp_stream_decode`: on an error of `decode_arcp_cmd` or `decode_arcp_resp`
the message is freed and `*dec_msg` is `NULL`. -/
def decode_result (r : Int × arcp_stream_t × arcp_msg_t) :
    Int × arcp_stream_t × Option arcp_msg_t :=
  if r.1 < 0 then (r.1, r.2.1, none) else (r.1, r.2.1, some r.2.2)

/-- Decodes the stream into a new message.  Returns the return value, the stream and
`*dec_msg`; `none`: the fuel ran out. -/
def arcp_stream_decode (fuel : Nat) (u : decode_locals) (stream : arcp_stream_t) :
    Option (Int × arcp_stream_t × Option arcp_msg_t) :=
  if stream.size < 11 ∨ stream.size > ARCP_MSG_MAX_SIZE then
    some (ARCP_ERROR_BADMSG, stream, none)
  else
    let r1 := arcp_stream_get_uint32 stream u.magic_num
    let r2 := arcp_stream_get_uint16 r1.2.1 u.msg_length
    let r3 := arcp_stream_get_uint16 r2.2.1 u.xchg_id
    let r4 := arcp_stream_get_uint8 r3.2.1 u.msg_type
    match arcp_msg_new r4.2.2 with
    | none => some (ARCP_ERROR_LOCAL, r4.2.1, none)
    | some msg =>
      let msg := msg.set_header
        { msg.header with magic_num := r1.2.2, msg_length := r2.2.2, exchange_id := r3.2.2 }
      let r5 := arcp_stream_get_uint16 r4.2.1 msg.header.protocol_version
      let msg := msg.set_header { msg.header with protocol_version := r5.2.2 }
      let stream := r5.2.1
      let res : Option (Int × arcp_stream_t × arcp_msg_t) :=
        if msg.header.msg_type = ARCP_MSG_COMMAND then decode_arcp_cmd fuel u stream msg
        else if msg.header.msg_type = ARCP_MSG_RESPONSE then
          some (decode_arcp_resp u stream msg)
        else some (0, stream, msg)
      res.map decode_result

/-! ## Transport framer -/

/-- The values of `errno` the library tells apart. -/
inductive errno_t where
  | EWOULDBLOCK
  | EINTR
  | other
deriving DecidableEq

/-- What one call of `recv` finds: bytes that have arrived (it takes as many as it was
asked for, the rest stay for the next call; none at all is the return value 0), the
connection closed by the peer, or a failure with its `errno`. -/
inductive recv_event where
  | data (bytes : List Nat)
  | closed
  | error (errno : errno_t)
deriving DecidableEq

/-- What one call of `send` does with the bytes it is offered: it takes up to `n` of them
(none at all is the return value 0), or fails with an `errno`. -/
inductive send_event where
  | accept (n : Nat)
  | error (errno : errno_t)
deriving DecidableEq

/-- The connected socket, seen from the library: `rx` is what the successive calls of
`recv` will find.  When `rx` is used up the peer has closed the connection.  `tx` is what
the successive calls of `send` will do; when `tx` is used up `send` takes all the bytes it
is offered.  `sent` holds the bytes `send` has taken so far, in order. -/
structure arcp_socket_t where
  rx : List recv_event
  tx : List send_event := []
  sent : List Nat := []
deriving DecidableEq

/-- The macro `arcp_socket_read`, that is `recv(fd, buf, len, flags)`: returns the return
value, the bytes put into `buf` (each an octet), `errno` and the socket. -/
def arcp_socket_read (fd : arcp_socket_t) (len : Nat) :
    Int × List Nat × errno_t × arcp_socket_t :=
  match fd.rx with
  | [] => (0, [], errno_t.other, fd)
  | .closed :: _ => (0, [], errno_t.other, fd)
  | .error e :: rest => (-1, [], e, { fd with rx := rest })
  | .data bytes :: rest =>
    if bytes.length ≤ len then
      (bytes.length, bytes.map (fun b => b % 256), errno_t.other, { fd with rx := rest })
    else
      (len, (bytes.take len).map (fun b => b % 256), errno_t.other,
        { fd with rx := .data (bytes.drop len) :: rest })

/-- The macro `arcp_socket_write`, that is `send(fd, buf, len, flags)`: returns the return
value, `errno` and the socket. -/
def arcp_socket_write (fd : arcp_socket_t) (buf : List Nat) (len : Nat) :
    Int × errno_t × arcp_socket_t :=
  match fd.tx with
  | [] => ((len : Int), errno_t.other, { fd with sent := fd.sent ++ buf.take len })
  | .error e :: rest => (-1, e, { fd with tx := rest })
  | .accept n :: rest =>
    (((min n len : Nat) : Int), errno_t.other,
      { fd with tx := rest, sent := fd.sent ++ buf.take (min n len) })

/-- Reads `len` bytes into `buf`; `count` is the length of the second argument, the bytes
read so far.  Returns the return value, the bytes read and the socket; `none`: the fuel ran
out. -/
def read_from_socket : Nat → arcp_socket_t → List Nat → Nat →
    Option (Int × List Nat × arcp_socket_t)
  | 0, _, _, _ => none
  | fuel + 1, fd, buf, len =>
    if buf.length < len then
      let r := arcp_socket_read fd (len - buf.length)
      let i := r.1
      let fd := r.2.2.2
      if i < 0 ∧ r.2.2.1 = errno_t.EWOULDBLOCK then some (ARCP_ERROR_CONN_TIMEOUT, buf, fd)
      else if i = 0 ∨ (i < 0 ∧ r.2.2.1 ≠ errno_t.EINTR) then
        some (ARCP_ERROR_CONN_DROPPED, buf, fd)
      else read_from_socket fuel fd (if i > 0 then buf ++ r.2.1 else buf) len
    else some ((buf.length : Int), buf, fd)

/-- State of the first loop of `arcp_socket_process`. -/
structure sync_state where
  magic_num : Nat
  msg_size : Nat
  byte : Nat
  fd : arcp_socket_t
deriving DecidableEq

/-- The condition of the first loop of `arcp_socket_process` without its conjunct
`msg_size<4`; it is also the condition of the `if` that follows the loop. -/
def sync_pending (flags : Nat) (st : sync_state) : Bool :=
  (flags &&& MSG_ARCP = 0 ∨ st.magic_num ≠ ARCP_MAGIC_NUMBER) ∧
  (flags &&& MSG_ASCII = 0 ∨ st.byte ≠ 10)

/-- The first loop of `arcp_socket_process`, which locates the start of a message.
Returns the value returned from inside the loop (0 when the loop ends) and the state;
`none`: the fuel ran out. -/
def sync_loop (flags : Nat) : Nat → sync_state → Option (Int × sync_state)
  | 0, _ => none
  | fuel + 1, st =>
    if sync_pending flags st ∧ st.msg_size < 4 then
      match read_from_socket (fuel + 1) st.fd [] 1 with
      | none => none
      | some r =>
        if r.1 < 0 then some (r.1, { st with fd := r.2.2 })
        else
          let byte := r.2.1.getD 0 st.byte
          sync_loop flags fuel
            { magic_num := ((st.magic_num <<< 8) % 4294967296) ||| byte,
              msg_size := if st.msg_size < 4 then st.msg_size + 1 else st.msg_size,
              byte := byte, fd := r.2.2 }
    else some (0, st)

/-- Reads an ARCP stream or an ASCII message from the socket.  `want_stream` and
`want_ascii` say whether `stream` and `ascii_msg` are not NULL.  Returns the return value,
`*stream`, `*ascii_msg` and the socket; `none`: the fuel ran out. -/
def arcp_socket_process (fuel : Nat) (mem : Nat → Nat) (fd : arcp_socket_t)
    (want_stream want_ascii : Bool) :
    Option (Int × Option arcp_stream_t × Option (List Nat) × arcp_socket_t) :=
  if ¬ want_stream ∧ ¬ want_ascii then some (ARCP_ERROR_INTERNAL, none, none, fd)
  else
    let flags : Nat := 0
    let flags := if want_stream then flags ||| MSG_ARCP else flags
    let flags := if want_ascii then flags ||| MSG_ASCII else flags
    match sync_loop flags fuel { magic_num := 0, msg_size := 0, byte := 0, fd := fd } with
    | none => none
    | some (i, st) =>
      if i < 0 then some (i, none, none, st.fd)
      else if sync_pending flags st then some (ARCP_ERROR_BADMSG, none, none, st.fd)
      else if flags &&& MSG_ASCII ≠ 0 ∧ st.byte = 10 then
        let msg_size := uint16_of ((st.msg_size : Int) - 1)
        let magic_num := st.magic_num >>> 8
        let cr : Bool := magic_num &&& 0xff = 13
        let msg_size := if cr then uint16_of ((msg_size : Int) - 1) else msg_size
        let magic_num := if cr then magic_num >>> 8 else magic_num
        let ascii_msg := (List.range msg_size).map
          (fun i => (magic_num >>> ((msg_size - 1 - i) * 8)) &&& 0xff)
        some (0, none, some (ascii_msg ++ [0]), st.fd)
      else
        match read_from_socket fuel st.fd [] 2 with
        | none => none
        | some r =>
          if r.1 < 0 then some (r.1, none, none, r.2.2)
          else
            let msg_size := r.2.1.getD 0 0 * 256 + r.2.1.getD 1 0
            let fd := r.2.2
            if msg_size ≤ 11 ∨ msg_size > ARCP_MSG_MAX_SIZE then
              some (ARCP_ERROR_BADMSG, none, none, fd)
            else
              let rs := arcp_stream_setsize mem arcp_stream_new msg_size
              if rs.1 < 0 then some (ARCP_ERROR_LOCAL, none, none, fd)
              else
                let local_stream := (arcp_stream_store_int32 rs.2 st.magic_num).2
                let local_stream := (arcp_stream_store_int16 local_stream msg_size).2
                let len := 6
                match read_from_socket fuel fd [] (msg_size - len) with
                | none => none
                | some rb =>
                  let i := rb.1
                  if i < 0 ∨ (len : Int) + i ≠ msg_size then
                    some (ARCP_ERROR_BADMSG, none, none, rb.2.2)
                  else
                    let local_stream : arcp_stream_t :=
                      { local_stream with
                        data := local_stream.data.take len ++ rb.2.1
                          ++ local_stream.data.drop (len + rb.2.1.length),
                        head := local_stream.head + i.toNat }
                    some (0, some (arcp_stream_reset local_stream).2, none, rb.2.2)

/-! ## Exchange engine -/

structure arcp_handle_t where
  fd : arcp_socket_t
  connection_arcp_version : Nat
deriving DecidableEq

def arcp_handle_new (fd : arcp_socket_t) : arcp_handle_t :=
  { fd := fd,
    connection_arcp_version := ARCP_VERSION_WORD ARCP_VERSION_MAJOR ARCP_VERSION_MINOR }

def arcp_handle_get_socket (handle : Option arcp_handle_t) : Option arcp_socket_t :=
  handle.map (fun h => h.fd)

def arcp_handle_get_connection_arcp_version (handle : Option arcp_handle_t) : Nat :=
  match handle with
  | some h => h.connection_arcp_version
  | none => 0

/-- Reads an ARCP stream from the connection.  Returns the return value, `*stream` and the
handle. -/
def arcp_stream_read (fuel : Nat) (mem : Nat → Nat) (handle : arcp_handle_t) :
    Option (Int × Option arcp_stream_t × arcp_handle_t) :=
  (arcp_socket_process fuel mem handle.fd true false).map
    (fun r => (r.1, r.2.1, { handle with fd := r.2.2.2 }))

/-- Reads either an ARCP message or an ASCII message.  `want_msg` and `want_ascii` say
whether `msg_read` and `ascii_read` are not NULL.  Returns the return value, `*msg_read`,
`*ascii_read` and the handle. -/
def arcp_ascii_or_arcp_read (fuel : Nat) (u : decode_locals) (mem : Nat → Nat)
    (handle : arcp_handle_t) (want_msg want_ascii : Bool) :
    Option (Int × Option arcp_msg_t × Option (List Nat) × arcp_handle_t) :=
  match arcp_socket_process fuel mem handle.fd want_msg want_ascii with
  | none => none
  | some (res, stream, ascii_read, fd) =>
    let handle : arcp_handle_t := { handle with fd := fd }
    if res ≠ 0 then some (res, none, ascii_read, handle)
    else if want_ascii ∧ ascii_read ≠ none then some (0, none, ascii_read, handle)
    else
      match stream with
      | none => some (ARCP_ERROR_INTERNAL, none, ascii_read, handle)
      | some stream =>
        match arcp_stream_decode fuel u stream with
        | none => none
        | some (res, _, msg) =>
          some (res, (if res = 0 then msg else none), ascii_read, handle)

def arcp_ascii_read (fuel : Nat) (mem : Nat → Nat) (handle : arcp_handle_t) :
    Option (Int × Option (List Nat) × arcp_handle_t) :=
  (arcp_socket_process fuel mem handle.fd false true).map
    (fun r => (r.1, r.2.2.1, { handle with fd := r.2.2.2 }))

/-- Reads a decoded ARCP message from the handle.  Returns the return value, `*msg_read`
and the handle. -/
def arcp_msg_read (fuel : Nat) (u : decode_locals) (mem : Nat → Nat) (handle : arcp_handle_t) :
    Option (Int × Option arcp_msg_t × arcp_handle_t) :=
  match arcp_ascii_or_arcp_read fuel u mem handle true false with
  | none => none
  | some (result, msg_read, _, handle) =>
    if result = 0 then
      match msg_read with
      | some msg =>
        if msg.header.protocol_version < handle.connection_arcp_version then
          some (result, msg_read,
            { handle with connection_arcp_version := msg.header.protocol_version })
        else some (result, msg_read, handle)
      | none => some (result, msg_read, handle)
    else some (result, msg_read, handle)

/-- Checks the response `resp` against the command `cmd`. -/
def arcp_check_resp_msg (cmd : arcp_msg_t) (resp : Option arcp_msg_t) : Int :=
  match resp with
  | none => ARCP_ERROR_LOCAL
  | some resp =>
    if resp.header.magic_num ≠ ARCP_MAGIC_NUMBER then ARCP_ERROR_BADMSG
    else if resp.header.msg_type ≠ ARCP_MSG_RESPONSE then ARCP_ERROR_NOT_RESP
    else if resp.header.exchange_id ≠ cmd.header.exchange_id then ARCP_ERROR_SEQUENCE
    else if cmd.header.protocol_version < resp.header.protocol_version then
      ARCP_ERROR_BAD_PROTO_VER
    else 0


/-- Member `resp_sysid.sysid` as a pointer; `none` is NULL. -/
def arcp_msg_t.sysid_ptr : arcp_msg_t → Option arcp_sysid_t
  | .resp_sysid _ _ _ s => some s
  | _ => none

/-- Member `resp_sysstat.sysstat` as a pointer; `none` is NULL. -/
def arcp_msg_t.sysstat_ptr : arcp_msg_t → Option arcp_sysstat_t
  | .resp_sysstat _ _ _ s => some s
  | _ => none

/-- The loop of `arcp_stream_write` and the test that follows it: `data` and `len` are the
bytes and the size of the stream, `send_cx` and `n_sent` the locals of that name.  Returns
the return value and the socket; `none`: the fuel ran out. -/
def stream_write_loop (data : List Nat) (len : Nat) :
    Nat → arcp_socket_t → Nat → Int → Option (Int × arcp_socket_t)
  | 0, _, _, _ => none
  | fuel + 1, fd, send_cx, n_sent =>
    if send_cx < len ∧ n_sent ≥ 0 then
      let r := arcp_socket_write fd (data.drop send_cx) (len - send_cx)
      let n_sent := r.1
      let fd := r.2.2
      let send_cx := if n_sent > 0 then send_cx + n_sent.toNat else send_cx
      if n_sent < 0 ∧ r.2.1 = errno_t.EWOULDBLOCK then some (ARCP_ERROR_CONN_TIMEOUT, fd)
      else if n_sent = 0 then some (ARCP_ERROR_CONN_DROPPED, fd)
      else
        stream_write_loop data len fuel fd send_cx
          (if n_sent < 0 ∧ r.2.1 = errno_t.EINTR then 0 else n_sent)
    else if send_cx < len then some (ARCP_ERROR_CONN_DROPPED, fd)
    else some (0, fd)

/-- Sends the contents of the stream to the connection.  Returns the return value and the
handle. -/
def arcp_stream_write (fuel : Nat) (handle : arcp_handle_t) (stream : arcp_stream_t) :
    Option (Int × arcp_handle_t) :=
  (stream_write_loop stream.data stream.size fuel handle.fd 0 0).map
    (fun r => (r.1, { handle with fd := r.2 }))

/-- Sends the message to the handle.  Returns the return value, the message (whose
`protocol_version` and `msg_length` the call has set) and the handle.  `arcp_msg_encode`
sets `*enc_stream` whenever it returns 0. -/
def arcp_msg_write (fuel : Nat) (mem : Nat → Nat) (handle : arcp_handle_t) (msg : arcp_msg_t) :
    Option (Int × arcp_msg_t × arcp_handle_t) :=
  let msg := msg.set_header
    { msg.header with protocol_version := handle.connection_arcp_version }
  let r := arcp_msg_encode mem msg
  if r.1 ≠ 0 then some (r.1, r.2.2, handle)
  else
    (arcp_stream_write fuel handle (r.2.1.getD arcp_stream_new)).map
      (fun w => (w.1, r.2.2, w.2))

/-- The first part of `arcp_exec_cmd`: the command to send, or the value returned when
there is none.  `cmd_msg` is `none` for NULL. -/
def exec_cmd_prepare (cmd_id : Int) (cmd_msg : Option arcp_msg_t) : Except Int arcp_msg_t :=
  match cmd_msg with
  | none =>
    if cmd_id ≠ ARCP_CMD_RESET ∧ cmd_id ≠ ARCP_CMD_PING ∧ cmd_id ≠ ARCP_CMD_GET_SYSID ∧
        cmd_id ≠ ARCP_CMD_GET_SYSSTAT then .error ARCP_ERROR_INTERNAL
    else
      match arcp_msg_new ARCP_MSG_COMMAND with
      | none => .error ARCP_ERROR_LOCAL
      | some cmd_to_send => .ok (cmd_to_send.set_id cmd_id)
  | some cmd_msg =>
    if cmd_msg.header.msg_type ≠ ARCP_MSG_COMMAND ∨ cmd_msg.id ≠ cmd_id then
      .error ARCP_ERROR_INTERNAL
    else .ok cmd_msg

/-- Internal function: sends a command to the slave attached to the handle and reads the
response.  `cmd_msg` is `none` for NULL; `resp_ret` is `none` for NULL and otherwise holds
`*resp_ret`; `exchange_id` is the static counter of that name, an `unsigned short`.  The
local `resp_id` is an `int8`.  Returns the return value, `*cmd_msg`, `*resp_ret`, the handle
and the counter; `none`: the fuel ran out. -/
def arcp_exec_cmd (fuel : Nat) (u : decode_locals) (mem : Nat → Nat) (handle : arcp_handle_t)
    (cmd_id : Int) (cmd_msg : Option arcp_msg_t) (resp_ret : Option (Option arcp_msg_t))
    (exchange_id : Nat) :
    Option (Int × Option arcp_msg_t × Option (Option arcp_msg_t) × arcp_handle_t × Nat) :=
  match exec_cmd_prepare cmd_id cmd_msg with
  | .error e => some (e, cmd_msg, resp_ret, handle, exchange_id)
  | .ok cmd_to_send =>
    let cmd_to_send := cmd_to_send.set_header
      { cmd_to_send.header with exchange_id := exchange_id % 65536 }
    let exchange_id := (exchange_id + 1) % 65536
    match arcp_msg_write fuel mem handle cmd_to_send with
    | none => none
    | some (err, cmd_to_send, handle) =>
      let rd : Option (Int × Option arcp_msg_t × arcp_handle_t) :=
        if err = 0 then arcp_msg_read fuel u mem handle else some (err, none, handle)
      match rd with
      | none => none
      | some (err, resp, handle) =>
        let err := if err = 0 then arcp_check_resp_msg cmd_to_send resp else err
        let resp_id : Int :=
          if err = 0 then int8_of ((resp.map arcp_msg_t.id).getD 0) else 0
        some (if err ≠ 0 then err else resp_id, cmd_msg.map (fun _ => cmd_to_send),
          resp_ret.map (fun _ => resp), handle, exchange_id)

/-- Internal function: sends a response to the command `orig_cmd`.  `orig_cmd` and
`resp_msg` are `none` for NULL.  Returns the return value, `*resp_msg` and the handle;
`none`: the fuel ran out. -/
def arcp_exec_resp (fuel : Nat) (mem : Nat → Nat) (handle : arcp_handle_t)
    (orig_cmd : Option arcp_msg_t) (resp_id : Int) (resp_msg : Option arcp_msg_t)
    (info_code : Int) : Option (Int × Option arcp_msg_t × arcp_handle_t) :=
  match orig_cmd with
  | none => some (ARCP_ERROR_INTERNAL, resp_msg, handle)
  | some orig_cmd =>
    if orig_cmd.header.msg_type ≠ ARCP_MSG_COMMAND then
      some (ARCP_ERROR_INTERNAL, resp_msg, handle)
    else
      let prepared : Except Int arcp_msg_t :=
        match resp_msg with
        | none =>
          if resp_id ≠ ARCP_RESP_UNK ∧ resp_id ≠ ARCP_RESP_NAK ∧ resp_id ≠ ARCP_RESP_ACK then
            .error ARCP_ERROR_INTERNAL
          else
            match arcp_msg_new ARCP_MSG_RESPONSE with
            | none => .error ARCP_ERROR_INTERNAL
            | some m => .ok (.response m.header resp_id info_code)
        | some m =>
          if m.header.msg_type ≠ ARCP_MSG_RESPONSE ∨
              m.header.exchange_id ≠ orig_cmd.header.exchange_id ∨ m.id ≠ resp_id then
            .error ARCP_ERROR_INTERNAL
          else .ok m
      match prepared with
      | .error e => some (e, resp_msg, handle)
      | .ok resp_to_send =>
        let resp_to_send := resp_to_send.set_header
          { resp_to_send.header with exchange_id := orig_cmd.header.exchange_id }
        let handle : arcp_handle_t :=
          if orig_cmd.header.protocol_version < handle.connection_arcp_version then
            { handle with connection_arcp_version := orig_cmd.header.protocol_version }
          else handle
        (arcp_msg_write fuel mem handle resp_to_send).map
          (fun w => (w.1, resp_msg.map (fun _ => w.2.1), w.2.2))


/-- Internal function: sends one of the `GET_SYS*` commands.  `resp_ret` is `none` for NULL
and otherwise holds `*resp_ret`; `resp` is what the local of that name, which is not
initialised, holds.  Returns the return value, `*resp_ret`, the handle and the counter
`exchange_id`. -/
def arcp_do_get_sys_info (fuel : Nat) (u : decode_locals) (mem : Nat → Nat)
    (handle : arcp_handle_t) (cmd_id expected_resp_id : Int)
    (resp_ret : Option (Option arcp_msg_t)) (resp : Option arcp_msg_t) (exchange_id : Nat) :
    Option (Int × Option (Option arcp_msg_t) × arcp_handle_t × Nat) :=
  match arcp_exec_cmd fuel u mem handle cmd_id none (some resp) exchange_id with
  | none => none
  | some (res, _, resp, handle, exchange_id) =>
    let resp := resp.join
    let resp_ret := resp_ret.map (fun _ => (none : Option arcp_msg_t))
    let res :=
      if arcp_id_is_response res ∧ res ≠ expected_resp_id ∧ res ≠ ARCP_RESP_NAK ∧
          res ≠ ARCP_RESP_UNK then ARCP_ERROR_BAD_RESPONSE
      else res
    let resp_ret := if resp_ret ≠ none ∧ res = expected_resp_id then some resp else resp_ret
    some (res, resp_ret, handle, exchange_id)

/-- Internal function: passes the prepared command `msg` to the slave and checks the
response.  Returns the return value, the handle and the counter `exchange_id`. -/
def arcp_do_set_params (fuel : Nat) (u : decode_locals) (mem : Nat → Nat)
    (handle : arcp_handle_t) (cmd_id : Int) (msg : arcp_msg_t) (exchange_id : Nat) :
    Option (Int × arcp_handle_t × Nat) :=
  if msg.header.msg_type ≠ ARCP_MSG_COMMAND ∨ msg.id ≠ cmd_id then
    some (ARCP_ERROR_INTERNAL, handle, exchange_id)
  else
    match arcp_exec_cmd fuel u mem handle cmd_id (some msg) (some none) exchange_id with
    | none => none
    | some (res, _, resp, handle, exchange_id) =>
      let info_code : Int := (resp.join.map arcp_msg_t.info_code).getD 0
      let res :=
        if res = ARCP_RESP_NAK then (if info_code < 0 then info_code else res)
        else if arcp_id_is_response res ∧ res ≠ ARCP_RESP_ACK ∧ res ≠ ARCP_RESP_UNK then
          ARCP_ERROR_BAD_RESPONSE
        else res
      some (res, handle, exchange_id)

/-- Sends a reset packet and processes the response.  This and the functions below return
the return value, the handle and the counter `exchange_id`; `none`: the fuel ran out. -/
def arcp_reset (fuel : Nat) (u : decode_locals) (mem : Nat → Nat) (handle : arcp_handle_t)
    (exchange_id : Nat) : Option (Int × arcp_handle_t × Nat) :=
  (arcp_exec_cmd fuel u mem handle ARCP_CMD_RESET none none exchange_id).map
    (fun r =>
      (if arcp_id_is_response r.1 ∧ r.1 ≠ ARCP_RESP_NAK ∧ r.1 ≠ ARCP_RESP_ACK then
          ARCP_ERROR_BAD_RESPONSE
        else r.1,
       r.2.2.2))

/-- Sends a ping packet and processes the response. -/
def arcp_ping (fuel : Nat) (u : decode_locals) (mem : Nat → Nat) (handle : arcp_handle_t)
    (exchange_id : Nat) : Option (Int × arcp_handle_t × Nat) :=
  (arcp_exec_cmd fuel u mem handle ARCP_CMD_PING none none exchange_id).map
    (fun r =>
      (if arcp_id_is_response r.1 ∧ r.1 ≠ ARCP_RESP_ACK then ARCP_ERROR_BAD_RESPONSE
        else r.1,
       r.2.2.2))

/-- Sends a "get sysid" packet and processes the response; `sysid` is not NULL, and `resp`
is what the local `resp` of `arcp_do_get_sys_info` holds.  Returns the return value,
`*sysid`, the handle and the counter `exchange_id`. -/
def arcp_get_sysid (fuel : Nat) (u : decode_locals) (mem : Nat → Nat) (handle : arcp_handle_t)
    (resp : Option arcp_msg_t) (exchange_id : Nat) :
    Option (Int × Option arcp_sysid_t × arcp_handle_t × Nat) :=
  (arcp_do_get_sys_info fuel u mem handle ARCP_CMD_GET_SYSID ARCP_RESP_SYSID (some none) resp
    exchange_id).map
    (fun r =>
      match r.2.1.join with
      | some ret =>
        if r.1 = ARCP_RESP_SYSID then (ARCP_RESP_ACK, ret.sysid_ptr, r.2.2)
        else (r.1, none, r.2.2)
      | none => (r.1, none, r.2.2))

/-- Sends a "get sysstat" packet and processes the response; `sysstat` is not NULL, and
`resp` is what the local `resp` of `arcp_do_get_sys_info` holds.  Returns the return value,
`*sysstat`, the handle and the counter `exchange_id`. -/
def arcp_get_sysstat (fuel : Nat) (u : decode_locals) (mem : Nat → Nat)
    (handle : arcp_handle_t) (resp : Option arcp_msg_t) (exchange_id : Nat) :
    Option (Int × Option arcp_sysstat_t × arcp_handle_t × Nat) :=
  (arcp_do_get_sys_info fuel u mem handle ARCP_CMD_GET_SYSSTAT ARCP_RESP_SYSSTAT (some none)
    resp exchange_id).map
    (fun r =>
      match r.2.1.join with
      | some ret =>
        if r.1 = ARCP_RESP_SYSSTAT then (ARCP_RESP_ACK, ret.sysstat_ptr, r.2.2)
        else (r.1, none, r.2.2)
      | none => (r.1, none, r.2.2))

/-- Sets the enable status of the module; `enable` is a `uint8`. -/
def arcp_set_module_enable (fuel : Nat) (u : decode_locals) (mem : Nat → Nat)
    (handle : arcp_handle_t) (enable : Nat) (exchange_id : Nat) :
    Option (Int × arcp_handle_t × Nat) :=
  match arcp_msg_new ARCP_MSG_COMMAND with
  | none => some (ARCP_ERROR_LOCAL, handle, exchange_id)
  | some msg =>
    let msg := arcp_msg_t.cmd_enable msg.header ARCP_CMD_SET_MODULE_ENABLE (int8_of enable)
    (arcp_exec_cmd fuel u mem handle ARCP_CMD_SET_MODULE_ENABLE (some msg) none
      exchange_id).map
      (fun r =>
        (if arcp_id_is_response r.1 ∧ r.1 ≠ ARCP_RESP_ACK ∧ r.1 ≠ ARCP_RESP_NAK then
            ARCP_ERROR_BAD_RESPONSE
          else r.1,
         r.2.2.2))

/-- Requests the setting of the pulse parameters of the slot `slot`, a `uint8`. -/
def arcp_set_pulseparam (fuel : Nat) (u : decode_locals) (mem : Nat → Nat)
    (handle : arcp_handle_t) (slot : Nat) (param : arcp_pulse_t) (exchange_id : Nat) :
    Option (Int × arcp_handle_t × Nat) :=
  match arcp_msg_new ARCP_MSG_COMMAND with
  | none => some (ARCP_ERROR_LOCAL, handle, exchange_id)
  | some msg =>
    let r := arcp_msg_set_cmd_id msg ARCP_CMD_SET_PULSE_PARAM
    if r.1 < 0 then some (ARCP_ERROR_LOCAL, handle, exchange_id)
    else
      let msg := arcp_msg_t.cmd_set_pulse_param r.2.header r.2.id slot param
      arcp_do_set_params fuel u mem handle ARCP_CMD_SET_PULSE_PARAM msg exchange_id

/-- Requests the setting of the pulse sequence `seq`. -/
def arcp_set_pulseseq (fuel : Nat) (u : decode_locals) (mem : Nat → Nat)
    (handle : arcp_handle_t) (seq : arcp_pulseseq_t) (exchange_id : Nat) :
    Option (Int × arcp_handle_t × Nat) :=
  match arcp_msg_new ARCP_MSG_COMMAND with
  | none => some (ARCP_ERROR_LOCAL, handle, exchange_id)
  | some msg =>
    let r := arcp_msg_set_cmd_id msg ARCP_CMD_SET_PULSE_SEQ
    if r.1 < 0 then some (ARCP_ERROR_LOCAL, handle, exchange_id)
    else
      let msg := arcp_msg_t.cmd_set_pulse_seq r.2.header r.2.id seq
      arcp_do_set_params fuel u mem handle ARCP_CMD_SET_PULSE_SEQ msg exchange_id

/-- Requests the setting of the pulse sequence index `index`, a `uint16`. -/
def arcp_set_pulseseq_index (fuel : Nat) (u : decode_locals) (mem : Nat → Nat)
    (handle : arcp_handle_t) (index : Nat) (exchange_id : Nat) :
    Option (Int × arcp_handle_t × Nat) :=
  match arcp_msg_new ARCP_MSG_COMMAND with
  | none => some (ARCP_ERROR_LOCAL, handle, exchange_id)
  | some msg =>
    let r := arcp_msg_set_cmd_id msg ARCP_CMD_SET_PULSE_SEQ_IDX
    if r.1 < 0 then some (ARCP_ERROR_LOCAL, handle, exchange_id)
    else
      let msg := arcp_msg_t.cmd_set_pulse_seq_idx r.2.header r.2.id index
      (arcp_exec_cmd fuel u mem handle ARCP_CMD_SET_PULSE_SEQ_IDX (some msg) none
        exchange_id).map
        (fun r =>
          (if arcp_id_is_response r.1 ∧ r.1 ≠ ARCP_RESP_ACK ∧ r.1 ≠ ARCP_RESP_NAK ∧
              r.1 ≠ ARCP_RESP_UNK then ARCP_ERROR_BAD_RESPONSE
            else r.1,
           r.2.2.2))

/-- Requests the setting of the trigger parameters `param`. -/
def arcp_set_trigparam (fuel : Nat) (u : decode_locals) (mem : Nat → Nat)
    (handle : arcp_handle_t) (param : arcp_trigger_t) (exchange_id : Nat) :
    Option (Int × arcp_handle_t × Nat) :=
  match arcp_msg_new ARCP_MSG_COMMAND with
  | none => some (ARCP_ERROR_LOCAL, handle, exchange_id)
  | some msg =>
    let r := arcp_msg_set_cmd_id msg ARCP_CMD_SET_TRIG_PARAM
    if r.1 < 0 then some (ARCP_ERROR_LOCAL, handle, exchange_id)
    else
      let msg := arcp_msg_t.cmd_set_trig_param r.2.header r.2.id param
      arcp_do_set_params fuel u mem handle ARCP_CMD_SET_TRIG_PARAM msg exchange_id

/-- Sets the enable status of the user controls; `enable` is a `uint8`. -/
def arcp_set_usrctl_enable (fuel : Nat) (u : decode_locals) (mem : Nat → Nat)
    (handle : arcp_handle_t) (enable : Nat) (exchange_id : Nat) :
    Option (Int × arcp_handle_t × Nat) :=
  match arcp_msg_new ARCP_MSG_COMMAND with
  | none => some (ARCP_ERROR_LOCAL, handle, exchange_id)
  | some msg =>
    let msg := arcp_msg_t.cmd_usrctl_enable msg.header ARCP_CMD_SET_USRCTL_ENABLE
      (int8_of enable)
    (arcp_exec_cmd fuel u mem handle ARCP_CMD_SET_USRCTL_ENABLE (some msg) none
      exchange_id).map
      (fun r => (r.1, r.2.2.2))

/-- Sends a "set phase" command; `phase_slot` and `n_phases` are `uint16`, `phases` is the
table the caller passes. -/
def arcp_set_phase (fuel : Nat) (u : decode_locals) (mem : Nat → Nat) (handle : arcp_handle_t)
    (phase_slot : Nat) (phases : List arcp_phase_entry_t) (n_phases : Nat)
    (exchange_id : Nat) : Option (Int × arcp_handle_t × Nat) :=
  let msg := arcp_msg_new ARCP_MSG_COMMAND
  if handle.connection_arcp_version < ARCP_VERSION_1_1 then
    some (ARCP_RESP_UNK, handle, exchange_id)
  else
    match msg with
    | none => some (ARCP_ERROR_LOCAL, handle, exchange_id)
    | some msg =>
      let msg := arcp_msg_t.cmd_set_phase msg.header ARCP_CMD_SET_PHASE phase_slot n_phases
        phases
      (arcp_exec_cmd fuel u mem handle ARCP_CMD_SET_PHASE (some msg) none exchange_id).map
        (fun r => (r.1, r.2.2.2))

/-- Sends an ACK in response to the command `cmd_msg` (`none` for NULL).  This and the two
functions below return the return value and the handle; `none`: the fuel ran out. -/
def arcp_send_ack (fuel : Nat) (mem : Nat → Nat) (handle : arcp_handle_t)
    (cmd_msg : Option arcp_msg_t) : Option (Int × arcp_handle_t) :=
  (arcp_exec_resp fuel mem handle cmd_msg ARCP_RESP_ACK none 0).map (fun r => (r.1, r.2.2))

/-- Sends a NAK carrying the `int16` `err_code`. -/
def arcp_send_nak (fuel : Nat) (mem : Nat → Nat) (handle : arcp_handle_t)
    (cmd_msg : Option arcp_msg_t) (err_code : Int) : Option (Int × arcp_handle_t) :=
  (arcp_exec_resp fuel mem handle cmd_msg ARCP_RESP_NAK none err_code).map
    (fun r => (r.1, r.2.2))

/-- Sends an UNK (unknown command). -/
def arcp_send_unk (fuel : Nat) (mem : Nat → Nat) (handle : arcp_handle_t)
    (cmd_msg : Option arcp_msg_t) : Option (Int × arcp_handle_t) :=
  (arcp_exec_resp fuel mem handle cmd_msg ARCP_RESP_UNK none 0).map (fun r => (r.1, r.2.2))

end ARCP

namespace ARCP

/-! ## Auxiliary definitions used to state the theorems -/

/-- A stream that holds `bytes` and is ready to be read from its start, as
`arcp_socket_process` hands it to `arcp_stream_decode`. -/
def stream_of_bytes (bytes : List Nat) : arcp_stream_t :=
  { size := bytes.length, data := bytes, head := 0, end_ := (bytes.length : Int) - 1, err := 0 }

/-- Uninitialised storage that happens to hold zeros. -/
def decode_locals.zero : decode_locals :=
  { magic_num := 0, msg_length := 0, xchg_id := 0, msg_type := 0, len := 0, i := 0,
    phases := fun _ => arcp_phase_entry_t.zero }

/-- A sequence of calls of `arcp_msg_read` on one handle, each with its own fuel,
uninitialised storage and `malloc` contents; the handle after the last call. -/
def msg_read_seq : List (Nat × decode_locals × (Nat → Nat)) → arcp_handle_t →
    Option arcp_handle_t
  | [], handle => some handle
  | (fuel, u, mem) :: rest, handle =>
    match arcp_msg_read fuel u mem handle with
    | none => none
    | some r => msg_read_seq rest r.2.2

/-- The stream with no error whose buffer holds `w ++ u` and whose head stands right
after `w`: `w` has been written (or read), `u` is still to be written (or read). -/
def strm (w u : List Nat) : arcp_stream_t :=
  { size := w.length + u.length, data := w ++ u, head := w.length,
    end_ := ((w.length + u.length : Nat) : Int) - 1, err := 0 }

/-- The octet of an 8 bit value. -/
def be8 (v : Nat) : List Nat := [v % 256]

/-- The two octets of a 16 bit value, most significant first. -/
def be16 (v : Nat) : List Nat := [v / 256 % 256, v % 256]

/-- The four octets of a 32 bit value, most significant first. -/
def be32 (v : Nat) : List Nat := [v / 16777216 % 256, v / 65536 % 256, v / 256 % 256, v % 256]

/-- `f` writes the bytes `bs` at the head of a stream: it keeps an error that is set,
fills the next `bs.length` bytes with `bs` when the stream has room for them, and sets the
error when it has not. -/
def Writes (f : arcp_stream_t → arcp_stream_t) (bs : List Nat) : Prop :=
  (∀ s, s.err ≠ 0 → (f s).err ≠ 0) ∧
  (∀ w p u, p.length = bs.length → f (strm w (p ++ u)) = strm (w ++ bs) u) ∧
  (∀ w u, u.length < bs.length → (f (strm w u)).err ≠ 0)

/-! ### The bytes of a message on the wire

`wire_header`, `wire_cmd` and `wire_resp` list the bytes `arcp_msg_encode`, `store_arcp_cmd`
and `store_arcp_resp` hand to the stream, in order.  They are used to state and prove the
theorems about the encoder and the decoder; the theorems themselves speak of
`arcp_msg_encode` and `arcp_stream_decode`. -/

def wire_header (h : arcp_msg_header_t) : List Nat :=
  be32 (uint32_of h.magic_num) ++ be16 (uint16_of h.msg_length)
    ++ be16 (uint16_of h.exchange_id) ++ [uint8_of h.msg_type]
    ++ be16 (uint16_of h.protocol_version)

def wire_pulsecode (code : Option arcp_pulsecode_t) : List Nat :=
  if code ≠ none ∧ arcp_pulsecode_getlength code ≠ 0 then
    be16 (uint16_of (arcp_pulsecode_getlength code))
      ++ ((List.range ((arcp_pulsecode_getlength code - 1) / 8 + 1)).map
        (fun i => [uint8_of (((code.map arcp_pulsecode_getdata).getD []).getD i 0)])).flatten
  else be16 (uint16_of 0)

def wire_pulseseq_entry (seq : List arcp_pulseseq_entry_t) (i : Nat) : List Nat :=
  [uint8_of (seq.getD i arcp_pulseseq_entry_t.zero).slot,
   uint8_of (seq.getD i arcp_pulseseq_entry_t.zero).flags]

def wire_phase_entry (phases : List arcp_phase_entry_t) (i : Nat) : List Nat :=
  be16 (uint16_of (phases.getD i arcp_phase_entry_t.zero).channel)
    ++ be32 (uint32_of (phases.getD i arcp_phase_entry_t.zero).phase)

/-- The bytes `store_arcp_cmd` hands to the stream. -/
def wire_cmd (msg : arcp_msg_t) : List Nat :=
  be16 (uint16_of msg.id) ++
  (if msg.id = ARCP_CMD_SET_MODULE_ENABLE then [uint8_of msg.enable]
   else if msg.id = ARCP_CMD_SET_PULSE_PARAM then
     [uint8_of msg.pulse_map_index] ++ [uint8_of msg.pulse_param.pulse_shape]
       ++ be16 (uint16_of msg.pulse_param.pulse_ampl)
       ++ be16 (uint16_of msg.pulse_param.pulse_options)
       ++ be32 (uint32_of msg.pulse_param.pulse_width_ns)
       ++ wire_pulsecode msg.pulse_param.code
   else if msg.id = ARCP_CMD_SET_PULSE_SEQ then
     if msg.seq.length > ARCP_MAX_PULSE_SEQ_LENGTH then []
     else be16 (uint16_of msg.seq.length)
       ++ ((List.range msg.seq.length).map (wire_pulseseq_entry msg.seq.seq)).flatten
   else if msg.id = ARCP_CMD_SET_PULSE_SEQ_IDX then be16 (uint16_of msg.seq_index)
   else if msg.id = ARCP_CMD_SET_TRIG_PARAM then
     [uint8_of msg.trig_param.trigger_source] ++ [uint8_of msg.trig_param.ext_trigger_options]
       ++ be16 (uint16_of msg.trig_param.int_trigger_freq)
       ++ be16 (uint16_of msg.trig_param.pulse_predelay)
   else if msg.id = ARCP_CMD_SET_USRCTL_ENABLE then [uint8_of msg.enable]
   else if msg.id = ARCP_CMD_SET_PHASE then
     if msg.n_phases > ARCP_BSM_MAX_N_PHASES then []
     else be16 (uint16_of msg.phase_slot) ++ be16 (uint16_of msg.n_phases)
       ++ ((List.range msg.n_phases).map (wire_phase_entry msg.phases)).flatten
   else [])

def wire_output_stat (output : List arcp_rf_card_output_stat_t) (j : Nat) : List Nat :=
  be16 (uint16_of (output.getD j arcp_rf_card_output_stat_t.zero).forward_power)
    ++ be16 (uint16_of (output.getD j arcp_rf_card_output_stat_t.zero).return_loss)

def wire_rf_card (rf_card_stat : List arcp_rf_card_stat_t) (i : Nat) : List Nat :=
  be16 (uint16_of (rf_card_stat.getD i arcp_rf_card_stat_t.zero).rail_supply)
    ++ be16 (uint16_of (rf_card_stat.getD i arcp_rf_card_stat_t.zero).heatsink_temp)
    ++ [uint8_of (rf_card_stat.getD i arcp_rf_card_stat_t.zero).n_rf_outputs]
    ++ ((List.range (rf_card_stat.getD i arcp_rf_card_stat_t.zero).n_rf_outputs).map
        (wire_output_stat (rf_card_stat.getD i arcp_rf_card_stat_t.zero).output_stat)).flatten

def wire_stx2_unit (unit_stat : List arcp_stx2unit_union_t) (i : Nat) : List Nat :=
  [uint8_of (unit_stat.getD i arcp_stx2unit_union_t.zero).unit_v.flags]
    ++ [uint8_of (unit_stat.getD i arcp_stx2unit_union_t.zero).unit_v.type]
    ++ (if (unit_stat.getD i arcp_stx2unit_union_t.zero).unit_v.type
          = ARCP_STX2_UNIT_EXT_COMBINER_SPLITTER then
        [uint8_of (unit_stat.getD i arcp_stx2unit_union_t.zero).comb_v.n_temperatures]
          ++ ((List.range (unit_stat.getD i arcp_stx2unit_union_t.zero).comb_v.n_temperatures).map
              (fun j => [uint8_of
                ((unit_stat.getD i arcp_stx2unit_union_t.zero).comb_v.temperature.getD j 0)])).flatten
          ++ [uint8_of (unit_stat.getD i arcp_stx2unit_union_t.zero).comb_v.n_outputs]
          ++ ((List.range (unit_stat.getD i arcp_stx2unit_union_t.zero).comb_v.n_outputs).map
              (wire_output_stat (unit_stat.getD i arcp_stx2unit_union_t.zero).comb_v.output)).flatten
      else [])

def wire_sysid (sysid : arcp_sysid_t) : List Nat :=
  [uint8_of sysid.module_type] ++ be16 (uint16_of sysid.module_version)
    ++ be16 (uint16_of sysid.firmware_version)
    ++ be16 (uint16_of sysid.ctrl_board_logic_version)
    ++ (if sysid.module_type = ARCP_MODULE_STX2 then
          be16 (uint16_of sysid.stx2_card_map) ++ be32 (uint32_of sysid.stx2_pulse_slot_length)
        else if sysid.module_type = ARCP_MODULE_BSM then be16 (uint16_of sysid.bsm_channel_map)
        else [])

def wire_stx2stat (stx2 : arcp_stx2stat_t) : List Nat :=
  be16 (uint16_of stx2.status_code) ++ [uint8_of stx2.chassis_datasize]
    ++ be16 (uint16_of stx2.rail_supply) ++ be16 (uint16_of stx2.rail_aux)
    ++ [uint8_of stx2.ambient_temp] ++ [uint8_of stx2.n_chassis_fans]
    ++ ((List.range stx2.n_chassis_fans).map
        (fun i => be16 (uint16_of (stx2.fan_speed.getD i 0)))).flatten
    ++ be16 (uint16_of stx2.card_map) ++ [uint8_of stx2.n_rf_cards]
    ++ ((List.range stx2.n_rf_cards).map (wire_rf_card stx2.rf_card_stat)).flatten
    ++ [uint8_of stx2.n_units]
    ++ ((List.range stx2.n_units).map (wire_stx2_unit stx2.unit_stat)).flatten

def wire_bsmstat (bsm : arcp_bsmstat_t) : List Nat :=
  be16 (uint16_of bsm.status_code) ++ be16 (uint16_of bsm.rail_supply)
    ++ be16 (uint16_of bsm.rail_aux) ++ [uint8_of bsm.ambient_temp]
    ++ be16 (uint16_of bsm.channel_map) ++ [uint8_of bsm.n_fans]
    ++ ((List.range bsm.n_fans).map
        (fun i => be16 (uint16_of (bsm.fan_speed.getD i 0)))).flatten
    ++ [uint8_of bsm.n_heatsink_temps]
    ++ ((List.range bsm.n_heatsink_temps).map
        (fun i => [uint8_of (bsm.heatsink_temp.getD i 0)])).flatten

def wire_sysstat (sysstat : arcp_sysstat_t) : List Nat :=
  [uint8_of sysstat.module_type] ++ [uint8_of sysstat.module_status]
    ++ (if sysstat.module_type = ARCP_MODULE_STX2 then wire_stx2stat sysstat.stx2
        else if sysstat.module_type = ARCP_MODULE_BSM then wire_bsmstat sysstat.bsm
        else [])

/-- The bytes `store_arcp_resp` hands to the stream. -/
def wire_resp (msg : arcp_msg_t) : List Nat :=
  be16 (uint16_of msg.id) ++ be16 (uint16_of msg.info_code)
    ++ (if msg.id = ARCP_RESP_SYSID then wire_sysid msg.sysid
        else if msg.id = ARCP_RESP_SYSSTAT then wire_sysstat msg.sysstat
        else [])

/-- The bytes `arcp_msg_encode` hands to the stream. -/
def wire_msg (msg : arcp_msg_t) : List Nat :=
  wire_header msg.header
    ++ (if msg.header.msg_type = ARCP_MSG_COMMAND then wire_cmd msg
        else if msg.header.msg_type = ARCP_MSG_RESPONSE then wire_resp msg
        else [])

/-- The sum `g 0 + ... + g (n - 1)`. -/
def range_sum (n : Nat) (g : Nat → Nat) : Nat := ((List.range n).map g).sum

/-- The message is one `store_arcp_cmd` refuses: a pulse sequence of more than 1024
entries or a phase table of more than 32 entries. -/
def over_cap (msg : arcp_msg_t) : Prop :=
  msg.header.msg_type = ARCP_MSG_COMMAND ∧
    ((msg.id = ARCP_CMD_SET_PULSE_SEQ ∧ msg.seq.length > ARCP_MAX_PULSE_SEQ_LENGTH) ∨
     (msg.id = ARCP_CMD_SET_PHASE ∧ msg.n_phases > ARCP_BSM_MAX_N_PHASES))

/-! ### Example messages -/

/-- Scenario A: the PING command with exchange id 0x002A and protocol version 0x0001, as the
caller hands it to `arcp_msg_encode` (the `msg_length` is still 0). -/
def example_ping : arcp_msg_t :=
  .command { magic_num := ARCP_MAGIC_NUMBER, msg_length := 0, exchange_id := 0x002A,
             msg_type := ARCP_MSG_COMMAND, protocol_version := 0x0001 } ARCP_CMD_PING

/-- A `SET_PULSE_SEQ` command with a sequence of two entries. -/
def example_pulse_seq : arcp_msg_t :=
  .cmd_set_pulse_seq { magic_num := ARCP_MAGIC_NUMBER, msg_length := 0, exchange_id := 7,
                       msg_type := ARCP_MSG_COMMAND, protocol_version := 0x0101 }
    ARCP_CMD_SET_PULSE_SEQ
    { length := 2, seq := [{ slot := 1, flags := 0 }, { slot := 2, flags := 1 }] }

/-- A `SET_PULSE_PARAM` command whose pulse code is present (capacity 8 bits) but holds no
bit yet, as `arcp_pulsecode_new(8)` returns it. -/
def example_empty_code : arcp_msg_t :=
  .cmd_set_pulse_param { magic_num := ARCP_MAGIC_NUMBER, msg_length := 0, exchange_id := 3,
                         msg_type := ARCP_MSG_COMMAND, protocol_version := 0x0101 }
    ARCP_CMD_SET_PULSE_PARAM 2
    { pulse_shape := 1, pulse_ampl := 1000, pulse_options := 0, pulse_width_ns := 13000,
      code := some { size := 8, code_length := 0, data := [0] } }

/-- A `SYSSTAT` response of an STX2 with one fan, one RF card with two outputs and two
units, the second of which is a combiner. -/
def example_stx2_sysstat : arcp_msg_t :=
  .resp_sysstat { magic_num := ARCP_MAGIC_NUMBER, msg_length := 0, exchange_id := 9,
                  msg_type := ARCP_MSG_RESPONSE, protocol_version := 0x0101 }
    ARCP_RESP_SYSSTAT 0
    { module_type := ARCP_MODULE_STX2, module_status := 1,
      data := .stx2
        { status_code := 1, chassis_datasize := 9, rail_supply := 48000, rail_aux := 12000,
          ambient_temp := -5, n_chassis_fans := 1, fan_speed := [3000], card_map := 1,
          n_rf_cards := 1,
          rf_card_stat :=
            [{ rail_supply := 47900, heatsink_temp := 41, n_rf_outputs := 2,
               output_stat := [{ forward_power := 900, return_loss := -20 },
                               { forward_power := 950, return_loss := -18 }] }],
          n_units := 2,
          unit_stat :=
            [.unit { flags := 1, type := 0 },
             .comb { flags := 3, unit_type := 1, n_temperatures := 2,
                     temperature := [30, -2, 0, 0], n_outputs := 1,
                     output := [{ forward_power := 7, return_loss := -1 },
                                arcp_rf_card_output_stat_t.zero, arcp_rf_card_output_stat_t.zero,
                                arcp_rf_card_output_stat_t.zero, arcp_rf_card_output_stat_t.zero,
                                arcp_rf_card_output_stat_t.zero] }] } }

/-! ### Messages within the limits, and what the decoder makes of them

`msg_ok` says that the fields of a message are in the range of their C types, that the
counts respect the limits of the data model and that the arrays hold the elements their
counts announce.  `canon` is the message the decoder builds from the bytes of a message:
the message itself, but for what the wire does not carry. -/

def output_stat_ok (o : arcp_rf_card_output_stat_t) : Prop :=
  o.forward_power < 65536 ∧ -32768 ≤ o.return_loss ∧ o.return_loss < 32768

instance (o : arcp_rf_card_output_stat_t) : Decidable (output_stat_ok o) := by
  unfold output_stat_ok
  infer_instance

/-- At most 512 bits, the bytes of all the bits present, each a `uint8`. -/
def pulsecode_ok (c : arcp_pulsecode_t) : Prop :=
  c.code_length ≤ ARCP_MAX_PULSECODE_SIZE ∧ (c.code_length + 7) / 8 ≤ c.data.length ∧
  ∀ i, i < (c.code_length + 7) / 8 → c.data.getD i 0 < 256

instance (c : arcp_pulsecode_t) : Decidable (pulsecode_ok c) := by
  unfold pulsecode_ok
  infer_instance

def pulse_ok (index : Nat) (p : arcp_pulse_t) : Prop :=
  index < 256 ∧ -128 ≤ p.pulse_shape ∧ p.pulse_shape < 128 ∧ p.pulse_ampl < 65536 ∧
  p.pulse_options < 65536 ∧ p.pulse_width_ns < 4294967296 ∧
  (p.code = none ∨ pulsecode_ok (p.code.getD { size := 0, code_length := 0, data := [] }))

instance (index : Nat) (p : arcp_pulse_t) : Decidable (pulse_ok index p) := by
  unfold pulse_ok
  infer_instance

/-- At most 255 entries: the decoder counts them with a `uint8`. -/
def pulseseq_ok (s : arcp_pulseseq_t) : Prop :=
  s.length ≤ 255 ∧ s.length ≤ s.seq.length ∧
  ∀ i, i < s.length → (s.seq.getD i arcp_pulseseq_entry_t.zero).slot < 256 ∧
    (s.seq.getD i arcp_pulseseq_entry_t.zero).flags < 256

instance (s : arcp_pulseseq_t) : Decidable (pulseseq_ok s) := by
  unfold pulseseq_ok
  infer_instance

def trigger_ok (t : arcp_trigger_t) : Prop :=
  t.trigger_source < 256 ∧ t.ext_trigger_options < 256 ∧ t.int_trigger_freq < 65536 ∧
  t.pulse_predelay < 65536

instance (t : arcp_trigger_t) : Decidable (trigger_ok t) := by
  unfold trigger_ok
  infer_instance

def phases_ok (phase_slot n_phases : Nat) (phases : List arcp_phase_entry_t) : Prop :=
  phase_slot < 65536 ∧ n_phases ≤ ARCP_BSM_MAX_N_PHASES ∧ n_phases ≤ phases.length ∧
  ∀ i, i < n_phases → (phases.getD i arcp_phase_entry_t.zero).channel < 65536 ∧
    (phases.getD i arcp_phase_entry_t.zero).phase < 4294967296

instance (phase_slot n_phases : Nat) (phases : List arcp_phase_entry_t) : Decidable (phases_ok phase_slot n_phases phases) := by
  unfold phases_ok
  infer_instance

def cmd_ok (m : arcp_msg_t) : Prop :=
  (m.id = ARCP_CMD_SET_MODULE_ENABLE ∨ m.id = ARCP_CMD_SET_USRCTL_ENABLE →
    -128 ≤ m.enable ∧ m.enable < 128) ∧
  (m.id = ARCP_CMD_SET_PULSE_PARAM → pulse_ok m.pulse_map_index m.pulse_param) ∧
  (m.id = ARCP_CMD_SET_PULSE_SEQ → pulseseq_ok m.seq) ∧
  (m.id = ARCP_CMD_SET_PULSE_SEQ_IDX → m.seq_index < 65536) ∧
  (m.id = ARCP_CMD_SET_TRIG_PARAM → trigger_ok m.trig_param) ∧
  (m.id = ARCP_CMD_SET_PHASE → phases_ok m.phase_slot m.n_phases m.phases)

instance (m : arcp_msg_t) : Decidable (cmd_ok m) := by
  unfold cmd_ok
  infer_instance

def sysid_ok (s : arcp_sysid_t) : Prop :=
  -128 ≤ s.module_type ∧ s.module_type < 128 ∧ s.module_version < 65536 ∧
  s.firmware_version < 65536 ∧ s.ctrl_board_logic_version < 65536 ∧
  (s.module_type = ARCP_MODULE_STX2 →
    s.stx2_card_map < 65536 ∧ s.stx2_pulse_slot_length < 4294967296) ∧
  (s.module_type = ARCP_MODULE_BSM → s.bsm_channel_map < 65536)

instance (s : arcp_sysid_t) : Decidable (sysid_ok s) := by
  unfold sysid_ok
  infer_instance

def rf_card_ok (c : arcp_rf_card_stat_t) : Prop :=
  c.rail_supply < 65536 ∧ -32768 ≤ c.heatsink_temp ∧ c.heatsink_temp < 32768 ∧
  c.n_rf_outputs ≤ ARCP_MAX_N_RF_CARD_OUTPUT ∧ c.n_rf_outputs ≤ c.output_stat.length ∧
  ∀ j, j < c.n_rf_outputs →
    output_stat_ok (c.output_stat.getD j arcp_rf_card_output_stat_t.zero)

instance (c : arcp_rf_card_stat_t) : Decidable (rf_card_ok c) := by
  unfold rf_card_ok
  infer_instance

def extcomb_ok (c : arcp_extcomb_stat_t) : Prop :=
  c.n_temperatures ≤ ARCP_STX2_EXTCOMB_MAX_N_TEMPERATURES ∧
  c.temperature.length = ARCP_STX2_EXTCOMB_MAX_N_TEMPERATURES ∧
  (∀ j, j < c.n_temperatures → -128 ≤ c.temperature.getD j 0 ∧ c.temperature.getD j 0 < 128) ∧
  c.n_outputs ≤ ARCP_STX2_EXTCOMB_MAX_N_OUTPUTS ∧
  c.output.length = ARCP_STX2_EXTCOMB_MAX_N_OUTPUTS ∧
  ∀ j, j < c.n_outputs → output_stat_ok (c.output.getD j arcp_rf_card_output_stat_t.zero)

instance (c : arcp_extcomb_stat_t) : Decidable (extcomb_ok c) := by
  unfold extcomb_ok
  infer_instance

def stx2unit_ok (x : arcp_stx2unit_union_t) : Prop :=
  x.unit_v.flags < 256 ∧ x.unit_v.type < 256 ∧
  (x.unit_v.type = ARCP_STX2_UNIT_EXT_COMBINER_SPLITTER → extcomb_ok x.comb_v)

instance (x : arcp_stx2unit_union_t) : Decidable (stx2unit_ok x) := by
  unfold stx2unit_ok
  infer_instance

def stx2stat_ok (s : arcp_stx2stat_t) : Prop :=
  s.status_code < 65536 ∧ s.rail_supply < 65536 ∧ s.rail_aux < 65536 ∧
  -128 ≤ s.ambient_temp ∧ s.ambient_temp < 128 ∧
  s.n_chassis_fans ≤ ARCP_MAX_N_CHASSIS_FANS ∧ s.n_chassis_fans ≤ s.fan_speed.length ∧
  (∀ i, i < s.n_chassis_fans → s.fan_speed.getD i 0 < 65536) ∧
  s.card_map < 65536 ∧
  s.n_rf_cards ≤ ARCP_MAX_N_RF_CARDS ∧ s.n_rf_cards ≤ s.rf_card_stat.length ∧
  (∀ i, i < s.n_rf_cards → rf_card_ok (s.rf_card_stat.getD i arcp_rf_card_stat_t.zero)) ∧
  s.n_units ≤ ARCP_STX2_MAX_N_STX2_UNITS ∧ s.n_units ≤ s.unit_stat.length ∧
  ∀ i, i < s.n_units → stx2unit_ok (s.unit_stat.getD i arcp_stx2unit_union_t.zero)

instance (s : arcp_stx2stat_t) : Decidable (stx2stat_ok s) := by
  unfold stx2stat_ok
  infer_instance

def bsmstat_ok (s : arcp_bsmstat_t) : Prop :=
  s.status_code < 65536 ∧ s.rail_supply < 65536 ∧ s.rail_aux < 65536 ∧
  -128 ≤ s.ambient_temp ∧ s.ambient_temp < 128 ∧ s.channel_map < 65536 ∧
  s.n_fans ≤ ARCP_MAX_N_CHASSIS_FANS ∧ s.fan_speed.length = ARCP_MAX_N_CHASSIS_FANS ∧
  (∀ i, i < s.n_fans → s.fan_speed.getD i 0 < 65536) ∧
  s.n_heatsink_temps ≤ ARCP_BSM_MAX_N_TEMPERATURES ∧
  s.heatsink_temp.length = ARCP_BSM_MAX_N_TEMPERATURES ∧
  ∀ i, i < s.n_heatsink_temps → -128 ≤ s.heatsink_temp.getD i 0 ∧ s.heatsink_temp.getD i 0 < 128

instance (s : arcp_bsmstat_t) : Decidable (bsmstat_ok s) := by
  unfold bsmstat_ok
  infer_instance

/-- The status record of an STX2 or a BSM is attached (`data` points to it). -/
def sysstat_ok (s : arcp_sysstat_t) : Prop :=
  -128 ≤ s.module_type ∧ s.module_type < 128 ∧ -128 ≤ s.module_status ∧ s.module_status < 128 ∧
  (s.module_type = ARCP_MODULE_STX2 → s.data = .stx2 s.stx2 ∧ stx2stat_ok s.stx2) ∧
  (s.module_type = ARCP_MODULE_BSM → s.data = .bsm s.bsm ∧ bsmstat_ok s.bsm)

instance (s : arcp_sysstat_t) : Decidable (sysstat_ok s) := by
  unfold sysstat_ok
  infer_instance

def resp_ok (m : arcp_msg_t) : Prop :=
  -32768 ≤ m.info_code ∧ m.info_code < 32768 ∧
  (m.id = ARCP_RESP_SYSID → sysid_ok m.sysid) ∧
  (m.id = ARCP_RESP_SYSSTAT → sysstat_ok m.sysstat)

instance (m : arcp_msg_t) : Decidable (resp_ok m) := by
  unfold resp_ok
  infer_instance

/-- The message is a value of the C type within the limits of the data model. -/
def msg_ok (m : arcp_msg_t) : Prop :=
  m.header.magic_num < 4294967296 ∧ m.header.exchange_id < 65536 ∧
  m.header.protocol_version < 65536 ∧ -32768 ≤ m.id ∧ m.id < 32768 ∧
  (m.header.msg_type = ARCP_MSG_COMMAND → cmd_ok m) ∧
  (m.header.msg_type = ARCP_MSG_RESPONSE → resp_ok m)

instance (m : arcp_msg_t) : Decidable (msg_ok m) := by
  unfold msg_ok
  infer_instance

/-- A pulse code as decoded: none when it has no bit, else one whose capacity is its
length and whose bytes are those of its bits. -/
def canon_pulsecode (code : Option arcp_pulsecode_t) : Option arcp_pulsecode_t :=
  match code with
  | none => none
  | some c =>
    if c.code_length = 0 then none
    else some { size := c.code_length, code_length := c.code_length,
                data := c.data.take ((c.code_length + 7) / 8) }

/-- A command as decoded: the member of the union that goes with its id, the arrays cut to
their counts. -/
def canon_cmd (m : arcp_msg_t) : arcp_msg_t :=
  if m.id = ARCP_CMD_SET_MODULE_ENABLE then .cmd_enable m.header m.id m.enable
  else if m.id = ARCP_CMD_SET_PULSE_PARAM then
    .cmd_set_pulse_param m.header m.id m.pulse_map_index
      { m.pulse_param with code := canon_pulsecode m.pulse_param.code }
  else if m.id = ARCP_CMD_SET_PULSE_SEQ then
    .cmd_set_pulse_seq m.header m.id
      { length := m.seq.length, seq := m.seq.seq.take m.seq.length }
  else if m.id = ARCP_CMD_SET_PULSE_SEQ_IDX then .cmd_set_pulse_seq_idx m.header m.id m.seq_index
  else if m.id = ARCP_CMD_SET_TRIG_PARAM then .cmd_set_trig_param m.header m.id m.trig_param
  else if m.id = ARCP_CMD_SET_USRCTL_ENABLE then .cmd_usrctl_enable m.header m.id m.enable
  else if m.id = ARCP_CMD_SET_PHASE then
    .cmd_set_phase m.header m.id m.phase_slot m.n_phases (m.phases.take m.n_phases)
  else .command m.header m.id

def canon_sysid (s : arcp_sysid_t) : arcp_sysid_t :=
  { s with data :=
      if s.module_type = ARCP_MODULE_STX2 then .stx2 s.stx2_card_map s.stx2_pulse_slot_length
      else if s.module_type = ARCP_MODULE_BSM then .bsm s.bsm_channel_map
      else .none }

def canon_rf_card (c : arcp_rf_card_stat_t) : arcp_rf_card_stat_t :=
  { c with output_stat := c.output_stat.take c.n_rf_outputs }

/-- A unit as decoded: a combiner when its type says so, with the slots past the counts
zero; else the two common fields. -/
def canon_stx2unit (x : arcp_stx2unit_union_t) : arcp_stx2unit_union_t :=
  if x.unit_v.type = ARCP_STX2_UNIT_EXT_COMBINER_SPLITTER then
    .comb { flags := x.unit_v.flags, unit_type := x.unit_v.type,
            n_temperatures := x.comb_v.n_temperatures,
            temperature := x.comb_v.temperature.take x.comb_v.n_temperatures
              ++ List.replicate
                (ARCP_STX2_EXTCOMB_MAX_N_TEMPERATURES - x.comb_v.n_temperatures) 0,
            n_outputs := x.comb_v.n_outputs,
            output := x.comb_v.output.take x.comb_v.n_outputs
              ++ List.replicate (ARCP_STX2_EXTCOMB_MAX_N_OUTPUTS - x.comb_v.n_outputs)
                arcp_rf_card_output_stat_t.zero }
  else .unit x.unit_v

/-- An STX2 status as decoded: `chassis_datasize` is 7 + 2 `n_chassis_fans`. -/
def canon_stx2stat (s : arcp_stx2stat_t) : arcp_stx2stat_t :=
  { s with chassis_datasize := 7 + 2 * s.n_chassis_fans,
           fan_speed := s.fan_speed.take s.n_chassis_fans,
           rf_card_stat := (s.rf_card_stat.take s.n_rf_cards).map canon_rf_card,
           unit_stat := (s.unit_stat.take s.n_units).map canon_stx2unit }

def canon_bsmstat (s : arcp_bsmstat_t) : arcp_bsmstat_t :=
  { s with fan_speed := s.fan_speed.take s.n_fans
             ++ List.replicate (ARCP_MAX_N_CHASSIS_FANS - s.n_fans) 0,
           heatsink_temp := s.heatsink_temp.take s.n_heatsink_temps
             ++ List.replicate (ARCP_BSM_MAX_N_TEMPERATURES - s.n_heatsink_temps) 0 }

def canon_sysstat (s : arcp_sysstat_t) : arcp_sysstat_t :=
  { s with data :=
      if s.module_type = ARCP_MODULE_STX2 then .stx2 (canon_stx2stat s.stx2)
      else if s.module_type = ARCP_MODULE_BSM then .bsm (canon_bsmstat s.bsm)
      else .null }

def canon_resp (m : arcp_msg_t) : arcp_msg_t :=
  if m.id = ARCP_RESP_SYSID then .resp_sysid m.header m.id m.info_code (canon_sysid m.sysid)
  else if m.id = ARCP_RESP_SYSSTAT then
    .resp_sysstat m.header m.id m.info_code (canon_sysstat m.sysstat)
  else .response m.header m.id m.info_code

/-- The message `arcp_stream_decode` builds from the bytes of the message `m`. -/
def canon (m : arcp_msg_t) : arcp_msg_t :=
  if m.header.msg_type = ARCP_MSG_COMMAND then canon_cmd m else canon_resp m

/-! ### Exchanges -/

/-- The exchange `arcp_exec_cmd` runs for `cmd_id` and `cmd_msg` when the counter is
`exchange_id` goes through and brings the response `resp`: the arguments pass the checks
and give the command `c`, `arcp_msg_write` sends `c` stamped with the counter and returns 0,
`arcp_msg_read` then returns 0 with the message `resp` and leaves the handle `h2`, and
`arcp_check_resp_msg` accepts `resp` (magic, type, exchange id, version). -/
def exchange_ok (fuel : Nat) (u : decode_locals) (mem : Nat → Nat) (handle : arcp_handle_t)
    (cmd_id : Int) (cmd_msg : Option arcp_msg_t) (exchange_id : Nat) (resp : arcp_msg_t)
    (h2 : arcp_handle_t) : Prop :=
  ∃ c c1 h1, exec_cmd_prepare cmd_id cmd_msg = .ok c ∧
    arcp_msg_write fuel mem handle
      (c.set_header { c.header with exchange_id := exchange_id % 65536 }) = some (0, c1, h1) ∧
    arcp_msg_read fuel u mem h1 = some (0, some resp, h2) ∧
    arcp_check_resp_msg c1 (some resp) = 0

/-- The exchange `arcp_exec_cmd` runs for `cmd_id` and `cmd_msg` fails with the value `e`:
the first of `arcp_msg_write`, `arcp_msg_read` and `arcp_check_resp_msg` that does not
return 0 returns `e`; `h2` is the handle it leaves. -/
def exchange_fails (fuel : Nat) (u : decode_locals) (mem : Nat → Nat) (handle : arcp_handle_t)
    (cmd_id : Int) (cmd_msg : Option arcp_msg_t) (exchange_id : Nat) (e : Int)
    (h2 : arcp_handle_t) : Prop :=
  e ≠ 0 ∧ ∃ c, exec_cmd_prepare cmd_id cmd_msg = .ok c ∧
    ((∃ c1, arcp_msg_write fuel mem handle
        (c.set_header { c.header with exchange_id := exchange_id % 65536 }) = some (e, c1, h2)) ∨
     (∃ c1 h1, arcp_msg_write fuel mem handle
        (c.set_header { c.header with exchange_id := exchange_id % 65536 }) = some (0, c1, h1) ∧
        ((∃ r, arcp_msg_read fuel u mem h1 = some (e, r, h2)) ∨
         (∃ r, arcp_msg_read fuel u mem h1 = some (0, r, h2) ∧ arcp_check_resp_msg c1 r = e))))

/-- The header `arcp_msg_new` gives a command. -/
def new_cmd_header : arcp_msg_header_t :=
  { magic_num := ARCP_MAGIC_NUMBER, msg_length := 0, exchange_id := 0,
    msg_type := ARCP_MSG_COMMAND, protocol_version := 0 }

/-- A handle at version `version` whose peer accepts all it is sent and answers with
`bytes`, which arrive in one piece. -/
def handle_answering (version : Nat) (bytes : List Nat) : arcp_handle_t :=
  { fd := { rx := [.data bytes] }, connection_arcp_version := version }

/-- A handle at version `version` whose peer has been sent `sent` and answers with `bytes`,
which arrive in one piece. -/
def handle_sent (version : Nat) (bytes sent : List Nat) : arcp_handle_t :=
  { fd := { rx := [.data bytes], sent := sent }, connection_arcp_version := version }

/-- A handle at version `version` whose peer has been sent `sent` and has nothing more to
say. -/
def handle_after (version : Nat) (sent : List Nat) : arcp_handle_t :=
  { fd := { rx := [], sent := sent }, connection_arcp_version := version }

/-- The frame of a response without payload: exchange id `xid` (below 256), version 1.1,
response id `id` and information code `info_code`, each given by its two bytes. -/
def response_frame (xid : Nat) (id1 id0 c1 c0 : Nat) : List Nat :=
  [0x41, 0x52, 0x43, 0x50, 0, 15, 0, xid, 1, 1, 1, id1, id0, c1, c0]

/-- Trigger parameters: source 1, internal frequency 1000, predelay 5. -/
def example_trigger : arcp_trigger_t :=
  { trigger_source := 1, ext_trigger_options := 0, int_trigger_freq := 1000,
    pulse_predelay := 5 }

/-- The frame of the `SET_TRIG_PARAM` command for `example_trigger`, exchange id 0,
version 1.1. -/
def example_trigger_frame : List Nat :=
  [0x41, 0x52, 0x43, 0x50, 0, 19, 0, 0, 0, 1, 1, 0x01, 0x10, 1, 0, 3, 232, 0, 5]

/-- The system id of a BSM: module version 3, firmware 4, logic 5, channel map 0x00ff. -/
def example_sysid : arcp_sysid_t :=
  { module_type := ARCP_MODULE_BSM, module_version := 3, firmware_version := 4,
    ctrl_board_logic_version := 5, data := .bsm 0x00ff }

/-- The frame of the `SYSID` response that carries `example_sysid`, exchange id 0,
version 1.1. -/
def example_sysid_frame : List Nat :=
  [0x41, 0x52, 0x43, 0x50, 0, 24, 0, 0, 1, 1, 1, 0, 2, 0, 0, 2, 0, 3, 0, 4, 0, 5, 0, 255]

/-- The frame of the PING command with exchange id `xid` (below 256), version 1.1. -/
def ping_frame (xid : Nat) : List Nat :=
  [0x41, 0x52, 0x43, 0x50, 0, 13, 0, xid, 0, 1, 1, 0x00, 0x01]

/-- The frame of the `SET_MODULE_ENABLE` command with `enable` 1, exchange id 0,
version 1.1. -/
def example_enable_frame : List Nat :=
  [0x41, 0x52, 0x43, 0x50, 0, 14, 0, 0, 0, 1, 1, 0x00, 0x20, 1]

/-- The frame of the `SET_USRCTL_ENABLE` command with `enable` 1, exchange id 0,
version 1.1. -/
def example_usrctl_frame : List Nat :=
  [0x41, 0x52, 0x43, 0x50, 0, 14, 0, 0, 0, 1, 1, 0x01, 0xf0, 1]

/-- The frame of the `SET_PHASE` command for slot 0 and the one entry (channel 1,
phase 0.0), exchange id 0, version 1.1. -/
def example_phase_frame : List Nat :=
  [0x41, 0x52, 0x43, 0x50, 0, 23, 0, 0, 0, 1, 1, 0x02, 0x00, 0, 0, 0, 1, 0, 1, 0, 0, 0, 0]

/-- The frame of the `GET_SYSID` command, exchange id 0, version 1.1. -/
def example_get_sysid_frame : List Nat :=
  [0x41, 0x52, 0x43, 0x50, 0, 13, 0, 0, 0, 1, 1, 0x00, 0x02]

/-- The frame of the `GET_SYSSTAT` command, exchange id 0, version 1.1. -/
def example_get_sysstat_frame : List Nat :=
  [0x41, 0x52, 0x43, 0x50, 0, 13, 0, 0, 0, 1, 1, 0x00, 0x10]


/-- A `SET_PULSE_PARAM` command whose pulse code has 12 bits, in two bytes. -/
def example_pulse_code : arcp_msg_t :=
  .cmd_set_pulse_param new_cmd_header ARCP_CMD_SET_PULSE_PARAM 2
    ⟨1, 1000, 0, 13000, some ⟨16, 12, [0xa5, 0x0f]⟩⟩


/-! ### Pulse codes, the ASCII sideband and the replies -/

/-- The data array of the code holds the bytes of its capacity, `⌈size/8⌉` octets, and the
capacity is a `uint16`. -/
def pulsecode_sized (c : arcp_pulsecode_t) : Prop :=
  c.size < 65536 ∧ c.data.length = (c.size + 7) / 8 ∧ ∀ b ∈ c.data, b < 256

instance (c : arcp_pulsecode_t) : Decidable (pulsecode_sized c) := by
  unfold pulsecode_sized
  infer_instance

/-- The byte `arcp_pulsecode_setbit` stores: `byte` with bit `b` set or cleared. -/
def setbit_byte (byte b value : Nat) : Nat :=
  if value ≠ 0 then byte ||| 2 ^ b else byte &&& (255 - 2 ^ b)

/-- A call of one of the two functions that change a pulse code. -/
inductive pulsecode_call where
  | setlength (new_length : Nat)
  | setbit (bitnum value : Nat)
deriving DecidableEq

/-- The code after the call; `none`: the call has no defined result. -/
def pulsecode_call.run (c : arcp_pulsecode_t) : pulsecode_call → Option arcp_pulsecode_t
  | .setlength new_length => some (arcp_pulsecode_setlength c new_length).2
  | .setbit bitnum value => (arcp_pulsecode_setbit c bitnum value).map (fun r => r.2)

/-- The code after the calls, made one after the other. -/
def pulsecode_calls : List pulsecode_call → arcp_pulsecode_t → Option arcp_pulsecode_t
  | [], c => some c
  | call :: rest, c => (call.run c).bind (pulsecode_calls rest)

/-- The invariant of the pulse codes the library builds. -/
def pulsecode_inv (c : arcp_pulsecode_t) : Prop :=
  c.code_length ≤ c.size ∧ c.size ≤ 512 ∧ pulsecode_sized c

instance (c : arcp_pulsecode_t) : Decidable (pulsecode_inv c) := by
  unfold pulsecode_inv
  infer_instance

/-- What `recv` will find once the bytes in front of `rest` have been taken from the first
segment. -/
def rx_after (rest : List Nat) (more : List recv_event) : List recv_event :=
  if rest = [] then more else .data rest :: more

/-- The relation `delivers rx bytes rx2`: read one byte at a time, a socket whose `recv`
will find `rx` hands over the octets `bytes`, however they are cut into segments and
whatever the number of interrupted calls in between, and `recv` will find `rx2` after
that. -/
inductive delivers : List recv_event → List Nat → List recv_event → Prop where
  | done (rx : List recv_event) : delivers rx [] rx
  | byte (b : Nat) (tl : List Nat) (more : List recv_event) (bs : List Nat)
      (rx2 : List recv_event) :
      delivers (rx_after tl more) bs rx2 → delivers (.data (b :: tl) :: more) (b % 256 :: bs) rx2
  | interrupted (more : List recv_event) (b : Nat) (bs : List Nat) (rx2 : List recv_event) :
      delivers more (b :: bs) rx2 → delivers (.error .EINTR :: more) (b :: bs) rx2

/-- The frame of a response without payload: magic number, length 15, exchange id, type 1,
version, response id and information code. -/
def simple_response_frame (xid version : Nat) (id info_code : Int) : List Nat :=
  [0x41, 0x52, 0x43, 0x50, 0, 15] ++ be16 xid ++ [1] ++ be16 version
    ++ be16 (uint16_of id) ++ be16 (uint16_of info_code)


/-! ### Status objects, stream primitives and the limits of decoded messages -/

/-- A status of an STX2 with one RF card that has no output yet. -/
def example_one_card_stat : arcp_stx2stat_t :=
  (arcp_stx2stat_set_n_rf_cards arcp_stx2stat_new 1).2

/-- The frame of a `SET_PULSE_SEQ` command that declares `len` entries (below 65536),
exchange id 0, version 1.1, followed by the bytes `entries`; `msg_length` holds the size of
the frame. -/
def pulse_seq_frame (len : Nat) (entries : List Nat) : List Nat :=
  [0x41, 0x52, 0x43, 0x50, (15 + entries.length) / 256, (15 + entries.length) % 256,
   0, 0, 0, 1, 1, 0x01, 0x02, len / 256, len % 256] ++ entries

/-- A fresh stream that `arcp_stream_setsize` has sized to two bytes, which `malloc`
returned holding zeros. -/
def example_sized_stream : arcp_stream_t :=
  (arcp_stream_setsize (fun _ => 0) arcp_stream_new 2).2

/-- The bounds test and the sticky error of a typed operation of width `w` on the stream
`s` of `s.size` bytes, which returns `ret` and leaves the stream `s2`: with the error flag
clear and `head + w <= size` it returns 0, advances the head by `w` and leaves the flag
clear; with `head + w > size` it returns `BADMSG` and sets the flag; with the flag set it
returns `BADMSG`, keeps the flag and changes neither the head nor the data.  The size and
the end pointer never change. -/
def stream_op_bounds (w : Nat) (s : arcp_stream_t) (ret : Int) (s2 : arcp_stream_t) : Prop :=
  (s.err = 0 ∧ s.head + w ≤ s.size → ret = 0 ∧ s2.head = s.head + w ∧ s2.err = 0) ∧
  (s.size < s.head + w →
    ret = ARCP_ERROR_BADMSG ∧ s2.err ≠ 0 ∧ s2.head = s.head ∧ s2.data = s.data) ∧
  (s.err ≠ 0 →
    ret = ARCP_ERROR_BADMSG ∧ s2.err ≠ 0 ∧ s2.head = s.head ∧ s2.data = s.data) ∧
  s2.size = s.size ∧ s2.end_ = s.end_

/-- A pulse code within the limits: `NULL`, or of a length from 1 to 512 bits. -/
def pulsecode_limits (code : Option arcp_pulsecode_t) : Prop :=
  match code with
  | none => True
  | some c => 1 ≤ c.code_length ∧ c.code_length ≤ ARCP_MAX_PULSECODE_SIZE

instance (code : Option arcp_pulsecode_t) : Decidable (pulsecode_limits code) := by
  unfold pulsecode_limits
  split <;> infer_instance

/-- The counts of a unit seen as a combiner index its arrays `temperature` (4 slots) and
`output` (6 slots) within range. -/
def extunit_limits (x : arcp_stx2unit_union_t) : Prop :=
  x.comb_v.n_temperatures ≤ ARCP_STX2_EXTCOMB_MAX_N_TEMPERATURES ∧
  x.comb_v.n_outputs ≤ ARCP_STX2_EXTCOMB_MAX_N_OUTPUTS

instance (x : arcp_stx2unit_union_t) : Decidable (extunit_limits x) := by
  unfold extunit_limits
  infer_instance

/-- The counts of an STX2 status are within the domain maxima, and the arrays of the RF
cards and of the units hold as many elements as their counts say. -/
def stx2stat_limits (s : arcp_stx2stat_t) : Prop :=
  s.n_chassis_fans ≤ ARCP_MAX_N_CHASSIS_FANS ∧
  s.n_rf_cards ≤ ARCP_MAX_N_RF_CARDS ∧ s.rf_card_stat.length = s.n_rf_cards ∧
  (∀ c ∈ s.rf_card_stat, c.n_rf_outputs ≤ ARCP_MAX_N_RF_CARD_OUTPUT) ∧
  s.n_units ≤ ARCP_STX2_MAX_N_STX2_UNITS ∧ s.unit_stat.length = s.n_units ∧
  ∀ x ∈ s.unit_stat, extunit_limits x

instance (s : arcp_stx2stat_t) : Decidable (stx2stat_limits s) := by
  unfold stx2stat_limits
  infer_instance

/-- The counts of a BSM status index its arrays `fan_speed` and `heatsink_temp` (8 slots
each) within range. -/
def bsmstat_limits (b : arcp_bsmstat_t) : Prop :=
  b.n_fans ≤ ARCP_MAX_N_CHASSIS_FANS ∧ b.n_heatsink_temps ≤ ARCP_BSM_MAX_N_TEMPERATURES

instance (b : arcp_bsmstat_t) : Decidable (bsmstat_limits b) := by
  unfold bsmstat_limits
  infer_instance

/-- Every count of the message is within its domain maximum. -/
def msg_limits (m : arcp_msg_t) : Prop :=
  pulsecode_limits m.pulse_param.code ∧ m.seq.length ≤ ARCP_MAX_PULSE_SEQ_LENGTH ∧
  m.n_phases ≤ ARCP_BSM_MAX_N_PHASES ∧ stx2stat_limits m.sysstat.stx2 ∧
  bsmstat_limits m.sysstat.bsm

instance (m : arcp_msg_t) : Decidable (msg_limits m) := by
  unfold msg_limits
  infer_instance

/-- The frame of a `SYSSTAT` response of an STX2 with one fan, one RF card with one output
and one unit, a combiner with one temperature and one output; exchange id 9, version 1.1.
The byte of `chassis_datasize` is `cds`. -/
def example_stx2_frame (cds : Nat) : List Nat :=
  [0x41, 0x52, 0x43, 0x50, 0, 50, 0, 9, 1, 1, 1, 0x00, 0x10, 0, 0, 1, 1,
   0, 1, cds, 0xbb, 0x80, 0x2e, 0xe0, 0xfb, 1, 0x0b, 0xb8, 0, 1, 1,
   0xbb, 0x1c, 0, 41, 1, 0x03, 0x84, 0xff, 0xec,
   1, 3, 1, 1, 55, 1, 0x03, 0xb6, 0xff, 0xee]

/-- The STX2 status that `example_stx2_frame` carries, as the decoder builds it. -/
def example_stx2_decoded : arcp_stx2stat_t :=
  { status_code := 1, chassis_datasize := 9, rail_supply := 48000, rail_aux := 12000,
    ambient_temp := -5, n_chassis_fans := 1, fan_speed := [3000], card_map := 1,
    n_rf_cards := 1, rf_card_stat := [⟨47900, 41, 1, [⟨900, -20⟩]⟩], n_units := 1,
    unit_stat := [.comb ⟨3, 1, 1, [55, 0, 0, 0], 1,
      [⟨950, -18⟩, ⟨0, 0⟩, ⟨0, 0⟩, ⟨0, 0⟩, ⟨0, 0⟩, ⟨0, 0⟩]⟩] }

/-- The RF card `b` has the scalar fields of `a` and its outputs, up to the count. -/
def rf_card_same (a b : arcp_rf_card_stat_t) : Prop :=
  b.rail_supply = a.rail_supply ∧ b.heatsink_temp = a.heatsink_temp ∧
  b.n_rf_outputs = a.n_rf_outputs ∧
  ∀ j, j < a.n_rf_outputs →
    b.output_stat.getD j arcp_rf_card_output_stat_t.zero
      = a.output_stat.getD j arcp_rf_card_output_stat_t.zero

/-- The unit `b` has the flags and the type of `a` and, for a combiner, its counts, its
temperatures and its outputs, up to the counts. -/
def stx2unit_same (a b : arcp_stx2unit_union_t) : Prop :=
  b.unit_v = a.unit_v ∧
  (a.unit_v.type = ARCP_STX2_UNIT_EXT_COMBINER_SPLITTER →
    b.comb_v.n_temperatures = a.comb_v.n_temperatures ∧
    (∀ j, j < a.comb_v.n_temperatures →
      b.comb_v.temperature.getD j 0 = a.comb_v.temperature.getD j 0) ∧
    b.comb_v.n_outputs = a.comb_v.n_outputs ∧
    ∀ j, j < a.comb_v.n_outputs →
      b.comb_v.output.getD j arcp_rf_card_output_stat_t.zero
        = a.comb_v.output.getD j arcp_rf_card_output_stat_t.zero)

/-- The STX2 status `b` equals `a` in every scalar field and in every element of an array
that a count announces. -/
def stx2stat_same (a b : arcp_stx2stat_t) : Prop :=
  b.status_code = a.status_code ∧ b.chassis_datasize = a.chassis_datasize ∧
  b.rail_supply = a.rail_supply ∧ b.rail_aux = a.rail_aux ∧
  b.ambient_temp = a.ambient_temp ∧ b.n_chassis_fans = a.n_chassis_fans ∧
  (∀ i, i < a.n_chassis_fans → b.fan_speed.getD i 0 = a.fan_speed.getD i 0) ∧
  b.card_map = a.card_map ∧ b.n_rf_cards = a.n_rf_cards ∧
  (∀ i, i < a.n_rf_cards →
    rf_card_same (a.rf_card_stat.getD i arcp_rf_card_stat_t.zero)
      (b.rf_card_stat.getD i arcp_rf_card_stat_t.zero)) ∧
  b.n_units = a.n_units ∧
  ∀ i, i < a.n_units →
    stx2unit_same (a.unit_stat.getD i arcp_stx2unit_union_t.zero)
      (b.unit_stat.getD i arcp_stx2unit_union_t.zero)

/-- The BSM status `b` equals `a` in every scalar field and in every element of an array
that a count announces. -/
def bsmstat_same (a b : arcp_bsmstat_t) : Prop :=
  b.status_code = a.status_code ∧ b.rail_supply = a.rail_supply ∧ b.rail_aux = a.rail_aux ∧
  b.ambient_temp = a.ambient_temp ∧ b.channel_map = a.channel_map ∧ b.n_fans = a.n_fans ∧
  (∀ i, i < a.n_fans → b.fan_speed.getD i 0 = a.fan_speed.getD i 0) ∧
  b.n_heatsink_temps = a.n_heatsink_temps ∧
  ∀ i, i < a.n_heatsink_temps → b.heatsink_temp.getD i 0 = a.heatsink_temp.getD i 0

/-- Scenario B: the frame of the `SYSSTAT` response of a BSM, exchange id 0, version 1.1. -/
def example_bsm_frame : List Nat :=
  [0x41, 0x52, 0x43, 0x50, 0, 31, 0, 0, 1, 1, 1, 0x00, 0x10, 0, 0, 2, 0, 0x00, 0x00,
   0x13, 0x88, 0x0B, 0xB8, 0x19, 0x00, 0x0F, 1, 0x05, 0xDC, 1, 0x1E]

/-- Scenario B: the message whose bytes are `example_bsm_frame`. -/
def example_bsm_sysstat : arcp_msg_t :=
  .resp_sysstat ⟨ARCP_MAGIC_NUMBER, 31, 0, ARCP_MSG_RESPONSE, 0x0101⟩ ARCP_RESP_SYSSTAT 0
    ⟨ARCP_MODULE_BSM, 0, .bsm ⟨0, 5000, 3000, 25, 0x000F, 1, [1500, 0, 0, 0, 0, 0, 0, 0], 1,
      [30, 0, 0, 0, 0, 0, 0, 0]⟩⟩

/-- A `SET_PHASE` command for slot 3 with two entries. -/
def example_phase_cmd : arcp_msg_t :=
  .cmd_set_phase new_cmd_header ARCP_CMD_SET_PHASE 3 2 [⟨1, 0x3f800000⟩, ⟨2, 0xbf000000⟩]

end ARCP

namespace ARCP

/-! ## Lemmas: reading a message -/


theorem stream_decode_zero_some {fuel : Nat} {u : decode_locals} {stream s : arcp_stream_t}
    {msg : Option arcp_msg_t}
    (h : arcp_stream_decode fuel u stream = some (0, s, msg)) : ∃ m, msg = some m := by
  unfold arcp_stream_decode at h
  split at h
  · simp at h
  · dsimp only at h
    split at h
    · simp at h
    · simp only [Option.map_eq_some'] at h
      obtain ⟨r, _, hr⟩ := h
      unfold decode_result at hr
      split at hr
      · rename_i hlt
        simp only [Prod.mk.injEq] at hr
        omega
      · simp only [Prod.mk.injEq] at hr
        exact ⟨r.2.2, hr.2.2.symm⟩

theorem ascii_or_arcp_read_version {fuel : Nat} {u : decode_locals} {mem : Nat → Nat}
    {h h' : arcp_handle_t} {wm wa : Bool} {res : Int} {msg : Option arcp_msg_t}
    {a : Option (List Nat)}
    (hr : arcp_ascii_or_arcp_read fuel u mem h wm wa = some (res, msg, a, h')) :
    h'.connection_arcp_version = h.connection_arcp_version := by
  unfold arcp_ascii_or_arcp_read at hr
  split at hr
  · simp at hr
  · split at hr
    · simp only [Option.some.injEq, Prod.mk.injEq] at hr
      rw [← hr.2.2.2]
    · split at hr
      · simp only [Option.some.injEq, Prod.mk.injEq] at hr
        rw [← hr.2.2.2]
      · split at hr
        · simp only [Option.some.injEq, Prod.mk.injEq] at hr
          rw [← hr.2.2.2]
        · split at hr
          · simp at hr
          · simp only [Option.some.injEq, Prod.mk.injEq] at hr
            rw [← hr.2.2.2]

theorem ascii_or_arcp_read_zero_some {fuel : Nat} {u : decode_locals} {mem : Nat → Nat}
    {h h' : arcp_handle_t} {msg : Option arcp_msg_t} {a : Option (List Nat)}
    (hr : arcp_ascii_or_arcp_read fuel u mem h true false = some (0, msg, a, h')) :
    ∃ m, msg = some m := by
  unfold arcp_ascii_or_arcp_read at hr
  split at hr
  · simp at hr
  · split at hr
    · rename_i hne
      simp only [Option.some.injEq, Prod.mk.injEq] at hr
      exact absurd hr.1 hne
    · split at hr
      · rename_i hc
        simp at hc
      · split at hr
        · simp at hr
        · split at hr
          · simp at hr
          · rename_i res s m hd
            simp only [Option.some.injEq, Prod.mk.injEq] at hr
            obtain ⟨h0, hm, _, _⟩ := hr
            subst h0
            obtain ⟨m', hm'⟩ := stream_decode_zero_some hd
            exact ⟨m', by rw [← hm, hm']; simp⟩

theorem msg_read_version {fuel : Nat} {u : decode_locals} {mem : Nat → Nat}
    {h h' : arcp_handle_t} {res : Int} {msg : Option arcp_msg_t}
    (hr : arcp_msg_read fuel u mem h = some (res, msg, h')) :
    (res = 0 → ∃ m, msg = some m ∧ h'.connection_arcp_version =
        min h.connection_arcp_version m.header.protocol_version) ∧
    (res ≠ 0 → h'.connection_arcp_version = h.connection_arcp_version) := by
  unfold arcp_msg_read at hr
  split at hr
  · simp at hr
  · rename_i result msg_read a handle hread
    have hv := ascii_or_arcp_read_version hread
    split at hr
    · rename_i h0
      subst h0
      obtain ⟨m, hm⟩ := ascii_or_arcp_read_zero_some hread
      subst hm
      simp only at hr
      split at hr
      · rename_i hlt
        simp only [Option.some.injEq, Prod.mk.injEq] at hr
        obtain ⟨h1, h2, h3⟩ := hr
        subst h1 h2 h3
        refine ⟨fun _ => ⟨m, rfl, ?_⟩, fun hne => absurd rfl hne⟩
        simp only
        rw [hv] at hlt
        omega
      · rename_i hlt
        simp only [Option.some.injEq, Prod.mk.injEq] at hr
        obtain ⟨h1, h2, h3⟩ := hr
        subst h1 h2 h3
        refine ⟨fun _ => ⟨m, rfl, ?_⟩, fun hne => absurd rfl hne⟩
        rw [hv] at hlt ⊢
        omega
    · rename_i hne
      simp only [Option.some.injEq, Prod.mk.injEq] at hr
      obtain ⟨h1, h2, h3⟩ := hr
      subst h1 h2 h3
      exact ⟨fun h0 => absurd h0 hne, fun _ => hv⟩

theorem msg_read_version_le {fuel : Nat} {u : decode_locals} {mem : Nat → Nat}
    {h : arcp_handle_t} {r : Int × Option arcp_msg_t × arcp_handle_t}
    (hr : arcp_msg_read fuel u mem h = some r) :
    r.2.2.connection_arcp_version ≤ h.connection_arcp_version := by
  obtain ⟨res, msg, h'⟩ := r
  have := msg_read_version hr
  by_cases h0 : res = 0
  · obtain ⟨m, _, hm⟩ := this.1 h0
    simp only [hm]
    omega
  · simp only [this.2 h0]
    omega

theorem msg_read_seq_version_le (reads : List (Nat × decode_locals × (Nat → Nat))) :
    ∀ (h h' : arcp_handle_t), msg_read_seq reads h = some h' →
      h'.connection_arcp_version ≤ h.connection_arcp_version := by
  induction reads with
  | nil =>
    intro h h' hs
    simp only [msg_read_seq, Option.some.injEq] at hs
    subst hs
    omega
  | cons x rest ih =>
    intro h h' hs
    obtain ⟨fuel, u, mem⟩ := x
    simp only [msg_read_seq] at hs
    split at hs
    · simp at hs
    · rename_i r hr
      have h1 := msg_read_version_le hr
      have h2 := ih _ _ hs
      omega



/-! ## Lemmas: the framer -/


theorem shift_or_mod (m b : Nat) (hb : b < 256) :
    (((m <<< 8) % 4294967296) ||| b) % 256 = b := by
  apply Nat.eq_of_testBit_eq
  intro i
  have h1 : (256 : Nat) = 2 ^ 8 := by norm_num
  have h2 : (4294967296 : Nat) = 2 ^ 32 := by norm_num
  rw [h1, h2]
  simp only [Nat.testBit_mod_two_pow, Nat.testBit_or, Nat.testBit_shiftLeft]
  by_cases hi : i < 8
  · have : ¬ i ≥ 8 := by omega
    simp [hi, this]
  · have hlt : b < 2 ^ i :=
      lt_of_lt_of_le (by omega) (Nat.pow_le_pow_right (by norm_num) (Nat.le_of_not_lt hi))
    simp [hi, Nat.testBit_lt_two_pow hlt]

theorem socket_read_bytes_lt (fd : arcp_socket_t) (len : Nat) :
    ∀ b ∈ (arcp_socket_read fd len).2.1, b < 256 := by
  unfold arcp_socket_read
  split
  · simp
  · simp
  · simp
  · split
    · intro b hb
      simp only [List.mem_map] at hb
      obtain ⟨a, _, rfl⟩ := hb
      omega
    · intro b hb
      simp only [List.mem_map] at hb
      obtain ⟨a, _, rfl⟩ := hb
      omega

theorem read_from_socket_bytes_lt :
    ∀ (fuel : Nat) (fd : arcp_socket_t) (buf : List Nat) (len : Nat)
      (r : Int × List Nat × arcp_socket_t),
      (∀ b ∈ buf, b < 256) → read_from_socket fuel fd buf len = some r →
      ∀ b ∈ r.2.1, b < 256 := by
  intro fuel
  induction fuel with
  | zero => intro fd buf len r _ h; simp [read_from_socket] at h
  | succ n ih =>
    intro fd buf len r hbuf h
    rw [read_from_socket] at h
    split at h
    · dsimp only at h
      split at h
      · simp only [Option.some.injEq] at h
        subst h
        exact hbuf
      · split at h
        · simp only [Option.some.injEq] at h
          subst h
          exact hbuf
        · refine ih _ _ _ _ ?_ h
          split
          · intro b hb
            rcases List.mem_append.mp hb with h1 | h1
            · exact hbuf b h1
            · exact socket_read_bytes_lt _ _ b h1
          · exact hbuf
    · simp only [Option.some.injEq] at h
      subst h
      exact hbuf

/-- The last byte read is the low byte of the shift register. -/
theorem sync_loop_low_byte (flags : Nat) :
    ∀ (fuel : Nat) (st st' : sync_state) (i : Int),
      st.magic_num % 256 = st.byte → sync_loop flags fuel st = some (i, st') →
      st'.magic_num % 256 = st'.byte := by
  intro fuel
  induction fuel with
  | zero => intro st st' i _ h; simp [sync_loop] at h
  | succ n ih =>
    intro st st' i hinv h
    rw [sync_loop] at h
    split at h
    · split at h
      · simp at h
      · rename_i r hr
        split at h
        · simp only [Option.some.injEq, Prod.mk.injEq] at h
          rw [← h.2]
          exact hinv
        · refine ih _ _ _ ?_ h
          simp only
          apply shift_or_mod
          have hb := read_from_socket_bytes_lt _ _ _ _ _ (by simp) hr
          have hst : st.byte < 256 := by omega
          cases hl : r.2.1 with
          | nil => simpa using hst
          | cons a t =>
            have := hb a (by rw [hl]; simp)
            simpa using this
    · simp only [Option.some.injEq, Prod.mk.injEq] at h
      rw [← h.2]
      exact hinv




/-! ## Lemmas: integer conversions and the stream buffer -/


theorem uint8_of_nat (n : Nat) : uint8_of (n : Int) = n % 256 := by
  unfold uint8_of; omega
theorem uint16_of_nat (n : Nat) : uint16_of (n : Int) = n % 65536 := by
  unfold uint16_of; omega
theorem uint32_of_nat (n : Nat) : uint32_of (n : Int) = n % 4294967296 := by
  unfold uint32_of; omega
theorem uint8_of_int8_of (v : Int) : uint8_of (int8_of v) = uint8_of v := by
  unfold uint8_of int8_of; omega
theorem uint16_of_int16_of (v : Int) : uint16_of (int16_of v) = uint16_of v := by
  unfold uint16_of int16_of; omega
theorem uint32_of_int32_of (v : Int) : uint32_of (int32_of v) = uint32_of v := by
  unfold uint32_of int32_of; omega
theorem int8_of_uint8_of (v : Int) : int8_of (uint8_of v : Nat) = int8_of v := by
  unfold uint8_of int8_of; omega
theorem int16_of_uint16_of (v : Int) : int16_of (uint16_of v : Nat) = int16_of v := by
  unfold uint16_of int16_of; omega
theorem int32_of_uint32_of (v : Int) : int32_of (uint32_of v : Nat) = int32_of v := by
  unfold uint32_of int32_of; omega
theorem int8_of_id (v : Int) (h1 : -128 ≤ v) (h2 : v < 128) : int8_of v = v := by
  unfold int8_of; omega
theorem int16_of_id (v : Int) (h1 : -32768 ≤ v) (h2 : v < 32768) : int16_of v = v := by
  unfold int16_of; omega
theorem int32_of_id (v : Int) (h1 : -2147483648 ≤ v) (h2 : v < 2147483648) : int32_of v = v := by
  unfold int32_of; omega
theorem uint8_of_lt (v : Int) : uint8_of v < 256 := by unfold uint8_of; omega
theorem uint16_of_lt (v : Int) : uint16_of v < 65536 := by unfold uint16_of; omega
theorem uint32_of_lt (v : Int) : uint32_of v < 4294967296 := by unfold uint32_of; omega

theorem stream_of_bytes_eq (bs : List Nat) : stream_of_bytes bs = strm [] bs := by
  simp [stream_of_bytes, strm]

@[simp] theorem strm_err (w u : List Nat) : (strm w u).err = 0 := rfl
@[simp] theorem strm_data (w u : List Nat) : (strm w u).data = w ++ u := rfl
@[simp] theorem strm_head (w u : List Nat) : (strm w u).head = w.length := rfl
@[simp] theorem strm_size (w u : List Nat) : (strm w u).size = w.length + u.length := rfl

theorem strm_snoc_eq (w : List Nat) (bs u : List Nat) (s : arcp_stream_t)
    (h1 : s.size = w.length + bs.length + u.length) (h2 : s.data = w ++ bs ++ u)
    (h3 : s.head = w.length + bs.length)
    (h4 : s.end_ = ((w.length + bs.length + u.length : Nat) : Int) - 1) (h5 : s.err = 0) :
    s = strm (w ++ bs) u := by
  cases s
  simp only [strm, arcp_stream_t.mk.injEq, List.length_append] at *
  exact ⟨h1, h2, h3, h4, h5⟩

theorem getD_append_len (w l : List Nat) (k : Nat) :
    (w ++ l).getD (w.length + k) 0 = l.getD k 0 := by
  simp [List.getD_eq_getElem?_getD, List.getElem?_append_right]

theorem getD_append_len0 (w l : List Nat) : (w ++ l).getD w.length 0 = l.getD 0 0 := by
  simpa using getD_append_len w l 0

/-! ### Reading from a stream that holds the bytes -/

theorem get_int8_strm (w u : List Nat) (b : Nat) (d : Int) :
    arcp_stream_get_int8 (strm w (b :: u)) d = (0, strm (w ++ [b]) u, int8_of b) := by
  unfold arcp_stream_get_int8
  have hc : ¬ ((strm w (b :: u)).err ≠ 0 ∨
      ((strm w (b :: u)).head : Int) + 1 - 1 > (strm w (b :: u)).end_) := by
    simp only [strm, List.length_cons]; omega
  rw [if_neg hc]
  refine Prod.ext rfl (Prod.ext ?_ ?_)
  · apply strm_snoc_eq <;> simp [strm] <;> omega
  · simp only [strm, getD_append_len0]
    rfl

theorem get_uint8_strm (w u : List Nat) (b : Nat) (d : Nat) :
    arcp_stream_get_uint8 (strm w (b :: u)) d = (0, strm (w ++ [b]) u, b % 256) := by
  simp only [arcp_stream_get_uint8, get_int8_strm, uint8_of_int8_of, uint8_of_nat]

theorem get_int16_strm (w u : List Nat) (b0 b1 : Nat) (d : Int) :
    arcp_stream_get_int16 (strm w (b0 :: b1 :: u)) d =
      (0, strm (w ++ [b0, b1]) u, int16_of ((b0 * 256 + b1 : Nat) : Int)) := by
  unfold arcp_stream_get_int16
  have hc : ¬ ((strm w (b0 :: b1 :: u)).err ≠ 0 ∨
      ((strm w (b0 :: b1 :: u)).head : Int) + 2 - 1 > (strm w (b0 :: b1 :: u)).end_) := by
    simp only [strm, List.length_cons]; omega
  rw [if_neg hc]
  refine Prod.ext rfl (Prod.ext ?_ ?_)
  · apply strm_snoc_eq <;> simp [strm] <;> omega
  · simp only [strm, getD_append_len0, getD_append_len]
    rfl

theorem get_uint16_strm (w u : List Nat) (b0 b1 : Nat) (d : Nat) :
    arcp_stream_get_uint16 (strm w (b0 :: b1 :: u)) d =
      (0, strm (w ++ [b0, b1]) u, (b0 * 256 + b1) % 65536) := by
  simp only [arcp_stream_get_uint16, get_int16_strm, uint16_of_int16_of, uint16_of_nat]

theorem get_int32_strm (w u : List Nat) (b0 b1 b2 b3 : Nat) (d : Int) :
    arcp_stream_get_int32 (strm w (b0 :: b1 :: b2 :: b3 :: u)) d =
      (0, strm (w ++ [b0, b1, b2, b3]) u,
        int32_of ((((b0 * 256 + b1) * 256 + b2) * 256 + b3 : Nat) : Int)) := by
  unfold arcp_stream_get_int32
  have hc : ¬ ((strm w (b0 :: b1 :: b2 :: b3 :: u)).err ≠ 0 ∨
      ((strm w (b0 :: b1 :: b2 :: b3 :: u)).head : Int) + 4 - 1
        > (strm w (b0 :: b1 :: b2 :: b3 :: u)).end_) := by
    simp only [strm, List.length_cons]; omega
  rw [if_neg hc]
  refine Prod.ext rfl (Prod.ext ?_ ?_)
  · apply strm_snoc_eq <;> simp [strm] <;> omega
  · simp only [strm, getD_append_len0, getD_append_len]
    rfl

theorem get_uint32_strm (w u : List Nat) (b0 b1 b2 b3 : Nat) (d : Nat) :
    arcp_stream_get_uint32 (strm w (b0 :: b1 :: b2 :: b3 :: u)) d =
      (0, strm (w ++ [b0, b1, b2, b3]) u,
        (((b0 * 256 + b1) * 256 + b2) * 256 + b3) % 4294967296) := by
  simp only [arcp_stream_get_uint32, get_int32_strm, uint32_of_int32_of, uint32_of_nat]

theorem get_float_strm (w u : List Nat) (b0 b1 b2 b3 : Nat) (d : Nat) :
    arcp_stream_get_float (strm w (b0 :: b1 :: b2 :: b3 :: u)) d =
      (0, strm (w ++ [b0, b1, b2, b3]) u,
        (((b0 * 256 + b1) * 256 + b2) * 256 + b3) % 4294967296) := by
  simp [arcp_stream_get_float, get_uint32_strm]




@[simp] theorem for_loop_zero {σ : Type} (body : Nat → σ → σ) (s : σ) : for_loop 0 body s = s := rfl

theorem for_loop_succ {σ : Type} (n : Nat) (body : Nat → σ → σ) (s : σ) :
    for_loop (n + 1) body s = body n (for_loop n body s) := by
  simp [for_loop, List.range_succ]

/-! ### Writing to a stream -/

theorem store_int8_err (s : arcp_stream_t) (d : Int) (h : s.err ≠ 0) :
    (arcp_stream_store_int8 s d).2.err ≠ 0 := by
  simp [arcp_stream_store_int8, h]

theorem store_int16_err (s : arcp_stream_t) (d : Int) (h : s.err ≠ 0) :
    (arcp_stream_store_int16 s d).2.err ≠ 0 := by
  simp [arcp_stream_store_int16, h]

theorem store_int32_err (s : arcp_stream_t) (d : Int) (h : s.err ≠ 0) :
    (arcp_stream_store_int32 s d).2.err ≠ 0 := by
  simp [arcp_stream_store_int32, h]

theorem store_int8_strm (w u : List Nat) (p : Nat) (d : Int) :
    arcp_stream_store_int8 (strm w (p :: u)) d = (0, strm (w ++ [uint8_of d]) u) := by
  unfold arcp_stream_store_int8
  have hc : ¬ ((strm w (p :: u)).err ≠ 0 ∨
      ((strm w (p :: u)).head : Int) + 1 - 1 > (strm w (p :: u)).end_) := by
    simp only [strm, List.length_cons]; omega
  rw [if_neg hc]
  refine Prod.ext rfl ?_
  apply strm_snoc_eq <;> simp [strm] <;> omega

theorem store_int16_strm (w u : List Nat) (p0 p1 : Nat) (d : Int) :
    arcp_stream_store_int16 (strm w (p0 :: p1 :: u)) d =
      (0, strm (w ++ be16 (uint16_of d)) u) := by
  unfold arcp_stream_store_int16
  have hc : ¬ ((strm w (p0 :: p1 :: u)).err ≠ 0 ∨
      ((strm w (p0 :: p1 :: u)).head : Int) + 2 - 1 > (strm w (p0 :: p1 :: u)).end_) := by
    simp only [strm, List.length_cons]; omega
  rw [if_neg hc]
  refine Prod.ext rfl ?_
  apply strm_snoc_eq <;> simp [strm, be16] <;> omega

theorem store_int32_strm (w u : List Nat) (p0 p1 p2 p3 : Nat) (d : Int) :
    arcp_stream_store_int32 (strm w (p0 :: p1 :: p2 :: p3 :: u)) d =
      (0, strm (w ++ be32 (uint32_of d)) u) := by
  unfold arcp_stream_store_int32
  have hc : ¬ ((strm w (p0 :: p1 :: p2 :: p3 :: u)).err ≠ 0 ∨
      ((strm w (p0 :: p1 :: p2 :: p3 :: u)).head : Int) + 4 - 1
        > (strm w (p0 :: p1 :: p2 :: p3 :: u)).end_) := by
    simp only [strm, List.length_cons]; omega
  rw [if_neg hc]
  refine Prod.ext rfl ?_
  apply strm_snoc_eq <;> simp [strm, be32] <;> omega

theorem store_int8_short (w : List Nat) (d : Int) :
    (arcp_stream_store_int8 (strm w []) d).2.err ≠ 0 := by
  unfold arcp_stream_store_int8
  have hc : ((strm w []).err ≠ 0 ∨
      ((strm w []).head : Int) + 1 - 1 > (strm w []).end_) := by
    simp only [strm, List.length_nil]; omega
  rw [if_pos hc]; simp

theorem store_int16_short (w u : List Nat) (d : Int) (h : u.length < 2) :
    (arcp_stream_store_int16 (strm w u) d).2.err ≠ 0 := by
  unfold arcp_stream_store_int16
  have hc : ((strm w u).err ≠ 0 ∨
      ((strm w u).head : Int) + 2 - 1 > (strm w u).end_) := by
    simp only [strm]; omega
  rw [if_pos hc]; simp

theorem store_int32_short (w u : List Nat) (d : Int) (h : u.length < 4) :
    (arcp_stream_store_int32 (strm w u) d).2.err ≠ 0 := by
  unfold arcp_stream_store_int32
  have hc : ((strm w u).err ≠ 0 ∨
      ((strm w u).head : Int) + 4 - 1 > (strm w u).end_) := by
    simp only [strm]; omega
  rw [if_pos hc]; simp

theorem Writes.nil : Writes (fun s => s) [] := by
  refine ⟨fun s h => h, ?_, ?_⟩
  · intro w p u hp
    have : p = [] := List.length_eq_zero.mp (by simpa using hp)
    subst this
    simp
  · intro w u h
    simp at h

theorem Writes.comp {f g : arcp_stream_t → arcp_stream_t} {a b : List Nat}
    (hf : Writes f a) (hg : Writes g b) : Writes (fun s => g (f s)) (a ++ b) := by
  refine ⟨fun s h => hg.1 _ (hf.1 s h), ?_, ?_⟩
  · intro w p u hp
    have h1 : p = p.take a.length ++ p.drop a.length := (List.take_append_drop _ _).symm
    have hl1 : (p.take a.length).length = a.length := by
      simp only [List.length_take, List.length_append] at hp ⊢; omega
    have hl2 : (p.drop a.length).length = b.length := by
      simp only [List.length_drop, List.length_append] at hp ⊢; omega
    show g (f (strm w (p ++ u))) = _
    rw [h1, List.append_assoc, hf.2.1 w _ _ hl1, hg.2.1 _ _ _ hl2, List.append_assoc]
  · intro w u h
    show (g (f (strm w u))).err ≠ 0
    by_cases hu : u.length < a.length
    · exact hg.1 _ (hf.2.2 w u hu)
    · have h1 : u = u.take a.length ++ u.drop a.length := (List.take_append_drop _ _).symm
      have hl1 : (u.take a.length).length = a.length := by
        simp only [List.length_take]; omega
      rw [h1, hf.2.1 w _ _ hl1]
      apply hg.2.2
      simp only [List.length_drop, List.length_append] at h ⊢; omega

theorem Writes.int8 (d : Int) : Writes (fun s => (arcp_stream_store_int8 s d).2) [uint8_of d] := by
  refine ⟨fun s h => store_int8_err s d h, ?_, ?_⟩
  · intro w p u hp
    match p, hp with
    | [p0], _ => simp [store_int8_strm]
  · intro w u h
    have : u = [] := List.length_eq_zero.mp (by simpa using h)
    subst this
    exact store_int8_short w d

theorem Writes.int16 (d : Int) :
    Writes (fun s => (arcp_stream_store_int16 s d).2) (be16 (uint16_of d)) := by
  refine ⟨fun s h => store_int16_err s d h, ?_, ?_⟩
  · intro w p u hp
    match p, hp with
    | [p0, p1], _ => simp [store_int16_strm]
  · intro w u h
    exact store_int16_short w u d (by simpa [be16] using h)

theorem Writes.int32 (d : Int) :
    Writes (fun s => (arcp_stream_store_int32 s d).2) (be32 (uint32_of d)) := by
  refine ⟨fun s h => store_int32_err s d h, ?_, ?_⟩
  · intro w p u hp
    match p, hp with
    | [p0, p1, p2, p3], _ => simp [store_int32_strm]
  · intro w u h
    exact store_int32_short w u d (by simpa [be32] using h)

theorem Writes.then_int8 {f : arcp_stream_t → arcp_stream_t} {a : List Nat} (d : Int)
    (hf : Writes f a) :
    Writes (fun s => (arcp_stream_store_int8 (f s) d).2) (a ++ [uint8_of d]) :=
  Writes.comp hf (Writes.int8 d)

theorem Writes.then_int16 {f : arcp_stream_t → arcp_stream_t} {a : List Nat} (d : Int)
    (hf : Writes f a) :
    Writes (fun s => (arcp_stream_store_int16 (f s) d).2) (a ++ be16 (uint16_of d)) :=
  Writes.comp hf (Writes.int16 d)

theorem Writes.then_int32 {f : arcp_stream_t → arcp_stream_t} {a : List Nat} (d : Int)
    (hf : Writes f a) :
    Writes (fun s => (arcp_stream_store_int32 (f s) d).2) (a ++ be32 (uint32_of d)) :=
  Writes.comp hf (Writes.int32 d)

theorem Writes.then_float {f : arcp_stream_t → arcp_stream_t} {a : List Nat} (d : Nat)
    (hf : Writes f a) :
    Writes (fun s => (arcp_stream_store_float (f s) d).2) (a ++ be32 (uint32_of d)) :=
  Writes.comp hf (Writes.int32 d)

theorem Writes.loop (n : Nat) (body : Nat → arcp_stream_t → arcp_stream_t)
    (bs : Nat → List Nat) (h : ∀ i, i < n → Writes (body i) (bs i)) :
    Writes (for_loop n body) ((List.range n).map bs).flatten := by
  induction n with
  | zero =>
    have : (for_loop 0 body) = fun s => s := by funext s; rfl
    rw [this]
    exact Writes.nil
  | succ k ih =>
    have e : for_loop (k + 1) body = fun s => body k (for_loop k body s) := by
      funext s; exact for_loop_succ k body s
    rw [e, List.range_succ, List.map_append, List.flatten_append]
    simp only [List.map_cons, List.map_nil, List.flatten_cons, List.flatten_nil,
      List.append_nil]
    exact Writes.comp (ih (fun i hi => h i (by omega))) (h k (by omega))

theorem Writes.then_loop {f : arcp_stream_t → arcp_stream_t} {a : List Nat} (n : Nat)
    (body : Nat → arcp_stream_t → arcp_stream_t) (bs : Nat → List Nat)
    (hf : Writes f a) (h : ∀ i, i < n → Writes (body i) (bs i)) :
    Writes (fun s => for_loop n body (f s)) (a ++ ((List.range n).map bs).flatten) :=
  Writes.comp hf (Writes.loop n body bs h)

theorem Writes.congr {f g : arcp_stream_t → arcp_stream_t} {a b : List Nat}
    (hf : Writes f a) (hfg : ∀ s, g s = f s) (hab : b = a) : Writes g b := by
  have : g = f := funext hfg
  rw [this, hab]; exact hf



/-! ## Lemmas: the encoder writes the wire bytes -/


theorem Writes.of_eq {f : arcp_stream_t → arcp_stream_t} {a b : List Nat}
    (hf : Writes f a) (hab : a = b) : Writes f b := hab ▸ hf

theorem store_output_stat_writes (output : List arcp_rf_card_output_stat_t) (j : Nat) :
    Writes (store_output_stat output j) (wire_output_stat output j) := by
  unfold store_output_stat
  exact Writes.of_eq (Writes.then_int16 _ (Writes.then_int16 _ Writes.nil))
    (by simp [wire_output_stat])

theorem store_pulse_param_writes (msg : arcp_msg_t) :
    Writes (fun s => store_pulse_param s msg)
      ([uint8_of msg.pulse_map_index] ++ [uint8_of msg.pulse_param.pulse_shape]
       ++ be16 (uint16_of msg.pulse_param.pulse_ampl)
       ++ be16 (uint16_of msg.pulse_param.pulse_options)
       ++ be32 (uint32_of msg.pulse_param.pulse_width_ns)
       ++ wire_pulsecode msg.pulse_param.code) := by
  unfold store_pulse_param wire_pulsecode
  dsimp only
  split_ifs
  · exact Writes.of_eq (Writes.then_loop _ _
      (fun i => [uint8_of (((msg.pulse_param.code.map arcp_pulsecode_getdata).getD []).getD i 0)])
      (Writes.then_int16 _ (Writes.then_int32 _ (Writes.then_int16 _ (Writes.then_int16 _
        (Writes.then_int8 _ (Writes.then_int8 _ Writes.nil))))))
      (fun i _ => Writes.int8 _)) (by simp)
  · exact Writes.of_eq (Writes.then_int16 _ (Writes.then_int32 _ (Writes.then_int16 _
      (Writes.then_int16 _ (Writes.then_int8 _ (Writes.then_int8 _ Writes.nil))))))
      (by simp)


theorem store_pulse_seq_writes (msg : arcp_msg_t) :
    Writes (fun s => (store_pulse_seq s msg).2)
      (if msg.seq.length > ARCP_MAX_PULSE_SEQ_LENGTH then []
       else be16 (uint16_of msg.seq.length)
         ++ ((List.range msg.seq.length).map (wire_pulseseq_entry msg.seq.seq)).flatten) := by
  unfold store_pulse_seq
  split_ifs
  · exact Writes.nil
  · exact Writes.of_eq (Writes.then_loop _ _ (wire_pulseseq_entry msg.seq.seq)
      (Writes.then_int16 _ Writes.nil)
      (fun i _ => Writes.of_eq (Writes.then_int8 _ (Writes.then_int8 _ Writes.nil))
        (by simp [wire_pulseseq_entry]))) (by simp)

theorem store_trig_param_writes (msg : arcp_msg_t) :
    Writes (fun s => store_trig_param s msg)
      ([uint8_of msg.trig_param.trigger_source] ++ [uint8_of msg.trig_param.ext_trigger_options]
       ++ be16 (uint16_of msg.trig_param.int_trigger_freq)
       ++ be16 (uint16_of msg.trig_param.pulse_predelay)) := by
  unfold store_trig_param
  exact Writes.of_eq (Writes.then_int16 _ (Writes.then_int16 _ (Writes.then_int8 _
    (Writes.then_int8 _ Writes.nil)))) (by simp)

theorem store_phase_writes (msg : arcp_msg_t) :
    Writes (fun s => (store_phase s msg).2)
      (if msg.n_phases > ARCP_BSM_MAX_N_PHASES then []
       else be16 (uint16_of msg.phase_slot) ++ be16 (uint16_of msg.n_phases)
         ++ ((List.range msg.n_phases).map (wire_phase_entry msg.phases)).flatten) := by
  unfold store_phase
  split_ifs
  · exact Writes.nil
  · exact Writes.of_eq (Writes.then_loop _ _ (wire_phase_entry msg.phases)
      (Writes.then_int16 _ (Writes.then_int16 _ Writes.nil))
      (fun i _ => Writes.of_eq (Writes.then_float _ (Writes.then_int16 _ Writes.nil))
        (by simp [wire_phase_entry]))) (by simp)

theorem store_arcp_cmd_snd (stream : arcp_stream_t) (msg : arcp_msg_t) :
    (store_arcp_cmd stream msg).2 =
      (store_arcp_cmd_switch (arcp_stream_store_int16 stream msg.id).2 msg).2 := by
  unfold store_arcp_cmd
  dsimp only
  split_ifs <;> rfl

theorem store_arcp_cmd_writes (msg : arcp_msg_t) :
    Writes (fun s => (store_arcp_cmd s msg).2) (wire_cmd msg) := by
  have e : (fun s => (store_arcp_cmd s msg).2) =
      fun s => (fun s => (store_arcp_cmd_switch s msg).2) ((arcp_stream_store_int16 s msg.id).2) := by
    funext s; exact store_arcp_cmd_snd s msg
  rw [e]
  unfold wire_cmd
  refine Writes.comp (f := fun s => (arcp_stream_store_int16 s msg.id).2)
    (g := fun s => (store_arcp_cmd_switch s msg).2) (Writes.int16 msg.id) ?_
  unfold store_arcp_cmd_switch
  split_ifs
  · exact Writes.int8 _
  · exact store_pulse_param_writes msg
  · have := store_pulse_seq_writes msg
    simpa [*] using this
  · have := store_pulse_seq_writes msg
    simpa [*] using this
  · exact Writes.int16 _
  · exact store_trig_param_writes msg
  · exact Writes.int8 _
  · have := store_phase_writes msg
    simpa [*] using this
  · have := store_phase_writes msg
    simpa [*] using this
  · exact Writes.nil


theorem store_rf_card_writes (rf_card_stat : List arcp_rf_card_stat_t) (i : Nat) :
    Writes (store_rf_card rf_card_stat i) (wire_rf_card rf_card_stat i) := by
  unfold store_rf_card
  exact Writes.of_eq (Writes.then_loop _ _
    (wire_output_stat (rf_card_stat.getD i arcp_rf_card_stat_t.zero).output_stat)
    (Writes.then_int8 _ (Writes.then_int16 _ (Writes.then_int16 _ Writes.nil)))
    (fun j _ => store_output_stat_writes _ j)) (by simp [wire_rf_card])

theorem store_stx2_unit_writes (unit_stat : List arcp_stx2unit_union_t) (i : Nat) :
    Writes (store_stx2_unit unit_stat i) (wire_stx2_unit unit_stat i) := by
  unfold store_stx2_unit wire_stx2_unit
  dsimp only
  split_ifs
  · exact Writes.of_eq (Writes.then_loop _ _
      (wire_output_stat (unit_stat.getD i arcp_stx2unit_union_t.zero).comb_v.output)
      (Writes.then_int8 _ (Writes.then_loop _ _
        (fun j => [uint8_of
          ((unit_stat.getD i arcp_stx2unit_union_t.zero).comb_v.temperature.getD j 0)])
        (Writes.then_int8 _ (Writes.then_int8 _ (Writes.then_int8 _ Writes.nil)))
        (fun j _ => Writes.int8 _)))
      (fun j _ => store_output_stat_writes _ j)) (by simp)
  · exact Writes.of_eq (Writes.then_int8 _ (Writes.then_int8 _ Writes.nil)) (by simp)

theorem store_sysid_writes (sysid : arcp_sysid_t) :
    Writes (fun s => store_sysid s sysid) (wire_sysid sysid) := by
  unfold store_sysid wire_sysid
  dsimp only
  split_ifs
  · exact Writes.of_eq (Writes.then_int32 _ (Writes.then_int16 _ (Writes.then_int16 _
      (Writes.then_int16 _ (Writes.then_int16 _ (Writes.then_int8 _ Writes.nil))))))
      (by simp)
  · exact Writes.of_eq (Writes.then_int16 _ (Writes.then_int16 _
      (Writes.then_int16 _ (Writes.then_int16 _ (Writes.then_int8 _ Writes.nil)))))
      (by simp)
  · exact Writes.of_eq (Writes.then_int16 _
      (Writes.then_int16 _ (Writes.then_int16 _ (Writes.then_int8 _ Writes.nil))))
      (by simp)

theorem store_stx2stat_writes (stx2 : arcp_stx2stat_t) :
    Writes (fun s => store_stx2stat s stx2) (wire_stx2stat stx2) := by
  unfold store_stx2stat
  exact Writes.of_eq
    (Writes.then_loop _ _ (wire_stx2_unit stx2.unit_stat)
      (Writes.then_int8 _
        (Writes.then_loop _ _ (wire_rf_card stx2.rf_card_stat)
          (Writes.then_int8 _ (Writes.then_int16 _
            (Writes.then_loop _ _ (fun i => be16 (uint16_of (stx2.fan_speed.getD i 0)))
              (Writes.then_int8 _ (Writes.then_int8 _ (Writes.then_int16 _ (Writes.then_int16 _
                (Writes.then_int8 _ (Writes.then_int16 _ Writes.nil))))))
              (fun i _ => Writes.int16 _))))
          (fun i _ => store_rf_card_writes _ i)))
      (fun i _ => store_stx2_unit_writes _ i))
    (by simp [wire_stx2stat])

theorem store_bsmstat_writes (bsm : arcp_bsmstat_t) :
    Writes (fun s => store_bsmstat s bsm) (wire_bsmstat bsm) := by
  unfold store_bsmstat
  exact Writes.of_eq
    (Writes.then_loop _ _ (fun i => [uint8_of (bsm.heatsink_temp.getD i 0)])
      (Writes.then_int8 _
        (Writes.then_loop _ _ (fun i => be16 (uint16_of (bsm.fan_speed.getD i 0)))
          (Writes.then_int8 _ (Writes.then_int16 _ (Writes.then_int8 _ (Writes.then_int16 _
            (Writes.then_int16 _ (Writes.then_int16 _ Writes.nil))))))
          (fun i _ => Writes.int16 _)))
      (fun i _ => Writes.int8 _))
    (by simp [wire_bsmstat])

theorem store_sysstat_writes (sysstat : arcp_sysstat_t) :
    Writes (fun s => store_sysstat s sysstat) (wire_sysstat sysstat) := by
  unfold store_sysstat wire_sysstat
  dsimp only
  split_ifs
  · exact Writes.comp (f := fun s => (arcp_stream_store_int8
        (arcp_stream_store_int8 s sysstat.module_type).2 sysstat.module_status).2)
      (g := fun s => store_stx2stat s sysstat.stx2)
      (Writes.of_eq (Writes.then_int8 _ (Writes.then_int8 _ Writes.nil)) (by simp))
      (store_stx2stat_writes _)
  · exact Writes.comp (f := fun s => (arcp_stream_store_int8
        (arcp_stream_store_int8 s sysstat.module_type).2 sysstat.module_status).2)
      (g := fun s => store_bsmstat s sysstat.bsm)
      (Writes.of_eq (Writes.then_int8 _ (Writes.then_int8 _ Writes.nil)) (by simp))
      (store_bsmstat_writes _)
  · exact Writes.of_eq (Writes.then_int8 _ (Writes.then_int8 _ Writes.nil)) (by simp)

theorem store_arcp_resp_snd (stream : arcp_stream_t) (msg : arcp_msg_t) :
    (store_arcp_resp stream msg).2 =
      (fun stream : arcp_stream_t =>
        if msg.id = ARCP_RESP_SYSID then store_sysid stream msg.sysid
        else if msg.id = ARCP_RESP_SYSSTAT then store_sysstat stream msg.sysstat
        else stream)
      (arcp_stream_store_int16 (arcp_stream_store_int16 stream msg.id).2 msg.info_code).2 := by
  unfold store_arcp_resp
  dsimp only
  split_ifs <;> rfl

theorem store_arcp_resp_writes (msg : arcp_msg_t) :
    Writes (fun s => (store_arcp_resp s msg).2) (wire_resp msg) := by
  have e : (fun s => (store_arcp_resp s msg).2) = fun s =>
      (fun stream : arcp_stream_t =>
        if msg.id = ARCP_RESP_SYSID then store_sysid stream msg.sysid
        else if msg.id = ARCP_RESP_SYSSTAT then store_sysstat stream msg.sysstat
        else stream)
      ((fun s => (arcp_stream_store_int16 (arcp_stream_store_int16 s msg.id).2
        msg.info_code).2) s) := by
    funext s; exact store_arcp_resp_snd s msg
  rw [e]
  unfold wire_resp
  refine Writes.comp (f := fun s => (arcp_stream_store_int16
      (arcp_stream_store_int16 s msg.id).2 msg.info_code).2)
    (g := fun stream : arcp_stream_t =>
        if msg.id = ARCP_RESP_SYSID then store_sysid stream msg.sysid
        else if msg.id = ARCP_RESP_SYSSTAT then store_sysstat stream msg.sysstat
        else stream)
    (a := be16 (uint16_of msg.id) ++ be16 (uint16_of msg.info_code))
    (Writes.of_eq (Writes.then_int16 _ (Writes.then_int16 _ Writes.nil)) (by simp)) ?_
  split_ifs
  · exact store_sysid_writes _
  · exact store_sysstat_writes _
  · exact Writes.nil



/-! ## Lemmas: the size computed before encoding -/


@[simp] theorem range_sum_zero (g : Nat → Nat) : range_sum 0 g = 0 := by
  simp [range_sum]

theorem range_sum_succ (n : Nat) (g : Nat → Nat) : range_sum (n + 1) g = range_sum n g + g n := by
  simp [range_sum, List.range_succ]

theorem range_sum_congr (n : Nat) (g h : Nat → Nat) (e : ∀ i, i < n → g i = h i) :
    range_sum n g = range_sum n h := by
  induction n with
  | zero => simp
  | succ k ih =>
    rw [range_sum_succ, range_sum_succ, ih (fun i hi => e i (by omega)), e k (by omega)]

theorem range_sum_const_add (n c : Nat) (g : Nat → Nat) :
    range_sum n (fun i => c + g i) = n * c + range_sum n g := by
  induction n with
  | zero => simp
  | succ k ih => rw [range_sum_succ, range_sum_succ, ih]; ring

theorem range_sum_const (n c : Nat) : range_sum n (fun _ => c) = n * c := by
  induction n with
  | zero => simp
  | succ k ih => rw [range_sum_succ, ih]; ring

theorem flatten_range_length (n : Nat) (f : Nat → List Nat) :
    ((List.range n).map f).flatten.length = range_sum n (fun i => (f i).length) := by
  simp [range_sum, List.length_flatten, List.map_map, Function.comp_def]

theorem for_loop_len_mod (n : Nat) (f : Nat → Nat → Nat) (g : Nat → Nat)
    (hf : ∀ i len, f i len % 65536 = (len + g i) % 65536) (len0 : Nat) :
    for_loop n f len0 % 65536 = (len0 + range_sum n g) % 65536 := by
  induction n with
  | zero => simp
  | succ k ih =>
    rw [for_loop_succ, hf, range_sum_succ]
    omega

@[simp] theorem be16_length (v : Nat) : (be16 v).length = 2 := rfl
@[simp] theorem be32_length (v : Nat) : (be32 v).length = 4 := rfl
@[simp] theorem wire_header_length (h : arcp_msg_header_t) : (wire_header h).length = 11 := rfl
@[simp] theorem wire_output_stat_length (o : List arcp_rf_card_output_stat_t) (j : Nat) :
    (wire_output_stat o j).length = 4 := rfl
@[simp] theorem wire_pulseseq_entry_length (o : List arcp_pulseseq_entry_t) (j : Nat) :
    (wire_pulseseq_entry o j).length = 2 := rfl
@[simp] theorem wire_phase_entry_length (o : List arcp_phase_entry_t) (j : Nat) :
    (wire_phase_entry o j).length = 6 := rfl

theorem wire_rf_card_length (c : List arcp_rf_card_stat_t) (i : Nat) :
    (wire_rf_card c i).length = 5 + 4 * (c.getD i arcp_rf_card_stat_t.zero).n_rf_outputs := by
  simp only [wire_rf_card, List.length_append, flatten_range_length, range_sum_const,
    be16_length, List.length_cons, List.length_nil, wire_output_stat_length]
  ring

/-- Bytes a unit takes on the wire beyond its flags and type. -/
theorem wire_stx2_unit_length (us : List arcp_stx2unit_union_t) (i : Nat) :
    (wire_stx2_unit us i).length = 2 +
      (if (us.getD i arcp_stx2unit_union_t.zero).unit_v.type = ARCP_STX2_UNIT_EXT_COMBINER_SPLITTER
       then 2 + (us.getD i arcp_stx2unit_union_t.zero).comb_v.n_temperatures
              + 4 * (us.getD i arcp_stx2unit_union_t.zero).comb_v.n_outputs
       else 0) := by
  unfold wire_stx2_unit
  split_ifs
  · simp only [List.length_append, flatten_range_length, range_sum_const,
      List.length_cons, List.length_nil, wire_output_stat_length]
    ring
  · simp

theorem wire_pulsecode_length (code : Option arcp_pulsecode_t) :
    (wire_pulsecode code).length = 2 +
      (if code ≠ none ∧ arcp_pulsecode_getlength code ≠ 0 then
        (arcp_pulsecode_getlength code - 1) / 8 + 1 else 0) := by
  unfold wire_pulsecode
  split_ifs
  · simp only [List.length_append, flatten_range_length, range_sum_const,
      be16_length, List.length_cons, List.length_nil]
    ring
  · simp

theorem wire_stx2stat_length (s : arcp_stx2stat_t) :
    (wire_stx2stat s).length = 13 + 2 * s.n_chassis_fans
      + range_sum s.n_rf_cards
          (fun i => 5 + 4 * (s.rf_card_stat.getD i arcp_rf_card_stat_t.zero).n_rf_outputs)
      + 2 * s.n_units
      + range_sum s.n_units (fun i =>
          if (s.unit_stat.getD i arcp_stx2unit_union_t.zero).unit_v.type
              = ARCP_STX2_UNIT_EXT_COMBINER_SPLITTER
          then 2 + (s.unit_stat.getD i arcp_stx2unit_union_t.zero).comb_v.n_temperatures
                 + 4 * (s.unit_stat.getD i arcp_stx2unit_union_t.zero).comb_v.n_outputs
          else 0) := by
  simp only [wire_stx2stat, List.length_append, flatten_range_length, wire_rf_card_length,
    wire_stx2_unit_length, range_sum_const_add, range_sum_const, be16_length, List.length_cons,
    List.length_nil]
  ring

theorem wire_bsmstat_length (s : arcp_bsmstat_t) :
    (wire_bsmstat s).length = 11 + 2 * s.n_fans + s.n_heatsink_temps := by
  simp only [wire_bsmstat, List.length_append, flatten_range_length,
    range_sum_const, be16_length, List.length_cons, List.length_nil]
  ring


/-! ### The size computed before encoding agrees with the bytes written -/


theorem stream_size_unit_mod (us : List arcp_stx2unit_union_t) (i len : Nat) :
    stream_size_unit us i len % 65536 = (len +
      (if (us.getD i arcp_stx2unit_union_t.zero).unit_v.type = ARCP_STX2_UNIT_EXT_COMBINER_SPLITTER
       then 2 + (us.getD i arcp_stx2unit_union_t.zero).comb_v.n_temperatures
              + 4 * (us.getD i arcp_stx2unit_union_t.zero).comb_v.n_outputs
       else 0)) % 65536 := by
  unfold stream_size_unit
  dsimp only
  split_ifs
  · omega
  · omega

theorem stream_size_stx2_mod (s : arcp_stx2stat_t) (len0 : Nat) :
    stream_size_stx2 s len0 % 65536 = (len0 + (wire_stx2stat s).length) % 65536 := by
  unfold stream_size_stx2
  dsimp only
  have h1 := for_loop_len_mod s.n_rf_cards (fun idx len =>
          (len + (5 + 4 * (s.rf_card_stat.getD idx arcp_rf_card_stat_t.zero).n_rf_outputs)
            % 65536) % 65536)
      (fun i => 5 + 4 * (s.rf_card_stat.getD i arcp_rf_card_stat_t.zero).n_rf_outputs)
      (fun i len => by dsimp only; omega) ((len0 + (13 + 2 * s.n_chassis_fans) % 65536) % 65536)
  rw [wire_stx2stat_length]
  split_ifs with hu
  · have h2 := for_loop_len_mod s.n_units (stream_size_unit s.unit_stat) _
      (stream_size_unit_mod s.unit_stat)
      ((for_loop s.n_rf_cards (fun idx len =>
          (len + (5 + 4 * (s.rf_card_stat.getD idx arcp_rf_card_stat_t.zero).n_rf_outputs)
            % 65536) % 65536) ((len0 + (13 + 2 * s.n_chassis_fans) % 65536) % 65536)
          + 2 * s.n_units) % 65536)
    rw [h2]
    omega
  · have hz : s.n_units = 0 := by omega
    rw [h1, hz]
    simp only [range_sum_zero]
    omega

theorem stream_size_stx2_lt (s : arcp_stx2stat_t) (len0 : Nat) :
    stream_size_stx2 s len0 < 65536 := by
  have hl : ∀ n (f : Nat → Nat → Nat) (l : Nat), (∀ i x, f i x < 65536 ∨ f i x = x) → l < 65536 →
      for_loop n f l < 65536 := by
    intro n f l hf hl
    induction n with
    | zero => simpa using hl
    | succ k ih =>
      rw [for_loop_succ]
      rcases hf k (for_loop k f l) with h | h
      · exact h
      · rw [h]; exact ih
  unfold stream_size_stx2
  dsimp only
  split_ifs
  · apply hl
    · intro i x
      unfold stream_size_unit
      dsimp only
      split_ifs
      · left; omega
      · right; rfl
    · omega
  · apply hl
    · intro i x; left; omega
    · omega


theorem stream_size_cmd_mod (m : arcp_msg_t)
    (hcap : ¬ ((m.id = ARCP_CMD_SET_PULSE_SEQ ∧ m.seq.length > ARCP_MAX_PULSE_SEQ_LENGTH) ∨
              (m.id = ARCP_CMD_SET_PHASE ∧ m.n_phases > ARCP_BSM_MAX_N_PHASES))) :
    stream_size_cmd m % 65536 = (11 + (wire_cmd m).length) % 65536 := by
  unfold stream_size_cmd wire_cmd
  simp only [ARCP_CMD_SET_MODULE_ENABLE, ARCP_CMD_SET_USRCTL_ENABLE, ARCP_CMD_SET_PULSE_PARAM,
    ARCP_CMD_SET_PULSE_SEQ, ARCP_CMD_SET_PULSE_SEQ_IDX, ARCP_CMD_SET_TRIG_PARAM,
    ARCP_CMD_SET_PHASE, ARCP_HEADER_SIZE, ARCP_MAX_PULSE_SEQ_LENGTH, ARCP_BSM_MAX_N_PHASES,
    not_or, not_and, not_lt, gt_iff_lt] at hcap ⊢
  split_ifs <;>
    simp only [List.length_append, be16_length, be32_length, List.length_cons,
      List.length_nil, wire_pulsecode_length, flatten_range_length, range_sum_const,
      wire_pulseseq_entry_length, wire_phase_entry_length] <;>
    first
    | omega
    | (split_ifs <;> omega)

theorem stream_size_resp_mod (m : arcp_msg_t) :
    stream_size_resp m % 65536 = (11 + (wire_resp m).length) % 65536 := by
  unfold stream_size_resp wire_resp
  simp only [List.length_append, be16_length, ARCP_HEADER_SIZE]
  by_cases h1 : m.id = ARCP_RESP_SYSID
  · simp only [h1, if_true, wire_sysid]
    split_ifs <;> simp
  · by_cases h2 : m.id = ARCP_RESP_SYSSTAT
    · simp only [h2, wire_sysstat]
      simp
      by_cases h3 : m.sysstat.module_type = ARCP_MODULE_STX2
      · simp only [h3, if_true]
        rw [stream_size_stx2_mod]
        omega
      · by_cases h4 : m.sysstat.module_type = ARCP_MODULE_BSM
        · simp only [h4]
          simp [wire_bsmstat_length]
          omega
        · simp [h3, h4]
    · simp [h1, h2]

theorem stream_size_len_mod (m : arcp_msg_t)
    (ht : m.header.msg_type = ARCP_MSG_COMMAND ∨ m.header.msg_type = ARCP_MSG_RESPONSE)
    (hcap : ¬ over_cap m) :
    stream_size_len m % 65536 = (wire_msg m).length % 65536 := by
  unfold stream_size_len wire_msg
  simp only [List.length_append, wire_header_length]
  rcases ht with ht | ht
  · rw [if_pos ht, if_pos ht]
    apply stream_size_cmd_mod
    intro h
    exact hcap ⟨ht, h⟩
  · have ht0 : ¬ m.header.msg_type = ARCP_MSG_COMMAND := by rw [ht]; decide
    rw [if_neg ht0, if_pos ht, if_neg ht0, if_pos ht]
    exact stream_size_resp_mod m


/-! ### What `arcp_msg_encode` returns -/

@[simp] theorem set_header_header (m : arcp_msg_t) (h : arcp_msg_header_t) :
    (m.set_header h).header = h := by cases m <;> rfl
@[simp] theorem set_header_id (m : arcp_msg_t) (h : arcp_msg_header_t) :
    (m.set_header h).id = m.id := by cases m <;> rfl
@[simp] theorem set_header_enable (m : arcp_msg_t) (h : arcp_msg_header_t) :
    (m.set_header h).enable = m.enable := by cases m <;> rfl
@[simp] theorem set_header_pulse_map_index (m : arcp_msg_t) (h : arcp_msg_header_t) :
    (m.set_header h).pulse_map_index = m.pulse_map_index := by cases m <;> rfl
@[simp] theorem set_header_pulse_param (m : arcp_msg_t) (h : arcp_msg_header_t) :
    (m.set_header h).pulse_param = m.pulse_param := by cases m <;> rfl
@[simp] theorem set_header_seq (m : arcp_msg_t) (h : arcp_msg_header_t) :
    (m.set_header h).seq = m.seq := by cases m <;> rfl
@[simp] theorem set_header_seq_index (m : arcp_msg_t) (h : arcp_msg_header_t) :
    (m.set_header h).seq_index = m.seq_index := by cases m <;> rfl
@[simp] theorem set_header_trig_param (m : arcp_msg_t) (h : arcp_msg_header_t) :
    (m.set_header h).trig_param = m.trig_param := by cases m <;> rfl
@[simp] theorem set_header_phase_slot (m : arcp_msg_t) (h : arcp_msg_header_t) :
    (m.set_header h).phase_slot = m.phase_slot := by cases m <;> rfl
@[simp] theorem set_header_n_phases (m : arcp_msg_t) (h : arcp_msg_header_t) :
    (m.set_header h).n_phases = m.n_phases := by cases m <;> rfl
@[simp] theorem set_header_phases (m : arcp_msg_t) (h : arcp_msg_header_t) :
    (m.set_header h).phases = m.phases := by cases m <;> rfl
@[simp] theorem set_header_info_code (m : arcp_msg_t) (h : arcp_msg_header_t) :
    (m.set_header h).info_code = m.info_code := by cases m <;> rfl
@[simp] theorem set_header_sysid (m : arcp_msg_t) (h : arcp_msg_header_t) :
    (m.set_header h).sysid = m.sysid := by cases m <;> rfl
@[simp] theorem set_header_sysstat (m : arcp_msg_t) (h : arcp_msg_header_t) :
    (m.set_header h).sysstat = m.sysstat := by cases m <;> rfl

theorem wire_cmd_set_header (m : arcp_msg_t) (h : arcp_msg_header_t) :
    wire_cmd (m.set_header h) = wire_cmd m := by
  unfold wire_cmd; simp only [set_header_id, set_header_enable, set_header_pulse_map_index,
    set_header_pulse_param, set_header_seq, set_header_seq_index, set_header_trig_param,
    set_header_phase_slot, set_header_n_phases, set_header_phases]

theorem wire_resp_set_header (m : arcp_msg_t) (h : arcp_msg_header_t) :
    wire_resp (m.set_header h) = wire_resp m := by
  unfold wire_resp; simp only [set_header_id, set_header_info_code, set_header_sysid,
    set_header_sysstat]

/-- The wire bytes of the message `arcp_msg_set_stream_size` leaves are as many as those of
the message it was given. -/
theorem wire_msg_set_stream_size_length (m : arcp_msg_t) :
    (wire_msg (arcp_msg_set_stream_size m).2).length = (wire_msg m).length := by
  unfold arcp_msg_set_stream_size wire_msg
  simp only [set_header_header, wire_cmd_set_header, wire_resp_set_header, List.length_append,
    wire_header_length]

theorem stream_error_ite (r : Int × arcp_stream_t) :
    (if arcp_stream_error r.2 then (ARCP_ERROR_BADMSG, r.2) else r)
      = ((if r.2.err = 0 then r.1 else ARCP_ERROR_BADMSG), r.2) := by
  unfold arcp_stream_error
  by_cases h : r.2.err = 0 <;> simp [h]

theorem store_arcp_cmd_eq_ite (s : arcp_stream_t) (m : arcp_msg_t) :
    store_arcp_cmd s m =
      ((if (store_arcp_cmd_switch (arcp_stream_store_int16 s m.id).2 m).2.err = 0
        then (store_arcp_cmd_switch (arcp_stream_store_int16 s m.id).2 m).1
        else ARCP_ERROR_BADMSG),
       (store_arcp_cmd_switch (arcp_stream_store_int16 s m.id).2 m).2) := by
  unfold store_arcp_cmd
  exact stream_error_ite _

theorem store_arcp_cmd_switch_fst (s : arcp_stream_t) (m : arcp_msg_t) :
    (store_arcp_cmd_switch s m).1 =
      if (m.id = ARCP_CMD_SET_PULSE_SEQ ∧ m.seq.length > ARCP_MAX_PULSE_SEQ_LENGTH) ∨
         (m.id = ARCP_CMD_SET_PHASE ∧ m.n_phases > ARCP_BSM_MAX_N_PHASES)
      then ARCP_ERROR_BADMSG else 0 := by
  unfold store_arcp_cmd_switch store_pulse_seq store_phase
  simp only [ARCP_CMD_SET_PHASE, ARCP_CMD_SET_PULSE_SEQ, ARCP_CMD_SET_MODULE_ENABLE,
        ARCP_CMD_SET_PULSE_PARAM, ARCP_CMD_SET_PULSE_SEQ_IDX, ARCP_CMD_SET_TRIG_PARAM,
        ARCP_CMD_SET_USRCTL_ENABLE]
  split_ifs <;> first | rfl | (exfalso; omega)

theorem store_arcp_cmd_fst_zero (s : arcp_stream_t) (m : arcp_msg_t)
    (h : (store_arcp_cmd s m).1 = 0) :
    ¬ ((m.id = ARCP_CMD_SET_PULSE_SEQ ∧ m.seq.length > ARCP_MAX_PULSE_SEQ_LENGTH) ∨
       (m.id = ARCP_CMD_SET_PHASE ∧ m.n_phases > ARCP_BSM_MAX_N_PHASES)) ∧
    (store_arcp_cmd s m).2.err = 0 := by
  rw [store_arcp_cmd_eq_ite] at h ⊢
  dsimp only at h ⊢
  rw [store_arcp_cmd_switch_fst] at h
  split_ifs at h with h1 h2
  · exact absurd h (by decide)
  · exact ⟨h2, h1⟩
  · exact absurd h (by decide)

theorem store_arcp_cmd_eq (s : arcp_stream_t) (m : arcp_msg_t)
    (hcap : ¬ ((m.id = ARCP_CMD_SET_PULSE_SEQ ∧ m.seq.length > ARCP_MAX_PULSE_SEQ_LENGTH) ∨
       (m.id = ARCP_CMD_SET_PHASE ∧ m.n_phases > ARCP_BSM_MAX_N_PHASES)))
    (herr : (store_arcp_cmd s m).2.err = 0) :
    store_arcp_cmd s m = (0, (store_arcp_cmd s m).2) := by
  rw [store_arcp_cmd_eq_ite] at herr ⊢
  dsimp only at herr ⊢
  rw [store_arcp_cmd_switch_fst, if_pos herr, if_neg hcap]

theorem store_arcp_resp_eq_ite (s : arcp_stream_t) (m : arcp_msg_t) :
    store_arcp_resp s m =
      ((if (store_arcp_resp s m).2.err = 0 then 0 else ARCP_ERROR_BADMSG),
        (store_arcp_resp s m).2) := by
  have h : ∀ st : arcp_stream_t,
      (if arcp_stream_error st then (ARCP_ERROR_BADMSG, st) else ((0 : Int), st))
        = ((if st.err = 0 then 0 else ARCP_ERROR_BADMSG), st) :=
    fun st => stream_error_ite (0, st)
  unfold store_arcp_resp
  dsimp only
  rw [h]

theorem store_arcp_resp_fst_zero (s : arcp_stream_t) (m : arcp_msg_t)
    (h : (store_arcp_resp s m).1 = 0) : (store_arcp_resp s m).2.err = 0 := by
  rw [store_arcp_resp_eq_ite] at h
  dsimp only at h
  split_ifs at h with h1
  · exact h1
  · exact absurd h (by decide)

theorem store_arcp_resp_eq (s : arcp_stream_t) (m : arcp_msg_t)
    (herr : (store_arcp_resp s m).2.err = 0) :
    store_arcp_resp s m = (0, (store_arcp_resp s m).2) := by
  rw [store_arcp_resp_eq_ite, if_pos herr]


theorem store_header_writes (h : arcp_msg_header_t) :
    Writes (fun s =>
      (arcp_stream_store_int16 (arcp_stream_store_int8 (arcp_stream_store_int16
        (arcp_stream_store_int16 (arcp_stream_store_int32 s h.magic_num).2 h.msg_length).2
          h.exchange_id).2 h.msg_type).2 h.protocol_version).2) (wire_header h) := by
  unfold wire_header
  exact Writes.then_int16 _ (Writes.then_int8 _ (Writes.then_int16 _ (Writes.then_int16 _
    (Writes.int32 _))))

/-- The stream `arcp_msg_encode` allocates. -/
theorem stream_setsize_new (mem : Nat → Nat) (n : Nat) (h0 : n ≠ 0) (h1 : n ≤ 1024) :
    arcp_stream_setsize mem arcp_stream_new n
      = (0, strm [] ((List.range n).map (fun i => mem i % 256))) := by
  unfold arcp_stream_setsize arcp_stream_new strm
  simp only [ARCP_MSG_MAX_SIZE]
  rw [if_neg h0, if_neg (by omega)]
  simp

/-- The two steps of `arcp_msg_encode` after the allocation, as a function of the
stream. -/
theorem msg_encode_eq (mem : Nat → Nat) (m : arcp_msg_t)
    (h0 : stream_size_len m ≠ 0) (h1 : stream_size_len m ≤ 1024) :
    arcp_msg_encode mem m =
      (let msg := (arcp_msg_set_stream_size m).2
       let stream := strm [] ((List.range (stream_size_len m)).map (fun i => mem i % 256))
       let stream := (arcp_stream_store_int16 (arcp_stream_store_int8 (arcp_stream_store_int16
        (arcp_stream_store_int16 (arcp_stream_store_int32 stream msg.header.magic_num).2
          msg.header.msg_length).2 msg.header.exchange_id).2 msg.header.msg_type).2
          msg.header.protocol_version).2
       let r : Int × arcp_stream_t :=
        if msg.header.msg_type = ARCP_MSG_COMMAND then store_arcp_cmd stream msg
        else if msg.header.msg_type = ARCP_MSG_RESPONSE then store_arcp_resp stream msg
        else (0, stream)
       if r.1 < 0 then (r.1, none, msg) else (r.1, some r.2, msg)) := by
  unfold arcp_msg_encode
  have e : (arcp_msg_set_stream_size m).1 = stream_size_len m := rfl
  simp only [e, ARCP_MSG_MAX_SIZE]
  rw [if_neg (by omega), stream_setsize_new mem _ h0 h1]
  simp


theorem over_cap_set_stream_size (m : arcp_msg_t) :
    over_cap (arcp_msg_set_stream_size m).2 ↔ over_cap m := by
  unfold over_cap arcp_msg_set_stream_size
  simp only [set_header_header, set_header_id, set_header_seq, set_header_n_phases]

theorem msg_encode_of (mem : Nat → Nat) (m : arcp_msg_t)
    (ht : m.header.msg_type = ARCP_MSG_COMMAND ∨ m.header.msg_type = ARCP_MSG_RESPONSE)
    (hcap : ¬ over_cap m) (h1 : stream_size_len m ≤ 1024)
    (hl : (wire_msg m).length = stream_size_len m) :
    arcp_msg_encode mem m = (0, some (strm (wire_msg (arcp_msg_set_stream_size m).2) []),
      (arcp_msg_set_stream_size m).2) := by
  have h0 : stream_size_len m ≠ 0 := by
    rw [← hl]; unfold wire_msg; simp only [List.length_append, wire_header_length]; omega
  rw [msg_encode_eq mem m h0 h1]
  have hl2 := wire_msg_set_stream_size_length m
  have hcap2 := (over_cap_set_stream_size m).not.mpr hcap
  have ht2 : (arcp_msg_set_stream_size m).2.header.msg_type = m.header.msg_type := by
    unfold arcp_msg_set_stream_size; simp only [set_header_header]
  generalize (arcp_msg_set_stream_size m).2 = m2 at hl2 hcap2 ht2 ⊢
  rw [← ht2] at ht
  have hp : ((List.range (stream_size_len m)).map (fun i => mem i % 256)).length
      = (wire_msg m2).length := by
    rw [hl2, hl]; simp
  generalize (List.range (stream_size_len m)).map (fun i => mem i % 256) = p at hp ⊢
  dsimp only
  unfold wire_msg at hp ⊢
  rcases ht with ht | ht
  · rw [if_pos ht] at hp ⊢
    rw [if_pos ht]
    have W := Writes.comp (store_header_writes m2.header) (store_arcp_cmd_writes m2)
    have e := W.2.1 [] p [] hp
    simp only [List.append_nil, List.nil_append] at e
    have hc : ¬ ((m2.id = ARCP_CMD_SET_PULSE_SEQ ∧ m2.seq.length > ARCP_MAX_PULSE_SEQ_LENGTH) ∨
       (m2.id = ARCP_CMD_SET_PHASE ∧ m2.n_phases > ARCP_BSM_MAX_N_PHASES)) :=
      fun h => hcap2 ⟨ht, h⟩
    rw [store_arcp_cmd_eq _ _ hc (by rw [e]; rfl), e]
    simp
  · have ht0 : ¬ m2.header.msg_type = ARCP_MSG_COMMAND := by rw [ht]; decide
    rw [if_neg ht0, if_pos ht] at hp ⊢
    rw [if_neg ht0, if_pos ht]
    have W := Writes.comp (store_header_writes m2.header) (store_arcp_resp_writes m2)
    have e := W.2.1 [] p [] hp
    simp only [List.append_nil, List.nil_append] at e
    rw [store_arcp_resp_eq _ _ (by rw [e]; rfl), e]
    simp

theorem msg_encode_ok (mem : Nat → Nat) (m : arcp_msg_t)
    (h : (arcp_msg_encode mem m).1 = 0) :
    (m.header.msg_type = ARCP_MSG_COMMAND ∨ m.header.msg_type = ARCP_MSG_RESPONSE) ∧
    ¬ over_cap m ∧ stream_size_len m ≤ 1024 ∧ (wire_msg m).length = stream_size_len m := by
  have hb : stream_size_len m ≠ 0 ∧ stream_size_len m ≤ 1024 := by
    by_contra hn
    have : (arcp_msg_encode mem m).1 = ARCP_ERROR_BADMSG := by
      unfold arcp_msg_encode
      have e : (arcp_msg_set_stream_size m).1 = stream_size_len m := rfl
      simp only [e, ARCP_MSG_MAX_SIZE]
      rw [if_pos (by omega)]
    rw [this] at h
    exact absurd h (by decide)
  obtain ⟨h0, h1⟩ := hb
  have ht : m.header.msg_type = ARCP_MSG_COMMAND ∨ m.header.msg_type = ARCP_MSG_RESPONSE := by
    by_contra hn
    simp only [not_or] at hn
    apply h0
    unfold stream_size_len
    rw [if_neg hn.1, if_neg hn.2]
  rw [msg_encode_eq mem m h0 h1] at h
  have hl2 := wire_msg_set_stream_size_length m
  have hcapiff := over_cap_set_stream_size m
  have ht2 : (arcp_msg_set_stream_size m).2.header.msg_type = m.header.msg_type := by
    unfold arcp_msg_set_stream_size; simp only [set_header_header]
  generalize (arcp_msg_set_stream_size m).2 = m2 at hl2 hcapiff ht2 h
  have hp : ((List.range (stream_size_len m)).map (fun i => mem i % 256)).length
      = stream_size_len m := by simp
  generalize (List.range (stream_size_len m)).map (fun i => mem i % 256) = p at hp h
  dsimp only at h
  have key : ¬ over_cap m ∧ ¬ (p.length < (wire_msg m2).length) := by
    rw [← hcapiff]
    unfold wire_msg
    rw [← ht2] at ht
    rcases ht with ht | ht
    · rw [if_pos ht] at h ⊢
      have W := Writes.comp (store_header_writes m2.header) (store_arcp_cmd_writes m2)
      have hr : (store_arcp_cmd ((arcp_stream_store_int16 (arcp_stream_store_int8
          (arcp_stream_store_int16 (arcp_stream_store_int16 (arcp_stream_store_int32
            (strm [] p) m2.header.magic_num).2 m2.header.msg_length).2
            m2.header.exchange_id).2 m2.header.msg_type).2 m2.header.protocol_version).2) m2).1
          = 0 := by
        split_ifs at h <;> exact h
      have := store_arcp_cmd_fst_zero _ _ hr
      refine ⟨fun hc => this.1 hc.2, fun hlt => W.2.2 [] p hlt this.2⟩
    · have ht0 : ¬ m2.header.msg_type = ARCP_MSG_COMMAND := by rw [ht]; decide
      rw [if_neg ht0, if_pos ht] at h ⊢
      have W := Writes.comp (store_header_writes m2.header) (store_arcp_resp_writes m2)
      have hr : (store_arcp_resp ((arcp_stream_store_int16 (arcp_stream_store_int8
          (arcp_stream_store_int16 (arcp_stream_store_int16 (arcp_stream_store_int32
            (strm [] p) m2.header.magic_num).2 m2.header.msg_length).2
            m2.header.exchange_id).2 m2.header.msg_type).2 m2.header.protocol_version).2) m2).1
          = 0 := by
        split_ifs at h <;> exact h
      have := store_arcp_resp_fst_zero _ _ hr
      refine ⟨fun hc => ?_, fun hlt => W.2.2 [] p hlt this⟩
      exact ht0 hc.1
  refine ⟨ht, key.1, h1, ?_⟩
  have hm := stream_size_len_mod m ht key.1
  have := key.2
  rw [hl2, hp] at this
  omega


/-! ### Loops whose counter is a `uint8` -/

/-- A loop with a `uint8` counter and a bound above 255 never ends: whatever the fuel, it
runs out. -/
theorem for_loop_uint8_none {σ : Type} (n : Nat) (body : Nat → σ → σ) (hn : 256 ≤ n) :
    ∀ (fuel i : Nat) (s : σ), i < 256 → for_loop_uint8 n body fuel i s = none := by
  intro fuel
  induction fuel with
  | zero => intro i s _; rfl
  | succ k ih =>
    intro i s hi
    unfold for_loop_uint8
    rw [if_pos (by omega)]
    exact ih _ _ (Nat.mod_lt _ (by decide))

/-- A loop with a `uint8` counter and a bound of at most 255 is the plain loop, given
enough fuel. -/
theorem for_loop_uint8_from {σ : Type} (n : Nat) (body : Nat → σ → σ) (hn : n ≤ 255) :
    ∀ (k fuel : Nat) (s : σ), k ≤ n → n - k < fuel →
      for_loop_uint8 n body fuel k s
        = some ((List.range' k (n - k)).foldl (fun st i => body i st) s) := by
  intro k fuel
  induction fuel generalizing k with
  | zero => intro s _ h; omega
  | succ f ih =>
    intro s hk hf
    unfold for_loop_uint8
    by_cases hlt : k < n
    · rw [if_pos hlt]
      have hm : (k + 1) % 256 = k + 1 := Nat.mod_eq_of_lt (by omega)
      rw [hm, ih (k + 1) (body k s) (by omega) (by omega)]
      have : n - k = (n - (k + 1)) + 1 := by omega
      rw [this, List.range'_succ]
      simp
    · rw [if_neg hlt]
      have : n - k = 0 := by omega
      rw [this]
      simp

theorem for_loop_uint8_eq {σ : Type} (n : Nat) (body : Nat → σ → σ) (hn : n ≤ 255)
    (fuel : Nat) (s : σ) (hf : n < fuel) :
    for_loop_uint8 n body fuel 0 s = some (for_loop n body s) := by
  rw [for_loop_uint8_from n body hn 0 fuel s (by omega) (by omega)]
  unfold for_loop
  simp [List.range_eq_range']

/-- The header part of `arcp_stream_decode`, message type 0: on a stream of 11 to 1024
bytes it reads the five header fields and hands the rest to `decode_arcp_cmd`. -/
theorem stream_decode_header_cmd (fuel : Nat) (u : decode_locals)
    (b0 b1 b2 b3 b4 b5 b6 b7 b8 b9 b10 : Nat) (rest : List Nat)
    (hlen : rest.length + 11 ≤ 1024) (h8 : b8 % 256 = 0) :
    arcp_stream_decode fuel u (strm [] (b0 :: b1 :: b2 :: b3 :: b4 :: b5 :: b6 :: b7 :: b8
        :: b9 :: b10 :: rest)) =
      (decode_arcp_cmd fuel u (strm [b0, b1, b2, b3, b4, b5, b6, b7, b8, b9, b10] rest)
        (.command
          { magic_num := (((b0 * 256 + b1) * 256 + b2) * 256 + b3) % 4294967296,
            msg_length := (b4 * 256 + b5) % 65536,
            exchange_id := (b6 * 256 + b7) % 65536,
            msg_type := 0,
            protocol_version := (b9 * 256 + b10) % 65536 } (-1))).map decode_result := by
  unfold arcp_stream_decode
  have hc : ¬ ((strm [] (b0 :: b1 :: b2 :: b3 :: b4 :: b5 :: b6 :: b7 :: b8
        :: b9 :: b10 :: rest)).size < 11 ∨ (strm [] (b0 :: b1 :: b2 :: b3 :: b4 :: b5 :: b6
        :: b7 :: b8 :: b9 :: b10 :: rest)).size > ARCP_MSG_MAX_SIZE) := by
    simp only [strm_size, List.length_nil, List.length_cons, ARCP_MSG_MAX_SIZE]
    omega
  rw [if_neg hc]
  dsimp only
  rw [get_uint32_strm]
  dsimp only
  rw [get_uint16_strm]
  dsimp only
  rw [get_uint16_strm]
  dsimp only
  rw [get_uint8_strm]
  dsimp only
  rw [h8]
  have hm : arcp_msg_new 0 = some (.command
      { magic_num := ARCP_MAGIC_NUMBER, msg_length := 0, exchange_id := 0, msg_type := 0,
        protocol_version := 0 } (-1)) := by decide
  rw [hm]
  dsimp only
  rw [get_uint16_strm]
  simp only [arcp_msg_t.set_header, arcp_msg_t.header, if_true, List.nil_append,
    List.cons_append]

/-- The header part of `arcp_stream_decode`, message type 1: on a stream of 11 to 1024
bytes it reads the five header fields and hands the rest to `decode_arcp_resp`. -/
theorem stream_decode_header_resp (fuel : Nat) (u : decode_locals)
    (b0 b1 b2 b3 b4 b5 b6 b7 b8 b9 b10 : Nat) (rest : List Nat)
    (hlen : rest.length + 11 ≤ 1024) (h8 : b8 % 256 = 1) :
    arcp_stream_decode fuel u (strm [] (b0 :: b1 :: b2 :: b3 :: b4 :: b5 :: b6 :: b7 :: b8
        :: b9 :: b10 :: rest)) =
      some (decode_result (decode_arcp_resp u
        (strm [b0, b1, b2, b3, b4, b5, b6, b7, b8, b9, b10] rest)
        (.response
          { magic_num := (((b0 * 256 + b1) * 256 + b2) * 256 + b3) % 4294967296,
            msg_length := (b4 * 256 + b5) % 65536,
            exchange_id := (b6 * 256 + b7) % 65536,
            msg_type := 1,
            protocol_version := (b9 * 256 + b10) % 65536 } (-1) 0))) := by
  unfold arcp_stream_decode
  have hc : ¬ ((strm [] (b0 :: b1 :: b2 :: b3 :: b4 :: b5 :: b6 :: b7 :: b8
        :: b9 :: b10 :: rest)).size < 11 ∨ (strm [] (b0 :: b1 :: b2 :: b3 :: b4 :: b5 :: b6
        :: b7 :: b8 :: b9 :: b10 :: rest)).size > ARCP_MSG_MAX_SIZE) := by
    simp only [strm_size, List.length_nil, List.length_cons, ARCP_MSG_MAX_SIZE]
    omega
  rw [if_neg hc]
  dsimp only
  rw [get_uint32_strm]
  dsimp only
  rw [get_uint16_strm]
  dsimp only
  rw [get_uint16_strm]
  dsimp only
  rw [get_uint8_strm]
  dsimp only
  rw [h8]
  have hm : arcp_msg_new 1 = some (.response
      { magic_num := ARCP_MAGIC_NUMBER, msg_length := 0, exchange_id := 0, msg_type := 1,
        protocol_version := 0 } (-1) 0) := by decide
  rw [hm]
  dsimp only
  rw [get_uint16_strm]
  simp only [arcp_msg_t.set_header, arcp_msg_t.header, List.nil_append, List.cons_append]
  rfl

@[simp] theorem set_id_id (m : arcp_msg_t) (i : Int) : (m.set_id i).id = i := by
  cases m <;> rfl
@[simp] theorem set_id_header (m : arcp_msg_t) (i : Int) : (m.set_id i).header = m.header := by
  cases m <;> rfl

/-- The case `ARCP_CMD_SET_PULSE_SEQ` of `decode_arcp_cmd`, on a stream that holds the id
and the length. -/
theorem decode_cmd_pulse_seq (fuel : Nat) (u : decode_locals) (w rest : List Nat)
    (b0 b1 l0 l1 : Nat) (m : arcp_msg_t)
    (hid : int16_of ((b0 * 256 + b1 : Nat) : Int) = ARCP_CMD_SET_PULSE_SEQ) :
    decode_arcp_cmd fuel u (strm w (b0 :: b1 :: l0 :: l1 :: rest)) m =
      (if (l0 * 256 + l1) % 65536 > ARCP_MAX_PULSE_SEQ_LENGTH then
        some (decode_finish ARCP_ERROR_BADMSG (strm (w ++ [b0, b1] ++ [l0, l1]) rest)
          (m.set_id ARCP_CMD_SET_PULSE_SEQ))
      else
        match arcp_pulseseq_new ((l0 * 256 + l1) % 65536) with
        | none => some (decode_finish ARCP_ERROR_LOCAL (strm (w ++ [b0, b1] ++ [l0, l1]) rest)
            (m.set_id ARCP_CMD_SET_PULSE_SEQ))
        | some seq =>
          (for_loop_uint8 ((l0 * 256 + l1) % 65536) decode_pulseseq_entry fuel 0
              (strm (w ++ [b0, b1] ++ [l0, l1]) rest, seq)).map
            (fun st => decode_finish 0 st.1
              (.cmd_set_pulse_seq m.header ARCP_CMD_SET_PULSE_SEQ st.2))) := by
  unfold decode_arcp_cmd
  dsimp only
  rw [get_int16_strm, hid]
  unfold decode_arcp_cmd_switch
  dsimp only
  rw [set_id_id, if_neg (by decide), if_neg (by decide), if_pos rfl]
  unfold decode_pulse_seq
  dsimp only
  rw [get_uint16_strm, set_id_id, set_id_header]
  try rfl


theorem decode_finish_strm (err : Int) (w u : List Nat) (m : arcp_msg_t) :
    decode_finish err (strm w u) m = (err, strm w u, m) := by
  unfold decode_finish arcp_stream_error
  simp

/-- The default case of `decode_arcp_cmd`: a command id without payload. -/
theorem decode_cmd_plain (fuel : Nat) (u : decode_locals) (w rest : List Nat)
    (b0 b1 : Nat) (m : arcp_msg_t)
    (n1 : int16_of ((b0 * 256 + b1 : Nat) : Int) ≠ ARCP_CMD_SET_MODULE_ENABLE)
    (n2 : int16_of ((b0 * 256 + b1 : Nat) : Int) ≠ ARCP_CMD_SET_PULSE_PARAM)
    (n3 : int16_of ((b0 * 256 + b1 : Nat) : Int) ≠ ARCP_CMD_SET_PULSE_SEQ)
    (n4 : int16_of ((b0 * 256 + b1 : Nat) : Int) ≠ ARCP_CMD_SET_PULSE_SEQ_IDX)
    (n5 : int16_of ((b0 * 256 + b1 : Nat) : Int) ≠ ARCP_CMD_SET_TRIG_PARAM)
    (n6 : int16_of ((b0 * 256 + b1 : Nat) : Int) ≠ ARCP_CMD_SET_USRCTL_ENABLE)
    (n7 : int16_of ((b0 * 256 + b1 : Nat) : Int) ≠ ARCP_CMD_SET_PHASE) :
    decode_arcp_cmd fuel u (strm w (b0 :: b1 :: rest)) m =
      some (0, strm (w ++ [b0, b1]) rest,
        m.set_id (int16_of ((b0 * 256 + b1 : Nat) : Int))) := by
  unfold decode_arcp_cmd
  dsimp only
  rw [get_int16_strm]
  unfold decode_arcp_cmd_switch
  dsimp only
  rw [set_id_id, if_neg n1, if_neg n2, if_neg n3, if_neg n4, if_neg n5, if_neg n6, if_neg n7,
    decode_finish_strm]


/-! ## Lemmas: the decoder reads back what the encoder wrote -/

theorem uint8_of_nat_lt (x : Nat) (h : x < 256) : uint8_of (x : Int) = x := by
  rw [uint8_of_nat]; exact Nat.mod_eq_of_lt h
theorem uint16_of_nat_lt (x : Nat) (h : x < 65536) : uint16_of (x : Int) = x := by
  rw [uint16_of_nat]; exact Nat.mod_eq_of_lt h
theorem uint32_of_nat_lt (x : Nat) (h : x < 4294967296) : uint32_of (x : Int) = x := by
  rw [uint32_of_nat]; exact Nat.mod_eq_of_lt h

theorem get_u8 (w u : List Nat) (x : Nat) (hx : x < 256) (d : Nat) :
    arcp_stream_get_uint8 (strm w (uint8_of (x : Int) :: u)) d
      = (0, strm (w ++ [uint8_of (x : Int)]) u, x) := by
  rw [get_uint8_strm, uint8_of_nat_lt x hx, Nat.mod_eq_of_lt hx]

theorem get_i8 (w u : List Nat) (v : Int) (h1 : -128 ≤ v) (h2 : v < 128) (d : Int) :
    arcp_stream_get_int8 (strm w (uint8_of v :: u)) d = (0, strm (w ++ [uint8_of v]) u, v) := by
  rw [get_int8_strm, int8_of_uint8_of, int8_of_id v h1 h2]

theorem be16_val (x : Nat) (hx : x < 65536) : (x / 256 % 256 * 256 + x % 256) % 65536 = x := by
  omega

theorem be32_val (x : Nat) (hx : x < 4294967296) :
    (((x / 16777216 % 256 * 256 + x / 65536 % 256) * 256 + x / 256 % 256) * 256 + x % 256)
      % 4294967296 = x := by
  omega

theorem get_u16 (w u : List Nat) (x : Nat) (hx : x < 65536) (d : Nat) :
    arcp_stream_get_uint16 (strm w (be16 (uint16_of (x : Int)) ++ u)) d
      = (0, strm (w ++ be16 (uint16_of (x : Int))) u, x) := by
  rw [uint16_of_nat_lt x hx]
  unfold be16
  rw [List.cons_append, List.cons_append, List.nil_append, get_uint16_strm, be16_val x hx]

theorem get_i16 (w u : List Nat) (v : Int) (h1 : -32768 ≤ v) (h2 : v < 32768) (d : Int) :
    arcp_stream_get_int16 (strm w (be16 (uint16_of v) ++ u)) d
      = (0, strm (w ++ be16 (uint16_of v)) u, v) := by
  unfold be16
  rw [List.cons_append, List.cons_append, List.nil_append, get_int16_strm]
  have e : uint16_of v / 256 % 256 * 256 + uint16_of v % 256 = uint16_of v := by
    have := uint16_of_lt v
    omega
  rw [e, int16_of_uint16_of, int16_of_id v h1 h2]

theorem get_u32 (w u : List Nat) (x : Nat) (hx : x < 4294967296) (d : Nat) :
    arcp_stream_get_uint32 (strm w (be32 (uint32_of (x : Int)) ++ u)) d
      = (0, strm (w ++ be32 (uint32_of (x : Int))) u, x) := by
  rw [uint32_of_nat_lt x hx]
  unfold be32
  rw [List.cons_append, List.cons_append, List.cons_append, List.cons_append, List.nil_append,
    get_uint32_strm, be32_val x hx]

theorem get_f32 (w u : List Nat) (x : Nat) (hx : x < 4294967296) (d : Nat) :
    arcp_stream_get_float (strm w (be32 (uint32_of (x : Int)) ++ u)) d
      = (0, strm (w ++ be32 (uint32_of (x : Int))) u, x) := by
  rw [uint32_of_nat_lt x hx]
  unfold be32
  rw [List.cons_append, List.cons_append, List.cons_append, List.cons_append, List.nil_append,
    get_float_strm, be32_val x hx]

/-- A loop that reads `n` items from the stream: `S i s` is the state after `i` items
with the stream `s`. -/
theorem read_loop {σ : Type} (n : Nat) (body : Nat → σ → σ) (bs : Nat → List Nat)
    (S : Nat → arcp_stream_t → σ)
    (hbody : ∀ i, i < n → ∀ w r, ∃ w', body i (S i (strm w (bs i ++ r))) = S (i + 1) (strm w' r))
    (w rest : List Nat) :
    ∃ w', for_loop n body (S 0 (strm w (((List.range n).map bs).flatten ++ rest)))
      = S n (strm w' rest) := by
  induction n generalizing rest with
  | zero => exact ⟨w, by simp⟩
  | succ k ih =>
    rw [List.range_succ, List.map_append, List.flatten_append]
    simp only [List.map_cons, List.map_nil, List.flatten_cons, List.flatten_nil,
      List.append_nil, List.append_assoc]
    obtain ⟨w1, h1⟩ := ih (fun i hi => hbody i (by omega)) (bs k ++ rest)
    rw [for_loop_succ, h1]
    exact hbody k (by omega) w1 rest

/-- The first `i` elements are `v 0`, ..., `v (i - 1)`, the others are those of `l`. -/
theorem fill_set {α : Type} (v : Nat → α) (l : List α) (i : Nat) (hi : i < l.length) :
    ((List.range i).map v ++ l.drop i).set i (v i) = (List.range (i + 1)).map v ++ l.drop (i + 1) := by
  rw [List.set_append_right _ _ (by simp)]
  simp only [List.length_map, List.length_range, Nat.sub_self]
  rw [List.range_succ, List.map_append, List.append_assoc]
  congr 1
  rw [List.drop_eq_getElem_cons hi]
  rfl

theorem map_getD_range {α : Type} (l : List α) (z : α) (n : Nat) (hn : n ≤ l.length) :
    (List.range n).map (fun i => l.getD i z) = l.take n := by
  apply List.ext_getElem
  · simp [hn]
  · intro i h1 h2
    simp at h1 h2
    simp [List.getD_eq_getElem?_getD, List.getElem?_eq_getElem (by omega : i < l.length)]


/-- The first step of `decode_arcp_cmd`: the command id. -/
theorem decode_cmd_id (fuel : Nat) (u : decode_locals) (w r : List Nat)
    (h : arcp_msg_header_t) (id : Int) (h1 : -32768 ≤ id) (h2 : id < 32768) :
    decode_arcp_cmd fuel u (strm w (be16 (uint16_of id) ++ r)) (.command h (-1))
      = decode_arcp_cmd_switch fuel u (strm (w ++ be16 (uint16_of id)) r) (.command h id) := by
  unfold decode_arcp_cmd
  dsimp only
  rw [get_i16 _ _ _ h1 h2]
  rfl

theorem set_new_size_nil {α : Type} (z : α) (n : Nat) :
    set_new_size z ([] : List α) n 0 = List.replicate n z := by
  unfold set_new_size
  by_cases h : n = 0
  · subst h; simp
  · rw [if_neg h]
    simp

theorem pulsecode_new_eq (len : Nat) (h0 : len ≠ 0) (h1 : len ≤ 512) :
    arcp_pulsecode_new len
      = some { size := len, code_length := 0, data := List.replicate (1 + (len - 1) / 8) 0 } := by
  have hn : ¬ len > ARCP_MAX_PULSECODE_SIZE := by simp only [ARCP_MAX_PULSECODE_SIZE]; omega
  have e1 : uint16_of ((0 : Nat) : Int) = 0 := by decide
  have e2 : uint16_of ((1 + (len - 1) / 8 : Nat) : Int) = 1 + (len - 1) / 8 :=
    uint16_of_nat_lt _ (by omega)
  have hs : arcp_pulsecode_setsize { size := 0, code_length := 0, data := [] } len
      = (0, { size := len, code_length := 0, data := List.replicate (1 + (len - 1) / 8) 0 }) := by
    unfold arcp_pulsecode_setsize
    rw [if_neg (by exact Ne.symm h0), if_neg hn]
    simp only [if_true, if_neg h0]
    rw [e1, e2, set_new_size_nil]
  unfold arcp_pulsecode_new
  rw [if_neg h0]
  dsimp only
  rw [hs]
  rfl

theorem pulseseq_new_eq (len : Nat) (h1 : len ≤ 500) :
    arcp_pulseseq_new len
      = some { length := len, seq := List.replicate len arcp_pulseseq_entry_t.zero } := by
  have hn : ¬ len > ARCP_MAX_PULSESEQ_SIZE := by simp only [ARCP_MAX_PULSESEQ_SIZE]; omega
  have hs : arcp_pulseseq_set_length { length := 0, seq := [] } len
      = (0, { length := len, seq := List.replicate len arcp_pulseseq_entry_t.zero }) := by
    unfold arcp_pulseseq_set_length
    rw [if_neg hn]
    dsimp only
    rw [set_new_size_nil]
  unfold arcp_pulseseq_new
  dsimp only
  rw [hs]
  rfl


theorem fill_zero {α : Type} (v : Nat → α) (l : List α) :
    (List.range 0).map v ++ l.drop 0 = l := by simp

theorem fill_full {α : Type} (v : Nat → α) (l : List α) (n : Nat) (h : l.length ≤ n) :
    (List.range n).map v ++ l.drop n = (List.range n).map v := by
  rw [List.drop_eq_nil_of_le h, List.append_nil]

/-- The loop of `decode_arcp_cmd` over the bytes of a pulse code. -/
theorem decode_pulsecode_loop (fuel : Nat) (data : List Nat) (n len : Nat) (w rest : List Nat)
    (hf : n < fuel) (hn : n ≤ 255) (hlen : n ≤ data.length)
    (hd : ∀ i, i < n → data.getD i 0 < 256) :
    ∃ w', for_loop_uint8 n decode_pulsecode_byte fuel 0
        (strm w (((List.range n).map (fun i => [uint8_of ((data.getD i 0 : Nat) : Int)])).flatten
          ++ rest),
         { size := len, code_length := len, data := List.replicate n 0 })
      = some (strm w' rest, { size := len, code_length := len, data := data.take n }) := by
  rw [for_loop_uint8_eq _ _ hn _ _ hf]
  obtain ⟨w', h⟩ := read_loop n decode_pulsecode_byte
    (fun i => [uint8_of ((data.getD i 0 : Nat) : Int)])
    (fun i s => (s, (⟨len, len,
      (List.range i).map (fun i => data.getD i 0) ++ (List.replicate n 0).drop i⟩ :
        arcp_pulsecode_t)))
    (by
      intro i hi w r
      unfold decode_pulsecode_byte
      dsimp only
      rw [List.singleton_append, get_u8 _ _ _ (hd i hi)]
      dsimp only
      rw [fill_set (fun i => data.getD i 0) _ i (by simpa using hi)]
      exact ⟨_, rfl⟩) w rest
  rw [fill_zero, fill_full _ _ _ (by simp), map_getD_range _ _ _ hlen] at h
  exact ⟨w', by rw [h]⟩

/-- The loop of `decode_arcp_cmd` over the entries of a pulse sequence. -/
theorem decode_pulseseq_loop (fuel : Nat) (seq : List arcp_pulseseq_entry_t) (n : Nat)
    (w rest : List Nat) (hf : n < fuel) (hn : n ≤ 255) (hlen : n ≤ seq.length)
    (hd : ∀ i, i < n → (seq.getD i arcp_pulseseq_entry_t.zero).slot < 256 ∧
      (seq.getD i arcp_pulseseq_entry_t.zero).flags < 256) :
    ∃ w', for_loop_uint8 n decode_pulseseq_entry fuel 0
        (strm w (((List.range n).map (wire_pulseseq_entry seq)).flatten ++ rest),
         { length := n, seq := List.replicate n arcp_pulseseq_entry_t.zero })
      = some (strm w' rest, { length := n, seq := seq.take n }) := by
  rw [for_loop_uint8_eq _ _ hn _ _ hf]
  obtain ⟨w', h⟩ := read_loop n decode_pulseseq_entry (wire_pulseseq_entry seq)
    (fun i s => (s, (⟨n, (List.range i).map (fun i => seq.getD i arcp_pulseseq_entry_t.zero)
        ++ (List.replicate n arcp_pulseseq_entry_t.zero).drop i⟩ : arcp_pulseseq_t)))
    (by
      intro i hi w r
      unfold decode_pulseseq_entry wire_pulseseq_entry
      dsimp only
      rw [List.cons_append, List.cons_append, List.nil_append, get_u8 _ _ _ (hd i hi).1]
      dsimp only
      rw [get_u8 _ _ _ (hd i hi).2]
      dsimp only
      rw [← fill_set (fun i => seq.getD i arcp_pulseseq_entry_t.zero) _ i (by simpa using hi)]
      exact ⟨_, rfl⟩) w rest
  rw [fill_zero, fill_full _ _ _ (by simp), map_getD_range _ _ _ hlen] at h
  exact ⟨w', by rw [h]⟩

/-- The loop of `decode_arcp_cmd` over the entries of a phase table. -/
theorem decode_phase_loop (fuel : Nat) (phases l0 : List arcp_phase_entry_t) (n : Nat)
    (w rest : List Nat) (hf : n < fuel) (hn : n ≤ 255) (hlen : n ≤ phases.length)
    (hl0 : l0.length = n)
    (hd : ∀ i, i < n → (phases.getD i arcp_phase_entry_t.zero).channel < 65536 ∧
      (phases.getD i arcp_phase_entry_t.zero).phase < 4294967296) :
    ∃ w', for_loop_uint8 n decode_phase_entry fuel 0
        (strm w (((List.range n).map (wire_phase_entry phases)).flatten ++ rest), l0)
      = some (strm w' rest, phases.take n) := by
  rw [for_loop_uint8_eq _ _ hn _ _ hf]
  obtain ⟨w', h⟩ := read_loop n decode_phase_entry (wire_phase_entry phases)
    (fun i s => (s, (List.range i).map (fun i => phases.getD i arcp_phase_entry_t.zero)
        ++ l0.drop i))
    (by
      intro i hi w r
      unfold decode_phase_entry wire_phase_entry
      dsimp only
      rw [List.append_assoc, get_u16 _ _ _ (hd i hi).1]
      dsimp only
      rw [get_f32 _ _ _ (hd i hi).2]
      dsimp only
      rw [← fill_set (fun i => phases.getD i arcp_phase_entry_t.zero) _ i (by omega)]
      exact ⟨_, rfl⟩) w rest
  rw [fill_zero, fill_full _ _ _ (by omega), map_getD_range _ _ _ hlen] at h
  exact ⟨w', by rw [h]⟩


/-- The case `ARCP_CMD_SET_PULSE_PARAM`: the decoder reads back the pulse parameters. -/
theorem decode_pulse_param_canon (fuel : Nat) (w rest : List Nat) (h : arcp_msg_header_t)
    (id : Int) (x : Nat) (p : arcp_pulse_t) (hf : 255 < fuel) (hok : pulse_ok x p) :
    ∃ s2, decode_pulse_param fuel
        (strm w (([uint8_of x] ++ [uint8_of p.pulse_shape]
          ++ be16 (uint16_of p.pulse_ampl) ++ be16 (uint16_of p.pulse_options)
          ++ be32 (uint32_of p.pulse_width_ns) ++ wire_pulsecode p.code) ++ rest))
        (.command h id)
      = some (0, s2, .cmd_set_pulse_param h id x { p with code := canon_pulsecode p.code }) := by
  obtain ⟨h1, h2, h3, h4, h5, h6, h7⟩ := hok
  simp only [List.append_assoc, List.cons_append, List.nil_append]
  unfold decode_pulse_param
  dsimp only
  rw [get_u8 _ _ _ h1]
  dsimp only
  rw [get_i8 _ _ _ h2 h3]
  dsimp only
  rw [get_u16 _ _ _ h4]
  dsimp only
  rw [get_u16 _ _ _ h5]
  dsimp only
  rw [get_u32 _ _ _ h6]
  dsimp only
  cases hc : p.code with
  | none =>
    have e : wire_pulsecode none = be16 (uint16_of ((0 : Nat) : Int)) := by
      unfold wire_pulsecode; simp
    rw [e, get_u16 _ _ _ (by decide)]
    dsimp only
    rw [if_neg (by decide), if_neg (by decide), decode_finish_strm]
    exact ⟨_, rfl⟩
  | some c =>
    rw [hc] at h7
    have hcok : pulsecode_ok c := by
      rcases h7 with h7 | h7
      · exact absurd h7 (by simp)
      · simpa using h7
    obtain ⟨c1, c2, c3⟩ := hcok
    simp only [ARCP_MAX_PULSECODE_SIZE] at c1
    by_cases hz : c.code_length = 0
    · have e : wire_pulsecode (some c) = be16 (uint16_of ((0 : Nat) : Int)) := by
        unfold wire_pulsecode arcp_pulsecode_getlength; simp [hz]
      rw [e, get_u16 _ _ _ (by decide)]
      dsimp only
      have ec : canon_pulsecode (some c) = none := by
        unfold canon_pulsecode; dsimp only; rw [if_pos hz]
      rw [if_neg (by decide), if_neg (by decide), decode_finish_strm, ec]
      exact ⟨_, rfl⟩
    · have e : wire_pulsecode (some c) = be16 (uint16_of ((c.code_length : Nat) : Int))
          ++ ((List.range (1 + (c.code_length - 1) / 8)).map
            (fun i => [uint8_of ((c.data.getD i 0 : Nat) : Int)])).flatten := by
        unfold wire_pulsecode arcp_pulsecode_getlength arcp_pulsecode_getdata
        simp [hz, Nat.add_comm]
      rw [e, List.append_assoc (be16 _) _ rest, get_u16 _ _ _ (by omega)]
      dsimp only
      rw [if_neg (by simp only [ARCP_MAX_PULSECODE_SIZE]; omega), if_pos hz,
        pulsecode_new_eq _ hz c1]
      dsimp only
      have hsl : arcp_pulsecode_setlength
          { size := c.code_length, code_length := 0,
            data := List.replicate (1 + (c.code_length - 1) / 8) 0 } c.code_length
          = (0, { size := c.code_length, code_length := c.code_length,
                  data := List.replicate (1 + (c.code_length - 1) / 8) 0 }) := by
        unfold arcp_pulsecode_setlength
        rw [if_neg (by simp)]
      rw [hsl]
      dsimp only
      rw [if_neg (by decide)]
      have hn : 1 + (c.code_length - 1) / 8 = (c.code_length + 7) / 8 := by omega
      obtain ⟨w', hl⟩ := decode_pulsecode_loop fuel c.data (1 + (c.code_length - 1) / 8)
        c.code_length (w ++ [uint8_of ↑x] ++ [uint8_of p.pulse_shape]
          ++ be16 (uint16_of ↑p.pulse_ampl) ++ be16 (uint16_of ↑p.pulse_options)
          ++ be32 (uint32_of ↑p.pulse_width_ns) ++ be16 (uint16_of ↑c.code_length)) rest
        (by omega) (by omega) (by omega) (fun i hi => c3 i (by omega))
      rw [hl]
      dsimp only [Option.map]
      have ec : canon_pulsecode (some c) = some ⟨c.code_length, c.code_length,
          c.data.take (1 + (c.code_length - 1) / 8)⟩ := by
        unfold canon_pulsecode; dsimp only; rw [if_neg hz, hn]
      rw [decode_finish_strm, ec]
      exact ⟨_, rfl⟩


/-- The case `ARCP_CMD_SET_PULSE_SEQ`: the decoder reads back the pulse sequence. -/
theorem decode_pulse_seq_canon (fuel : Nat) (u : decode_locals) (w rest : List Nat)
    (h : arcp_msg_header_t) (id : Int) (s : arcp_pulseseq_t) (hf : 255 < fuel)
    (hok : pulseseq_ok s) :
    ∃ s2, decode_pulse_seq fuel u
        (strm w ((be16 (uint16_of s.length)
          ++ ((List.range s.length).map (wire_pulseseq_entry s.seq)).flatten) ++ rest))
        (.command h id)
      = some (0, s2, .cmd_set_pulse_seq h id
          { length := s.length, seq := s.seq.take s.length }) := by
  obtain ⟨h1, h2, h3⟩ := hok
  rw [List.append_assoc]
  unfold decode_pulse_seq
  dsimp only
  rw [get_u16 _ _ _ (by omega)]
  dsimp only
  rw [if_neg (by simp only [ARCP_MAX_PULSE_SEQ_LENGTH]; omega), pulseseq_new_eq _ (by omega)]
  dsimp only
  obtain ⟨w', hl⟩ := decode_pulseseq_loop fuel s.seq s.length
    (w ++ be16 (uint16_of ↑s.length)) rest (by omega) h1 h2 h3
  rw [hl]
  dsimp only [Option.map]
  rw [decode_finish_strm]
  exact ⟨_, rfl⟩

/-- The case `ARCP_CMD_SET_PHASE`: the decoder reads back the phase table. -/
theorem decode_phase_canon (fuel : Nat) (u : decode_locals) (w rest : List Nat)
    (h : arcp_msg_header_t) (id : Int) (slot n : Nat) (phases : List arcp_phase_entry_t)
    (hf : 255 < fuel) (hok : phases_ok slot n phases) :
    ∃ s2, decode_phase fuel u
        (strm w ((be16 (uint16_of slot) ++ be16 (uint16_of n)
          ++ ((List.range n).map (wire_phase_entry phases)).flatten) ++ rest))
        (.command h id)
      = some (0, s2, .cmd_set_phase h id slot n (phases.take n)) := by
  obtain ⟨h1, h2, h3, h4⟩ := hok
  simp only [ARCP_BSM_MAX_N_PHASES] at h2
  simp only [List.append_assoc]
  unfold decode_phase
  dsimp only
  rw [get_u16 _ _ _ h1]
  dsimp only
  rw [get_u16 _ _ _ (by omega)]
  dsimp only
  rw [if_neg (by simp only [ARCP_BSM_MAX_N_PHASES]; omega)]
  obtain ⟨w', hl⟩ := decode_phase_loop fuel phases ((List.range n).map u.phases) n
    (w ++ be16 (uint16_of ↑slot) ++ be16 (uint16_of ↑n)) rest (by omega) (by omega) h3
    (by simp) h4
  rw [hl]
  dsimp only [Option.map]
  rw [decode_finish_strm]
  exact ⟨_, rfl⟩


theorem command_id (h : arcp_msg_header_t) (i : Int) : (arcp_msg_t.command h i).id = i := rfl
theorem command_header (h : arcp_msg_header_t) (i : Int) :
    (arcp_msg_t.command h i).header = h := rfl

/-- A command within the limits is read back by `decode_arcp_cmd` as its canonical
form. -/
theorem decode_cmd_canon (fuel : Nat) (u : decode_locals) (w rest : List Nat) (m : arcp_msg_t)
    (hf : 255 < fuel) (hid1 : -32768 ≤ m.id) (hid2 : m.id < 32768) (hok : cmd_ok m) :
    ∃ s2, decode_arcp_cmd fuel u (strm w (wire_cmd m ++ rest)) (.command m.header (-1))
      = some (0, s2, canon_cmd m) := by
  obtain ⟨k1, k2, k3, k4, k5, k6⟩ := hok
  unfold wire_cmd canon_cmd
  rw [List.append_assoc, decode_cmd_id _ _ _ _ _ _ hid1 hid2]
  unfold decode_arcp_cmd_switch
  dsimp only
  rw [command_id, command_header]
  by_cases c1 : m.id = ARCP_CMD_SET_MODULE_ENABLE
  · rw [if_pos c1, if_pos c1, if_pos c1, List.singleton_append,
      get_i8 _ _ _ (k1 (Or.inl c1)).1 (k1 (Or.inl c1)).2]
    dsimp only
    rw [decode_finish_strm]
    exact ⟨_, rfl⟩
  rw [if_neg c1, if_neg c1, if_neg c1]
  by_cases c2 : m.id = ARCP_CMD_SET_PULSE_PARAM
  · rw [if_pos c2, if_pos c2, if_pos c2]
    exact decode_pulse_param_canon fuel _ rest m.header m.id _ _ hf (k2 c2)
  rw [if_neg c2, if_neg c2, if_neg c2]
  by_cases c3 : m.id = ARCP_CMD_SET_PULSE_SEQ
  · have hs := k3 c3
    rw [if_pos c3, if_pos c3, if_pos c3,
      if_neg (by simp only [ARCP_MAX_PULSE_SEQ_LENGTH]; have := hs.1; omega)]
    exact decode_pulse_seq_canon fuel u _ rest m.header m.id _ hf hs
  rw [if_neg c3, if_neg c3, if_neg c3]
  by_cases c4 : m.id = ARCP_CMD_SET_PULSE_SEQ_IDX
  · rw [if_pos c4, if_pos c4, if_pos c4, get_u16 _ _ _ (k4 c4)]
    dsimp only
    rw [decode_finish_strm]
    exact ⟨_, rfl⟩
  rw [if_neg c4, if_neg c4, if_neg c4]
  by_cases c5 : m.id = ARCP_CMD_SET_TRIG_PARAM
  · obtain ⟨t1, t2, t3, t4⟩ := k5 c5
    rw [if_pos c5, if_pos c5, if_pos c5]
    simp only [List.append_assoc, List.cons_append, List.nil_append]
    rw [get_u8 _ _ _ t1]
    dsimp only
    rw [get_u8 _ _ _ t2]
    dsimp only
    rw [get_u16 _ _ _ t3]
    dsimp only
    rw [get_u16 _ _ _ t4]
    dsimp only
    rw [decode_finish_strm]
    exact ⟨_, rfl⟩
  rw [if_neg c5, if_neg c5, if_neg c5]
  by_cases c6 : m.id = ARCP_CMD_SET_USRCTL_ENABLE
  · rw [if_pos c6, if_pos c6, if_pos c6, List.singleton_append,
      get_i8 _ _ _ (k1 (Or.inr c6)).1 (k1 (Or.inr c6)).2]
    dsimp only
    rw [decode_finish_strm]
    exact ⟨_, rfl⟩
  rw [if_neg c6, if_neg c6, if_neg c6]
  by_cases c7 : m.id = ARCP_CMD_SET_PHASE
  · have hs := k6 c7
    rw [if_pos c7, if_pos c7, if_pos c7,
      if_neg (by have := hs.2.1; omega)]
    exact decode_phase_canon fuel u _ rest m.header m.id _ _ _ hf hs
  rw [if_neg c7, if_neg c7, if_neg c7, decode_finish_strm]
  exact ⟨_, rfl⟩


/-- The loop of `decode_arcp_resp` over the outputs of an RF card or of a combiner. -/
theorem decode_output_loop (out l0 : List arcp_rf_card_output_stat_t) (n : Nat)
    (w rest : List Nat) (hlen : n ≤ out.length) (hl0 : n ≤ l0.length)
    (hd : ∀ j, j < n → output_stat_ok (out.getD j arcp_rf_card_output_stat_t.zero)) :
    ∃ w', for_loop n decode_output_stat
        (strm w (((List.range n).map (wire_output_stat out)).flatten ++ rest), l0)
      = (strm w' rest, out.take n ++ l0.drop n) := by
  obtain ⟨w', h⟩ := read_loop n decode_output_stat (wire_output_stat out)
    (fun i s => (s, (List.range i).map (fun i => out.getD i arcp_rf_card_output_stat_t.zero)
        ++ l0.drop i))
    (by
      intro i hi w r
      obtain ⟨o1, o2, o3⟩ := hd i hi
      unfold decode_output_stat wire_output_stat
      dsimp only
      rw [List.append_assoc, get_u16 _ _ _ o1]
      dsimp only
      rw [get_i16 _ _ _ o2 o3]
      dsimp only
      rw [← fill_set (fun i => out.getD i arcp_rf_card_output_stat_t.zero) _ i (by omega)]
      exact ⟨_, rfl⟩) w rest
  rw [fill_zero, map_getD_range _ _ _ hlen] at h
  exact ⟨w', h⟩

/-- The loop of `decode_arcp_resp` over temperatures. -/
theorem decode_temperature_loop (t l0 : List Int) (n : Nat)
    (w rest : List Nat) (hlen : n ≤ t.length) (hl0 : n ≤ l0.length)
    (hd : ∀ j, j < n → -128 ≤ t.getD j 0 ∧ t.getD j 0 < 128) :
    ∃ w', for_loop n decode_temperature
        (strm w (((List.range n).map (fun j => [uint8_of (t.getD j 0)])).flatten ++ rest), l0)
      = (strm w' rest, t.take n ++ l0.drop n) := by
  obtain ⟨w', h⟩ := read_loop n decode_temperature (fun j => [uint8_of (t.getD j 0)])
    (fun i s => (s, (List.range i).map (fun i => t.getD i 0) ++ l0.drop i))
    (by
      intro i hi w r
      unfold decode_temperature
      dsimp only
      rw [List.singleton_append, get_i8 _ _ _ (hd i hi).1 (hd i hi).2]
      dsimp only
      rw [← fill_set (fun i => t.getD i 0) _ i (by omega)]
      exact ⟨_, rfl⟩) w rest
  rw [fill_zero, map_getD_range _ _ _ hlen] at h
  exact ⟨w', h⟩

/-- The loops of `decode_arcp_resp` over fan speeds. -/
theorem decode_fan_loop (f l0 : List Nat) (n : Nat)
    (w rest : List Nat) (hlen : n ≤ f.length) (hl0 : n ≤ l0.length)
    (hd : ∀ j, j < n → f.getD j 0 < 65536) :
    ∃ w', for_loop n (fun i (x : arcp_stream_t × List Nat) =>
          let r := arcp_stream_get_uint16 x.1 (x.2.getD i 0)
          (r.2.1, x.2.set i r.2.2))
        (strm w (((List.range n).map (fun i => be16 (uint16_of (f.getD i 0)))).flatten ++ rest),
          l0)
      = (strm w' rest, f.take n ++ l0.drop n) := by
  obtain ⟨w', h⟩ := read_loop n (fun i (x : arcp_stream_t × List Nat) =>
          let r := arcp_stream_get_uint16 x.1 (x.2.getD i 0)
          (r.2.1, x.2.set i r.2.2)) (fun i => be16 (uint16_of (f.getD i 0)))
    (fun i s => (s, (List.range i).map (fun i => f.getD i 0) ++ l0.drop i))
    (by
      intro i hi w r
      dsimp only
      rw [get_u16 _ _ _ (hd i hi)]
      dsimp only
      rw [← fill_set (fun i => f.getD i 0) _ i (by omega)]
      exact ⟨_, rfl⟩) w rest
  rw [fill_zero, map_getD_range _ _ _ hlen] at h
  exact ⟨w', h⟩


/-- The case `ARCP_RESP_SYSID`: the decoder reads back the system identification. -/
theorem decode_sysid_canon (w rest : List Nat) (h : arcp_msg_header_t) (id ic : Int)
    (s : arcp_sysid_t) (hok : sysid_ok s) :
    ∃ s2, decode_sysid (strm w (wire_sysid s ++ rest)) h id ic
      = (0, s2, .resp_sysid h id ic (canon_sysid s)) := by
  obtain ⟨h1, h2, h3, h4, h5, h6, h7⟩ := hok
  unfold wire_sysid canon_sysid
  simp only [List.append_assoc, List.cons_append, List.nil_append]
  unfold decode_sysid
  dsimp only
  rw [get_i8 _ _ _ h1 h2]
  dsimp only
  rw [get_u16 _ _ _ h3]
  dsimp only
  rw [get_u16 _ _ _ h4]
  dsimp only
  rw [get_u16 _ _ _ h5]
  dsimp only
  by_cases c1 : s.module_type = ARCP_MODULE_STX2
  · rw [if_pos c1, if_pos c1, if_pos c1, List.append_assoc (be16 _) _ rest,
      get_u16 _ _ _ (h6 c1).1]
    dsimp only
    rw [get_u32 _ _ _ (h6 c1).2]
    dsimp only
    rw [decode_finish_strm]
    exact ⟨_, rfl⟩
  rw [if_neg c1, if_neg c1, if_neg c1]
  by_cases c2 : s.module_type = ARCP_MODULE_BSM
  · rw [if_pos c2, if_pos c2, if_pos c2, get_u16 _ _ _ (h7 c2)]
    dsimp only
    rw [decode_finish_strm]
    exact ⟨_, rfl⟩
  rw [if_neg c2, if_neg c2, if_neg c2, List.nil_append, decode_finish_strm]
  exact ⟨_, rfl⟩

/-- The case `ARCP_MODULE_BSM`: the decoder reads back the status of a BSM. -/
theorem decode_bsmstat_canon (w rest : List Nat) (s : arcp_bsmstat_t) (hok : bsmstat_ok s) :
    ∃ w', decode_bsmstat (strm w (wire_bsmstat s ++ rest))
      = (strm w' rest, canon_bsmstat s, 0) := by
  obtain ⟨h1, h2, h3, h4, h5, h6, h7, h8, h9, h10, h11, h12⟩ := hok
  simp only [ARCP_MAX_N_CHASSIS_FANS, ARCP_BSM_MAX_N_TEMPERATURES] at h7 h8 h10 h11
  unfold wire_bsmstat canon_bsmstat
  simp only [List.append_assoc, List.cons_append, List.nil_append]
  unfold decode_bsmstat
  dsimp only
  rw [get_u16 _ _ _ h1]
  dsimp only
  rw [get_u16 _ _ _ h2]
  dsimp only
  rw [get_u16 _ _ _ h3]
  dsimp only
  rw [get_i8 _ _ _ h4 h5]
  dsimp only
  rw [get_u16 _ _ _ h6]
  dsimp only
  rw [get_u8 _ _ _ (show s.n_fans < 256 by omega)]
  dsimp only
  rw [if_neg (show ¬ s.n_fans > ARCP_MAX_N_CHASSIS_FANS by
    simp only [ARCP_MAX_N_CHASSIS_FANS]; omega)]
  have hsf : ∀ st : arcp_bsmstat_t, arcp_bsmstat_set_n_fans st s.n_fans
      = (0, { st with n_fans := s.n_fans }) := by
    intro st
    unfold arcp_bsmstat_set_n_fans
    rw [if_neg (by simp only [ARCP_MAX_N_CHASSIS_FANS]; omega)]
  rw [hsf]
  dsimp only
  rw [if_pos rfl]
  obtain ⟨w1, hl1⟩ := decode_fan_loop s.fan_speed arcp_bsmstat_new.fan_speed s.n_fans
    (w ++ be16 (uint16_of ↑s.status_code) ++ be16 (uint16_of ↑s.rail_supply)
      ++ be16 (uint16_of ↑s.rail_aux) ++ [uint8_of s.ambient_temp]
      ++ be16 (uint16_of ↑s.channel_map) ++ [uint8_of ↑s.n_fans])
    (uint8_of ↑s.n_heatsink_temps ::
      (((List.range s.n_heatsink_temps).map
        (fun i => [uint8_of (s.heatsink_temp.getD i 0)])).flatten ++ rest))
    (by omega) (by simp only [arcp_bsmstat_new, arcp_bsmstat_t.zero, List.length_replicate,
      ARCP_MAX_N_CHASSIS_FANS, ARCP_BSM_MAX_N_TEMPERATURES]; omega) h9
  rw [hl1]
  dsimp only
  rw [get_u8 _ _ _ (show s.n_heatsink_temps < 256 by omega)]
  dsimp only
  rw [if_neg (show ¬ s.n_heatsink_temps > ARCP_BSM_MAX_N_TEMPERATURES by
    simp only [ARCP_BSM_MAX_N_TEMPERATURES]; omega)]
  dsimp only
  rw [if_pos rfl]
  obtain ⟨w2, hl2⟩ := decode_temperature_loop s.heatsink_temp arcp_bsmstat_new.heatsink_temp
    s.n_heatsink_temps (w1 ++ [uint8_of ↑s.n_heatsink_temps]) rest
    (by omega) (by simp only [arcp_bsmstat_new, arcp_bsmstat_t.zero, List.length_replicate,
      ARCP_MAX_N_CHASSIS_FANS, ARCP_BSM_MAX_N_TEMPERATURES]; omega) h12
  rw [hl2]
  refine ⟨w2, ?_⟩
  simp [arcp_bsmstat_new, arcp_bsmstat_t.zero, List.drop_replicate]


theorem getD_set_self {α : Type} (l : List α) (i : Nat) (c z : α) (hi : i < l.length) :
    (l.set i c).getD i z = c := by
  simp [List.getD_eq_getElem?_getD, List.getElem?_set, hi]

theorem set_set_self {α : Type} (l : List α) (i : Nat) (c d : α) :
    (l.set i c).set i d = l.set i d := by
  simp

theorem fill_getD {α : Type} (v : Nat → α) (l : List α) (i : Nat) (z : α) :
    ((List.range i).map v ++ l.drop i).getD i z = l.getD i z := by
  simp [List.getD_eq_getElem?_getD, List.getElem?_append_right]

theorem fill_length {α : Type} (v : Nat → α) (l : List α) (i : Nat) (hi : i ≤ l.length) :
    ((List.range i).map v ++ l.drop i).length = l.length := by
  simp; omega

/-- One pass of the loop of `decode_arcp_resp` over the RF cards, on a card that is still
zero. -/
theorem decode_rf_card_step (cards : List arcp_rf_card_stat_t) (i : Nat)
    (stat : arcp_stx2stat_t) (e : Int) (b : Nat) (w r : List Nat)
    (hi : i < stat.n_rf_cards) (hL : i < stat.rf_card_stat.length)
    (hz : stat.rf_card_stat.getD i arcp_rf_card_stat_t.zero = arcp_rf_card_stat_t.zero)
    (hok : rf_card_ok (cards.getD i arcp_rf_card_stat_t.zero)) :
    ∃ w', decode_rf_card i
        { stream := strm w (wire_rf_card cards i ++ r), stx2stat := stat, err := e, byte := b }
      = { stream := strm w' r,
          stx2stat :=
            { stat with
              rf_card_stat :=
                stat.rf_card_stat.set i (canon_rf_card (cards.getD i arcp_rf_card_stat_t.zero)) },
          err := 0, byte := (cards.getD i arcp_rf_card_stat_t.zero).n_rf_outputs } := by
  obtain ⟨h1, h2, h3, h4, h5, h6⟩ := hok
  simp only [ARCP_MAX_N_RF_CARD_OUTPUT] at h4
  unfold wire_rf_card canon_rf_card
  generalize cards.getD i arcp_rf_card_stat_t.zero = c at h1 h2 h3 h4 h5 h6 ⊢
  simp only [List.append_assoc, List.cons_append, List.nil_append]
  unfold decode_rf_card
  dsimp only
  rw [get_u16 _ _ _ h1]
  dsimp only
  rw [get_i16 _ _ _ h2 h3]
  dsimp only
  rw [get_u8 _ _ _ (show c.n_rf_outputs < 256 by omega)]
  dsimp only
  rw [if_neg (show ¬ c.n_rf_outputs > ARCP_MAX_N_RF_CARD_OUTPUT by
    simp only [ARCP_MAX_N_RF_CARD_OUTPUT]; omega)]
  unfold arcp_stx2stat_set_n_rf_outputs
  dsimp only
  rw [if_neg (show ¬ i ≥ stat.n_rf_cards by omega)]
  dsimp only
  rw [if_pos rfl, getD_set_self _ _ _ _ hL, hz]
  dsimp only [arcp_rf_card_stat_t.zero]
  rw [set_new_size_nil, set_set_self, getD_set_self _ _ _ _ hL]
  dsimp only
  obtain ⟨w', hl⟩ := decode_output_loop c.output_stat
    (List.replicate c.n_rf_outputs arcp_rf_card_output_stat_t.zero) c.n_rf_outputs
    (w ++ be16 (uint16_of ↑c.rail_supply) ++ be16 (uint16_of c.heatsink_temp)
      ++ [uint8_of ↑c.n_rf_outputs]) r h5 (by simp) h6
  rw [hl]
  refine ⟨w', ?_⟩
  simp


/-- The loop of `decode_arcp_resp` over the RF cards. -/
theorem decode_rf_card_loop (cards : List arcp_rf_card_stat_t) (base : arcp_stx2stat_t)
    (n b0 : Nat) (w rest : List Nat) (hn : base.n_rf_cards = n)
    (hbase : base.rf_card_stat = List.replicate n arcp_rf_card_stat_t.zero)
    (hlen : n ≤ cards.length)
    (hok : ∀ i, i < n → rf_card_ok (cards.getD i arcp_rf_card_stat_t.zero)) :
    ∃ w' b, for_loop n decode_rf_card
        { stream := strm w (((List.range n).map (wire_rf_card cards)).flatten ++ rest),
          stx2stat := base, err := 0, byte := b0 }
      = { stream := strm w' rest,
          stx2stat := { base with rf_card_stat := (cards.take n).map canon_rf_card },
          err := 0, byte := b } := by
  obtain ⟨w', h⟩ := read_loop n decode_rf_card (wire_rf_card cards)
    (fun i s => (⟨s, { base with
        rf_card_stat :=
          (List.range i).map (fun i => canon_rf_card (cards.getD i arcp_rf_card_stat_t.zero))
            ++ base.rf_card_stat.drop i }, 0,
        if i = 0 then b0 else (cards.getD (i - 1) arcp_rf_card_stat_t.zero).n_rf_outputs⟩ :
      decode_stx2_state))
    (by
      intro i hi w r
      obtain ⟨w', hs⟩ := decode_rf_card_step cards i
        { base with
          rf_card_stat :=
            (List.range i).map (fun i => canon_rf_card (cards.getD i arcp_rf_card_stat_t.zero))
              ++ base.rf_card_stat.drop i } 0
        (if i = 0 then b0 else (cards.getD (i - 1) arcp_rf_card_stat_t.zero).n_rf_outputs) w r
        (by dsimp only; omega)
        (by dsimp only; rw [fill_length _ _ _ (by rw [hbase]; simp; omega)]; rw [hbase]; simpa using hi)
        (by dsimp only; rw [fill_getD, hbase]; simp [List.getD_eq_getElem?_getD, hi])
        (hok i hi)
      refine ⟨w', ?_⟩
      rw [hs]
      dsimp only
      rw [fill_set (fun i => canon_rf_card (cards.getD i arcp_rf_card_stat_t.zero)) _ i
        (by rw [hbase]; simpa using hi)]
      simp) w rest
  have e0 : (List.range 0).map (fun i => canon_rf_card (cards.getD i arcp_rf_card_stat_t.zero))
      ++ base.rf_card_stat.drop 0 = base.rf_card_stat := by simp
  have e1 : (List.range n).map (fun i => canon_rf_card (cards.getD i arcp_rf_card_stat_t.zero))
      = (cards.take n).map canon_rf_card := by
    rw [← map_getD_range cards arcp_rf_card_stat_t.zero n hlen, List.map_map]
    rfl
  rw [e0, if_pos rfl, fill_full _ _ _ (by rw [hbase]; simp), e1] at h
  exact ⟨w', _, h⟩


theorem unit_zero_flags_type (f t : Nat) :
    ((arcp_stx2unit_union_t.zero.set_flags f).set_type t)
      = .unit { flags := f, type := t } := rfl

theorem unit_v_unit (u : arcp_extunit_stat_t) : (arcp_stx2unit_union_t.unit u).unit_v = u := rfl

theorem comb_v_unit (u : arcp_extunit_stat_t) :
    (arcp_stx2unit_union_t.unit u).comb_v =
      ⟨u.flags, u.type, 0, List.replicate ARCP_STX2_EXTCOMB_MAX_N_TEMPERATURES 0, 0,
        List.replicate ARCP_STX2_EXTCOMB_MAX_N_OUTPUTS arcp_rf_card_output_stat_t.zero⟩ := rfl

/-- One pass of the loop of `decode_arcp_resp` over the units, on a unit that is still
zero. -/
theorem decode_stx2_unit_step (units : List arcp_stx2unit_union_t) (i : Nat)
    (stat : arcp_stx2stat_t) (b : Nat) (w r : List Nat)
    (hL : i < stat.unit_stat.length)
    (hz : stat.unit_stat.getD i arcp_stx2unit_union_t.zero = arcp_stx2unit_union_t.zero)
    (hok : stx2unit_ok (units.getD i arcp_stx2unit_union_t.zero)) :
    ∃ w', decode_stx2_unit i
        { stream := strm w (wire_stx2_unit units i ++ r), stx2stat := stat, err := 0, byte := b }
      = { stream := strm w' r,
          stx2stat :=
            { stat with
              unit_stat :=
                stat.unit_stat.set i
                  (canon_stx2unit (units.getD i arcp_stx2unit_union_t.zero)) },
          err := 0,
          byte :=
            if (units.getD i arcp_stx2unit_union_t.zero).unit_v.type
                = ARCP_STX2_UNIT_EXT_COMBINER_SPLITTER
            then (units.getD i arcp_stx2unit_union_t.zero).comb_v.n_outputs else b } := by
  obtain ⟨h1, h2, h3⟩ := hok
  unfold wire_stx2_unit canon_stx2unit
  generalize units.getD i arcp_stx2unit_union_t.zero = x at h1 h2 h3 ⊢
  by_cases hc : x.unit_v.type = ARCP_STX2_UNIT_EXT_COMBINER_SPLITTER
  · obtain ⟨c1, c2, c3, c4, c5, c6⟩ := h3 hc
    simp only [ARCP_STX2_EXTCOMB_MAX_N_TEMPERATURES, ARCP_STX2_EXTCOMB_MAX_N_OUTPUTS]
      at c1 c2 c4 c5
    rw [if_pos hc, if_pos hc, if_pos hc]
    simp only [List.append_assoc, List.cons_append, List.nil_append]
    unfold decode_stx2_unit
    dsimp only
    rw [if_neg (show ¬ (0 : Int) ≠ 0 by decide), hz, get_u8 _ _ _ h1]
    dsimp only
    rw [get_u8 _ _ _ h2]
    dsimp only
    rw [unit_zero_flags_type]
    rw [unit_v_unit, comb_v_unit]
    dsimp only
    rw [if_pos hc, get_u8 _ _ _ (show x.comb_v.n_temperatures < 256 by omega)]
    dsimp only
    rw [if_neg (show ¬ x.comb_v.n_temperatures > ARCP_STX2_EXTCOMB_MAX_N_TEMPERATURES by
      simp only [ARCP_STX2_EXTCOMB_MAX_N_TEMPERATURES]; omega)]
    dsimp only
    obtain ⟨w1, hl1⟩ := decode_temperature_loop x.comb_v.temperature
      (List.replicate ARCP_STX2_EXTCOMB_MAX_N_TEMPERATURES 0) x.comb_v.n_temperatures
      (w ++ [uint8_of ↑x.unit_v.flags] ++ [uint8_of ↑x.unit_v.type]
        ++ [uint8_of ↑x.comb_v.n_temperatures])
      (uint8_of ↑x.comb_v.n_outputs ::
        (((List.range x.comb_v.n_outputs).map (wire_output_stat x.comb_v.output)).flatten ++ r))
      (by omega) (by simp only [List.length_replicate, ARCP_STX2_EXTCOMB_MAX_N_TEMPERATURES]; omega)
      c3
    rw [hl1]
    dsimp only
    rw [if_pos rfl, get_u8 _ _ _ (show x.comb_v.n_outputs < 256 by omega)]
    dsimp only
    rw [if_neg (show ¬ ((0 : Int) = 0 ∧ x.comb_v.n_outputs > ARCP_STX2_EXTCOMB_MAX_N_OUTPUTS) by
      simp only [ARCP_STX2_EXTCOMB_MAX_N_OUTPUTS]; omega), if_pos rfl]
    dsimp only
    obtain ⟨w2, hl2⟩ := decode_output_loop x.comb_v.output
      (List.replicate ARCP_STX2_EXTCOMB_MAX_N_OUTPUTS arcp_rf_card_output_stat_t.zero)
      x.comb_v.n_outputs (w1 ++ [uint8_of ↑x.comb_v.n_outputs]) r
      (by omega) (by simp only [List.length_replicate, ARCP_STX2_EXTCOMB_MAX_N_OUTPUTS]; omega)
      c6
    rw [hl2]
    refine ⟨w2, ?_⟩
    simp [List.drop_replicate]
  · rw [if_neg hc, if_neg hc, if_neg hc]
    simp only [List.append_assoc, List.cons_append, List.nil_append]
    unfold decode_stx2_unit
    dsimp only
    rw [if_neg (show ¬ (0 : Int) ≠ 0 by decide), hz, get_u8 _ _ _ h1]
    dsimp only
    rw [get_u8 _ _ _ h2]
    dsimp only
    rw [unit_zero_flags_type]
    rw [unit_v_unit]
    dsimp only
    rw [if_neg hc]
    exact ⟨_, rfl⟩


/-- The loop of `decode_arcp_resp` over the units. -/
theorem decode_stx2_unit_loop (units : List arcp_stx2unit_union_t) (base : arcp_stx2stat_t)
    (n b0 : Nat) (w rest : List Nat)
    (hbase : base.unit_stat = List.replicate n arcp_stx2unit_union_t.zero)
    (hlen : n ≤ units.length)
    (hok : ∀ i, i < n → stx2unit_ok (units.getD i arcp_stx2unit_union_t.zero)) :
    ∃ w' b, for_loop n decode_stx2_unit
        { stream := strm w (((List.range n).map (wire_stx2_unit units)).flatten ++ rest),
          stx2stat := base, err := 0, byte := b0 }
      = { stream := strm w' rest,
          stx2stat := { base with unit_stat := (units.take n).map canon_stx2unit },
          err := 0, byte := b } := by
  obtain ⟨w', h⟩ := read_loop n decode_stx2_unit (wire_stx2_unit units)
    (fun i s => (⟨s, { base with
        unit_stat :=
          (List.range i).map (fun i => canon_stx2unit (units.getD i arcp_stx2unit_union_t.zero))
            ++ base.unit_stat.drop i }, 0,
        Nat.rec b0 (fun k bk =>
          if (units.getD k arcp_stx2unit_union_t.zero).unit_v.type
              = ARCP_STX2_UNIT_EXT_COMBINER_SPLITTER
          then (units.getD k arcp_stx2unit_union_t.zero).comb_v.n_outputs else bk) i⟩ :
      decode_stx2_state))
    (by
      intro i hi w r
      obtain ⟨w', hs⟩ := decode_stx2_unit_step units i
        { base with
          unit_stat :=
            (List.range i).map
                (fun i => canon_stx2unit (units.getD i arcp_stx2unit_union_t.zero))
              ++ base.unit_stat.drop i }
        (Nat.rec b0 (fun k bk =>
          if (units.getD k arcp_stx2unit_union_t.zero).unit_v.type
              = ARCP_STX2_UNIT_EXT_COMBINER_SPLITTER
          then (units.getD k arcp_stx2unit_union_t.zero).comb_v.n_outputs else bk) i) w r
        (by dsimp only; rw [fill_length _ _ _ (by rw [hbase]; simp; omega)]; rw [hbase]; simpa using hi)
        (by dsimp only; rw [fill_getD, hbase]; simp [List.getD_eq_getElem?_getD, hi])
        (hok i hi)
      refine ⟨w', ?_⟩
      rw [hs]
      dsimp only
      rw [fill_set (fun i => canon_stx2unit (units.getD i arcp_stx2unit_union_t.zero)) _ i
        (by rw [hbase]; simpa using hi)]) w rest
  have e0 : (List.range 0).map (fun i => canon_stx2unit (units.getD i arcp_stx2unit_union_t.zero))
      ++ base.unit_stat.drop 0 = base.unit_stat := by simp
  have e1 : (List.range n).map (fun i => canon_stx2unit (units.getD i arcp_stx2unit_union_t.zero))
      = (units.take n).map canon_stx2unit := by
    rw [← map_getD_range units arcp_stx2unit_union_t.zero n hlen, List.map_map]
    rfl
  rw [e0, fill_full _ _ _ (by rw [hbase]; simp), e1] at h
  exact ⟨w', _, h⟩


theorem stx2stat_set_n_chassis_fans_new (stat : arcp_stx2stat_t) (n : Nat) (hn : n ≤ 8)
    (h0 : stat.n_chassis_fans = 0) (h1 : stat.fan_speed = []) :
    arcp_stx2stat_set_n_chassis_fans stat n
      = (0, { stat with fan_speed := List.replicate n 0, n_chassis_fans := n,
                        chassis_datasize := 7 + 2 * n }) := by
  unfold arcp_stx2stat_set_n_chassis_fans
  rw [if_neg (show ¬ n > ARCP_MAX_N_CHASSIS_FANS by simp only [ARCP_MAX_N_CHASSIS_FANS]; omega)]
  dsimp only
  rw [h0, h1, set_new_size_nil, uint8_of_nat_lt _ (by omega)]

theorem stx2stat_set_n_rf_cards_new (stat : arcp_stx2stat_t) (n : Nat)
    (h0 : stat.n_rf_cards = 0) (h1 : stat.rf_card_stat = []) :
    arcp_stx2stat_set_n_rf_cards stat n
      = (0, { stat with rf_card_stat := List.replicate n arcp_rf_card_stat_t.zero,
                        n_rf_cards := n }) := by
  unfold arcp_stx2stat_set_n_rf_cards
  dsimp only
  rw [h0, h1, set_new_size_nil]

theorem stx2stat_set_n_units_new (stat : arcp_stx2stat_t) (n : Nat) (hn : n ≤ 10)
    (h0 : stat.n_units = 0) (h1 : stat.unit_stat = []) :
    arcp_stx2stat_set_n_units stat n
      = (0, { stat with unit_stat := List.replicate n arcp_stx2unit_union_t.zero,
                        n_units := n }) := by
  unfold arcp_stx2stat_set_n_units
  rw [if_neg (show ¬ n > ARCP_STX2_MAX_N_STX2_UNITS by
    simp only [ARCP_STX2_MAX_N_STX2_UNITS]; omega)]
  dsimp only
  rw [h0, h1, set_new_size_nil]

/-- First block of the STX2 case. -/
theorem decode_stx2_chassis_eq (w r : List Nat) (s : arcp_stx2stat_t)
    (h1 : s.status_code < 65536) (h2 : s.rail_supply < 65536) (h3 : s.rail_aux < 65536)
    (h4 : -128 ≤ s.ambient_temp) (h5 : s.ambient_temp < 128) (h6 : s.n_chassis_fans ≤ 8) :
    ∃ w', decode_stx2_chassis (strm w (be16 (uint16_of s.status_code)
        ++ (uint8_of s.chassis_datasize :: (be16 (uint16_of s.rail_supply)
        ++ (be16 (uint16_of s.rail_aux) ++ (uint8_of s.ambient_temp
          :: uint8_of s.n_chassis_fans :: r))))))
      = { stream := strm w' r,
          stx2stat :=
            { arcp_stx2stat_t.zero with
              status_code := s.status_code, rail_supply := s.rail_supply,
              rail_aux := s.rail_aux, ambient_temp := s.ambient_temp,
              fan_speed := List.replicate s.n_chassis_fans 0,
              n_chassis_fans := s.n_chassis_fans,
              chassis_datasize := 7 + 2 * s.n_chassis_fans },
          err := 0, byte := s.n_chassis_fans } := by
  unfold decode_stx2_chassis
  dsimp only
  rw [get_u16 _ _ _ h1]
  dsimp only
  rw [get_uint8_strm]
  dsimp only
  rw [get_u16 _ _ _ h2]
  dsimp only
  rw [get_u16 _ _ _ h3]
  dsimp only
  rw [get_i8 _ _ _ h4 h5]
  dsimp only
  rw [get_u8 _ _ _ (show s.n_chassis_fans < 256 by omega)]
  dsimp only
  rw [if_neg (show ¬ s.n_chassis_fans > ARCP_MAX_N_CHASSIS_FANS by
    simp only [ARCP_MAX_N_CHASSIS_FANS]; omega),
    stx2stat_set_n_chassis_fans_new _ _ h6 rfl rfl]
  exact ⟨_, rfl⟩


/-- Second block of the STX2 case. -/
theorem decode_stx2_fans_eq (w r : List Nat) (s stat : arcp_stx2stat_t) (b : Nat)
    (hn : stat.n_chassis_fans = s.n_chassis_fans)
    (hf : stat.fan_speed = List.replicate s.n_chassis_fans 0)
    (h0 : stat.n_rf_cards = 0) (h1 : stat.rf_card_stat = [])
    (h7 : s.n_chassis_fans ≤ s.fan_speed.length)
    (h8 : ∀ i, i < s.n_chassis_fans → s.fan_speed.getD i 0 < 65536)
    (h9 : s.card_map < 65536) (h10 : s.n_rf_cards ≤ 9) :
    ∃ w', decode_stx2_fans
        { stream := strm w (((List.range s.n_chassis_fans).map
            (fun i => be16 (uint16_of (s.fan_speed.getD i 0)))).flatten
            ++ (be16 (uint16_of s.card_map) ++ (uint8_of s.n_rf_cards :: r))),
          stx2stat := stat, err := 0, byte := b }
      = { stream := strm w' r,
          stx2stat :=
            { stat with
              fan_speed := s.fan_speed.take s.n_chassis_fans, card_map := s.card_map,
              rf_card_stat := List.replicate s.n_rf_cards arcp_rf_card_stat_t.zero,
              n_rf_cards := s.n_rf_cards },
          err := 0, byte := s.n_rf_cards } := by
  unfold decode_stx2_fans
  dsimp only
  rw [if_pos rfl, hn, hf]
  obtain ⟨w1, hl⟩ := decode_fan_loop s.fan_speed (List.replicate s.n_chassis_fans 0)
    s.n_chassis_fans w (be16 (uint16_of s.card_map) ++ (uint8_of s.n_rf_cards :: r))
    h7 (by simp) h8
  rw [hl]
  dsimp only
  rw [get_u16 _ _ _ h9]
  dsimp only
  rw [get_u8 _ _ _ (show s.n_rf_cards < 256 by omega)]
  dsimp only
  rw [if_neg (show ¬ s.n_rf_cards > ARCP_MAX_N_RF_CARDS by
    simp only [ARCP_MAX_N_RF_CARDS]; omega)]
  unfold arcp_stx2stat_set_n_rf_cards
  dsimp only
  rw [h0, h1, set_new_size_nil]
  refine ⟨w1 ++ be16 (uint16_of ↑s.card_map) ++ [uint8_of ↑s.n_rf_cards], ?_⟩
  simp

/-- Fourth block of the STX2 case. -/
theorem decode_stx2_n_units_eq (w r : List Nat) (stat : arcp_stx2stat_t) (b n : Nat)
    (h0 : stat.n_units = 0) (h1 : stat.unit_stat = []) (hn : n ≤ 10) :
    ∃ w', decode_stx2_n_units
        { stream := strm w (uint8_of n :: r), stx2stat := stat, err := 0, byte := b }
      = { stream := strm w' r,
          stx2stat :=
            { stat with
              unit_stat := List.replicate n arcp_stx2unit_union_t.zero, n_units := n },
          err := 0, byte := n } := by
  unfold decode_stx2_n_units
  dsimp only
  rw [if_pos rfl, get_u8 _ _ _ (show n < 256 by omega)]
  dsimp only
  rw [if_neg (show ¬ n > ARCP_STX2_MAX_N_STX2_UNITS by
    simp only [ARCP_STX2_MAX_N_STX2_UNITS]; omega),
    stx2stat_set_n_units_new _ _ hn h0 h1]
  dsimp only
  rw [if_neg (show ¬ (0 : Int) ≠ 0 by decide)]
  exact ⟨_, rfl⟩

/-- The case `ARCP_MODULE_STX2`: the decoder reads back the status of an STX2. -/
theorem decode_stx2stat_canon (w rest : List Nat) (s : arcp_stx2stat_t)
    (hok : stx2stat_ok s) :
    ∃ w' b, decode_stx2stat (strm w (wire_stx2stat s ++ rest))
      = { stream := strm w' rest, stx2stat := canon_stx2stat s, err := 0, byte := b } := by
  obtain ⟨h1, h2, h3, h4, h5, h6, h7, h8, h9, h10, h11, h12, h13, h14, h15⟩ := hok
  simp only [ARCP_MAX_N_CHASSIS_FANS, ARCP_MAX_N_RF_CARDS, ARCP_STX2_MAX_N_STX2_UNITS]
    at h6 h10 h13
  unfold wire_stx2stat canon_stx2stat
  simp only [List.append_assoc, List.cons_append, List.nil_append]
  unfold decode_stx2stat
  dsimp only
  obtain ⟨w1, e1⟩ := decode_stx2_chassis_eq w
    (((List.range s.n_chassis_fans).map
        (fun i => be16 (uint16_of (s.fan_speed.getD i 0)))).flatten
      ++ (be16 (uint16_of s.card_map) ++ (uint8_of s.n_rf_cards ::
        (((List.range s.n_rf_cards).map (wire_rf_card s.rf_card_stat)).flatten
          ++ (uint8_of s.n_units ::
            (((List.range s.n_units).map (wire_stx2_unit s.unit_stat)).flatten ++ rest))))))
    s h1 h2 h3 h4 h5 h6
  rw [e1]
  obtain ⟨w2, e2⟩ := decode_stx2_fans_eq w1
    (((List.range s.n_rf_cards).map (wire_rf_card s.rf_card_stat)).flatten
          ++ (uint8_of s.n_units ::
            (((List.range s.n_units).map (wire_stx2_unit s.unit_stat)).flatten ++ rest)))
    s { arcp_stx2stat_t.zero with
        status_code := s.status_code, rail_supply := s.rail_supply,
        rail_aux := s.rail_aux, ambient_temp := s.ambient_temp,
        fan_speed := List.replicate s.n_chassis_fans 0,
        n_chassis_fans := s.n_chassis_fans,
        chassis_datasize := 7 + 2 * s.n_chassis_fans }
    s.n_chassis_fans rfl rfl rfl rfl h7 h8 h9 h10
  rw [e2]
  unfold decode_stx2_cards
  dsimp only
  rw [if_pos rfl]
  have z1 : arcp_stx2stat_t.zero.n_units = 0 := rfl
  have z2 : arcp_stx2stat_t.zero.unit_stat = [] := rfl
  rw [z1, z2]
  obtain ⟨w3, b3, e3⟩ := decode_rf_card_loop s.rf_card_stat
    ⟨s.status_code, 7 + 2 * s.n_chassis_fans, s.rail_supply, s.rail_aux, s.ambient_temp,
      s.n_chassis_fans, s.fan_speed.take s.n_chassis_fans, s.card_map, s.n_rf_cards,
      List.replicate s.n_rf_cards arcp_rf_card_stat_t.zero, 0, []⟩
    s.n_rf_cards s.n_rf_cards w2
    (uint8_of s.n_units ::
      (((List.range s.n_units).map (wire_stx2_unit s.unit_stat)).flatten ++ rest))
    rfl rfl h11 h12
  rw [e3]
  obtain ⟨w4, e4⟩ := decode_stx2_n_units_eq w3
    (((List.range s.n_units).map (wire_stx2_unit s.unit_stat)).flatten ++ rest)
    ⟨s.status_code, 7 + 2 * s.n_chassis_fans, s.rail_supply, s.rail_aux, s.ambient_temp,
      s.n_chassis_fans, s.fan_speed.take s.n_chassis_fans, s.card_map, s.n_rf_cards,
      (s.rf_card_stat.take s.n_rf_cards).map canon_rf_card, 0, []⟩
    b3 s.n_units rfl rfl h13
  rw [e4]
  dsimp only
  obtain ⟨w5, b5, e5⟩ := decode_stx2_unit_loop s.unit_stat
    ⟨s.status_code, 7 + 2 * s.n_chassis_fans, s.rail_supply, s.rail_aux, s.ambient_temp,
      s.n_chassis_fans, s.fan_speed.take s.n_chassis_fans, s.card_map, s.n_rf_cards,
      (s.rf_card_stat.take s.n_rf_cards).map canon_rf_card, s.n_units,
      List.replicate s.n_units arcp_stx2unit_union_t.zero⟩
    s.n_units s.n_units w4 rest rfl h14 h15
  rw [e5]
  exact ⟨w5, b5, rfl⟩


/-- The case `ARCP_RESP_SYSSTAT`: the decoder reads back the system status. -/
theorem decode_sysstat_canon (w rest : List Nat) (h : arcp_msg_header_t) (id ic : Int)
    (s : arcp_sysstat_t) (hok : sysstat_ok s) :
    ∃ s2, decode_sysstat (strm w (wire_sysstat s ++ rest)) h id ic
      = (0, s2, .resp_sysstat h id ic (canon_sysstat s)) := by
  obtain ⟨h1, h2, h3, h4, h5, h6⟩ := hok
  unfold wire_sysstat canon_sysstat
  by_cases c1 : s.module_type = ARCP_MODULE_STX2
  · rw [if_pos c1, if_pos c1]
    simp only [List.append_assoc, List.cons_append, List.nil_append]
    unfold decode_sysstat
    dsimp only
    rw [get_i8 _ _ _ h1 h2]
    dsimp only
    rw [get_i8 _ _ _ h3 h4]
    dsimp only
    obtain ⟨w', b, e⟩ := decode_stx2stat_canon
      (w ++ [uint8_of s.module_type] ++ [uint8_of s.module_status]) rest s.stx2 (h5 c1).2
    rw [if_pos c1, e]
    dsimp only
    rw [if_pos rfl, decode_finish_strm]
    exact ⟨_, rfl⟩
  rw [if_neg c1, if_neg c1]
  by_cases c2 : s.module_type = ARCP_MODULE_BSM
  · rw [if_pos c2, if_pos c2]
    simp only [List.append_assoc, List.cons_append, List.nil_append]
    unfold decode_sysstat
    dsimp only
    rw [get_i8 _ _ _ h1 h2]
    dsimp only
    rw [get_i8 _ _ _ h3 h4]
    dsimp only
    obtain ⟨w', e⟩ := decode_bsmstat_canon
      (w ++ [uint8_of s.module_type] ++ [uint8_of s.module_status]) rest s.bsm (h6 c2).2
    rw [if_neg c1, if_pos c2, e]
    dsimp only
    rw [if_pos rfl, decode_finish_strm]
    exact ⟨_, rfl⟩
  rw [if_neg c2, if_neg c2]
  simp only [List.append_assoc, List.cons_append, List.nil_append]
  unfold decode_sysstat
  dsimp only
  rw [get_i8 _ _ _ h1 h2]
  dsimp only
  rw [get_i8 _ _ _ h3 h4]
  dsimp only
  rw [if_neg c1, if_neg c2, decode_finish_strm]
  exact ⟨_, rfl⟩

theorem response_id (h : arcp_msg_header_t) (i c : Int) :
    (arcp_msg_t.response h i c).id = i := rfl
theorem response_header (h : arcp_msg_header_t) (i c : Int) :
    (arcp_msg_t.response h i c).header = h := rfl
theorem response_info_code (h : arcp_msg_header_t) (i c : Int) :
    (arcp_msg_t.response h i c).info_code = c := rfl

/-- A response within the limits is read back by `decode_arcp_resp` as its canonical
form. -/
theorem decode_resp_canon (u : decode_locals) (w rest : List Nat) (m : arcp_msg_t)
    (ht : m.header.msg_type = ARCP_MSG_RESPONSE)
    (hid1 : -32768 ≤ m.id) (hid2 : m.id < 32768) (hok : resp_ok m) :
    ∃ s2, decode_arcp_resp u (strm w (wire_resp m ++ rest)) (.response m.header (-1) 0)
      = (0, s2, canon_resp m) := by
  obtain ⟨k1, k2, k3, k4⟩ := hok
  unfold wire_resp canon_resp
  simp only [List.append_assoc]
  unfold decode_arcp_resp
  dsimp only
  rw [get_i16 _ _ _ hid1 hid2]
  dsimp only
  have hs : arcp_msg_set_resp_id (.response m.header (-1) 0) m.id
      = (0, .response m.header m.id 0) := by
    unfold arcp_msg_set_resp_id
    rw [response_header, response_id, if_neg (by rw [ht]; decide), if_neg (by decide)]
    rfl
  rw [hs]
  dsimp only
  rw [if_neg (by decide), get_i16 _ _ _ k1 k2]
  dsimp only
  rw [response_id, response_header]
  by_cases c1 : m.id = ARCP_RESP_SYSID
  · rw [if_pos c1, if_pos c1, if_pos c1]
    exact decode_sysid_canon _ rest m.header m.id m.info_code m.sysid (k3 c1)
  rw [if_neg c1, if_neg c1, if_neg c1]
  by_cases c2 : m.id = ARCP_RESP_SYSSTAT
  · rw [if_pos c2, if_pos c2, if_pos c2]
    exact decode_sysstat_canon _ rest m.header m.id m.info_code m.sysstat (k4 c2)
  rw [if_neg c2, if_neg c2, if_neg c2, List.nil_append, decode_finish_strm]
  exact ⟨_, rfl⟩


theorem header_eta (h : arcp_msg_header_t) (a b c d e : Nat) (h1 : h.magic_num = a)
    (h2 : h.msg_length = b) (h3 : h.exchange_id = c) (h4 : h.msg_type = d)
    (h5 : h.protocol_version = e) :
    h = { magic_num := a, msg_length := b, exchange_id := c, msg_type := d,
          protocol_version := e } := by
  cases h
  simp only [arcp_msg_header_t.mk.injEq] at *
  exact ⟨h1, h2, h3, h4, h5⟩

/-- The decoder reads back the bytes of a message within the limits as its canonical
form. -/
theorem stream_decode_wire (fuel : Nat) (u : decode_locals) (m : arcp_msg_t)
    (hf : 255 < fuel) (hok : msg_ok m) (hml : m.header.msg_length < 65536)
    (ht : m.header.msg_type = ARCP_MSG_COMMAND ∨ m.header.msg_type = ARCP_MSG_RESPONSE)
    (hlen : (wire_msg m).length ≤ 1024) :
    ∃ s2, arcp_stream_decode fuel u (stream_of_bytes (wire_msg m))
      = some (0, s2, some (canon m)) := by
  obtain ⟨k1, k2, k3, k4, k5, k6, k7⟩ := hok
  rw [stream_of_bytes_eq]
  unfold wire_msg canon at *
  have e1 := be32_val _ k1
  have e2 := be16_val _ hml
  have e3 := be16_val _ k2
  have e4 := be16_val _ k3
  rcases ht with ht | ht
  · rw [if_pos ht] at hlen ⊢
    rw [if_pos ht]
    have hh : m.header = ⟨m.header.magic_num, m.header.msg_length, m.header.exchange_id, 0,
        m.header.protocol_version⟩ :=
      header_eta _ _ _ _ _ _ rfl rfl rfl ht rfl
    unfold wire_header at hlen ⊢
    rw [uint32_of_nat_lt _ k1, uint16_of_nat_lt _ hml, uint16_of_nat_lt _ k2,
      uint16_of_nat_lt _ k3, ht] at hlen ⊢
    unfold be32 be16 at hlen ⊢
    simp only [List.append_assoc, List.cons_append, List.nil_append, List.length_cons] at hlen ⊢
    rw [stream_decode_header_cmd fuel u _ _ _ _ _ _ _ _ _ _ _ _ (by omega) (by decide),
      e1, e2, e3, e4, ← hh]
    obtain ⟨s2, e⟩ := decode_cmd_canon fuel u
      [m.header.magic_num / 16777216 % 256, m.header.magic_num / 65536 % 256,
        m.header.magic_num / 256 % 256, m.header.magic_num % 256,
        m.header.msg_length / 256 % 256, m.header.msg_length % 256,
        m.header.exchange_id / 256 % 256, m.header.exchange_id % 256,
        uint8_of ((ARCP_MSG_COMMAND : Nat) : Int),
        m.header.protocol_version / 256 % 256, m.header.protocol_version % 256]
      [] m hf k4 k5 (k6 ht)
    rw [List.append_nil] at e
    rw [e]
    exact ⟨s2, rfl⟩
  · have ht0 : ¬ m.header.msg_type = ARCP_MSG_COMMAND := by rw [ht]; decide
    rw [if_neg ht0, if_pos ht] at hlen ⊢
    rw [if_neg ht0]
    have hh : m.header = ⟨m.header.magic_num, m.header.msg_length, m.header.exchange_id, 1,
        m.header.protocol_version⟩ :=
      header_eta _ _ _ _ _ _ rfl rfl rfl ht rfl
    unfold wire_header at hlen ⊢
    rw [uint32_of_nat_lt _ k1, uint16_of_nat_lt _ hml, uint16_of_nat_lt _ k2,
      uint16_of_nat_lt _ k3, ht] at hlen ⊢
    unfold be32 be16 at hlen ⊢
    simp only [List.append_assoc, List.cons_append, List.nil_append, List.length_cons] at hlen ⊢
    rw [stream_decode_header_resp fuel u _ _ _ _ _ _ _ _ _ _ _ _ (by omega) (by decide),
      e1, e2, e3, e4, ← hh]
    obtain ⟨s2, e⟩ := decode_resp_canon u
      [m.header.magic_num / 16777216 % 256, m.header.magic_num / 65536 % 256,
        m.header.magic_num / 256 % 256, m.header.magic_num % 256,
        m.header.msg_length / 256 % 256, m.header.msg_length % 256,
        m.header.exchange_id / 256 % 256, m.header.exchange_id % 256,
        uint8_of ((ARCP_MSG_RESPONSE : Nat) : Int),
        m.header.protocol_version / 256 % 256, m.header.protocol_version % 256]
      [] m ht k4 k5 (k7 ht)
    rw [List.append_nil] at e
    rw [e]
    exact ⟨s2, rfl⟩


theorem msg_ok_set_stream_size (m : arcp_msg_t) (h : msg_ok m) :
    msg_ok (arcp_msg_set_stream_size m).2 := by
  unfold msg_ok cmd_ok resp_ok arcp_msg_set_stream_size at *
  simp only [set_header_header, set_header_id, set_header_enable, set_header_pulse_map_index,
    set_header_pulse_param, set_header_seq, set_header_seq_index, set_header_trig_param,
    set_header_phase_slot, set_header_n_phases, set_header_phases, set_header_info_code,
    set_header_sysid, set_header_sysstat]
  exact h

theorem canon_header (m : arcp_msg_t) : (canon m).header = m.header := by
  unfold canon canon_cmd canon_resp
  split_ifs <;> rfl

theorem canon_id (m : arcp_msg_t) : (canon m).id = m.id := by
  unfold canon canon_cmd canon_resp
  split_ifs <;> rfl

/-! ## Lemmas: the exchange engine -/


theorem exec_cmd_of_exchange (fuel : Nat) (u : decode_locals) (mem : Nat → Nat)
    (handle : arcp_handle_t) (cmd_id : Int) (cmd_msg : Option arcp_msg_t)
    (resp_ret : Option (Option arcp_msg_t)) (xid : Nat) (resp : arcp_msg_t)
    (h2 : arcp_handle_t)
    (hx : exchange_ok fuel u mem handle cmd_id cmd_msg xid resp h2) :
    ∃ c1, arcp_exec_cmd fuel u mem handle cmd_id cmd_msg resp_ret xid =
      some (int8_of resp.id, cmd_msg.map (fun _ => c1), resp_ret.map (fun _ => some resp), h2,
        (xid + 1) % 65536) := by
  obtain ⟨c, c1, h1, hp, hw, hr, hc⟩ := hx
  refine ⟨c1, ?_⟩
  unfold arcp_exec_cmd
  rw [hp]
  dsimp only
  rw [hw]
  dsimp only
  rw [if_pos rfl, hr]
  dsimp only
  rw [if_pos rfl, hc]
  simp

theorem exec_cmd_of_failure (fuel : Nat) (u : decode_locals) (mem : Nat → Nat)
    (handle : arcp_handle_t) (cmd_id : Int) (cmd_msg : Option arcp_msg_t)
    (resp_ret : Option (Option arcp_msg_t)) (xid : Nat) (e : Int)
    (h2 : arcp_handle_t)
    (hx : exchange_fails fuel u mem handle cmd_id cmd_msg xid e h2) :
    ∃ c1 r, arcp_exec_cmd fuel u mem handle cmd_id cmd_msg resp_ret xid =
      some (e, cmd_msg.map (fun _ => c1), resp_ret.map (fun _ => r), h2,
        (xid + 1) % 65536) := by
  obtain ⟨he, c, hp, hw⟩ := hx
  unfold arcp_exec_cmd
  rw [hp]
  dsimp only
  rcases hw with ⟨c1, hw⟩ | ⟨c1, h1, hw, hr⟩
  · refine ⟨c1, none, ?_⟩
    rw [hw]
    dsimp only
    rw [if_neg he]
    dsimp only
    rw [if_neg he, if_pos he]
  · rw [hw]
    dsimp only
    rw [if_pos rfl]
    rcases hr with ⟨r, hr⟩ | ⟨r, hr, hc⟩
    · refine ⟨c1, r, ?_⟩
      rw [hr]
      dsimp only
      rw [if_neg he, if_pos he]
    · refine ⟨c1, r, ?_⟩
      rw [hr]
      dsimp only
      rw [if_pos rfl, hc, if_pos he]

theorem do_get_sys_info_of_exchange (fuel : Nat) (u : decode_locals) (mem : Nat → Nat)
    (handle : arcp_handle_t) (cmd_id expected : Int) (resp0 : Option arcp_msg_t) (xid : Nat)
    (resp : arcp_msg_t) (h2 : arcp_handle_t)
    (hx : exchange_ok fuel u mem handle cmd_id none xid resp h2)
    (hlo : -128 ≤ resp.id) (hhi : resp.id ≤ 127) (hexp : ARCP_RESP_UNK ≤ expected) :
    arcp_do_get_sys_info fuel u mem handle cmd_id expected (some none) resp0 xid =
      some (if resp.id = expected ∨ resp.id = ARCP_RESP_NAK ∨ resp.id = ARCP_RESP_UNK then resp.id
            else if ARCP_RESP_UNK ≤ resp.id then ARCP_ERROR_BAD_RESPONSE
            else resp.id,
        some (if resp.id = expected then some resp else none), h2, (xid + 1) % 65536) := by
  obtain ⟨c1, he⟩ := exec_cmd_of_exchange fuel u mem handle cmd_id none (some resp0) xid resp h2 hx
  unfold arcp_do_get_sys_info
  rw [he, int8_of_id _ hlo (by omega)]
  simp only [Option.map_some', Option.join, Option.bind, arcp_id_is_response,
    ARCP_RESP, ARCP_RESP_ACK, ARCP_RESP_UNK, ARCP_RESP_NAK,
    ARCP_ERROR_BAD_RESPONSE, ge_iff_le, decide_eq_true_eq, id, ne_eq, not_false_eq_true,
    true_and, reduceCtorEq] at hexp ⊢
  by_cases h1 : resp.id = expected
  · simp [h1]
  · by_cases h2 : resp.id = -1
    · have : ¬ (-1 : Int) = expected := fun h => h1 (h2.trans h)
      simp [h2, this]
    · by_cases h3 : resp.id = -2
      · have : ¬ (-2 : Int) = expected := fun h => h1 (h3.trans h)
        simp [h3, this]
      · by_cases h4 : -2 ≤ resp.id
        · have : ¬ (-123 : Int) = expected := by omega
          simp [h1, h2, h3, h4, this]
        · simp [h1, h2, h3, h4]

theorem do_get_sys_info_of_failure (fuel : Nat) (u : decode_locals) (mem : Nat → Nat)
    (handle : arcp_handle_t) (cmd_id expected : Int) (resp0 : Option arcp_msg_t) (xid : Nat)
    (e : Int) (h2 : arcp_handle_t)
    (hx : exchange_fails fuel u mem handle cmd_id none xid e h2)
    (he : e < ARCP_RESP) (hexp : ARCP_RESP_UNK ≤ expected) :
    arcp_do_get_sys_info fuel u mem handle cmd_id expected (some none) resp0 xid =
      some (e, some none, h2, (xid + 1) % 65536) := by
  obtain ⟨c1, r, hr⟩ := exec_cmd_of_failure fuel u mem handle cmd_id none (some resp0) xid e h2 hx
  unfold arcp_do_get_sys_info
  rw [hr]
  simp only [ARCP_RESP, ARCP_RESP_UNK] at he hexp
  have h1 : ¬ e = expected := by omega
  have h2 : ¬ (-2 ≤ e) := by omega
  simp [arcp_id_is_response, h1, h2]

/-! ## Lemmas: message sizes and the null pulse code -/

theorem range_sum_le (n c : Nat) (g : Nat → Nat) (h : ∀ i, i < n → g i ≤ c) :
    range_sum n g ≤ n * c := by
  induction n with
  | zero => simp [range_sum]
  | succ k ih =>
    rw [range_sum_succ]
    have h1 := ih (fun i hi => h i (by omega))
    have h2 := h k (by omega)
    have : (k + 1) * c = k * c + c := by ring
    omega

/-- The STX2 case of the size computation when the counts are within their maxima. -/
theorem stream_size_stx2_eq (s : arcp_stx2stat_t) (len0 : Nat) (hlen : len0 ≤ 1024)
    (hf : s.n_chassis_fans ≤ 8) (hc : s.n_rf_cards ≤ 9)
    (ho : ∀ i, i < s.n_rf_cards →
      (s.rf_card_stat.getD i arcp_rf_card_stat_t.zero).n_rf_outputs ≤ 8)
    (hu : s.n_units ≤ 10)
    (hcomb : ∀ i, i < s.n_units →
      (s.unit_stat.getD i arcp_stx2unit_union_t.zero).unit_v.type
        = ARCP_STX2_UNIT_EXT_COMBINER_SPLITTER →
      (s.unit_stat.getD i arcp_stx2unit_union_t.zero).comb_v.n_temperatures ≤ 4 ∧
      (s.unit_stat.getD i arcp_stx2unit_union_t.zero).comb_v.n_outputs ≤ 6) :
    stream_size_stx2 s len0 = len0 + (13 + 2 * s.n_chassis_fans
      + range_sum s.n_rf_cards
          (fun i => 5 + 4 * (s.rf_card_stat.getD i arcp_rf_card_stat_t.zero).n_rf_outputs)
      + range_sum s.n_units (fun i => 2 +
          (if (s.unit_stat.getD i arcp_stx2unit_union_t.zero).unit_v.type
              = ARCP_STX2_UNIT_EXT_COMBINER_SPLITTER
          then 2 + (s.unit_stat.getD i arcp_stx2unit_union_t.zero).comb_v.n_temperatures
                 + 4 * (s.unit_stat.getD i arcp_stx2unit_union_t.zero).comb_v.n_outputs
          else 0))) := by
  have h1 := stream_size_stx2_mod s len0
  have h2 := stream_size_stx2_lt s len0
  rw [wire_stx2stat_length] at h1
  rw [range_sum_const_add s.n_units 2 (fun i =>
    if (s.unit_stat.getD i arcp_stx2unit_union_t.zero).unit_v.type
              = ARCP_STX2_UNIT_EXT_COMBINER_SPLITTER
          then 2 + (s.unit_stat.getD i arcp_stx2unit_union_t.zero).comb_v.n_temperatures
                 + 4 * (s.unit_stat.getD i arcp_stx2unit_union_t.zero).comb_v.n_outputs
          else 0)]
  have b1 := range_sum_le s.n_rf_cards 37
    (fun i => 5 + 4 * (s.rf_card_stat.getD i arcp_rf_card_stat_t.zero).n_rf_outputs)
    (fun i hi => by have := ho i hi; dsimp only; omega)
  have b2 := range_sum_le s.n_units 30
    (fun i => if (s.unit_stat.getD i arcp_stx2unit_union_t.zero).unit_v.type
              = ARCP_STX2_UNIT_EXT_COMBINER_SPLITTER
          then 2 + (s.unit_stat.getD i arcp_stx2unit_union_t.zero).comb_v.n_temperatures
                 + 4 * (s.unit_stat.getD i arcp_stx2unit_union_t.zero).comb_v.n_outputs
          else 0)
    (fun i hi => by
      dsimp only
      split_ifs with ht
      · have := hcomb i hi ht; omega
      · omega)
  have b3 : s.n_rf_cards * 37 ≤ 333 := by omega
  have b4 : s.n_units * 30 ≤ 300 := by omega
  have e2 : s.n_units * 2 = 2 * s.n_units := by ring
  omega

theorem set_stream_size_msg_length (m : arcp_msg_t) :
    (arcp_msg_set_stream_size m).2.header.msg_length = (arcp_msg_set_stream_size m).1 := by
  cases m <;> rfl

theorem set_stream_size_cmd (m : arcp_msg_t) (ht : m.header.msg_type = ARCP_MSG_COMMAND) :
    (arcp_msg_set_stream_size m).1 = stream_size_cmd m := by
  unfold arcp_msg_set_stream_size stream_size_len
  dsimp only
  rw [if_pos ht]

theorem set_stream_size_resp (m : arcp_msg_t) (ht : m.header.msg_type = ARCP_MSG_RESPONSE) :
    (arcp_msg_set_stream_size m).1 = stream_size_resp m := by
  unfold arcp_msg_set_stream_size stream_size_len
  dsimp only
  rw [if_neg (by rw [ht]; decide), if_pos ht]

/-- Decoding a `SET_PULSE_PARAM` frame whose code length is 0. -/
theorem stream_decode_null_code (fuel : Nat) (u : decode_locals)
    (b0 b1 b2 b3 b4 b5 b6 b7 b8 b9 b10 i0 i1 x s a0 a1 o0 o1 w0 w1 w2 w3 l0 l1 : Nat)
    (rest : List Nat) (hlen : rest.length + 25 ≤ 1024) (h8 : b8 % 256 = 0)
    (hid : int16_of ((i0 * 256 + i1 : Nat) : Int) = ARCP_CMD_SET_PULSE_PARAM)
    (hl : (l0 * 256 + l1) % 65536 = 0) :
    arcp_stream_decode fuel u (stream_of_bytes (b0 :: b1 :: b2 :: b3 :: b4 :: b5 :: b6 :: b7
        :: b8 :: b9 :: b10 :: i0 :: i1 :: x :: s :: a0 :: a1 :: o0 :: o1 :: w0 :: w1 :: w2
        :: w3 :: l0 :: l1 :: rest)) =
      some (0, strm [b0, b1, b2, b3, b4, b5, b6, b7, b8, b9, b10, i0, i1, x, s, a0, a1, o0, o1,
          w0, w1, w2, w3, l0, l1] rest,
        some (.cmd_set_pulse_param
          { magic_num := (((b0 * 256 + b1) * 256 + b2) * 256 + b3) % 4294967296,
            msg_length := (b4 * 256 + b5) % 65536,
            exchange_id := (b6 * 256 + b7) % 65536,
            msg_type := 0,
            protocol_version := (b9 * 256 + b10) % 65536 }
          ARCP_CMD_SET_PULSE_PARAM (x % 256)
          { pulse_shape := int8_of s,
            pulse_ampl := (a0 * 256 + a1) % 65536,
            pulse_options := (o0 * 256 + o1) % 65536,
            pulse_width_ns := (((w0 * 256 + w1) * 256 + w2) * 256 + w3) % 4294967296,
            code := none })) := by
  rw [stream_of_bytes_eq, stream_decode_header_cmd fuel u _ _ _ _ _ _ _ _ _ _ _ _
    (by simp only [List.length_cons]; omega) h8]
  unfold decode_arcp_cmd
  dsimp only
  rw [get_int16_strm, hid]
  unfold decode_arcp_cmd_switch
  dsimp only
  rw [set_id_id, if_neg (by decide), if_pos rfl]
  unfold decode_pulse_param
  dsimp only
  rw [get_uint8_strm]
  dsimp only
  rw [get_int8_strm]
  dsimp only
  rw [get_uint16_strm]
  dsimp only
  rw [get_uint16_strm]
  dsimp only
  rw [get_uint32_strm]
  dsimp only
  rw [get_uint16_strm]
  dsimp only
  rw [hl, if_neg (by decide), if_neg (by decide), decode_finish_strm]
  simp only [Option.map_some', decode_result, lt_self_iff_false, if_false,
    List.cons_append, List.nil_append, List.append_assoc, set_id_id, set_id_header,
    command_header]

/-- Encoding a `SET_PULSE_PARAM` command without pulse code. -/
theorem msg_encode_null_code (mem : Nat → Nat) (h : arcp_msg_header_t) (x : Nat)
    (p : arcp_pulse_t) (ht : h.msg_type = ARCP_MSG_COMMAND) (hc : p.code = none) :
    arcp_msg_encode mem (.cmd_set_pulse_param h ARCP_CMD_SET_PULSE_PARAM x p) =
      (0,
       some (strm (wire_header { h with msg_length := 25 } ++ [0x01, 0x01]
          ++ [uint8_of x, uint8_of p.pulse_shape] ++ be16 (uint16_of p.pulse_ampl)
          ++ be16 (uint16_of p.pulse_options) ++ be32 (uint32_of p.pulse_width_ns)
          ++ [0, 0]) []),
       .cmd_set_pulse_param { h with msg_length := 25 } ARCP_CMD_SET_PULSE_PARAM x p) := by
  have hs : stream_size_len (.cmd_set_pulse_param h ARCP_CMD_SET_PULSE_PARAM x p) = 25 := by
    unfold stream_size_len
    rw [if_pos (show (arcp_msg_t.cmd_set_pulse_param h ARCP_CMD_SET_PULSE_PARAM x p).header.msg_type
      = ARCP_MSG_COMMAND from ht)]
    unfold stream_size_cmd
    simp only [arcp_msg_t.id, arcp_msg_t.pulse_param, hc]
    rw [if_neg (by decide), if_pos trivial, if_neg (by simp)]
  have hw : wire_msg (.cmd_set_pulse_param { h with msg_length := 25 }
      ARCP_CMD_SET_PULSE_PARAM x p) =
      wire_header { h with msg_length := 25 } ++ [0x01, 0x01]
          ++ [uint8_of x, uint8_of p.pulse_shape] ++ be16 (uint16_of p.pulse_ampl)
          ++ be16 (uint16_of p.pulse_options) ++ be32 (uint32_of p.pulse_width_ns)
          ++ [0, 0] := by
    unfold wire_msg wire_cmd wire_pulsecode
    simp only [arcp_msg_t.header, arcp_msg_t.id, arcp_msg_t.pulse_param,
      arcp_msg_t.pulse_map_index, hc, ht]
    simp only [ARCP_CMD_SET_PULSE_PARAM, ARCP_CMD_SET_MODULE_ENABLE, ne_eq, not_true_eq_false,
      false_and, if_false, if_true, List.append_assoc]
    rfl
  have e2 : (arcp_msg_set_stream_size (.cmd_set_pulse_param h ARCP_CMD_SET_PULSE_PARAM x p)).2 =
      .cmd_set_pulse_param { h with msg_length := 25 } ARCP_CMD_SET_PULSE_PARAM x p := by
    unfold arcp_msg_set_stream_size
    dsimp only
    rw [hs]
    rfl
  have hl : (wire_msg (.cmd_set_pulse_param h ARCP_CMD_SET_PULSE_PARAM x p)).length = 25 := by
    unfold wire_msg wire_cmd wire_pulsecode
    simp only [arcp_msg_t.header, arcp_msg_t.id, arcp_msg_t.pulse_param,
      arcp_msg_t.pulse_map_index, hc, ht]
    simp [ARCP_CMD_SET_PULSE_PARAM, ARCP_CMD_SET_MODULE_ENABLE]
  rw [msg_encode_of mem (.cmd_set_pulse_param h ARCP_CMD_SET_PULSE_PARAM x p) (Or.inl ht) ?_
    (by rw [hs]; decide) (by rw [hs, hl]), e2, hw]
  intro hcap
  unfold over_cap at hcap
  simp [arcp_msg_t.id, ARCP_CMD_SET_PULSE_PARAM, ARCP_CMD_SET_PULSE_SEQ, ARCP_CMD_SET_PHASE]
    at hcap

/-! ## Lemmas: what a decoded response carries -/


theorem decode_finish_msg (e : Int) (s : arcp_stream_t) (m : arcp_msg_t) :
    (decode_finish e s m).2.2 = m := by
  unfold decode_finish
  split_ifs <;> rfl

theorem decode_pulse_param_header (fuel : Nat) (s : arcp_stream_t) (m : arcp_msg_t)
    (r : Int × arcp_stream_t × arcp_msg_t) (h : decode_pulse_param fuel s m = some r) :
    r.2.2.header = m.header := by
  unfold decode_pulse_param at h
  lift_lets at h
  extract_lets hd id p r1 r2 r3 r4 r5 p2 r6 stream len at h
  clear_value r1 r2 r3 r4 r5 r6 p2 stream len id
  split_ifs at h
  · cases h; rw [decode_finish_msg]; rfl
  · split at h
    · cases h; rw [decode_finish_msg]; rfl
    · lift_lets at h
      extract_lets rc at h
      clear_value rc
      split_ifs at h
      · cases h; rw [decode_finish_msg]; rfl
      · simp only [Option.map_eq_some'] at h
        obtain ⟨st, _, hst⟩ := h
        rw [← hst, decode_finish_msg]; rfl
  · cases h; rw [decode_finish_msg]; rfl

theorem decode_pulse_seq_header (fuel : Nat) (u : decode_locals) (s : arcp_stream_t)
    (m : arcp_msg_t) (r : Int × arcp_stream_t × arcp_msg_t)
    (h : decode_pulse_seq fuel u s m = some r) : r.2.2.header = m.header := by
  unfold decode_pulse_seq at h
  lift_lets at h
  extract_lets r1 stream len at h
  clear_value r1 stream len
  split_ifs at h
  · cases h; rw [decode_finish_msg]
  · split at h
    · cases h; rw [decode_finish_msg]
    · simp only [Option.map_eq_some'] at h
      obtain ⟨st, _, hst⟩ := h
      rw [← hst, decode_finish_msg]; rfl

theorem decode_phase_header (fuel : Nat) (u : decode_locals) (s : arcp_stream_t)
    (m : arcp_msg_t) (r : Int × arcp_stream_t × arcp_msg_t)
    (h : decode_phase fuel u s m = some r) : r.2.2.header = m.header := by
  unfold decode_phase at h
  lift_lets at h
  extract_lets hd id r1 r2 stream n_phases at h
  clear_value r1 r2 stream n_phases id
  split_ifs at h
  · cases h; rfl
  · lift_lets at h
    extract_lets phases at h
    clear_value phases
    simp only [Option.map_eq_some'] at h
    obtain ⟨st, _, hst⟩ := h
    rw [← hst, decode_finish_msg]; rfl

/-- `decode_arcp_cmd` leaves the header of the message as it is. -/
theorem decode_arcp_cmd_header (fuel : Nat) (u : decode_locals) (s : arcp_stream_t)
    (m : arcp_msg_t) (r : Int × arcp_stream_t × arcp_msg_t)
    (h : decode_arcp_cmd fuel u s m = some r) : r.2.2.header = m.header := by
  unfold decode_arcp_cmd at h
  lift_lets at h
  extract_lets r0 at h
  clear_value r0
  have hh : (m.set_id r0.2.2).header = m.header := set_id_header _ _
  generalize m.set_id r0.2.2 = m2 at h hh
  rw [← hh]
  unfold decode_arcp_cmd_switch at h
  lift_lets at h
  extract_lets hd id at h
  split_ifs at h
  · lift_lets at h
    extract_lets r1 at h
    clear_value r1
    cases h; rw [decode_finish_msg]; rfl
  · exact decode_pulse_param_header _ _ _ _ h
  · exact decode_pulse_seq_header _ _ _ _ _ h
  · lift_lets at h
    extract_lets r1 at h
    clear_value r1
    cases h; rw [decode_finish_msg]; rfl
  · lift_lets at h
    extract_lets t r1 r2 r3 r4 at h
    clear_value r1 r2 r3 r4
    cases h; rw [decode_finish_msg]; rfl
  · lift_lets at h
    extract_lets r1 at h
    clear_value r1
    cases h; rw [decode_finish_msg]; rfl
  · exact decode_phase_header _ _ _ _ _ h
  · cases h; rw [decode_finish_msg]

theorem decode_sysid_payload (s : arcp_stream_t) (h : arcp_msg_header_t) (id c : Int) :
    (decode_sysid s h id c).2.2.sysid_ptr = some (decode_sysid s h id c).2.2.sysid := by
  unfold decode_sysid
  lift_lets
  extract_lets sysid r1 r2 r3 r4 sysid2 stream
  clear_value r1 r2 r3 r4 sysid2 stream
  split_ifs
  · lift_lets
    extract_lets r5 r6
    clear_value r5 r6
    rw [decode_finish_msg]; rfl
  · lift_lets
    extract_lets r5
    clear_value r5
    rw [decode_finish_msg]; rfl
  · rw [decode_finish_msg]; rfl

theorem decode_sysstat_payload (s : arcp_stream_t) (h : arcp_msg_header_t) (id c : Int) :
    (decode_sysstat s h id c).2.2.sysstat_ptr = some (decode_sysstat s h id c).2.2.sysstat := by
  unfold decode_sysstat
  lift_lets
  extract_lets sysstat r1 r2 sysstat2 stream
  clear_value r1 r2 sysstat2 stream
  split_ifs
  · lift_lets
    extract_lets st
    clear_value st
    split_ifs <;> rw [decode_finish_msg] <;> rfl
  · extract_lets rb
    clear_value rb
    split_ifs <;> rw [decode_finish_msg] <;> rfl
  · rw [decode_finish_msg]; rfl

/-- The response `decode_arcp_resp` builds carries the payload its id announces. -/
theorem decode_arcp_resp_payload (u : decode_locals) (s : arcp_stream_t)
    (h : arcp_msg_header_t) :
    ((decode_arcp_resp u s (.response h (-1) 0)).2.2.id = ARCP_RESP_SYSID →
      (decode_arcp_resp u s (.response h (-1) 0)).2.2.sysid_ptr =
        some (decode_arcp_resp u s (.response h (-1) 0)).2.2.sysid) ∧
    ((decode_arcp_resp u s (.response h (-1) 0)).2.2.id = ARCP_RESP_SYSSTAT →
      (decode_arcp_resp u s (.response h (-1) 0)).2.2.sysstat_ptr =
        some (decode_arcp_resp u s (.response h (-1) 0)).2.2.sysstat) := by
  unfold decode_arcp_resp
  lift_lets
  extract_lets r0 stream rs
  clear_value r0 stream
  split_ifs with h1
  · have e : rs.2.id = -1 := by
      show (arcp_msg_set_resp_id (.response h (-1) 0) r0.2.2).2.id = -1
      unfold arcp_msg_set_resp_id
      split_ifs
      · rfl
      · rfl
      · exfalso
        have : (arcp_msg_set_resp_id (.response h (-1) 0) r0.2.2).1 = 0 := by
          unfold arcp_msg_set_resp_id
          rw [if_neg ‹_›, if_neg ‹_›]
        have h1' : (arcp_msg_set_resp_id (.response h (-1) 0) r0.2.2).1 < 0 := h1
        omega
    dsimp only
    rw [e]
    exact ⟨fun h => absurd h (by decide), fun h => absurd h (by decide)⟩
  · extract_lets msg r1 stream2 hd id info_code
    clear_value r1 stream2 info_code hd
    split_ifs with h2 h3
    · exact ⟨fun _ => decode_sysid_payload _ _ _ _, fun hh => by
        exfalso
        have : (decode_sysid stream2 hd id info_code).2.2.id = id := by
          unfold decode_sysid
          lift_lets
          extract_lets sysid r1 r2 r3 r4 sysid2 stream
          clear_value r1 r2 r3 r4 sysid2 stream
          split_ifs
          · lift_lets
            extract_lets r5 r6
            clear_value r5 r6
            rw [decode_finish_msg]; rfl
          · lift_lets
            extract_lets r5
            clear_value r5
            rw [decode_finish_msg]; rfl
          · rw [decode_finish_msg]; rfl
        rw [this, h2] at hh
        exact absurd hh (by decide)⟩
    · exact ⟨fun hh => by
        exfalso
        have : (decode_sysstat stream2 hd id info_code).2.2.id = id := by
          unfold decode_sysstat
          lift_lets
          extract_lets sysstat r1 r2 sysstat2 stream
          clear_value r1 r2 sysstat2 stream
          split_ifs
          · lift_lets
            extract_lets st
            clear_value st
            split_ifs <;> rw [decode_finish_msg] <;> rfl
          · extract_lets rb
            clear_value rb
            split_ifs <;> rw [decode_finish_msg] <;> rfl
          · rw [decode_finish_msg]; rfl
        rw [this] at hh
        exact h2 hh, fun _ => decode_sysstat_payload _ _ _ _⟩
    · rw [decode_finish_msg]
      exact ⟨fun hh => absurd hh h2, fun hh => absurd hh h3⟩

theorem msg_new_cases (t : Nat) (msg : arcp_msg_t) (h : arcp_msg_new t = some msg) :
    (t = 0 ∧ ∃ hd, hd.msg_type = 0 ∧ msg = .command hd (-1)) ∨
    (t = 1 ∧ ∃ hd, hd.msg_type = 1 ∧ msg = .response hd (-1) 0) := by
  unfold arcp_msg_new at h
  split_ifs at h with h1 h2
  · left
    simp only [Option.some.injEq] at h
    exact ⟨h2, _, h2, h.symm⟩
  · right
    simp only [Option.some.injEq] at h
    have ht : t = 1 := by
      simp only [ARCP_MSG_COMMAND, ARCP_MSG_RESPONSE, ne_eq, not_and, not_not] at h1 h2
      exact h1 h2
    exact ⟨ht, _, ht, h.symm⟩

/-- A response `arcp_stream_decode` returns carries the payload its id announces. -/
theorem stream_decode_payload (fuel : Nat) (u : decode_locals) (stream s2 : arcp_stream_t)
    (resp : arcp_msg_t) (h : arcp_stream_decode fuel u stream = some (0, s2, some resp))
    (ht : resp.header.msg_type = ARCP_MSG_RESPONSE) :
    (resp.id = ARCP_RESP_SYSID → resp.sysid_ptr = some resp.sysid) ∧
    (resp.id = ARCP_RESP_SYSSTAT → resp.sysstat_ptr = some resp.sysstat) := by
  unfold arcp_stream_decode at h
  split_ifs at h
  · simp at h
  · lift_lets at h
    extract_lets r1 r2 r3 r4 at h
    clear_value r1 r2 r3 r4
    split at h
    · simp at h
    · rename_i msg hnew
      lift_lets at h
      extract_lets hd0 msgA r5 hdA msgB at h
      clear_value r5
      simp only [Option.map_eq_some'] at h
      obtain ⟨r, hres, hr⟩ := h
      have hresp : r.2.2 = resp := by
        unfold decode_result at hr
        split_ifs at hr
        · simp at hr
        · simp only [Prod.mk.injEq, Option.some.injEq] at hr
          exact hr.2.2
      rcases msg_new_cases _ _ hnew with ⟨_, hd, hdt, hm⟩ | ⟨_, hd, hdt, hm⟩
      · exfalso
        have e3 : msgB.header.msg_type = 0 := by
          simp only [msgB, hdA, msgA, hd0, hm, arcp_msg_t.set_header, arcp_msg_t.header, hdt]
        rw [if_pos e3] at hres
        have := decode_arcp_cmd_header _ _ _ _ _ hres
        rw [hresp] at this
        rw [this, e3] at ht
        exact absurd ht (by decide)
      · have e3 : ∃ hd3, msgB = .response hd3 (-1) 0 ∧ hd3.msg_type = 1 := by
          refine ⟨⟨r1.2.2, r2.2.2, r3.2.2, hd.msg_type, r5.2.2⟩, ?_, hdt⟩
          simp only [msgB, hdA, msgA, hd0, hm, arcp_msg_t.set_header, arcp_msg_t.header]
        obtain ⟨hd3, e3, e3t⟩ := e3
        have e3h : msgB.header.msg_type = 1 := by rw [e3]; exact e3t
        rw [if_neg (by rw [e3h]; decide), if_pos e3h] at hres
        have hres2 := Option.some.inj hres
        rw [← hresp, ← hres2, e3]
        exact decode_arcp_resp_payload u r5.2.1 hd3

/-- A response `arcp_msg_read` returns carries the payload its id announces. -/
theorem msg_read_payload (fuel : Nat) (u : decode_locals) (mem : Nat → Nat)
    (h1 h2 : arcp_handle_t) (resp : arcp_msg_t)
    (h : arcp_msg_read fuel u mem h1 = some (0, some resp, h2))
    (ht : resp.header.msg_type = ARCP_MSG_RESPONSE) :
    (resp.id = ARCP_RESP_SYSID → resp.sysid_ptr = some resp.sysid) ∧
    (resp.id = ARCP_RESP_SYSSTAT → resp.sysstat_ptr = some resp.sysstat) := by
  have hd : ∃ stream s2, arcp_stream_decode fuel u stream = some (0, s2, some resp) := by
    unfold arcp_msg_read at h
    split at h
    · simp at h
    · rename_i result msg_read a handle hread
      have hm : result = 0 ∧ msg_read = some resp := by
        split_ifs at h with h0
        · split at h
          · split_ifs at h <;> simp only [Option.some.injEq, Prod.mk.injEq] at h <;>
              exact ⟨h.1, congrArg some h.2.1⟩
          · simp only [Option.some.injEq, Prod.mk.injEq] at h
            exact ⟨h.1, h.2.1⟩
        · simp only [Option.some.injEq, Prod.mk.injEq] at h
          exact absurd h.1 h0
      obtain ⟨hr0, hmr⟩ := hm
      subst hr0 hmr
      unfold arcp_ascii_or_arcp_read at hread
      split at hread
      · simp at hread
      · rename_i res stream ar fd hsock
        lift_lets at hread
        extract_lets handle2 at hread
        split_ifs at hread with hres ha
        · simp only [Option.some.injEq, Prod.mk.injEq] at hread
          exact absurd hread.1 hres
        · simp only [Option.some.injEq, Prod.mk.injEq] at hread
          exact absurd hread.2.1 (by simp)
        · split at hread
          · simp at hread
          · rename_i strm0
            split at hread
            · simp at hread
            · rename_i res2 s2 msg hdec
              simp only [Option.some.injEq, Prod.mk.injEq] at hread
              obtain ⟨e1, e2, _⟩ := hread
              subst e1
              rw [if_pos rfl] at e2
              subst e2
              exact ⟨_, _, hdec⟩
  obtain ⟨stream, s2, hdec⟩ := hd
  exact stream_decode_payload fuel u stream s2 resp hdec ht

/-- In an exchange that went through, the response carries the payload its id announces. -/
theorem exchange_payload (fuel : Nat) (u : decode_locals) (mem : Nat → Nat)
    (handle : arcp_handle_t) (cmd_id : Int) (cmd_msg : Option arcp_msg_t) (xid : Nat)
    (resp : arcp_msg_t) (h2 : arcp_handle_t)
    (hx : exchange_ok fuel u mem handle cmd_id cmd_msg xid resp h2) :
    (resp.id = ARCP_RESP_SYSID → resp.sysid_ptr = some resp.sysid) ∧
    (resp.id = ARCP_RESP_SYSSTAT → resp.sysstat_ptr = some resp.sysstat) := by
  obtain ⟨c, c1, h1, _, _, hr, hc⟩ := hx
  apply msg_read_payload fuel u mem h1 h2 resp hr
  unfold arcp_check_resp_msg at hc
  dsimp only at hc
  split_ifs at hc with a b
  · exact absurd hc (by decide)
  · exact absurd hc (by decide)
  · exact absurd hc (by decide)
  · exact absurd hc (by decide)
  · exact not_not.mp b


/-! ## Lemmas: the containers, the ASCII sideband, the write side -/

theorem set_new_size_grow {α : Type} (z : α) (buf : List α) (n : Nat) (h : buf.length ≤ n) :
    set_new_size z buf n buf.length = buf ++ List.replicate (n - buf.length) z := by
  unfold set_new_size
  by_cases e : n = buf.length
  · rw [if_pos e, e]; simp
  · rw [if_neg e]
    have : n > buf.length := by omega
    simp [this]

theorem set_new_size_shrink {α : Type} (z : α) (buf : List α) (n : Nat) (h : n ≤ buf.length) :
    set_new_size z buf n buf.length = buf.take n := by
  unfold set_new_size
  by_cases e : n = buf.length
  · rw [if_pos e, e]; simp
  · rw [if_neg e]
    have : ¬ n > buf.length := by omega
    have h0 : n - buf.length = 0 := by omega
    simp [this, h0]

theorem ceil8 (n : Nat) : (if n = 0 then 0 else 1 + (n - 1) / 8) = (n + 7) / 8 := by
  split <;> omega

/-- What `arcp_pulsecode_setsize` does to a code whose array holds the bytes of its
capacity, when the new capacity is at most 512. -/
theorem pulsecode_setsize_eq (c : arcp_pulsecode_t) (n : Nat) (hc : pulsecode_sized c)
    (hn : n ≤ 512) :
    arcp_pulsecode_setsize c n =
      (0, { c with data := set_new_size 0 c.data ((n + 7) / 8) c.data.length, size := n }) := by
  obtain ⟨h1, h2, _⟩ := hc
  unfold arcp_pulsecode_setsize
  by_cases e : c.size = n
  · rw [if_pos e]
    have : (n + 7) / 8 = c.data.length := by rw [h2, e]
    rw [this]
    unfold set_new_size
    rw [if_pos rfl, ← e]
  · rw [if_neg e, if_neg (by simp only [ARCP_MAX_PULSECODE_SIZE]; omega)]
    simp only [ceil8]
    rw [uint16_of_nat_lt _ (by omega), uint16_of_nat_lt _ (by omega), h2]

theorem uint8_of_bit (b : Nat) (hb : b < 8) : uint8_of ((1 <<< b : Nat) : Int) = 2 ^ b := by
  rw [Nat.one_shiftLeft, uint8_of_nat_lt]
  interval_cases b <;> norm_num

theorem uint8_of_not_bit (b : Nat) (hb : b < 8) :
    uint8_of (-1 - ((1 <<< b : Nat) : Int)) = 255 - 2 ^ b := by
  rw [Nat.one_shiftLeft]
  interval_cases b <;> rfl

theorem testBit_mask (b j : Nat) (hb : b < 8) :
    (255 - 2 ^ b).testBit j = (decide (j < 8) && decide (j ≠ b)) := by
  by_cases hj : j < 8
  · interval_cases b <;> interval_cases j <;> rfl
  · have h1 : 255 - 2 ^ b < 2 ^ j :=
      lt_of_lt_of_le (lt_of_le_of_lt (Nat.sub_le _ _) (by norm_num) : 255 - 2 ^ b < 2 ^ 8)
        (Nat.pow_le_pow_right (by norm_num) (by omega))
    simp [Nat.testBit_lt_two_pow h1, hj]

theorem setbit_byte_testBit (byte b value j : Nat) (hb : b < 8) (hbyte : byte < 256) :
    (setbit_byte byte b value).testBit j =
      if j = b then decide (value ≠ 0) else byte.testBit j := by
  have hhi : ∀ i, 8 ≤ i → byte.testBit i = false := fun i hi =>
    Nat.testBit_lt_two_pow (lt_of_lt_of_le (by omega : byte < 2 ^ 8)
      (Nat.pow_le_pow_right (by norm_num) hi))
  unfold setbit_byte
  by_cases hv : value ≠ 0
  · rw [if_pos hv, Nat.testBit_or, Nat.testBit_two_pow]
    by_cases e : j = b
    · simp [e, hv]
    · have : ¬ b = j := fun h => e h.symm
      simp [e, this]
  · rw [if_neg hv, Nat.testBit_and, testBit_mask _ _ hb]
    by_cases e : j = b
    · simp [e, hv]
    · by_cases hj : j < 8
      · simp [e, hj]
      · simp [e, hj, hhi j (by omega)]

theorem setbit_byte_lt (byte b value : Nat) (hb : b < 8) (hbyte : byte < 256) :
    setbit_byte byte b value < 256 := by
  have : setbit_byte byte b value < 2 ^ 8 := by
    apply Nat.lt_pow_two_of_testBit
    intro i hi
    rw [setbit_byte_testBit _ _ _ _ hb hbyte, if_neg (by omega)]
    exact Nat.testBit_lt_two_pow (lt_of_lt_of_le (by omega : byte < 2 ^ 8)
      (Nat.pow_le_pow_right (by norm_num) hi))
  simpa using this

/-- What `arcp_pulsecode_setbit` does with a bit index below 512 to a code whose array
holds the bytes of its capacity. -/
theorem pulsecode_setbit_eq (c : arcp_pulsecode_t) (k v : Nat) (hc : pulsecode_sized c)
    (hk : k < 512) :
    arcp_pulsecode_setbit c k v = some (0,
      { size := max c.size (k + 1), code_length := max c.code_length (k + 1),
        data := (c.data ++ List.replicate (k / 8 + 1 - c.data.length) 0).set (k / 8)
          (setbit_byte (c.data.getD (k / 8) 0) (k % 8) v) }) := by
  have hc0 := hc
  obtain ⟨h1, h2, h3⟩ := hc
  have hb : k % 8 < 8 := Nat.mod_lt _ (by norm_num)
  unfold arcp_pulsecode_setbit
  rw [uint16_of_nat_lt _ (by omega), uint8_of_bit _ hb, uint8_of_not_bit _ hb]
  by_cases hs : k ≥ c.size
  · rw [if_pos hs, pulsecode_setsize_eq c (k + 1) hc0 (by omega)]
    have e8 : (k + 1 + 7) / 8 = k / 8 + 1 := by omega
    have hle : c.data.length ≤ k / 8 + 1 := by omega
    rw [e8, set_new_size_grow 0 c.data _ hle]
    dsimp only
    rw [if_neg (by decide), if_neg (by simp; omega)]
    have hg : (c.data ++ List.replicate (k / 8 + 1 - c.data.length) 0).getD (k / 8) 0
        = c.data.getD (k / 8) 0 := by
      simp only [List.getD_eq_getElem?_getD, List.getElem?_append, List.getElem?_replicate]
      split
      · rfl
      · rename_i hlt
        rw [if_pos (by omega)]
        have : c.data[k / 8]? = none := List.getElem?_eq_none (by omega)
        rw [this]; rfl
    rw [hg]
    unfold setbit_byte
    by_cases hl : k ≥ c.code_length
    · rw [if_pos hl]
      simp only [Option.some.injEq, Prod.mk.injEq, true_and]
      congr 1 <;> omega
    · rw [if_neg hl]
      simp only [Option.some.injEq, Prod.mk.injEq, true_and]
      congr 1 <;> omega
  · rw [if_neg hs]
    dsimp only
    have hlt : k / 8 < c.data.length := by omega
    rw [if_neg (by decide), if_neg (by omega)]
    have e0 : k / 8 + 1 - c.data.length = 0 := by omega
    rw [e0]
    simp only [List.replicate_zero, List.append_nil]
    unfold setbit_byte
    by_cases hl : k ≥ c.code_length
    · rw [if_pos hl]
      simp only [Option.some.injEq, Prod.mk.injEq, true_and]
      congr 1 <;> omega
    · rw [if_neg hl]
      simp only [Option.some.injEq, Prod.mk.injEq, true_and]
      congr 1 <;> omega

theorem pulsecode_setsize_fail (c : arcp_pulsecode_t) (n : Nat) (h1 : c.size ≠ n)
    (h2 : 512 < n) : arcp_pulsecode_setsize c n = (-1, c) := by
  unfold arcp_pulsecode_setsize
  rw [if_neg h1, if_pos (by simp only [ARCP_MAX_PULSECODE_SIZE]; omega)]

theorem getbit_eq (c : arcp_pulsecode_t) (k : Nat) (hk : k < c.code_length) :
    arcp_pulsecode_getbit (some c) k =
      if (c.data.getD (k / 8) 0).testBit (k % 8) then 1 else 0 := by
  unfold arcp_pulsecode_getbit
  dsimp only
  rw [if_pos hk, Nat.one_shiftLeft, Nat.and_two_pow]
  cases h : (c.data.getD (k / 8) 0).testBit (k % 8)
  · simp
  · simp

theorem getbit_beyond (c : arcp_pulsecode_t) (k : Nat) (hk : c.code_length ≤ k) :
    arcp_pulsecode_getbit (some c) k = 0 := by
  unfold arcp_pulsecode_getbit
  dsimp only
  rw [if_neg (by omega)]

theorem getD_set_same {α : Type} (l : List α) (i : Nat) (a d : α) (h : i < l.length) :
    (l.set i a).getD i d = a := by
  simp [List.getD_eq_getElem?_getD, List.getElem?_set, h]

theorem getD_set_other {α : Type} (l : List α) (i j : Nat) (a d : α) (h : i ≠ j) :
    (l.set i a).getD j d = l.getD j d := by
  simp [List.getD_eq_getElem?_getD, List.getElem?_set, h]

theorem getD_append_zeros (l : List Nat) (n i : Nat) :
    (l ++ List.replicate n 0).getD i 0 = l.getD i 0 := by
  simp only [List.getD_eq_getElem?_getD, List.getElem?_append, List.getElem?_replicate]
  split
  · rfl
  · rename_i hlt
    have : l[i]? = none := List.getElem?_eq_none (by omega)
    rw [this]
    split <;> rfl

theorem pulsecode_sized_setsize (c : arcp_pulsecode_t) (n : Nat) (hc : pulsecode_sized c)
    (hn : n ≤ 512) : pulsecode_sized (arcp_pulsecode_setsize c n).2 := by
  rw [pulsecode_setsize_eq c n hc hn]
  obtain ⟨h1, h2, h3⟩ := hc
  refine ⟨by dsimp only; omega, ?_, ?_⟩
  · dsimp only
    unfold set_new_size
    split
    · omega
    · simp only [List.length_append, List.length_take, List.length_replicate]
      split <;> omega
  · dsimp only
    unfold set_new_size
    split
    · exact h3
    · intro b hb
      rcases List.mem_append.mp hb with h | h
      · exact h3 b (List.mem_of_mem_take h)
      · rw [List.eq_of_mem_replicate h]; norm_num

theorem pulsecode_inv_new (s : Nat) (c : arcp_pulsecode_t) (h : arcp_pulsecode_new s = some c) :
    pulsecode_inv c := by
  by_cases h0 : s = 0
  · unfold arcp_pulsecode_new at h
    rw [if_pos h0] at h
    exact absurd h (by simp)
  by_cases h1 : s ≤ 512
  · rw [pulsecode_new_eq s h0 h1] at h
    simp only [Option.some.injEq] at h
    subst h
    refine ⟨by dsimp only; omega, h1, by dsimp only; omega, ?_, ?_⟩
    · simp only [List.length_replicate]; omega
    · intro b hb
      rw [List.eq_of_mem_replicate hb]; norm_num
  · unfold arcp_pulsecode_new at h
    rw [if_neg h0] at h
    dsimp only at h
    rw [pulsecode_setsize_fail _ s (by dsimp only; omega) (by omega)] at h
    simp at h

theorem pulsecode_setlength_eq (c : arcp_pulsecode_t) (n : Nat) (hc : pulsecode_sized c)
    (hn : n ≤ 512) :
    arcp_pulsecode_setlength c n = (0,
      { size := max c.size n, code_length := n,
        data := c.data ++ List.replicate ((n + 7) / 8 - c.data.length) 0 }) := by
  have hc0 := hc
  obtain ⟨h1, h2, h3⟩ := hc
  unfold arcp_pulsecode_setlength
  by_cases hs : c.size < n
  · rw [if_pos hs, pulsecode_setsize_eq c n hc0 hn]
    dsimp only
    rw [if_neg (by decide), set_new_size_grow 0 c.data _ (by omega)]
    simp only [Prod.mk.injEq, true_and]
    congr 1
    omega
  · rw [if_neg hs]
    have e0 : (n + 7) / 8 - c.data.length = 0 := by omega
    rw [e0]
    simp only [List.replicate_zero, List.append_nil, Prod.mk.injEq, true_and]
    have : max c.size n = c.size := by omega
    rw [this]

theorem pulsecode_inv_setlength (c : arcp_pulsecode_t) (n : Nat) (hc : pulsecode_inv c) :
    pulsecode_inv (arcp_pulsecode_setlength c n).2 := by
  obtain ⟨h1, h2, h3⟩ := hc
  by_cases hn : n ≤ 512
  · rw [pulsecode_setlength_eq c n h3 hn]
    obtain ⟨g1, g2, g3⟩ := h3
    refine ⟨by dsimp only; omega, by dsimp only; omega, by dsimp only; omega, ?_, ?_⟩
    · simp only [List.length_append, List.length_replicate]
      omega
    · intro b hb
      rcases List.mem_append.mp hb with h | h
      · exact g3 b h
      · rw [List.eq_of_mem_replicate h]; norm_num
  · unfold arcp_pulsecode_setlength
    rw [if_pos (by omega : c.size < n)]
    dsimp only
    rw [pulsecode_setsize_fail c n (by omega) (by omega)]
    exact ⟨h1, h2, h3⟩

theorem pulsecode_inv_setbit_low (c : arcp_pulsecode_t) (k v : Nat) (hc : pulsecode_inv c)
    (hk : k < 512) :
    ∃ c2, arcp_pulsecode_setbit c k v = some (0, c2) ∧ pulsecode_inv c2 := by
  obtain ⟨h1, h2, h3⟩ := hc
  refine ⟨_, pulsecode_setbit_eq c k v h3 hk, ?_⟩
  obtain ⟨g1, g2, g3⟩ := h3
  refine ⟨by dsimp only; omega, by dsimp only; omega, by dsimp only; omega, ?_, ?_⟩
  · simp only [List.length_set, List.length_append, List.length_replicate]
    omega
  · intro b hb
    rcases List.mem_or_eq_of_mem_set hb with h | h
    · rcases List.mem_append.mp h with h | h
      · exact g3 b h
      · rw [List.eq_of_mem_replicate h]; norm_num
    · rw [h]
      apply setbit_byte_lt _ _ _ (Nat.mod_lt _ (by norm_num))
      by_cases hl : k / 8 < c.data.length
      · rw [List.getD_eq_getElem _ _ hl]
        exact g3 _ (List.getElem_mem _)
      · rw [List.getD_eq_default _ _ (by omega)]; norm_num

/-- With a bit index of 512 or more the call either fails and leaves the code as it was,
or has no defined result. -/
theorem pulsecode_setbit_high (c : arcp_pulsecode_t) (k v : Nat) (hc : pulsecode_inv c)
    (hk : 512 ≤ k) :
    (arcp_pulsecode_setbit c k v = none ∨ arcp_pulsecode_setbit c k v = some (-1, c)) ∧
    (k < 65535 → arcp_pulsecode_setbit c k v = some (-1, c)) := by
  obtain ⟨h1, h2, h3⟩ := hc
  have hs : k ≥ c.size := by omega
  by_cases hm : uint16_of ((k + 1 : Nat) : Int) ≤ 512
  · have hnone : arcp_pulsecode_setbit c k v = none := by
      unfold arcp_pulsecode_setbit
      rw [if_pos hs, pulsecode_setsize_eq c _ h3 hm]
      dsimp only
      rw [if_neg (by decide)]
      have hle : (set_new_size 0 c.data ((uint16_of ((k + 1 : Nat) : Int) + 7) / 8)
          c.data.length).length ≤ k / 8 := by
        have := (pulsecode_sized_setsize c _ h3 hm).2.1
        rw [pulsecode_setsize_eq c _ h3 hm] at this
        dsimp only at this
        rw [this]
        omega
      rw [if_pos hle]
    refine ⟨Or.inl hnone, fun hlt => ?_⟩
    rw [uint16_of_nat_lt _ (by omega)] at hm
    omega
  · have hfail : arcp_pulsecode_setbit c k v = some (-1, c) := by
      unfold arcp_pulsecode_setbit
      rw [if_pos hs]
      rw [pulsecode_setsize_fail c _ (by omega) (by omega)]
      rfl
    exact ⟨Or.inr hfail, fun _ => hfail⟩

theorem pulsecode_inv_run (call : pulsecode_call) (c c2 : arcp_pulsecode_t)
    (hc : pulsecode_inv c) (h : call.run c = some c2) : pulsecode_inv c2 := by
  cases call with
  | setlength n =>
    simp only [pulsecode_call.run, Option.some.injEq] at h
    rw [← h]
    exact pulsecode_inv_setlength c n hc
  | setbit k v =>
    simp only [pulsecode_call.run] at h
    by_cases hk : k < 512
    · obtain ⟨c3, e, hc3⟩ := pulsecode_inv_setbit_low c k v hc hk
      rw [e] at h
      simp only [Option.map_some', Option.some.injEq] at h
      rw [← h]; exact hc3
    · rcases (pulsecode_setbit_high c k v hc (by omega)).1 with e | e
      · rw [e] at h; simp at h
      · rw [e] at h
        simp only [Option.map_some', Option.some.injEq] at h
        rw [← h]; exact hc

theorem pulsecode_inv_calls (calls : List pulsecode_call) :
    ∀ (c c2 : arcp_pulsecode_t), pulsecode_inv c → pulsecode_calls calls c = some c2 →
      pulsecode_inv c2 := by
  induction calls with
  | nil =>
    intro c c2 hc h
    simp only [pulsecode_calls, Option.some.injEq] at h
    rw [← h]; exact hc
  | cons call rest ih =>
    intro c c2 hc h
    simp only [pulsecode_calls] at h
    cases hr : call.run c with
    | none => rw [hr] at h; simp at h
    | some c1 =>
      rw [hr] at h
      simp only [Option.some_bind] at h
      exact ih c1 c2 (pulsecode_inv_run call c c1 hc hr) h

theorem pulsecode_calls_defined (calls : List pulsecode_call) :
    ∀ (c : arcp_pulsecode_t), pulsecode_inv c →
      (∀ k v, pulsecode_call.setbit k v ∈ calls → k < 65535) →
      ∃ c2, pulsecode_calls calls c = some c2 := by
  induction calls with
  | nil => intro c _ _; exact ⟨c, rfl⟩
  | cons call rest ih =>
    intro c hc hk
    have hrun : ∃ c1, call.run c = some c1 := by
      cases call with
      | setlength n => exact ⟨_, rfl⟩
      | setbit k v =>
        have hlt := hk k v (List.mem_cons_self _ _)
        by_cases h5 : k < 512
        · obtain ⟨c3, e, _⟩ := pulsecode_inv_setbit_low c k v hc h5
          exact ⟨c3, by simp [pulsecode_call.run, e]⟩
        · have e := (pulsecode_setbit_high c k v hc (by omega)).2 hlt
          exact ⟨c, by simp [pulsecode_call.run, e]⟩
    obtain ⟨c1, e1⟩ := hrun
    obtain ⟨c2, e2⟩ := ih c1 (pulsecode_inv_run call c c1 hc e1)
      (fun k v hm => hk k v (List.mem_cons_of_mem _ hm))
    exact ⟨c2, by simp [pulsecode_calls, e1, e2]⟩

theorem set_new_size_getElem {α : Type} (z : α) (buf : List α) (m i : Nat) :
    (set_new_size z buf m buf.length)[i]? =
      if i < min buf.length m then buf[i]? else if i < m then some z else none := by
  by_cases h : buf.length ≤ m
  · rw [set_new_size_grow z buf m h, List.getElem?_append, List.getElem?_replicate]
    have e : min buf.length m = buf.length := by omega
    rw [e]
    split
    · rfl
    · split
      · rw [if_pos (by omega)]
      · rw [if_neg (by omega)]
  · rw [set_new_size_shrink z buf m (by omega), List.getElem?_take]
    have e : min buf.length m = m := by omega
    rw [e]
    split
    · rfl
    · rfl

theorem set_new_size_length {α : Type} (z : α) (buf : List α) (m : Nat) :
    (set_new_size z buf m buf.length).length = m := by
  by_cases h : buf.length ≤ m
  · rw [set_new_size_grow z buf m h]
    simp only [List.length_append, List.length_replicate]
    omega
  · rw [set_new_size_shrink z buf m (by omega)]
    simp only [List.length_take]
    omega

theorem pulseseq_set_length_eq (seq : arcp_pulseseq_t) (m : Nat) (hm : m ≤ 500) :
    arcp_pulseseq_set_length seq m =
      (0, { length := m,
            seq := set_new_size arcp_pulseseq_entry_t.zero seq.seq m seq.length }) := by
  unfold arcp_pulseseq_set_length
  rw [if_neg (by simp only [ARCP_MAX_PULSESEQ_SIZE]; omega)]

theorem pulseseq_set_length_accepted (seq : arcp_pulseseq_t) (m : Nat)
    (h : (arcp_pulseseq_set_length seq m).1 = 0) : m ≤ 500 := by
  by_contra hn
  unfold arcp_pulseseq_set_length at h
  rw [if_pos (by simp only [ARCP_MAX_PULSESEQ_SIZE]; omega)] at h
  simp at h

theorem rx_after_length (tl : List Nat) (more : List recv_event) :
    (rx_after tl more).length ≤ more.length + 1 := by
  unfold rx_after
  split <;> simp

theorem read_one_byte (fuel : Nat) (fd : arcp_socket_t) (b : Nat) (tl : List Nat)
    (more : List recv_event) (hrx : fd.rx = .data (b :: tl) :: more) :
    read_from_socket (fuel + 2) fd [] 1 =
      some (1, [b % 256], { fd with rx := rx_after tl more }) := by
  rw [read_from_socket]
  rw [if_pos (by simp)]
  simp only [List.length_nil, Nat.sub_zero]
  have hr : arcp_socket_read fd 1 =
      (1, [b % 256], errno_t.other, { fd with rx := rx_after tl more }) := by
    unfold arcp_socket_read
    rw [hrx]
    dsimp only
    cases tl with
    | nil => simp [rx_after]
    | cons c t => simp [rx_after]
  rw [hr]
  dsimp only
  rw [if_neg (by decide), if_neg (by decide), if_pos (by decide)]
  rw [read_from_socket]
  simp

theorem read_interrupted (fuel : Nat) (fd : arcp_socket_t) (more : List recv_event)
    (hrx : fd.rx = .error .EINTR :: more) :
    read_from_socket (fuel + 1) fd [] 1 = read_from_socket fuel { fd with rx := more } [] 1 := by
  rw [read_from_socket]
  rw [if_pos (by simp)]
  simp only [List.length_nil, Nat.sub_zero]
  have hr : arcp_socket_read fd 1 = (-1, [], errno_t.EINTR, { fd with rx := more }) := by
    unfold arcp_socket_read
    rw [hrx]
  rw [hr]
  dsimp only
  rw [if_neg (by decide), if_neg (by decide), if_neg (by decide)]

/-- A read of one byte from a socket that delivers `b :: bs`. -/
theorem read_one_delivers :
    ∀ (rx : List recv_event) (b : Nat) (bs : List Nat) (rx2 : List recv_event)
      (fuel : Nat) (fd : arcp_socket_t),
      delivers rx (b :: bs) rx2 → fd.rx = rx → rx.length + 2 ≤ fuel →
      ∃ rx1, read_from_socket fuel fd [] 1 = some (1, [b], { fd with rx := rx1 }) ∧
        delivers rx1 bs rx2 ∧ rx1.length ≤ rx.length := by
  intro rx
  induction rx with
  | nil =>
    intro b bs rx2 fuel fd h
    cases h
  | cons ev more ih =>
    intro b bs rx2 fuel fd h hrx hf
    cases h with
    | byte b0 tl _ _ _ hd =>
      obtain ⟨f, rfl⟩ : ∃ f, fuel = f + 2 := ⟨fuel - 2, by simp only [List.length_cons] at hf; omega⟩
      exact ⟨rx_after tl more, read_one_byte f fd b0 tl more hrx, hd,
        by simpa using rx_after_length tl more⟩
    | interrupted _ _ _ _ hd =>
      simp only [List.length_cons] at hf
      obtain ⟨f, rfl⟩ : ∃ f, fuel = f + 1 := ⟨fuel - 1, by omega⟩
      rw [read_interrupted f fd more hrx]
      obtain ⟨rx1, h1, h2, h3⟩ := ih b bs rx2 f { fd with rx := more } hd rfl (by omega)
      exact ⟨rx1, h1, h2, by simp only [List.length_cons]; omega⟩

theorem delivers_nil (rx rx2 : List recv_event) (h : delivers rx [] rx2) : rx2 = rx := by
  cases h
  rfl

theorem shl8_or (m b : Nat) (hm : m < 16777216) (hb : b < 256) :
    ((m <<< 8) % 4294967296) ||| b = m * 256 + b := by
  rw [Nat.shiftLeft_eq, Nat.mod_eq_of_lt (by omega)]
  have h := Nat.mul_add_lt_is_or (show b < 2 ^ 8 by omega) m
  rw [show (2 : Nat) ^ 8 = 256 by norm_num] at h
  rw [show m * 2 ^ 8 = 256 * m by norm_num; omega]
  rw [← h]
  omega

theorem sync_loop_step (flags fuel : Nat) (st : sync_state) (b : Nat) (bs : List Nat)
    (rx2 : List recv_event) (hp : sync_pending flags st = true) (hs : st.msg_size < 4)
    (hm : st.magic_num < 16777216) (hb : b < 256)
    (hd : delivers st.fd.rx (b :: bs) rx2) (hf : st.fd.rx.length + 1 ≤ fuel) :
    ∃ rx1, sync_loop flags (fuel + 1) st = sync_loop flags fuel
      { magic_num := st.magic_num * 256 + b, msg_size := st.msg_size + 1, byte := b,
        fd := { st.fd with rx := rx1 } } ∧
      delivers rx1 bs rx2 ∧ rx1.length ≤ st.fd.rx.length := by
  obtain ⟨rx1, h1, h2, h3⟩ := read_one_delivers st.fd.rx b bs rx2 (fuel + 1) st.fd hd rfl
    (by omega)
  refine ⟨rx1, ?_, h2, h3⟩
  rw [sync_loop]
  rw [if_pos ⟨hp, hs⟩, h1]
  dsimp only
  rw [if_neg (by decide)]
  simp only [List.getD_cons_zero, if_pos hs]
  rw [shl8_or _ _ hm hb]

theorem sync_pending_ascii (flags : Nat) (hf : flags = 2 ∨ flags = 3) (st : sync_state)
    (hm : st.magic_num < 16777216) (hb : st.byte ≠ 10) : sync_pending flags st = true := by
  unfold sync_pending
  have hne : st.magic_num ≠ ARCP_MAGIC_NUMBER := by simp only [ARCP_MAGIC_NUMBER]; omega
  rcases hf with h | h <;> subst h <;> simp [MSG_ARCP, MSG_ASCII, hne, hb]

theorem sync_pending_lf (flags : Nat) (hf : flags = 2 ∨ flags = 3) (st : sync_state)
    (hb : st.byte = 10) : sync_pending flags st = false := by
  unfold sync_pending
  rcases hf with h | h <;> subst h <;> simp [MSG_ARCP, MSG_ASCII, hb]

theorem pow256_le (k : Nat) (hk : k ≤ 3) : 256 ^ k ≤ 16777216 := by
  interval_cases k <;> norm_num

/-- The first loop of `arcp_socket_process` takes the bytes `bs`, none of them LF, as long
as the count stays at three or less. -/
theorem sync_loop_run (flags : Nat) (hf : flags = 2 ∨ flags = 3) :
    ∀ (bs : List Nat) (fuel : Nat) (st : sync_state) (tail : List Nat)
      (rx2 : List recv_event),
      (∀ b ∈ bs, b < 256 ∧ b ≠ 10) → st.byte ≠ 10 → st.magic_num < 256 ^ st.msg_size →
      st.msg_size + bs.length ≤ 3 → delivers st.fd.rx (bs ++ tail) rx2 →
      st.fd.rx.length + 1 ≤ fuel →
      ∃ rx1, sync_loop flags (fuel + bs.length) st = sync_loop flags fuel
        { magic_num := bs.foldl (fun m b => m * 256 + b) st.magic_num,
          msg_size := st.msg_size + bs.length,
          byte := bs.foldl (fun _ b => b) st.byte,
          fd := { st.fd with rx := rx1 } } ∧
        delivers rx1 tail rx2 ∧ rx1.length ≤ st.fd.rx.length := by
  intro bs
  induction bs with
  | nil =>
    intro fuel st tail rx2 _ _ _ _ hd _
    exact ⟨st.fd.rx, rfl, hd, le_refl _⟩
  | cons b bs ih =>
    intro fuel st tail rx2 hbs hbyte hmag hlen hd hfuel
    simp only [List.length_cons] at hlen ⊢
    have hb := hbs b (List.mem_cons_self _ _)
    have hm24 : st.magic_num < 16777216 :=
      lt_of_lt_of_le hmag (pow256_le _ (by omega))
    obtain ⟨rx1, e1, d1, l1⟩ := sync_loop_step flags (fuel + bs.length) st b (bs ++ tail) rx2
      (sync_pending_ascii flags hf st hm24 hbyte) (by omega) hm24 hb.1 hd (by omega)
    obtain ⟨rx3, e3, d3, l3⟩ := ih fuel
      { magic_num := st.magic_num * 256 + b, msg_size := st.msg_size + 1, byte := b,
        fd := { st.fd with rx := rx1 } } tail rx2
      (fun x hx => hbs x (List.mem_cons_of_mem _ hx)) hb.2
      (by
        dsimp only
        rw [Nat.pow_succ]
        have : st.magic_num + 1 ≤ 256 ^ st.msg_size := hmag
        nlinarith)
      (by dsimp only; omega) d1 (by dsimp only; omega)
    refine ⟨rx3, ?_, d3, le_trans l3 l1⟩
    rw [show fuel + (bs.length + 1) = fuel + bs.length + 1 by omega, e1, e3]
    simp only [List.foldl_cons]
    congr 2
    omega

theorem and_255 (x : Nat) : x &&& 255 = x % 256 := Nat.and_pow_two_sub_one_eq_mod x 8

theorem foldl_bytes_lt (bs : List Nat) (hn : bs.length ≤ 3) (hbs : ∀ b ∈ bs, b < 256 ∧ b ≠ 10) :
    bs.foldl (fun m b => m * 256 + b) 0 < 16777216 ∧ bs.foldl (fun _ b => b) 0 ≠ 10 := by
  match bs, hn, hbs with
  | [], _, _ => simp
  | [a], _, h =>
    have := h a (by simp)
    simp only [List.foldl_cons, List.foldl_nil]
    exact ⟨by omega, this.2⟩
  | [a, b], _, h =>
    have := h a (by simp)
    have := h b (by simp)
    simp only [List.foldl_cons, List.foldl_nil]
    exact ⟨by omega, by omega⟩
  | [a, b, c], _, h =>
    have := h a (by simp)
    have := h b (by simp)
    have := h c (by simp)
    simp only [List.foldl_cons, List.foldl_nil]
    exact ⟨by omega, by omega⟩
  | _ :: _ :: _ :: _ :: _, h, _ => simp at h

/-- The first loop of `arcp_socket_process` on a line of at most three bytes and its LF. -/
theorem sync_loop_line (flags : Nat) (hf : flags = 2 ∨ flags = 3) (fuel : Nat)
    (fd : arcp_socket_t) (bs : List Nat) (rx2 : List recv_event)
    (hn : bs.length ≤ 3) (hbs : ∀ b ∈ bs, b < 256 ∧ b ≠ 10)
    (hd : delivers fd.rx (bs ++ [10]) rx2) (hfuel : fd.rx.length + 5 ≤ fuel) :
    sync_loop flags fuel { magic_num := 0, msg_size := 0, byte := 0, fd := fd }
      = some (0, { magic_num := bs.foldl (fun m b => m * 256 + b) 0 * 256 + 10,
                   msg_size := bs.length + 1, byte := 10,
                   fd := { fd with rx := rx2 } }) := by
  obtain ⟨f, rfl⟩ : ∃ f, fuel = (f + 2) + bs.length := ⟨fuel - 2 - bs.length, by omega⟩
  obtain ⟨rx1, e1, d1, l1⟩ := sync_loop_run flags hf bs (f + 2)
    { magic_num := 0, msg_size := 0, byte := 0, fd := fd } [10] rx2 hbs (by simp)
    (by norm_num) (by dsimp only; omega) hd (by dsimp only; omega)
  rw [e1]
  obtain ⟨hmag, hbyte⟩ := foldl_bytes_lt bs hn hbs
  obtain ⟨rx3, e3, d3, _⟩ := sync_loop_step flags (f + 1)
    { magic_num := bs.foldl (fun m b => m * 256 + b) 0, msg_size := 0 + bs.length,
      byte := bs.foldl (fun _ b => b) 0, fd := { fd with rx := rx1 } } 10 [] rx2
    (sync_pending_ascii flags hf _ hmag hbyte) (by dsimp only; omega) hmag (by norm_num) d1
    (by dsimp only at l1 ⊢; omega)
  rw [e3]
  have h2 := delivers_nil _ _ d3
  subst h2
  rw [sync_loop]
  have hnp := sync_pending_lf flags hf
    { magic_num := bs.foldl (fun m b => m * 256 + b) 0 * 256 + 10,
      msg_size := 0 + bs.length + 1, byte := 10,
      fd := { fd with rx := rx2 } } rfl
  rw [if_neg (by rw [hnp]; simp)]
  simp

/-- The first loop of `arcp_socket_process` on four bytes none of which is LF. -/
theorem sync_loop_four (flags : Nat) (hf : flags = 2 ∨ flags = 3) (fuel : Nat)
    (fd : arcp_socket_t) (a b c d : Nat) (rx2 : List recv_event)
    (ha : a < 256 ∧ a ≠ 10) (hb : b < 256 ∧ b ≠ 10) (hc : c < 256 ∧ c ≠ 10)
    (hd : d < 256 ∧ d ≠ 10)
    (hdel : delivers fd.rx [a, b, c, d] rx2) (hfuel : fd.rx.length + 5 ≤ fuel) :
    sync_loop flags fuel { magic_num := 0, msg_size := 0, byte := 0, fd := fd }
      = some (0, { magic_num := ((a * 256 + b) * 256 + c) * 256 + d,
                   msg_size := 4, byte := d,
                   fd := { fd with rx := rx2 } }) := by
  obtain ⟨f, rfl⟩ : ∃ f, fuel = (f + 2) + 3 := ⟨fuel - 5, by omega⟩
  obtain ⟨rx1, e1, d1, l1⟩ := sync_loop_run flags hf [a, b, c] (f + 2)
    { magic_num := 0, msg_size := 0, byte := 0, fd := fd } [d] rx2
    (by
      intro x hx
      simp only [List.mem_cons, List.mem_singleton, List.not_mem_nil, or_false] at hx
      rcases hx with h | h | h <;> subst h <;> assumption)
    (by simp) (by norm_num) (by simp) hdel (by dsimp only; omega)
  simp only [List.length_cons, List.length_nil] at e1
  rw [e1]
  simp only [List.foldl_cons, List.foldl_nil, List.length_cons, List.length_nil]
  obtain ⟨rx3, e3, d3, _⟩ := sync_loop_step flags (f + 1)
    { magic_num := ((0 * 256 + a) * 256 + b) * 256 + c, msg_size := 0 + (0 + 1 + 1 + 1),
      byte := c, fd := { fd with rx := rx1 } } d [] rx2
    (sync_pending_ascii flags hf _ (by dsimp only; omega) hc.2) (by dsimp only; omega)
    (by dsimp only; omega) hd.1 d1 (by dsimp only at l1 ⊢; omega)
  rw [e3]
  have h2 := delivers_nil _ _ d3
  subst h2
  rw [sync_loop]
  rw [if_neg (by simp)]
  simp

theorem socket_process_ascii_eval (mem : Nat → Nat) (fd : arcp_socket_t) (want_stream : Bool)
    (fuel : Nat) (st : sync_state) (hb : st.byte = 10)
    (hsync : sync_loop (if want_stream then 3 else 2) fuel
      { magic_num := 0, msg_size := 0, byte := 0, fd := fd } = some (0, st)) :
    arcp_socket_process fuel mem fd want_stream true =
      some ((0 : Int), (none : Option arcp_stream_t),
        some ((List.range (if (st.magic_num >>> 8) &&& 0xff = 13
                  then uint16_of ((uint16_of ((st.msg_size : Int) - 1) : Int) - 1)
                  else uint16_of ((st.msg_size : Int) - 1))).map
                 (fun i => ((if (st.magic_num >>> 8) &&& 0xff = 13
                       then st.magic_num >>> 8 >>> 8 else st.magic_num >>> 8)
                     >>> (((if (st.magic_num >>> 8) &&& 0xff = 13
                  then uint16_of ((uint16_of ((st.msg_size : Int) - 1) : Int) - 1)
                  else uint16_of ((st.msg_size : Int) - 1)) - 1 - i) * 8)) &&& 0xff) ++ [0]),
        st.fd) := by
  have hnp : sync_pending (if want_stream then 3 else 2) st = false :=
    sync_pending_lf _ (by cases want_stream <;> simp) st hb
  cases want_stream
  · simp only [Bool.false_eq_true, if_false] at hsync hnp
    simp [arcp_socket_process, MSG_ARCP, MSG_ASCII, hsync, hnp, hb]
  · simp only [if_true] at hsync hnp
    simp [arcp_socket_process, MSG_ARCP, MSG_ASCII, hsync, hnp, hb]

theorem ascii_line_of_state (bs : List Nat) (hn : bs.length ≤ 3)
    (hbs : ∀ b ∈ bs, b < 256 ∧ b ≠ 10) :
    (List.range (if ((bs.foldl (fun m b => m * 256 + b) 0 * 256 + 10) >>> 8) &&& 0xff = 13
          then uint16_of ((uint16_of (((bs.length + 1 : Nat) : Int) - 1) : Int) - 1)
          else uint16_of (((bs.length + 1 : Nat) : Int) - 1))).map
        (fun i => ((if ((bs.foldl (fun m b => m * 256 + b) 0 * 256 + 10) >>> 8) &&& 0xff = 13
              then (bs.foldl (fun m b => m * 256 + b) 0 * 256 + 10) >>> 8 >>> 8
              else (bs.foldl (fun m b => m * 256 + b) 0 * 256 + 10) >>> 8)
            >>> (((if ((bs.foldl (fun m b => m * 256 + b) 0 * 256 + 10) >>> 8) &&& 0xff = 13
          then uint16_of ((uint16_of (((bs.length + 1 : Nat) : Int) - 1) : Int) - 1)
          else uint16_of (((bs.length + 1 : Nat) : Int) - 1)) - 1 - i) * 8)) &&& 0xff)
      = (if bs.getLast? = some 13 then bs.dropLast else bs) := by
  have hu : ∀ n : Nat, n ≤ 3 → uint16_of (((n + 1 : Nat) : Int) - 1) = n := by
    intro n hn; unfold uint16_of; omega
  have hu2 : ∀ n : Nat, 0 < n → n ≤ 3 → uint16_of ((n : Int) - 1) = n - 1 := by
    intro n h0 hn; unfold uint16_of; omega
  simp only [and_255, Nat.shiftRight_eq_div_pow]
  match bs, hn, hbs with
  | [], _, _ => simp [uint16_of]
  | [a], _, h =>
    have ha := (h a (by simp)).1
    simp only [List.foldl_cons, List.foldl_nil, List.length_cons, List.length_nil]
    rw [hu 1 (by norm_num)]
    have e1 : ((0 * 256 + a) * 256 + 10) / 2 ^ 8 = a := by omega
    rw [e1, Nat.mod_eq_of_lt ha]
    by_cases hc : a = 13
    · subst hc
      simp [uint16_of]
    · simp [hc, List.range_succ, Nat.mod_eq_of_lt ha]
  | [a, b], _, h =>
    have ha := (h a (by simp)).1
    have hb := (h b (by simp)).1
    simp only [List.foldl_cons, List.foldl_nil, List.length_cons, List.length_nil]
    rw [hu 2 (by norm_num)]
    have e1 : (((0 * 256 + a) * 256 + b) * 256 + 10) / 2 ^ 8 = a * 256 + b := by omega
    have e2 : (a * 256 + b) % 256 = b := by omega
    rw [e1, e2]
    by_cases hc : b = 13
    · subst hc
      rw [if_pos rfl, if_pos rfl, hu2 2 (by norm_num) (by norm_num)]
      have e3 : (a * 256 + 13) / 2 ^ 8 = a := by omega
      simp [List.range_succ, e3, Nat.mod_eq_of_lt ha]
      omega
    · rw [if_neg hc, if_neg hc]
      have e3 : (a * 256 + b) / 2 ^ 8 = a := by omega
      simp [List.range_succ, e3, e2, hc, Nat.mod_eq_of_lt ha]
      omega
  | [a, b, c], _, h =>
    have ha := (h a (by simp)).1
    have hb := (h b (by simp)).1
    have hc3 := (h c (by simp)).1
    simp only [List.foldl_cons, List.foldl_nil, List.length_cons, List.length_nil]
    rw [hu 3 (by norm_num)]
    have e1 : ((((0 * 256 + a) * 256 + b) * 256 + c) * 256 + 10) / 2 ^ 8
        = (a * 256 + b) * 256 + c := by omega
    have e2 : ((a * 256 + b) * 256 + c) % 256 = c := by omega
    rw [e1, e2]
    by_cases hc : c = 13
    · subst hc
      rw [if_pos rfl, if_pos rfl, hu2 3 (by norm_num) (by norm_num)]
      have e3 : ((a * 256 + b) * 256 + 13) / 2 ^ 8 = a * 256 + b := by omega
      have e4 : (a * 256 + b) / 2 ^ 8 = a := by omega
      have e5 : (a * 256 + b) % 256 = b := by omega
      simp [List.range_succ, e3, e4, e5, Nat.mod_eq_of_lt ha]
      omega
    · rw [if_neg hc, if_neg hc]
      have e3 : ((a * 256 + b) * 256 + c) / 2 ^ 16 = a := by omega
      have e4 : ((a * 256 + b) * 256 + c) / 2 ^ 8 = a * 256 + b := by omega
      have e5 : (a * 256 + b) % 256 = b := by omega
      simp [List.range_succ, e3, e4, e5, e2, hc, Nat.mod_eq_of_lt ha]
      omega
  | _ :: _ :: _ :: _ :: _, h, _ => simp at h

theorem socket_process_pending_eval (mem : Nat → Nat) (fd : arcp_socket_t)
    (want_stream : Bool) (fuel : Nat) (st : sync_state)
    (hp : sync_pending (if want_stream then 3 else 2) st = true)
    (hsync : sync_loop (if want_stream then 3 else 2) fuel
      { magic_num := 0, msg_size := 0, byte := 0, fd := fd } = some (0, st)) :
    arcp_socket_process fuel mem fd want_stream true =
      some (ARCP_ERROR_BADMSG, none, none, st.fd) := by
  cases want_stream
  · simp only [Bool.false_eq_true, if_false] at hsync hp
    simp [arcp_socket_process, MSG_ARCP, MSG_ASCII, hsync, hp]
  · simp only [if_true] at hsync hp
    simp [arcp_socket_process, MSG_ARCP, MSG_ASCII, hsync, hp]

theorem socket_write_sent (fd : arcp_socket_t) (buf : List Nat) (len : Nat) :
    (arcp_socket_write fd buf len).2.2.rx = fd.rx ∧
    ((arcp_socket_write fd buf len).1 ≤ len) ∧
    (0 < (arcp_socket_write fd buf len).1 →
      (arcp_socket_write fd buf len).2.2.sent
        = fd.sent ++ buf.take (arcp_socket_write fd buf len).1.toNat) ∧
    ((arcp_socket_write fd buf len).1 ≤ 0 →
      (arcp_socket_write fd buf len).2.2.sent = fd.sent) := by
  unfold arcp_socket_write
  split
  · dsimp only
    refine ⟨rfl, le_refl _, fun _ => by rw [Int.toNat_ofNat], fun h => ?_⟩
    have h0 : len = 0 := by omega
    subst h0
    simp
  · dsimp only
    exact ⟨rfl, by omega, fun h => absurd h (by decide), fun _ => rfl⟩
  · rename_i n rest htx
    dsimp only
    refine ⟨rfl, by omega, fun _ => by rw [Int.toNat_ofNat], fun h => ?_⟩
    have h0 : min n len = 0 := by omega
    rw [h0]
    simp

/-- Whenever the loop of `arcp_stream_write` ends with 0, the socket has been sent the
bytes of the stream from `send_cx` on, and nothing else. -/
theorem stream_write_loop_sent (data : List Nat) (len : Nat) :
    ∀ (fuel : Nat) (fd : arcp_socket_t) (send_cx : Nat) (n_sent : Int) (e : Int)
      (fd2 : arcp_socket_t),
      stream_write_loop data len fuel fd send_cx n_sent = some (e, fd2) →
      send_cx ≤ len →
      fd2.rx = fd.rx ∧ (e = 0 → fd2.sent = fd.sent ++ (data.drop send_cx).take (len - send_cx)) := by
  intro fuel
  induction fuel with
  | zero => intro fd cx n e fd2 h; simp [stream_write_loop] at h
  | succ k ih =>
    intro fd cx n e fd2 h hcx
    rw [stream_write_loop] at h
    split at h
    · rename_i hc
      have hw := socket_write_sent fd (data.drop cx) (len - cx)
      dsimp only at h
      split at h
      · simp only [Option.some.injEq, Prod.mk.injEq] at h
        obtain ⟨he, hfd⟩ := h
        subst hfd
        refine ⟨hw.1, fun h0 => ?_⟩
        rw [← he] at h0
        exact absurd h0 (by decide)
      · split at h
        · simp only [Option.some.injEq, Prod.mk.injEq] at h
          obtain ⟨he, hfd⟩ := h
          subst hfd
          refine ⟨hw.1, fun h0 => ?_⟩
          rw [← he] at h0
          exact absurd h0 (by decide)
        · rename_i hn1 hn0
          by_cases hpos : 0 < (arcp_socket_write fd (data.drop cx) (len - cx)).1
          · rw [if_pos hpos] at h
            have hle := hw.2.1
            obtain ⟨g1, g2⟩ := ih _ _ _ _ _ h (by omega)
            refine ⟨g1.trans hw.1, fun h0 => ?_⟩
            rw [g2 h0, hw.2.2.1 hpos, List.append_assoc]
            congr 1
            generalize hm : (arcp_socket_write fd (data.drop cx) (len - cx)).1.toNat = m at *
            have hm2 : m ≤ len - cx := by omega
            have e1 : len - cx = m + (len - (cx + m)) := by omega
            rw [e1, List.take_add, List.drop_drop]
          · rw [if_neg hpos] at h
            obtain ⟨g1, g2⟩ := ih _ _ _ _ _ h hcx
            refine ⟨g1.trans hw.1, fun h0 => ?_⟩
            rw [g2 h0, hw.2.2.2 (by omega)]
    · split at h
      · simp only [Option.some.injEq, Prod.mk.injEq] at h
        obtain ⟨he, hfd⟩ := h
        subst hfd
        refine ⟨rfl, fun h0 => ?_⟩
        rw [← he] at h0
        exact absurd h0 (by decide)
      · rename_i h1 h2
        simp only [Option.some.injEq, Prod.mk.injEq] at h
        obtain ⟨he, hfd⟩ := h
        subst hfd
        refine ⟨rfl, fun _ => ?_⟩
        have : len - cx = 0 := by omega
        rw [this]
        simp

/-- A socket that takes all it is offered is sent the whole stream. -/
theorem stream_write_loop_all (data : List Nat) (len : Nat) (fuel : Nat) (fd : arcp_socket_t)
    (htx : fd.tx = []) :
    stream_write_loop data len (fuel + 2) fd 0 0
      = some (0, { fd with sent := fd.sent ++ data.take len }) := by
  rw [stream_write_loop]
  by_cases hl : 0 < len
  · rw [if_pos ⟨hl, le_refl _⟩]
    have hw : arcp_socket_write fd (data.drop 0) (len - 0)
        = ((len : Int), errno_t.other, { fd with sent := fd.sent ++ data.take len }) := by
      unfold arcp_socket_write
      rw [htx]
      simp
    rw [hw]
    dsimp only
    rw [if_neg (by omega), if_neg (by omega), if_pos (by omega)]
    rw [stream_write_loop]
    rw [if_neg (by simp), if_neg (by simp)]
  · have h0 : len = 0 := by omega
    subst h0
    rw [if_neg (by simp), if_neg (by simp)]
    cases fd
    simp

/-- What `arcp_msg_encode` makes of a response without payload. -/
theorem msg_encode_simple_response (mem : Nat → Nat) (len xid version : Nat) (id code : Int)
    (hx : xid < 65536) (hv : version < 65536) (h2 : id ≠ ARCP_RESP_SYSID)
    (h16 : id ≠ ARCP_RESP_SYSSTAT) :
    arcp_msg_encode mem (.response ⟨ARCP_MAGIC_NUMBER, len, xid, ARCP_MSG_RESPONSE, version⟩
        id code) =
      (0, some (strm (simple_response_frame xid version id code) []),
        .response ⟨ARCP_MAGIC_NUMBER, 15, xid, ARCP_MSG_RESPONSE, version⟩ id code) := by
  have hsz : stream_size_len (.response ⟨ARCP_MAGIC_NUMBER, len, xid, ARCP_MSG_RESPONSE,
      version⟩ id code) = 15 := by
    unfold stream_size_len stream_size_resp
    simp only [response_header, response_id, if_neg h2, if_neg h16]
    rfl
  have hm2 : (arcp_msg_set_stream_size (.response ⟨ARCP_MAGIC_NUMBER, len, xid,
      ARCP_MSG_RESPONSE, version⟩ id code)).2
      = .response ⟨ARCP_MAGIC_NUMBER, 15, xid, ARCP_MSG_RESPONSE, version⟩ id code := by
    unfold arcp_msg_set_stream_size
    rw [hsz]
    rfl
  have hw : ∀ l, wire_msg (.response ⟨ARCP_MAGIC_NUMBER, l, xid, ARCP_MSG_RESPONSE,
      version⟩ id code) = [0x41, 0x52, 0x43, 0x50] ++ be16 (uint16_of l) ++ be16 xid ++ [1]
        ++ be16 version ++ be16 (uint16_of id) ++ be16 (uint16_of code) := by
    intro l
    unfold wire_msg wire_header wire_resp
    simp only [response_header, response_id, response_info_code]
    rw [if_pos trivial, if_neg h2, if_neg h16,
      uint16_of_nat_lt _ hx, uint16_of_nat_lt _ hv]
    simp [be32, be16, uint32_of, uint8_of, ARCP_MAGIC_NUMBER, ARCP_MSG_RESPONSE]
  have ht : (arcp_msg_t.response ⟨ARCP_MAGIC_NUMBER, len, xid, ARCP_MSG_RESPONSE, version⟩
      id code).header.msg_type = ARCP_MSG_RESPONSE := rfl
  have hcap : ¬ over_cap (arcp_msg_t.response ⟨ARCP_MAGIC_NUMBER, len, xid, ARCP_MSG_RESPONSE,
      version⟩ id code) := by
    intro h
    have := h.1
    rw [ht] at this
    exact absurd this (by decide)
  rw [msg_encode_of mem _ (Or.inr ht) hcap (by rw [hsz]; norm_num)
    (by rw [hsz, hw]; simp [be16]), hm2, hw]
  rfl

/-- What `arcp_exec_resp` does with a response without payload it builds itself. -/
theorem exec_resp_simple (fuel : Nat) (mem : Nat → Nat) (handle : arcp_handle_t)
    (cmd : arcp_msg_t) (id code : Int)
    (hcmd : cmd.header.msg_type = ARCP_MSG_COMMAND)
    (hx : cmd.header.exchange_id < 65536) (hv : handle.connection_arcp_version < 65536)
    (hid : id = ARCP_RESP_UNK ∨ id = ARCP_RESP_NAK ∨ id = ARCP_RESP_ACK) :
    arcp_exec_resp fuel mem handle (some cmd) id none code =
      (stream_write_loop
        (simple_response_frame cmd.header.exchange_id
          (min handle.connection_arcp_version cmd.header.protocol_version) id code) 15
        fuel handle.fd 0 0).map
        (fun r => (r.1, none,
          ⟨r.2, min handle.connection_arcp_version cmd.header.protocol_version⟩)) := by
  have h2 : id ≠ ARCP_RESP_SYSID := by rcases hid with h | h | h <;> subst h <;> decide
  have h16 : id ≠ ARCP_RESP_SYSSTAT := by rcases hid with h | h | h <;> subst h <;> decide
  have hnot : ¬ (id ≠ ARCP_RESP_UNK ∧ id ≠ ARCP_RESP_NAK ∧ id ≠ ARCP_RESP_ACK) := by
    rcases hid with h | h | h <;> subst h <;> decide
  have hvmin : min handle.connection_arcp_version cmd.header.protocol_version < 65536 :=
    lt_of_le_of_lt (Nat.min_le_left _ _) hv
  unfold arcp_exec_resp
  dsimp only
  rw [if_neg (by rw [hcmd]; decide), if_neg hnot]
  have hnew : arcp_msg_new ARCP_MSG_RESPONSE
      = some (.response ⟨ARCP_MAGIC_NUMBER, 0, 0, ARCP_MSG_RESPONSE, 0⟩ (-1) 0) := rfl
  rw [hnew]
  dsimp only
  unfold arcp_msg_write
  simp only [set_header_header, response_header, arcp_msg_t.set_header]
  have hver : (if cmd.header.protocol_version < handle.connection_arcp_version then
        ({ handle with connection_arcp_version := cmd.header.protocol_version } : arcp_handle_t)
      else handle)
      = ⟨handle.fd, min handle.connection_arcp_version cmd.header.protocol_version⟩ := by
    split
    · rw [Nat.min_eq_right (by omega)]
    · rw [Nat.min_eq_left (by omega)]
  rw [hver]
  dsimp only
  rw [msg_encode_simple_response mem 0 _ _ id code hx hvmin h2 h16]
  dsimp only
  rw [if_neg (by decide)]
  unfold arcp_stream_write
  simp only [Option.getD_some, Option.map_map]
  have hsize : (strm (simple_response_frame cmd.header.exchange_id
      (min handle.connection_arcp_version cmd.header.protocol_version) id code) []).size = 15 := by
    simp [strm, simple_response_frame, be16]
  have hdata : (strm (simple_response_frame cmd.header.exchange_id
      (min handle.connection_arcp_version cmd.header.protocol_version) id code) []).data
      = simple_response_frame cmd.header.exchange_id
      (min handle.connection_arcp_version cmd.header.protocol_version) id code := by
    simp [strm]
  rw [hsize, hdata]
  rfl

theorem simple_response_frame_length (xid version : Nat) (id code : Int) :
    (simple_response_frame xid version id code).length = 15 := rfl

/-- What a reply without payload does to the handle. -/
theorem exec_resp_simple_facts (fuel : Nat) (mem : Nat → Nat) (handle : arcp_handle_t)
    (cmd : arcp_msg_t) (id code : Int)
    (hcmd : cmd.header.msg_type = ARCP_MSG_COMMAND)
    (hx : cmd.header.exchange_id < 65536) (hv : handle.connection_arcp_version < 65536)
    (hid : id = ARCP_RESP_UNK ∨ id = ARCP_RESP_NAK ∨ id = ARCP_RESP_ACK) :
    (∀ e r h2, arcp_exec_resp fuel mem handle (some cmd) id none code = some (e, r, h2) →
      h2.connection_arcp_version
        = min handle.connection_arcp_version cmd.header.protocol_version ∧
      h2.fd.rx = handle.fd.rx ∧
      (e = 0 → h2.fd.sent = handle.fd.sent ++ simple_response_frame cmd.header.exchange_id
        (min handle.connection_arcp_version cmd.header.protocol_version) id code)) ∧
    (handle.fd.tx = [] → 2 ≤ fuel →
      arcp_exec_resp fuel mem handle (some cmd) id none code = some (0, none,
        ⟨⟨handle.fd.rx, handle.fd.tx, handle.fd.sent ++ simple_response_frame
            cmd.header.exchange_id
            (min handle.connection_arcp_version cmd.header.protocol_version) id code⟩,
          min handle.connection_arcp_version cmd.header.protocol_version⟩)) := by
  rw [exec_resp_simple fuel mem handle cmd id code hcmd hx hv hid]
  constructor
  · intro e r h2 h
    cases hw : stream_write_loop (simple_response_frame cmd.header.exchange_id
        (min handle.connection_arcp_version cmd.header.protocol_version) id code) 15
        fuel handle.fd 0 0 with
    | none => rw [hw] at h; simp at h
    | some w =>
      rw [hw] at h
      simp only [Option.map_some', Option.some.injEq, Prod.mk.injEq] at h
      obtain ⟨he, _, hh⟩ := h
      subst hh
      obtain ⟨g1, g2⟩ := stream_write_loop_sent _ _ _ _ _ _ w.1 w.2 hw (by norm_num)
      refine ⟨rfl, g1, fun h0 => ?_⟩
      rw [g2 (by rw [he]; exact h0)]
      congr 1
  · intro htx hf
    obtain ⟨f, rfl⟩ : ∃ f, fuel = f + 2 := ⟨fuel - 2, by omega⟩
    rw [stream_write_loop_all _ _ _ _ htx]
    simp only [Option.map_some']
    rw [List.take_of_length_le (by rw [simple_response_frame_length])]

theorem msg_encode_msg (mem : Nat → Nat) (m : arcp_msg_t) :
    (arcp_msg_encode mem m).2.2 = (arcp_msg_set_stream_size m).2 := by
  unfold arcp_msg_encode
  dsimp only
  split_ifs <;> rfl

theorem set_stream_size_exchange_id (m : arcp_msg_t) :
    (arcp_msg_set_stream_size m).2.header.exchange_id = m.header.exchange_id := by
  unfold arcp_msg_set_stream_size
  simp only [set_header_header]

theorem wire_msg_exchange_id (m : arcp_msg_t) :
    ((wire_msg m).drop 6).take 2 = be16 (uint16_of m.header.exchange_id) := by
  unfold wire_msg wire_header
  simp [be32, be16]

/-- What `arcp_msg_write` returns: the message keeps its exchange id, and when the call
returns 0 the socket has been sent the bytes of the message and nothing else. -/
theorem msg_write_facts (fuel : Nat) (mem : Nat → Nat) (handle : arcp_handle_t)
    (msg : arcp_msg_t) (e : Int) (m2 : arcp_msg_t) (h2 : arcp_handle_t)
    (h : arcp_msg_write fuel mem handle msg = some (e, m2, h2)) :
    m2.header.exchange_id = msg.header.exchange_id ∧
    (e = 0 → h2.fd.sent = handle.fd.sent ++ wire_msg m2) := by
  unfold arcp_msg_write at h
  dsimp only at h
  generalize hm : msg.set_header
    { msg.header with protocol_version := handle.connection_arcp_version } = m1 at h
  have hx1 : m1.header.exchange_id = msg.header.exchange_id := by
    rw [← hm]; simp only [set_header_header]
  by_cases h0 : (arcp_msg_encode mem m1).1 = 0
  · obtain ⟨ht, hcap, h1, hl⟩ := msg_encode_ok mem m1 h0
    have he := msg_encode_of mem m1 ht hcap h1 hl
    rw [he] at h
    dsimp only at h
    rw [if_neg (by decide)] at h
    unfold arcp_stream_write at h
    simp only [Option.getD_some, Option.map_map] at h
    cases hw : stream_write_loop (strm (wire_msg (arcp_msg_set_stream_size m1).2) []).data
        (strm (wire_msg (arcp_msg_set_stream_size m1).2) []).size fuel handle.fd 0 0 with
    | none => rw [hw] at h; simp at h
    | some w =>
      rw [hw] at h
      simp only [Option.map_some', Option.some.injEq, Prod.mk.injEq, Function.comp] at h
      obtain ⟨e1, e2, e3⟩ := h
      subst e2 e3
      refine ⟨by rw [set_stream_size_exchange_id, hx1], fun h0 => ?_⟩
      obtain ⟨_, g2⟩ := stream_write_loop_sent _ _ _ _ _ _ w.1 w.2 hw (Nat.zero_le _)
      dsimp only
      rw [g2 (by rw [e1]; exact h0)]
      congr 1
      simp [strm]
  · rw [if_pos h0] at h
    simp only [Option.some.injEq, Prod.mk.injEq] at h
    obtain ⟨e1, e2, e3⟩ := h
    refine ⟨?_, fun hz => absurd (e1.trans hz) h0⟩
    rw [← e2, msg_encode_msg, set_stream_size_exchange_id, hx1]


/-! ## Lemmas: stream primitives, invariants of the decoder, round trips -/

theorem pulsecode_setbit_65535 (c : arcp_pulsecode_t) (v : Nat) (h0 : c.size ≠ 0)
    (h1 : c.size < 65536) :
    arcp_pulsecode_setsize c (uint16_of ((65535 + 1 : Nat) : Int))
      = (0, { c with data := [], size := 0 }) ∧
    arcp_pulsecode_setbit c 65535 v = none := by
  have hu : uint16_of ((65535 + 1 : Nat) : Int) = 0 := by decide
  have hs : arcp_pulsecode_setsize c 0 = (0, { c with data := [], size := 0 }) := by
    unfold arcp_pulsecode_setsize
    rw [if_neg h0, if_neg (by simp only [ARCP_MAX_PULSECODE_SIZE]; omega)]
    dsimp only
    rw [if_neg h0, if_pos rfl]
    have ho : uint16_of ((1 + (c.size - 1) / 8 : Nat) : Int) ≠ 0 := by
      rw [uint16_of_nat_lt _ (by omega)]
      omega
    have hz : uint16_of ((0 : Nat) : Int) = 0 := by decide
    rw [hz]
    unfold set_new_size
    rw [if_neg (fun h => ho h.symm)]
    simp
  refine ⟨by rw [hu]; exact hs, ?_⟩
  have hge : 65535 ≥ c.size := by omega
  unfold arcp_pulsecode_setbit
  simp only [if_pos hge, hu, hs]
  simp

/-- With the bit index 65535 the call has no defined result, whatever the code: the size
asked of `arcp_pulsecode_setsize` is `(uint16)(65535+1) = 0`. -/
theorem pulsecode_setbit_65535_inv (c : arcp_pulsecode_t) (v : Nat) (hc : pulsecode_inv c) :
    arcp_pulsecode_setbit c 65535 v = none := by
  obtain ⟨h1, h2, h3, h4, _⟩ := hc
  by_cases h0 : c.size = 0
  · obtain ⟨size, code_length, data⟩ := c
    dsimp only at h0 h1 h4
    subst h0
    have e1 : code_length = 0 := by omega
    have e2 : data = [] := List.length_eq_zero.mp (by rw [h4])
    subst e1 e2
    cases v with
    | zero => decide
    | succ n => rfl
  · exact (pulsecode_setbit_65535 c v h0 h3).2

/-- A sequence of calls with a call of `arcp_pulsecode_setbit` at the bit index 65535 has
no defined result. -/
theorem pulsecode_calls_setbit_65535_none (calls : List pulsecode_call) :
    ∀ (c : arcp_pulsecode_t), pulsecode_inv c →
      (∃ v, pulsecode_call.setbit 65535 v ∈ calls) → pulsecode_calls calls c = none := by
  induction calls with
  | nil =>
    intro c _ hv
    obtain ⟨v, hv⟩ := hv
    simp at hv
  | cons call rest ih =>
    intro c hc hv
    obtain ⟨v, hv⟩ := hv
    rcases List.mem_cons.mp hv with e | e
    · subst e
      simp only [pulsecode_calls, pulsecode_call.run, pulsecode_setbit_65535_inv c v hc,
        Option.map_none', Option.none_bind]
    · simp only [pulsecode_calls]
      cases hr : call.run c with
      | none => rfl
      | some c1 =>
        simp only [Option.some_bind]
        exact ih c1 (pulsecode_inv_run call c c1 hc hr) ⟨v, e⟩

theorem pulseseq_new_some (len : Nat) (h : len ≤ 500) :
    ∃ seq, arcp_pulseseq_new len = some seq := by
  unfold arcp_pulseseq_new
  dsimp only
  rw [pulseseq_set_length_eq _ _ h]
  exact ⟨_, rfl⟩

theorem stream_decode_pulse_seq_none (fuel : Nat) (u : decode_locals) (len : Nat)
    (entries : List Nat) (h1 : 256 ≤ len) (h2 : len ≤ 500)
    (h3 : entries.length + 15 ≤ 1024) :
    arcp_stream_decode fuel u (stream_of_bytes (pulse_seq_frame len entries)) = none := by
  have hl : (len / 256 * 256 + len % 256) % 65536 = len := by omega
  unfold pulse_seq_frame
  rw [stream_of_bytes_eq]
  simp only [List.cons_append, List.nil_append]
  rw [stream_decode_header_cmd fuel u _ _ _ _ _ _ _ _ _ _ _ _
    (by simp only [List.length_cons]; omega)
    (by decide), decode_cmd_pulse_seq _ _ _ _ _ _ _ _ _ (by decide), hl,
    if_neg (by simp only [ARCP_MAX_PULSE_SEQ_LENGTH]; omega)]
  obtain ⟨seq, hseq⟩ := pulseseq_new_some len h2
  rw [hseq]
  dsimp only
  rw [for_loop_uint8_none _ _ h1 _ _ _ (by decide)]
  rfl

theorem get_int8_bounds (s : arcp_stream_t) (d : Int) (hend : s.end_ = (s.size : Int) - 1) :
    stream_op_bounds 1 s (arcp_stream_get_int8 s d).1 (arcp_stream_get_int8 s d).2.1 ∧
    ((arcp_stream_get_int8 s d).1 ≠ 0 → (arcp_stream_get_int8 s d).2.2 = d) := by
  unfold arcp_stream_get_int8 stream_op_bounds
  by_cases hc : s.err ≠ 0 ∨ (s.head : Int) + 1 - 1 > s.end_
  · rw [if_pos hc]
    dsimp only
    refine ⟨⟨fun h => ?_, fun h => ⟨rfl, by decide, rfl, rfl⟩,
      fun h => ⟨rfl, by decide, rfl, rfl⟩, rfl, rfl⟩, fun _ => rfl⟩
    exfalso
    rcases hc with hc | hc
    · exact hc h.1
    · omega
  · rw [if_neg hc]
    dsimp only
    push_neg at hc
    exact ⟨⟨fun h => ⟨rfl, rfl, hc.1⟩, fun h => by omega, fun h => absurd hc.1 h, rfl,
      rfl⟩, fun h => absurd rfl h⟩

theorem get_int16_bounds (s : arcp_stream_t) (d : Int) (hend : s.end_ = (s.size : Int) - 1) :
    stream_op_bounds 2 s (arcp_stream_get_int16 s d).1 (arcp_stream_get_int16 s d).2.1 ∧
    ((arcp_stream_get_int16 s d).1 ≠ 0 → (arcp_stream_get_int16 s d).2.2 = d) := by
  unfold arcp_stream_get_int16 stream_op_bounds
  by_cases hc : s.err ≠ 0 ∨ (s.head : Int) + 2 - 1 > s.end_
  · rw [if_pos hc]
    dsimp only
    refine ⟨⟨fun h => ?_, fun h => ⟨rfl, by decide, rfl, rfl⟩,
      fun h => ⟨rfl, by decide, rfl, rfl⟩, rfl, rfl⟩, fun _ => rfl⟩
    exfalso
    rcases hc with hc | hc
    · exact hc h.1
    · omega
  · rw [if_neg hc]
    dsimp only
    push_neg at hc
    exact ⟨⟨fun h => ⟨rfl, rfl, hc.1⟩, fun h => by omega, fun h => absurd hc.1 h, rfl,
      rfl⟩, fun h => absurd rfl h⟩

theorem get_int32_bounds (s : arcp_stream_t) (d : Int) (hend : s.end_ = (s.size : Int) - 1) :
    stream_op_bounds 4 s (arcp_stream_get_int32 s d).1 (arcp_stream_get_int32 s d).2.1 ∧
    ((arcp_stream_get_int32 s d).1 ≠ 0 → (arcp_stream_get_int32 s d).2.2 = d) := by
  unfold arcp_stream_get_int32 stream_op_bounds
  by_cases hc : s.err ≠ 0 ∨ (s.head : Int) + 4 - 1 > s.end_
  · rw [if_pos hc]
    dsimp only
    refine ⟨⟨fun h => ?_, fun h => ⟨rfl, by decide, rfl, rfl⟩,
      fun h => ⟨rfl, by decide, rfl, rfl⟩, rfl, rfl⟩, fun _ => rfl⟩
    exfalso
    rcases hc with hc | hc
    · exact hc h.1
    · omega
  · rw [if_neg hc]
    dsimp only
    push_neg at hc
    exact ⟨⟨fun h => ⟨rfl, rfl, hc.1⟩, fun h => by omega, fun h => absurd hc.1 h, rfl,
      rfl⟩, fun h => absurd rfl h⟩

theorem get_float_bounds (s : arcp_stream_t) (d : Nat) (hend : s.end_ = (s.size : Int) - 1) :
    stream_op_bounds 4 s (arcp_stream_get_float s d).1 (arcp_stream_get_float s d).2.1 ∧
    ((arcp_stream_get_float s d).1 ≠ 0 → (arcp_stream_get_float s d).2.2 = d) := by
  have h := (get_int32_bounds s (int32_of ((0 : Nat) : Int)) hend).1
  unfold arcp_stream_get_float arcp_stream_get_uint32
  dsimp only
  by_cases hr : (arcp_stream_get_int32 s (int32_of ((0 : Nat) : Int))).1 = 0
  · rw [if_neg (by simpa using hr)]
    dsimp only
    refine ⟨?_, fun h0 => absurd rfl h0⟩
    rw [hr] at h
    exact h
  · rw [if_pos hr]
    exact ⟨h, fun _ => rfl⟩

theorem store_int8_bounds (s : arcp_stream_t) (v : Int) (hend : s.end_ = (s.size : Int) - 1) :
    stream_op_bounds 1 s (arcp_stream_store_int8 s v).1 (arcp_stream_store_int8 s v).2 := by
  unfold arcp_stream_store_int8 stream_op_bounds
  by_cases hc : s.err ≠ 0 ∨ (s.head : Int) + 1 - 1 > s.end_
  · rw [if_pos hc]
    dsimp only
    refine ⟨fun h => ?_, fun h => ⟨rfl, by decide, rfl, rfl⟩,
      fun h => ⟨rfl, by decide, rfl, rfl⟩, rfl, rfl⟩
    exfalso
    rcases hc with hc | hc
    · exact hc h.1
    · omega
  · rw [if_neg hc]
    dsimp only
    push_neg at hc
    exact ⟨fun h => ⟨rfl, rfl, hc.1⟩, fun h => by omega, fun h => absurd hc.1 h, rfl, rfl⟩

theorem store_int16_bounds (s : arcp_stream_t) (v : Int) (hend : s.end_ = (s.size : Int) - 1) :
    stream_op_bounds 2 s (arcp_stream_store_int16 s v).1 (arcp_stream_store_int16 s v).2 := by
  unfold arcp_stream_store_int16 stream_op_bounds
  by_cases hc : s.err ≠ 0 ∨ (s.head : Int) + 2 - 1 > s.end_
  · rw [if_pos hc]
    dsimp only
    refine ⟨fun h => ?_, fun h => ⟨rfl, by decide, rfl, rfl⟩,
      fun h => ⟨rfl, by decide, rfl, rfl⟩, rfl, rfl⟩
    exfalso
    rcases hc with hc | hc
    · exact hc h.1
    · omega
  · rw [if_neg hc]
    dsimp only
    push_neg at hc
    exact ⟨fun h => ⟨rfl, rfl, hc.1⟩, fun h => by omega, fun h => absurd hc.1 h, rfl, rfl⟩

theorem store_int32_bounds (s : arcp_stream_t) (v : Int) (hend : s.end_ = (s.size : Int) - 1) :
    stream_op_bounds 4 s (arcp_stream_store_int32 s v).1 (arcp_stream_store_int32 s v).2 := by
  unfold arcp_stream_store_int32 stream_op_bounds
  by_cases hc : s.err ≠ 0 ∨ (s.head : Int) + 4 - 1 > s.end_
  · rw [if_pos hc]
    dsimp only
    refine ⟨fun h => ?_, fun h => ⟨rfl, by decide, rfl, rfl⟩,
      fun h => ⟨rfl, by decide, rfl, rfl⟩, rfl, rfl⟩
    exfalso
    rcases hc with hc | hc
    · exact hc h.1
    · omega
  · rw [if_neg hc]
    dsimp only
    push_neg at hc
    exact ⟨fun h => ⟨rfl, rfl, hc.1⟩, fun h => by omega, fun h => absurd hc.1 h, rfl, rfl⟩

theorem shr8_16 (x : Nat) (h : x < 65536) : x >>> 8 = x / 256 % 256 := by
  rw [Nat.shiftRight_eq_div_pow]
  omega

theorem shr_byte (x k : Nat) : (x >>> k) &&& 0xff = x / 2 ^ k % 256 := by
  rw [Nat.shiftRight_eq_div_pow]
  exact and_255 _

theorem store_int16_eq (s : arcp_stream_t) (v : Int)
    (h0 : (arcp_stream_store_int16 s v).1 = 0) :
    (s.head : Int) + 2 ≤ s.end_ + 1 ∧ s.err = 0 ∧
    arcp_stream_store_int16 s v = (0, { s with
      data := (s.data.set s.head (uint16_of v / 256 % 256)).set (s.head + 1) (uint16_of v % 256),
      head := s.head + 2 }) := by
  unfold arcp_stream_store_int16 at h0 ⊢
  by_cases hc : s.err ≠ 0 ∨ (s.head : Int) + 2 - 1 > s.end_
  · rw [if_pos hc] at h0
    simp at h0
  · rw [if_neg hc]
    push_neg at hc
    exact ⟨by omega, hc.1, rfl⟩

theorem store_int32_eq (s : arcp_stream_t) (v : Int)
    (h0 : (arcp_stream_store_int32 s v).1 = 0) :
    (s.head : Int) + 4 ≤ s.end_ + 1 ∧ s.err = 0 ∧
    arcp_stream_store_int32 s v = (0, { s with
      data := (((s.data.set s.head (uint32_of v / 16777216 % 256)).set
            (s.head + 1) (uint32_of v / 65536 % 256)).set
            (s.head + 2) (uint32_of v / 256 % 256)).set (s.head + 3) (uint32_of v % 256),
      head := s.head + 4 }) := by
  unfold arcp_stream_store_int32 at h0 ⊢
  by_cases hc : s.err ≠ 0 ∨ (s.head : Int) + 4 - 1 > s.end_
  · rw [if_pos hc] at h0
    simp at h0
  · rw [if_neg hc]
    push_neg at hc
    exact ⟨by omega, hc.1, rfl⟩

theorem get_int16_at (s2 : arcp_stream_t) (d : Int) (herr : s2.err = 0)
    (hend : (s2.head : Int) + 2 ≤ s2.end_ + 1) :
    arcp_stream_get_int16 s2 d = (0, { s2 with head := s2.head + 2 },
      int16_of ((s2.data.getD s2.head 0 * 256 + s2.data.getD (s2.head + 1) 0 : Nat) : Int)) := by
  unfold arcp_stream_get_int16
  rw [if_neg (by push_neg; exact ⟨herr, by omega⟩)]

theorem get_int32_at (s2 : arcp_stream_t) (d : Int) (herr : s2.err = 0)
    (hend : (s2.head : Int) + 4 ≤ s2.end_ + 1) :
    arcp_stream_get_int32 s2 d = (0, { s2 with head := s2.head + 4 },
      int32_of ((((s2.data.getD s2.head 0 * 256
        + s2.data.getD (s2.head + 1) 0) * 256
        + s2.data.getD (s2.head + 2) 0) * 256
        + s2.data.getD (s2.head + 3) 0 : Nat) : Int)) := by
  unfold arcp_stream_get_int32
  rw [if_neg (by push_neg; exact ⟨herr, by omega⟩)]

/-- The two bytes `arcp_stream_store_int16` writes, and the value read back. -/
theorem store_int16_facts (s : arcp_stream_t) (v : Int)
    (hreg : s.end_ + 1 ≤ (s.data.length : Int))
    (h0 : (arcp_stream_store_int16 s v).1 = 0) :
    (arcp_stream_store_int16 s v).2.data.getD s.head 0 = uint16_of v >>> 8 ∧
    (arcp_stream_store_int16 s v).2.data.getD (s.head + 1) 0 = uint16_of v &&& 0xff ∧
    (∀ i, i ≠ s.head → i ≠ s.head + 1 →
      (arcp_stream_store_int16 s v).2.data.getD i 0 = s.data.getD i 0) ∧
    (arcp_stream_store_int16 s v).2.data.length = s.data.length ∧
    (arcp_stream_store_int16 s v).2.head = s.head + 2 ∧
    (∀ (s2 : arcp_stream_t) (d : Int) (e : Nat),
      s2.data = (arcp_stream_store_int16 s v).2.data → s2.head = s.head → s2.err = 0 →
      (s2.head : Int) + 2 ≤ s2.end_ + 1 →
      arcp_stream_get_int16 s2 d = (0, { s2 with head := s.head + 2 }, int16_of v) ∧
      arcp_stream_get_uint16 s2 e = (0, { s2 with head := s.head + 2 }, uint16_of v)) := by
  obtain ⟨hfit, _, e⟩ := store_int16_eq s v h0
  have hlt := uint16_of_lt v
  have hl : s.head + 2 ≤ s.data.length := by omega
  rw [e]
  dsimp only
  have b0 : ((s.data.set s.head (uint16_of v / 256 % 256)).set (s.head + 1)
      (uint16_of v % 256)).getD s.head 0 = uint16_of v / 256 % 256 := by
    rw [getD_set_other _ _ _ _ _ (by omega), getD_set_same _ _ _ _ (by omega)]
  have b1 : ((s.data.set s.head (uint16_of v / 256 % 256)).set (s.head + 1)
      (uint16_of v % 256)).getD (s.head + 1) 0 = uint16_of v % 256 := by
    rw [getD_set_same _ _ _ _ (by rw [List.length_set]; omega)]
  refine ⟨by rw [b0, shr8_16 _ hlt], by rw [b1]; exact (and_255 _).symm, ?_, ?_, rfl, ?_⟩
  · intro i h1 h2
    rw [getD_set_other _ _ _ _ _ (by omega), getD_set_other _ _ _ _ _ (by omega)]
  · rw [List.length_set, List.length_set]
  · intro s2 d e hd hh herr hend
    have hv : int16_of ((s2.data.getD s2.head 0 * 256 + s2.data.getD (s2.head + 1) 0 : Nat)
        : Int) = int16_of v := by
      rw [hd, hh, b0, b1, ← int16_of_uint16_of v]
      congr 2
      omega
    have h16 : ∀ d, arcp_stream_get_int16 s2 d
        = (0, { s2 with head := s.head + 2 }, int16_of v) := by
      intro d
      rw [get_int16_at s2 d herr hend, hv, hh]
    refine ⟨h16 d, ?_⟩
    unfold arcp_stream_get_uint16
    rw [h16]
    dsimp only
    rw [uint16_of_int16_of]

/-- The four bytes `arcp_stream_store_int32` writes, and the value read back. -/
theorem store_int32_facts (s : arcp_stream_t) (v : Int)
    (hreg : s.end_ + 1 ≤ (s.data.length : Int))
    (h0 : (arcp_stream_store_int32 s v).1 = 0) :
    (arcp_stream_store_int32 s v).2.data.getD s.head 0 = uint32_of v >>> 24 ∧
    (arcp_stream_store_int32 s v).2.data.getD (s.head + 1) 0
      = (uint32_of v >>> 16) &&& 0xff ∧
    (arcp_stream_store_int32 s v).2.data.getD (s.head + 2) 0
      = (uint32_of v >>> 8) &&& 0xff ∧
    (arcp_stream_store_int32 s v).2.data.getD (s.head + 3) 0 = uint32_of v &&& 0xff ∧
    (∀ i, i < s.head ∨ s.head + 4 ≤ i →
      (arcp_stream_store_int32 s v).2.data.getD i 0 = s.data.getD i 0) ∧
    (arcp_stream_store_int32 s v).2.data.length = s.data.length ∧
    (arcp_stream_store_int32 s v).2.head = s.head + 4 ∧
    (∀ (s2 : arcp_stream_t) (d : Int) (e : Nat),
      s2.data = (arcp_stream_store_int32 s v).2.data → s2.head = s.head → s2.err = 0 →
      (s2.head : Int) + 4 ≤ s2.end_ + 1 →
      arcp_stream_get_int32 s2 d = (0, { s2 with head := s.head + 4 }, int32_of v) ∧
      arcp_stream_get_uint32 s2 e = (0, { s2 with head := s.head + 4 }, uint32_of v) ∧
      arcp_stream_get_float s2 e = (0, { s2 with head := s.head + 4 }, uint32_of v)) := by
  obtain ⟨hfit, _, e⟩ := store_int32_eq s v h0
  have hlt := uint32_of_lt v
  have hl : s.head + 4 ≤ s.data.length := by omega
  rw [e]
  dsimp only
  generalize hx : uint32_of v = x at hlt
  have b0 : ((((s.data.set s.head (x / 16777216 % 256)).set
            (s.head + 1) (x / 65536 % 256)).set
            (s.head + 2) (x / 256 % 256)).set (s.head + 3) (x % 256)).getD s.head 0
      = x / 16777216 % 256 := by
    rw [getD_set_other _ _ _ _ _ (by omega), getD_set_other _ _ _ _ _ (by omega),
      getD_set_other _ _ _ _ _ (by omega), getD_set_same _ _ _ _ (by omega)]
  have b1 : ((((s.data.set s.head (x / 16777216 % 256)).set
            (s.head + 1) (x / 65536 % 256)).set
            (s.head + 2) (x / 256 % 256)).set (s.head + 3) (x % 256)).getD (s.head + 1) 0
      = x / 65536 % 256 := by
    rw [getD_set_other _ _ _ _ _ (by omega), getD_set_other _ _ _ _ _ (by omega),
      getD_set_same _ _ _ _ (by rw [List.length_set]; omega)]
  have b2 : ((((s.data.set s.head (x / 16777216 % 256)).set
            (s.head + 1) (x / 65536 % 256)).set
            (s.head + 2) (x / 256 % 256)).set (s.head + 3) (x % 256)).getD (s.head + 2) 0
      = x / 256 % 256 := by
    rw [getD_set_other _ _ _ _ _ (by omega),
      getD_set_same _ _ _ _ (by rw [List.length_set, List.length_set]; omega)]
  have b3 : ((((s.data.set s.head (x / 16777216 % 256)).set
            (s.head + 1) (x / 65536 % 256)).set
            (s.head + 2) (x / 256 % 256)).set (s.head + 3) (x % 256)).getD (s.head + 3) 0
      = x % 256 := by
    rw [getD_set_same _ _ _ _
      (by rw [List.length_set, List.length_set, List.length_set]; omega)]
  refine ⟨?_, ?_, ?_, by rw [b3]; exact (and_255 _).symm, ?_, ?_, rfl, ?_⟩
  · rw [b0, Nat.shiftRight_eq_div_pow]
    omega
  · rw [b1, shr_byte]
    norm_num
  · rw [b2, shr_byte]
    norm_num
  · intro i hi
    rw [getD_set_other _ _ _ _ _ (by omega), getD_set_other _ _ _ _ _ (by omega),
      getD_set_other _ _ _ _ _ (by omega), getD_set_other _ _ _ _ _ (by omega)]
  · rw [List.length_set, List.length_set, List.length_set, List.length_set]
  · intro s2 d e hd hh herr hend
    have hv : int32_of ((((s2.data.getD s2.head 0 * 256
        + s2.data.getD (s2.head + 1) 0) * 256
        + s2.data.getD (s2.head + 2) 0) * 256
        + s2.data.getD (s2.head + 3) 0 : Nat) : Int) = int32_of v := by
      rw [hd, hh, b0, b1, b2, b3, ← int32_of_uint32_of v, hx]
      congr 2
      omega
    have h32 : ∀ d, arcp_stream_get_int32 s2 d
        = (0, { s2 with head := s.head + 4 }, int32_of v) := by
      intro d
      rw [get_int32_at s2 d herr hend, hv, hh]
    have hu : ∀ e, arcp_stream_get_uint32 s2 e
        = (0, { s2 with head := s.head + 4 }, x) := by
      intro e
      unfold arcp_stream_get_uint32
      rw [h32]
      dsimp only
      rw [uint32_of_int32_of, hx]
    refine ⟨h32 d, hu e, ?_⟩
    unfold arcp_stream_get_float
    rw [hu]
    simp

theorem for_loop_inv {σ : Type} (P : σ → Prop) (n : Nat) (body : Nat → σ → σ) (s : σ)
    (h0 : P s) (hb : ∀ i s, P s → P (body i s)) : P (for_loop n body s) := by
  induction n with
  | zero => simpa [for_loop] using h0
  | succ k ih =>
    rw [for_loop_succ]
    exact hb _ _ ih

theorem for_loop_uint8_inv {σ : Type} (P : σ → Prop) (n : Nat) (body : Nat → σ → σ)
    (hb : ∀ i s, P s → P (body i s)) :
    ∀ (fuel i : Nat) (s s2 : σ), for_loop_uint8 n body fuel i s = some s2 → P s → P s2 := by
  intro fuel
  induction fuel with
  | zero => intro i s s2 h _; simp [for_loop_uint8] at h
  | succ k ih =>
    intro i s s2 h hs
    unfold for_loop_uint8 at h
    split_ifs at h
    · exact ih _ _ _ h (hb _ _ hs)
    · cases h
      exact hs

theorem forall_mem_set {α : Type} (P : α → Prop) (l : List α) (i : Nat) (a : α)
    (hl : ∀ x ∈ l, P x) (ha : P a) : ∀ x ∈ l.set i a, P x := by
  intro x hx
  rcases List.mem_or_eq_of_mem_set hx with h | h
  · exact hl x h
  · rw [h]; exact ha

theorem forall_getD {α : Type} (P : α → Prop) (l : List α) (i : Nat) (z : α)
    (hl : ∀ x ∈ l, P x) (hz : P z) : P (l.getD i z) := by
  rw [List.getD_eq_getElem?_getD]
  by_cases h : i < l.length
  · rw [List.getElem?_eq_getElem h]
    exact hl _ (List.getElem_mem h)
  · rw [List.getElem?_eq_none (by omega)]
    exact hz

theorem forall_mem_set_new_size {α : Type} (P : α → Prop) (z : α) (l : List α) (n o : Nat)
    (hl : ∀ x ∈ l, P x) (hz : P z) : ∀ x ∈ set_new_size z l n o, P x := by
  intro x hx
  unfold set_new_size at hx
  by_cases e : n = o
  · rw [if_pos e] at hx
    exact hl x hx
  · rw [if_neg e] at hx
    dsimp only at hx
    rw [List.mem_append] at hx
    rcases hx with h | h
    · exact hl x (List.mem_of_mem_take h)
    · rw [(List.mem_replicate.1 h).2]; exact hz

theorem stx2stat_limits_of (a b : arcp_stx2stat_t) (h : stx2stat_limits a)
    (e1 : b.n_chassis_fans = a.n_chassis_fans) (e2 : b.n_rf_cards = a.n_rf_cards)
    (e3 : b.rf_card_stat = a.rf_card_stat) (e4 : b.n_units = a.n_units)
    (e5 : b.unit_stat = a.unit_stat) : stx2stat_limits b := by
  unfold stx2stat_limits at h ⊢
  rw [e1, e2, e3, e4, e5]
  exact h

theorem stx2stat_limits_cards (a b : arcp_stx2stat_t) (h : stx2stat_limits a)
    (e1 : b.n_chassis_fans = a.n_chassis_fans) (e2 : b.n_rf_cards = a.n_rf_cards)
    (e3 : b.rf_card_stat.length = a.rf_card_stat.length)
    (h3 : ∀ c ∈ b.rf_card_stat, c.n_rf_outputs ≤ ARCP_MAX_N_RF_CARD_OUTPUT)
    (e4 : b.n_units = a.n_units) (e5 : b.unit_stat = a.unit_stat) : stx2stat_limits b := by
  unfold stx2stat_limits at h ⊢
  rw [e1, e2, e3, e4, e5]
  exact ⟨h.1, h.2.1, h.2.2.1, h3, h.2.2.2.2⟩

theorem stx2stat_limits_units (a b : arcp_stx2stat_t) (h : stx2stat_limits a)
    (e1 : b.n_chassis_fans = a.n_chassis_fans) (e2 : b.n_rf_cards = a.n_rf_cards)
    (e3 : b.rf_card_stat = a.rf_card_stat) (e4 : b.n_units = a.n_units)
    (e5 : b.unit_stat.length = a.unit_stat.length)
    (h5 : ∀ x ∈ b.unit_stat, extunit_limits x) : stx2stat_limits b := by
  unfold stx2stat_limits at h ⊢
  rw [e1, e2, e3, e4, e5]
  exact ⟨h.1, h.2.1, h.2.2.1, h.2.2.2.1, h.2.2.2.2.1, h.2.2.2.2.2.1, h5⟩

theorem stx2stat_limits_zero : stx2stat_limits arcp_stx2stat_t.zero := by decide

theorem set_n_chassis_fans_inv (stat : arcp_stx2stat_t) (n : Nat) (h : stx2stat_limits stat) :
    stx2stat_limits (arcp_stx2stat_set_n_chassis_fans stat n).2 ∧
    ((arcp_stx2stat_set_n_chassis_fans stat n).1 = 0 →
      (arcp_stx2stat_set_n_chassis_fans stat n).2.chassis_datasize
        = 7 + 2 * (arcp_stx2stat_set_n_chassis_fans stat n).2.n_chassis_fans) := by
  unfold arcp_stx2stat_set_n_chassis_fans
  by_cases hn : n > ARCP_MAX_N_CHASSIS_FANS
  · rw [if_pos hn]
    exact ⟨h, fun h0 => by simp at h0⟩
  · rw [if_neg hn]
    dsimp only
    refine ⟨?_, fun _ => ?_⟩
    · unfold stx2stat_limits at h ⊢
      dsimp only
      exact ⟨Nat.le_of_not_gt hn, h.2⟩
    · simp only [ARCP_MAX_N_CHASSIS_FANS] at hn
      rw [uint8_of_nat_lt _ (by omega)]

theorem set_n_rf_cards_inv (stat : arcp_stx2stat_t) (n : Nat) (h : stx2stat_limits stat)
    (hn : n ≤ ARCP_MAX_N_RF_CARDS) :
    stx2stat_limits (arcp_stx2stat_set_n_rf_cards stat n).2 := by
  unfold arcp_stx2stat_set_n_rf_cards
  dsimp only
  unfold stx2stat_limits at h ⊢
  dsimp only
  refine ⟨h.1, hn, ?_, ?_, h.2.2.2.2⟩
  · rw [← h.2.2.1]
    exact set_new_size_length _ _ _
  · exact forall_mem_set_new_size _ _ _ _ _ h.2.2.2.1 (by decide)

theorem set_n_rf_outputs_inv (stat : arcp_stx2stat_t) (i n : Nat) (h : stx2stat_limits stat)
    (hn : n ≤ ARCP_MAX_N_RF_CARD_OUTPUT) :
    stx2stat_limits (arcp_stx2stat_set_n_rf_outputs stat i n).2 := by
  unfold arcp_stx2stat_set_n_rf_outputs
  split_ifs
  · exact h
  · dsimp only
    refine stx2stat_limits_cards stat _ h rfl rfl (List.length_set _ _ _) ?_ rfl rfl
    exact forall_mem_set _ _ _ _ h.2.2.2.1 hn

theorem set_n_units_inv (stat : arcp_stx2stat_t) (n : Nat) (h : stx2stat_limits stat) :
    stx2stat_limits (arcp_stx2stat_set_n_units stat n).2 := by
  unfold arcp_stx2stat_set_n_units
  by_cases hn : n > ARCP_STX2_MAX_N_STX2_UNITS
  · rw [if_pos hn]
    exact h
  · rw [if_neg hn]
    dsimp only
    unfold stx2stat_limits at h ⊢
    dsimp only
    refine ⟨h.1, h.2.1, h.2.2.1, h.2.2.2.1, by omega, ?_, ?_⟩
    · rw [← h.2.2.2.2.2.1]
      exact set_new_size_length _ _ _
    · exact forall_mem_set_new_size _ _ _ _ _ h.2.2.2.2.2.2 (by decide)

theorem decode_stx2_chassis_inv (stream : arcp_stream_t) :
    stx2stat_limits (decode_stx2_chassis stream).stx2stat ∧
    ((decode_stx2_chassis stream).err = 0 →
      (decode_stx2_chassis stream).stx2stat.chassis_datasize
        = 7 + 2 * (decode_stx2_chassis stream).stx2stat.n_chassis_fans) := by
  unfold decode_stx2_chassis
  lift_lets
  extract_lets stat r1 r2 r3 r4 r5 stat2 r6 byte rs
  clear_value r1 r2 r3 r4 r5 r6
  have h2 : stx2stat_limits stat2 :=
    stx2stat_limits_of arcp_stx2stat_t.zero _ stx2stat_limits_zero rfl rfl rfl rfl rfl
  dsimp only
  by_cases hb : byte > ARCP_MAX_N_CHASSIS_FANS
  · have e : rs = (ARCP_ERROR_BADMSG, stat2) := if_pos hb
    rw [e]
    exact ⟨h2, fun h => by simp at h⟩
  · have e : rs = arcp_stx2stat_set_n_chassis_fans stat2 byte := if_neg hb
    rw [e]
    exact set_n_chassis_fans_inv stat2 byte h2

theorem decode_stx2_fans_inv (st : decode_stx2_state) :
    (stx2stat_limits st.stx2stat → stx2stat_limits (decode_stx2_fans st).stx2stat) ∧
    (decode_stx2_fans st).stx2stat.chassis_datasize = st.stx2stat.chassis_datasize ∧
    (decode_stx2_fans st).stx2stat.n_chassis_fans = st.stx2stat.n_chassis_fans ∧
    ((decode_stx2_fans st).err = 0 → st.err = 0) := by
  unfold decode_stx2_fans
  by_cases h0 : st.err = 0
  · rw [if_pos h0]
    lift_lets
    extract_lets rf r7 src stat r8 byte rs
    clear_value rf r7 r8
    dsimp only
    by_cases hb : byte > ARCP_MAX_N_RF_CARDS
    · have e : rs = (ARCP_ERROR_BADMSG, stat) := if_pos hb
      rw [e]
      exact ⟨fun h => stx2stat_limits_of _ _ h rfl rfl rfl rfl rfl, rfl, rfl, fun _ => h0⟩
    · have e : rs = arcp_stx2stat_set_n_rf_cards stat byte := if_neg hb
      rw [e]
      exact ⟨fun h => set_n_rf_cards_inv _ _ (stx2stat_limits_of _ _ h rfl rfl rfl rfl rfl)
        (Nat.le_of_not_gt hb), rfl, rfl, fun _ => h0⟩
  · rw [if_neg h0]
    exact ⟨id, rfl, rfl, id⟩

theorem set_n_rf_outputs_fields (stat : arcp_stx2stat_t) (i n : Nat) :
    (arcp_stx2stat_set_n_rf_outputs stat i n).2.chassis_datasize = stat.chassis_datasize ∧
    (arcp_stx2stat_set_n_rf_outputs stat i n).2.n_chassis_fans = stat.n_chassis_fans := by
  unfold arcp_stx2stat_set_n_rf_outputs
  split_ifs
  · exact ⟨rfl, rfl⟩
  · exact ⟨rfl, rfl⟩

theorem set_n_units_fields (stat : arcp_stx2stat_t) (n : Nat) :
    (arcp_stx2stat_set_n_units stat n).2.chassis_datasize = stat.chassis_datasize ∧
    (arcp_stx2stat_set_n_units stat n).2.n_chassis_fans = stat.n_chassis_fans := by
  unfold arcp_stx2stat_set_n_units
  split_ifs
  · exact ⟨rfl, rfl⟩
  · exact ⟨rfl, rfl⟩

theorem rf_card_zero_limit :
    arcp_rf_card_stat_t.zero.n_rf_outputs ≤ ARCP_MAX_N_RF_CARD_OUTPUT := by decide

theorem decode_rf_card_inv (i : Nat) (st : decode_stx2_state)
    (h : stx2stat_limits st.stx2stat) :
    stx2stat_limits (decode_rf_card i st).stx2stat ∧
    (decode_rf_card i st).stx2stat.chassis_datasize = st.stx2stat.chassis_datasize ∧
    (decode_rf_card i st).stx2stat.n_chassis_fans = st.stx2stat.n_chassis_fans := by
  unfold decode_rf_card
  lift_lets
  extract_lets card r1 r2 card2 src stat r3 stream byte rs err stat2 card3 ro card4
  clear_value r1 r2 r3 stream ro
  have hc : card.n_rf_outputs ≤ ARCP_MAX_N_RF_CARD_OUTPUT :=
    forall_getD (fun c : arcp_rf_card_stat_t => c.n_rf_outputs ≤ ARCP_MAX_N_RF_CARD_OUTPUT)
      _ _ _ h.2.2.2.1 rf_card_zero_limit
  have h1 : stx2stat_limits stat :=
    stx2stat_limits_cards st.stx2stat stat h rfl rfl (List.length_set _ _ _)
      (forall_mem_set _ _ _ _ h.2.2.2.1 hc) rfl rfl
  have h2 : stx2stat_limits stat2 ∧ stat2.chassis_datasize = st.stx2stat.chassis_datasize ∧
      stat2.n_chassis_fans = st.stx2stat.n_chassis_fans := by
    by_cases hb : byte > ARCP_MAX_N_RF_CARD_OUTPUT
    · have e : rs = (ARCP_ERROR_BADMSG, stat) := if_pos hb
      have e2 : stat2 = stat := by
        show rs.2 = stat
        rw [e]
      rw [e2]
      exact ⟨h1, rfl, rfl⟩
    · have e : rs = arcp_stx2stat_set_n_rf_outputs stat i byte := if_neg hb
      have e2 : stat2 = (arcp_stx2stat_set_n_rf_outputs stat i byte).2 := by
        show rs.2 = _
        rw [e]
      rw [e2]
      exact ⟨set_n_rf_outputs_inv _ _ _ h1 (Nat.le_of_not_gt hb),
        (set_n_rf_outputs_fields stat i byte).1, (set_n_rf_outputs_fields stat i byte).2⟩
  have hc3 : card3.n_rf_outputs ≤ ARCP_MAX_N_RF_CARD_OUTPUT :=
    forall_getD (fun c : arcp_rf_card_stat_t => c.n_rf_outputs ≤ ARCP_MAX_N_RF_CARD_OUTPUT)
      _ _ _ h2.1.2.2.2.1 rf_card_zero_limit
  clear_value stat2 err
  split_ifs
  · exact ⟨stx2stat_limits_cards stat2 _ h2.1 rfl rfl (List.length_set _ _ _)
      (forall_mem_set _ _ _ _ h2.1.2.2.2.1 hc3) rfl rfl, h2.2.1, h2.2.2⟩
  · exact h2

theorem decode_stx2_cards_inv (st : decode_stx2_state) :
    (stx2stat_limits st.stx2stat → stx2stat_limits (decode_stx2_cards st).stx2stat) ∧
    ((stx2stat_limits st.stx2stat →
      (decode_stx2_cards st).stx2stat.chassis_datasize = st.stx2stat.chassis_datasize ∧
      (decode_stx2_cards st).stx2stat.n_chassis_fans = st.stx2stat.n_chassis_fans)) ∧
    ((decode_stx2_cards st).err = 0 → st.err = 0) := by
  unfold decode_stx2_cards
  by_cases h0 : st.err = 0
  · rw [if_pos h0]
    have key : stx2stat_limits st.stx2stat →
        stx2stat_limits (for_loop st.stx2stat.n_rf_cards decode_rf_card st).stx2stat ∧
        (for_loop st.stx2stat.n_rf_cards decode_rf_card st).stx2stat.chassis_datasize
          = st.stx2stat.chassis_datasize ∧
        (for_loop st.stx2stat.n_rf_cards decode_rf_card st).stx2stat.n_chassis_fans
          = st.stx2stat.n_chassis_fans := by
      intro h
      refine for_loop_inv (fun x : decode_stx2_state => stx2stat_limits x.stx2stat ∧
        x.stx2stat.chassis_datasize = st.stx2stat.chassis_datasize ∧
        x.stx2stat.n_chassis_fans = st.stx2stat.n_chassis_fans) _ _ _ ⟨h, rfl, rfl⟩ ?_
      intro i s hs
      obtain ⟨a, b, c⟩ := decode_rf_card_inv i s hs.1
      exact ⟨a, b.trans hs.2.1, c.trans hs.2.2⟩
    exact ⟨fun h => (key h).1, fun h => (key h).2, fun _ => h0⟩
  · rw [if_neg h0]
    exact ⟨id, fun _ => ⟨rfl, rfl⟩, id⟩

theorem decode_stx2_n_units_inv (st : decode_stx2_state) :
    (stx2stat_limits st.stx2stat → stx2stat_limits (decode_stx2_n_units st).stx2stat) ∧
    (decode_stx2_n_units st).stx2stat.chassis_datasize = st.stx2stat.chassis_datasize ∧
    (decode_stx2_n_units st).stx2stat.n_chassis_fans = st.stx2stat.n_chassis_fans ∧
    ((decode_stx2_n_units st).err = 0 → st.err = 0) := by
  unfold decode_stx2_n_units
  lift_lets
  extract_lets st1 r st2 rs
  clear_value r
  have e2 : st2.stx2stat = st.stx2stat ∧ st2.err = st.err := by
    simp only [st2]
    split_ifs
    · exact ⟨rfl, rfl⟩
    · exact ⟨rfl, rfl⟩
  have e3 : rs = arcp_stx2stat_set_n_units st2.stx2stat st2.byte := rfl
  clear_value st2 rs
  split_ifs
  · dsimp only
    rw [e2.1]
    exact ⟨id, rfl, rfl, fun h => by simp at h⟩
  · dsimp only
    rw [e3, e2.1]
    exact ⟨fun h => set_n_units_inv _ _ h, (set_n_units_fields _ _).1,
      (set_n_units_fields _ _).2, fun h => by simp at h⟩
  · dsimp only
    rw [e3, e2.1, e2.2]
    exact ⟨fun h => set_n_units_inv _ _ h, (set_n_units_fields _ _).1,
      (set_n_units_fields _ _).2, id⟩

theorem extunit_limits_zero : extunit_limits arcp_stx2unit_union_t.zero := by decide

theorem extunit_limits_set_flags (x : arcp_stx2unit_union_t) (v : Nat)
    (h : extunit_limits x) : extunit_limits (x.set_flags v) := by
  cases x <;> exact h

theorem extunit_limits_set_type (x : arcp_stx2unit_union_t) (v : Nat)
    (h : extunit_limits x) : extunit_limits (x.set_type v) := by
  cases x <;> exact h

theorem decode_stx2_unit_inv (i : Nat) (st : decode_stx2_state) :
    (stx2stat_limits st.stx2stat → stx2stat_limits (decode_stx2_unit i st).stx2stat) ∧
    (decode_stx2_unit i st).stx2stat.chassis_datasize = st.stx2stat.chassis_datasize ∧
    (decode_stx2_unit i st).stx2stat.n_chassis_fans = st.stx2stat.n_chassis_fans ∧
    ((decode_stx2_unit i st).err = 0 → st.err = 0) := by
  unfold decode_stx2_unit
  by_cases h0 : st.err ≠ 0
  · rw [if_pos h0]
    exact ⟨id, rfl, rfl, id⟩
  · rw [if_neg h0]
    lift_lets
    extract_lets x0 r1 x1 r2 x2 stream0 r3 stream1 byte1 c0 c1 rt s1 err1 stream2 c2 r4
      stream3 byte2 err2 c3 ro s2 src
    clear_value r1 r2 r3 rt stream0 stream1 ro r4
    have hs0 : st.err = 0 := not_not.1 h0
    have hx2 : stx2stat_limits st.stx2stat → extunit_limits x2 := fun h =>
      extunit_limits_set_type _ _ (extunit_limits_set_flags _ _
        (forall_getD extunit_limits _ _ _ h.2.2.2.2.2.2 extunit_limits_zero))
    have hc2 : stx2stat_limits st.stx2stat →
        c2.n_temperatures ≤ ARCP_STX2_EXTCOMB_MAX_N_TEMPERATURES ∧
        c2.n_outputs ≤ ARCP_STX2_EXTCOMB_MAX_N_OUTPUTS := by
      intro h
      have hc0 : c0.n_temperatures ≤ ARCP_STX2_EXTCOMB_MAX_N_TEMPERATURES ∧
          c0.n_outputs ≤ ARCP_STX2_EXTCOMB_MAX_N_OUTPUTS := hx2 h
      show s1.2.2.n_temperatures ≤ _ ∧ s1.2.2.n_outputs ≤ _
      by_cases hb : byte1 > ARCP_STX2_EXTCOMB_MAX_N_TEMPERATURES
      · have e : s1 = (ARCP_ERROR_BADMSG, stream1, c0) := if_pos hb
        rw [e]
        exact hc0
      · have e : s1 = (st.err, rt.1, { c1 with temperature := rt.2 }) := if_neg hb
        rw [e]
        exact ⟨Nat.le_of_not_gt hb, hc0.2⟩
    have hb2 : err2 = 0 → byte2 ≤ ARCP_STX2_EXTCOMB_MAX_N_OUTPUTS := by
      intro he
      by_contra hgt
      have hgt2 : byte2 > ARCP_STX2_EXTCOMB_MAX_N_OUTPUTS := not_le.1 hgt
      by_cases h1 : err1 = 0
      · have e : err2 = ARCP_ERROR_BADMSG := if_pos ⟨h1, hgt2⟩
        rw [e] at he
        exact absurd he (by decide)
      · have e : err2 = err1 := if_neg (fun hh => h1 hh.1)
        rw [e] at he
        exact h1 he
    have hs2 : stx2stat_limits st.stx2stat → extunit_limits (.comb s2.2) := by
      intro h
      show s2.2.n_temperatures ≤ _ ∧ s2.2.n_outputs ≤ _
      by_cases he : err2 = 0
      · have e : s2 = (ro.1, { c3 with output := ro.2 }) := if_pos he
        rw [e]
        exact ⟨(hc2 h).1, hb2 he⟩
      · have e : s2 = (stream3, c2) := if_neg he
        rw [e]
        exact hc2 h
    clear_value s2 err2 byte2 stream3 x2
    split_ifs
    · dsimp only
      exact ⟨fun h => stx2stat_limits_units st.stx2stat _ h rfl rfl rfl rfl
        (List.length_set _ _ _) (forall_mem_set _ _ _ _ h.2.2.2.2.2.2 (hs2 h)),
        rfl, rfl, fun _ => hs0⟩
    · dsimp only
      exact ⟨fun h => stx2stat_limits_units st.stx2stat _ h rfl rfl rfl rfl
        (List.length_set _ _ _) (forall_mem_set _ _ _ _ h.2.2.2.2.2.2 (hx2 h)),
        rfl, rfl, fun _ => hs0⟩

/-- The STX2 status `decode_arcp_resp` builds keeps the limits whatever the stream holds,
and when the block ends without error its `chassis_datasize` is the one
`arcp_stx2stat_set_n_chassis_fans` has computed. -/
theorem decode_stx2stat_inv (stream : arcp_stream_t) :
    stx2stat_limits (decode_stx2stat stream).stx2stat ∧
    ((decode_stx2stat stream).err = 0 →
      (decode_stx2stat stream).stx2stat.chassis_datasize
        = 7 + 2 * (decode_stx2stat stream).stx2stat.n_chassis_fans) := by
  have e : decode_stx2stat stream =
      for_loop (decode_stx2_n_units (decode_stx2_cards (decode_stx2_fans
        (decode_stx2_chassis stream)))).stx2stat.n_units decode_stx2_unit
        (decode_stx2_n_units (decode_stx2_cards (decode_stx2_fans
          (decode_stx2_chassis stream)))) := rfl
  rw [e]
  have ha := decode_stx2_chassis_inv stream
  generalize decode_stx2_chassis stream = a at ha ⊢
  have hb := decode_stx2_fans_inv a
  generalize decode_stx2_fans a = b at hb ⊢
  have hc := decode_stx2_cards_inv b
  generalize decode_stx2_cards b = c at hc ⊢
  have hd := decode_stx2_n_units_inv c
  generalize decode_stx2_n_units c = d at hd ⊢
  have la : stx2stat_limits a.stx2stat := ha.1
  have lb : stx2stat_limits b.stx2stat := hb.1 la
  have lc : stx2stat_limits c.stx2stat := hc.1 lb
  have ld : stx2stat_limits d.stx2stat := hd.1 lc
  have key := for_loop_inv (fun x : decode_stx2_state => stx2stat_limits x.stx2stat ∧
      x.stx2stat.chassis_datasize = d.stx2stat.chassis_datasize ∧
      x.stx2stat.n_chassis_fans = d.stx2stat.n_chassis_fans ∧ (x.err = 0 → d.err = 0))
    d.stx2stat.n_units decode_stx2_unit d ⟨ld, rfl, rfl, id⟩ (by
      intro i s hs
      obtain ⟨p1, p2, p3, p4⟩ := decode_stx2_unit_inv i s
      exact ⟨p1 hs.1, p2.trans hs.2.1, p3.trans hs.2.2.1, fun h => hs.2.2.2 (p4 h)⟩)
  generalize for_loop d.stx2stat.n_units decode_stx2_unit d = f at key ⊢
  refine ⟨key.1, fun he => ?_⟩
  have e1 : d.err = 0 := key.2.2.2 he
  have e2 : c.err = 0 := hd.2.2.2 e1
  have e3 : b.err = 0 := hc.2.2 e2
  have e4 : a.err = 0 := hb.2.2.2 e3
  rw [key.2.1, key.2.2.1, hd.2.1, hd.2.2.1, (hc.2.1 lb).1, (hc.2.1 lb).2, hb.2.1, hb.2.2.1]
  exact ha.2 e4

theorem bsmstat_set_n_fans_limits (stat : arcp_bsmstat_t) (n : Nat) (h : bsmstat_limits stat) :
    bsmstat_limits (arcp_bsmstat_set_n_fans stat n).2 := by
  unfold arcp_bsmstat_set_n_fans
  by_cases hn : n > ARCP_MAX_N_CHASSIS_FANS
  · rw [if_pos hn]
    exact h
  · rw [if_neg hn]
    exact ⟨Nat.le_of_not_gt hn, h.2⟩

/-- The BSM status `decode_arcp_resp` builds keeps the limits whatever the stream holds. -/
theorem decode_bsmstat_limits (stream : arcp_stream_t) :
    bsmstat_limits (decode_bsmstat stream).2.1 := by
  unfold decode_bsmstat
  lift_lets
  extract_lets stat0 r1 r2 r3 r4 r5 stat1 r6 stream1 byte1 rs1 err1 stat2 rf stat3 r7 stream2
    byte2 rs2 err2 stat4 rt
  clear_value r1 r2 r3 r4 r5 r6 rf r7 rt stream1 stream2
  have h1 : bsmstat_limits stat1 := by
    show (0 : Nat) ≤ _ ∧ (0 : Nat) ≤ _
    exact ⟨Nat.zero_le _, Nat.zero_le _⟩
  have h2 : bsmstat_limits stat2 := by
    show bsmstat_limits rs1.2
    by_cases hb : byte1 > ARCP_MAX_N_CHASSIS_FANS
    · have e : rs1 = (ARCP_ERROR_BADMSG, stat1) := if_pos hb
      rw [e]
      exact h1
    · have e : rs1 = arcp_bsmstat_set_n_fans stat1 byte1 := if_neg hb
      rw [e]
      exact bsmstat_set_n_fans_limits _ _ h1
  have h3 : bsmstat_limits stat3 := h2
  have h4 : bsmstat_limits stat4 := by
    show bsmstat_limits rs2.2
    by_cases hb : byte2 > ARCP_BSM_MAX_N_TEMPERATURES
    · have e : rs2 = (ARCP_ERROR_BADMSG, stat3) := if_pos hb
      rw [e]
      exact h3
    · have e : rs2 = (err1, { stat3 with n_heatsink_temps := byte2 }) := if_neg hb
      rw [e]
      exact ⟨h3.1, Nat.le_of_not_gt hb⟩
  clear_value stat4 stat2 err1 err2
  split_ifs
  · exact h4
  · exact h4
  · exact h2

theorem decode_finish_fst_neg (e : Int) (s : arcp_stream_t) (m : arcp_msg_t) (he : e < 0) :
    (decode_finish e s m).1 < 0 := by
  unfold decode_finish
  split_ifs
  · exact (by decide : ARCP_ERROR_BADMSG < 0)
  · exact he

theorem pulsecode_setlength_length (code : arcp_pulsecode_t) (len : Nat)
    (h : ¬ (arcp_pulsecode_setlength code len).1 < 0) :
    (arcp_pulsecode_setlength code len).2.code_length = len := by
  unfold arcp_pulsecode_setlength at h ⊢
  by_cases hs : code.size < len
  · rw [if_pos hs] at h ⊢
    dsimp only at h ⊢
    by_cases hn : (arcp_pulsecode_setsize code len).1 < 0
    · rw [if_pos hn] at h
      exact absurd (by decide : (-1 : Int) < 0) h
    · rw [if_neg hn]
  · rw [if_neg hs]

theorem pulseseq_new_length (len : Nat) (seq : arcp_pulseseq_t)
    (h : arcp_pulseseq_new len = some seq) :
    seq.length = len ∧ len ≤ ARCP_MAX_PULSESEQ_SIZE := by
  by_cases hl : len ≤ 500
  · unfold arcp_pulseseq_new at h
    dsimp only at h
    rw [pulseseq_set_length_eq _ _ hl] at h
    simp only [Int.lt_irrefl, if_false, Option.some.injEq] at h
    rw [← h]
    exact ⟨rfl, hl⟩
  · exfalso
    have e : arcp_pulseseq_set_length { length := 0, seq := [] } len
        = (ARCP_ERROR_INTERNAL, { length := 0, seq := [] }) := by
      unfold arcp_pulseseq_set_length
      rw [if_pos (by simp only [ARCP_MAX_PULSESEQ_SIZE]; omega)]
    unfold arcp_pulseseq_new at h
    dsimp only at h
    rw [e] at h
    simp at h

/-- The payload of a command `decode_pulse_param` delivers without error. -/
theorem decode_pulse_param_limits (fuel : Nat) (s : arcp_stream_t) (hd : arcp_msg_header_t)
    (i : Int) (r : Int × arcp_stream_t × arcp_msg_t)
    (h : decode_pulse_param fuel s (.command hd i) = some r) (hr : ¬ r.1 < 0) :
    r.2.2.sysstat.data = .null ∧ pulsecode_limits r.2.2.pulse_param.code ∧
    r.2.2.seq.length ≤ ARCP_MAX_PULSESEQ_SIZE ∧ r.2.2.n_phases ≤ ARCP_BSM_MAX_N_PHASES := by
  unfold decode_pulse_param at h
  lift_lets at h
  extract_lets h0 id p r1 r2 r3 r4 r5 p2 r6 stream len at h
  have hp2 : p2.code = none := rfl
  clear_value r1 r2 r3 r4 r5 r6 p2 stream len id h0
  split_ifs at h with hlen hz
  · cases h
    rw [decode_finish_msg]
    exact ⟨rfl, by rw [show (arcp_msg_t.cmd_set_pulse_param h0 id r1.2.2 p2).pulse_param.code
      = p2.code from rfl, hp2]; trivial, Nat.zero_le _, Nat.zero_le _⟩
  · split at h
    · cases h
      rw [decode_finish_msg]
      exact ⟨rfl, by rw [show (arcp_msg_t.cmd_set_pulse_param h0 id r1.2.2 p2).pulse_param.code
        = p2.code from rfl, hp2]; trivial, Nat.zero_le _, Nat.zero_le _⟩
    · rename_i code hnew
      lift_lets at h
      extract_lets rc at h
      have hrc : rc = arcp_pulsecode_setlength code len := rfl
      clear_value rc
      split_ifs at h with hneg
      · cases h
        exact absurd (decode_finish_fst_neg _ _ _ (by decide)) hr
      · simp only [Option.map_eq_some'] at h
        obtain ⟨st, hloop, hst⟩ := h
        have hlen2 : rc.2.code_length = len := by
          rw [hrc] at hneg ⊢
          exact pulsecode_setlength_length _ _ hneg
        have hinv := for_loop_uint8_inv
          (fun x : arcp_stream_t × arcp_pulsecode_t => x.2.code_length = len) _
          decode_pulsecode_byte (fun _ _ hx => hx) _ _ _ _ hloop hlen2
        rw [← hst, decode_finish_msg]
        refine ⟨rfl, ?_, Nat.zero_le _, Nat.zero_le _⟩
        show 1 ≤ st.2.code_length ∧ st.2.code_length ≤ ARCP_MAX_PULSECODE_SIZE
        rw [hinv]
        exact ⟨Nat.pos_of_ne_zero hz, Nat.le_of_not_gt hlen⟩
  · cases h
    rw [decode_finish_msg]
    exact ⟨rfl, trivial, Nat.zero_le _, Nat.zero_le _⟩

/-- The payload of a command `decode_pulse_seq` delivers. -/
theorem decode_pulse_seq_limits (fuel : Nat) (u : decode_locals) (s : arcp_stream_t)
    (hd : arcp_msg_header_t) (i : Int) (r : Int × arcp_stream_t × arcp_msg_t)
    (h : decode_pulse_seq fuel u s (.command hd i) = some r) :
    r.2.2.sysstat.data = .null ∧ pulsecode_limits r.2.2.pulse_param.code ∧
    r.2.2.seq.length ≤ ARCP_MAX_PULSESEQ_SIZE ∧ r.2.2.n_phases ≤ ARCP_BSM_MAX_N_PHASES := by
  unfold decode_pulse_seq at h
  lift_lets at h
  extract_lets r1 stream len at h
  clear_value r1 stream len
  split_ifs at h
  · cases h
    rw [decode_finish_msg]
    exact ⟨rfl, trivial, Nat.zero_le _, Nat.zero_le _⟩
  · split at h
    · cases h
      rw [decode_finish_msg]
      exact ⟨rfl, trivial, Nat.zero_le _, Nat.zero_le _⟩
    · rename_i seq hnew
      simp only [Option.map_eq_some'] at h
      obtain ⟨st, hloop, hst⟩ := h
      obtain ⟨hl1, hl2⟩ := pulseseq_new_length _ _ hnew
      have hinv := for_loop_uint8_inv
        (fun x : arcp_stream_t × arcp_pulseseq_t => x.2.length = len) _
        decode_pulseseq_entry (fun _ _ hx => hx) _ _ _ _ hloop hl1
      rw [← hst, decode_finish_msg]
      refine ⟨rfl, trivial, ?_, Nat.zero_le _⟩
      show st.2.length ≤ ARCP_MAX_PULSESEQ_SIZE
      rw [hinv]
      exact hl2

/-- The payload of a command `decode_phase` delivers without error. -/
theorem decode_phase_limits (fuel : Nat) (u : decode_locals) (s : arcp_stream_t)
    (hd : arcp_msg_header_t) (i : Int) (r : Int × arcp_stream_t × arcp_msg_t)
    (h : decode_phase fuel u s (.command hd i) = some r) (hr : ¬ r.1 < 0) :
    r.2.2.sysstat.data = .null ∧ pulsecode_limits r.2.2.pulse_param.code ∧
    r.2.2.seq.length ≤ ARCP_MAX_PULSESEQ_SIZE ∧ r.2.2.n_phases ≤ ARCP_BSM_MAX_N_PHASES := by
  unfold decode_phase at h
  lift_lets at h
  extract_lets h0 id r1 r2 stream n_phases phases at h
  clear_value r1 r2 stream n_phases phases id h0
  split_ifs at h with hn
  · cases h
    exact absurd (show ARCP_ERROR_BADMSG < 0 by decide) hr
  · simp only [Option.map_eq_some'] at h
    obtain ⟨st, _, hst⟩ := h
    rw [← hst, decode_finish_msg]
    exact ⟨rfl, trivial, Nat.zero_le _, Nat.le_of_not_gt hn⟩

/-- The payload of a command `decode_arcp_cmd` delivers without error: no status, a pulse
code that is `NULL` or has 1 to 512 bits, a sequence of at most 500 entries, a phase table
of at most 32 entries. -/
theorem decode_arcp_cmd_limits (fuel : Nat) (u : decode_locals) (s : arcp_stream_t)
    (hd : arcp_msg_header_t) (r : Int × arcp_stream_t × arcp_msg_t)
    (h : decode_arcp_cmd fuel u s (.command hd (-1)) = some r) (hr : ¬ r.1 < 0) :
    r.2.2.sysstat.data = .null ∧ pulsecode_limits r.2.2.pulse_param.code ∧
    r.2.2.seq.length ≤ ARCP_MAX_PULSESEQ_SIZE ∧ r.2.2.n_phases ≤ ARCP_BSM_MAX_N_PHASES := by
  unfold decode_arcp_cmd at h
  lift_lets at h
  extract_lets r0 at h
  clear_value r0
  have hm : (arcp_msg_t.command hd (-1)).set_id r0.2.2 = .command hd r0.2.2 := rfl
  rw [hm] at h
  generalize r0.2.2 = i at h
  unfold decode_arcp_cmd_switch at h
  lift_lets at h
  extract_lets h0 id at h
  split_ifs at h
  · lift_lets at h
    extract_lets r1 at h
    clear_value r1
    cases h
    rw [decode_finish_msg]
    exact ⟨rfl, trivial, Nat.zero_le _, Nat.zero_le _⟩
  · exact decode_pulse_param_limits _ _ _ _ _ h hr
  · exact decode_pulse_seq_limits _ _ _ _ _ _ h
  · lift_lets at h
    extract_lets r1 at h
    clear_value r1
    cases h
    rw [decode_finish_msg]
    exact ⟨rfl, trivial, Nat.zero_le _, Nat.zero_le _⟩
  · lift_lets at h
    extract_lets t r1 r2 r3 r4 at h
    clear_value r1 r2 r3 r4
    cases h
    rw [decode_finish_msg]
    exact ⟨rfl, trivial, Nat.zero_le _, Nat.zero_le _⟩
  · lift_lets at h
    extract_lets r1 at h
    clear_value r1
    cases h
    rw [decode_finish_msg]
    exact ⟨rfl, trivial, Nat.zero_le _, Nat.zero_le _⟩
  · exact decode_phase_limits _ _ _ _ _ _ h hr
  · cases h
    rw [decode_finish_msg]
    exact ⟨rfl, trivial, Nat.zero_le _, Nat.zero_le _⟩

/-- The status `decode_sysstat` attaches: none, the STX2 status of a block that ended
without error, or a BSM status. -/
theorem decode_sysstat_data (s : arcp_stream_t) (hd : arcp_msg_header_t) (id c : Int) :
    (decode_sysstat s hd id c).2.2.pulse_param.code = none ∧
    (decode_sysstat s hd id c).2.2.seq.length = 0 ∧
    (decode_sysstat s hd id c).2.2.n_phases = 0 ∧
    ((decode_sysstat s hd id c).2.2.sysstat.data = .null ∨
     (∃ st, (decode_stx2stat st).err = 0 ∧
        (decode_sysstat s hd id c).2.2.sysstat.data = .stx2 (decode_stx2stat st).stx2stat) ∨
     (∃ st, (decode_sysstat s hd id c).2.2.sysstat.data = .bsm (decode_bsmstat st).2.1)) := by
  unfold decode_sysstat
  lift_lets
  extract_lets sysstat r1 r2 sysstat2 stream st rb
  have hst : st = decode_stx2stat stream := rfl
  have hrb : rb = decode_bsmstat stream := rfl
  have hd2 : sysstat2.data = .null := rfl
  clear_value r1 r2 sysstat2 st rb stream
  split_ifs with h1 h2 h3 h4
  · rw [decode_finish_msg]
    refine ⟨rfl, rfl, rfl, Or.inr (Or.inl ⟨stream, ?_, ?_⟩)⟩
    · rw [← hst]; exact h2
    · rw [← hst]; rfl
  · rw [decode_finish_msg]
    exact ⟨rfl, rfl, rfl, Or.inl hd2⟩
  · rw [decode_finish_msg]
    refine ⟨rfl, rfl, rfl, Or.inr (Or.inr ⟨stream, ?_⟩)⟩
    rw [← hrb]; rfl
  · rw [decode_finish_msg]
    exact ⟨rfl, rfl, rfl, Or.inl hd2⟩
  · rw [decode_finish_msg]
    exact ⟨rfl, rfl, rfl, Or.inl hd2⟩

theorem decode_sysid_data (s : arcp_stream_t) (hd : arcp_msg_header_t) (id c : Int) :
    (decode_sysid s hd id c).2.2.pulse_param.code = none ∧
    (decode_sysid s hd id c).2.2.seq.length = 0 ∧
    (decode_sysid s hd id c).2.2.n_phases = 0 ∧
    (decode_sysid s hd id c).2.2.sysstat.data = .null := by
  unfold decode_sysid
  lift_lets
  extract_lets sysid r1 r2 r3 r4 sysid2 stream r5 r6 r7
  clear_value r1 r2 r3 r4 sysid2 stream r5 r6 r7
  split_ifs
  · rw [decode_finish_msg]
    exact ⟨rfl, rfl, rfl, rfl⟩
  · rw [decode_finish_msg]
    exact ⟨rfl, rfl, rfl, rfl⟩
  · rw [decode_finish_msg]
    exact ⟨rfl, rfl, rfl, rfl⟩

/-- The payload of the response `decode_arcp_resp` builds. -/
theorem decode_arcp_resp_data (u : decode_locals) (s : arcp_stream_t)
    (hd : arcp_msg_header_t) :
    (decode_arcp_resp u s (.response hd (-1) 0)).2.2.pulse_param.code = none ∧
    (decode_arcp_resp u s (.response hd (-1) 0)).2.2.seq.length = 0 ∧
    (decode_arcp_resp u s (.response hd (-1) 0)).2.2.n_phases = 0 ∧
    ((decode_arcp_resp u s (.response hd (-1) 0)).2.2.sysstat.data = .null ∨
     (∃ st, (decode_stx2stat st).err = 0 ∧
        (decode_arcp_resp u s (.response hd (-1) 0)).2.2.sysstat.data
          = .stx2 (decode_stx2stat st).stx2stat) ∨
     (∃ st, (decode_arcp_resp u s (.response hd (-1) 0)).2.2.sysstat.data
        = .bsm (decode_bsmstat st).2.1)) := by
  unfold decode_arcp_resp
  lift_lets
  extract_lets r0 stream rs msg r1 stream2 h0 id info_code
  have hrs : (∃ i, rs.2 = .response hd i 0) := by
    show ∃ i, (arcp_msg_set_resp_id (.response hd (-1) 0) r0.2.2).2 = .response hd i 0
    unfold arcp_msg_set_resp_id
    split_ifs
    · exact ⟨_, rfl⟩
    · exact ⟨_, rfl⟩
    · exact ⟨_, rfl⟩
  clear_value r0 stream rs r1 stream2 h0 id info_code
  obtain ⟨i, hi⟩ := hrs
  split_ifs
  · dsimp only
    rw [hi]
    exact ⟨rfl, rfl, rfl, Or.inl rfl⟩
  · obtain ⟨a, b, c, d⟩ := decode_sysid_data stream2 h0 id info_code
    exact ⟨a, b, c, Or.inl d⟩
  · exact decode_sysstat_data stream2 h0 id info_code
  · rw [decode_finish_msg]
    exact ⟨rfl, rfl, rfl, Or.inl rfl⟩

/-- A message `arcp_stream_decode` delivers comes from `decode_arcp_cmd` or from
`decode_arcp_resp`, and the value returned with it is not negative. -/
theorem stream_decode_cases (fuel : Nat) (u : decode_locals) (stream s2 : arcp_stream_t)
    (ret : Int) (msg : arcp_msg_t)
    (h : arcp_stream_decode fuel u stream = some (ret, s2, some msg)) :
    ¬ ret < 0 ∧
    ((∃ s hd, decode_arcp_cmd fuel u s (.command hd (-1)) = some (ret, s2, msg)) ∨
     (∃ s hd, decode_arcp_resp u s (.response hd (-1) 0) = (ret, s2, msg))) := by
  unfold arcp_stream_decode at h
  split_ifs at h
  · simp at h
  · lift_lets at h
    extract_lets r1 r2 r3 r4 at h
    clear_value r1 r2 r3 r4
    split at h
    · simp at h
    · rename_i m0 hnew
      lift_lets at h
      extract_lets hd0 msgA r5 hdA msgB at h
      clear_value r5
      simp only [Option.map_eq_some'] at h
      obtain ⟨r, hres, hr⟩ := h
      have hresp : ¬ r.1 < 0 ∧ r = (ret, s2, msg) := by
        unfold decode_result at hr
        split_ifs at hr with hneg
        · simp at hr
        · simp only [Prod.mk.injEq, Option.some.injEq] at hr
          exact ⟨hneg, Prod.ext hr.1 (Prod.ext hr.2.1 hr.2.2)⟩
      obtain ⟨hneg, hreq⟩ := hresp
      rw [hreq] at hres hneg
      refine ⟨hneg, ?_⟩
      rcases msg_new_cases _ _ hnew with ⟨_, hd, hdt, hm⟩ | ⟨_, hd, hdt, hm⟩
      · have e3 : ∃ hd3, msgB = .command hd3 (-1) ∧ hd3.msg_type = 0 := by
          refine ⟨⟨r1.2.2, r2.2.2, r3.2.2, hd.msg_type, r5.2.2⟩, ?_, hdt⟩
          simp only [msgB, hdA, msgA, hd0, hm, arcp_msg_t.set_header, arcp_msg_t.header]
        obtain ⟨hd3, e3, e3t⟩ := e3
        have e3h : msgB.header.msg_type = 0 := by rw [e3]; exact e3t
        rw [if_pos e3h, e3] at hres
        exact Or.inl ⟨_, _, hres⟩
      · have e3 : ∃ hd3, msgB = .response hd3 (-1) 0 ∧ hd3.msg_type = 1 := by
          refine ⟨⟨r1.2.2, r2.2.2, r3.2.2, hd.msg_type, r5.2.2⟩, ?_, hdt⟩
          simp only [msgB, hdA, msgA, hd0, hm, arcp_msg_t.set_header, arcp_msg_t.header]
        obtain ⟨hd3, e3, e3t⟩ := e3
        have e3h : msgB.header.msg_type = 1 := by rw [e3]; exact e3t
        rw [if_neg (by rw [e3h]; decide), if_pos e3h, e3] at hres
        exact Or.inr ⟨_, _, Option.some.inj hres⟩

theorem stream_size_len_lt (m : arcp_msg_t) : stream_size_len m < 65536 := by
  unfold stream_size_len
  by_cases h0 : m.header.msg_type = ARCP_MSG_COMMAND
  · rw [if_pos h0]
    unfold stream_size_cmd
    simp only [ARCP_HEADER_SIZE]
    split_ifs <;> omega
  · rw [if_neg h0]
    by_cases h1 : m.header.msg_type = ARCP_MSG_RESPONSE
    · rw [if_pos h1]
      unfold stream_size_resp
      simp only [ARCP_HEADER_SIZE]
      split_ifs
      · omega
      · omega
      · omega
      · exact stream_size_stx2_lt _ _
      · omega
      · omega
      · omega
    · rw [if_neg h1]
      omega

/-- A message whose bytes fit a stream is encoded: `arcp_msg_encode` returns 0, the stream
holds the bytes of the message with its `msg_length` set, and the message is handed back
with that `msg_length`. -/
theorem msg_encode_within (mem : Nat → Nat) (m : arcp_msg_t)
    (ht : m.header.msg_type = ARCP_MSG_COMMAND ∨ m.header.msg_type = ARCP_MSG_RESPONSE)
    (hcap : ¬ over_cap m) (hw : (wire_msg m).length ≤ 1024) :
    arcp_msg_encode mem m = (0, some (strm (wire_msg (arcp_msg_set_stream_size m).2) []),
      (arcp_msg_set_stream_size m).2) := by
  have h1 := stream_size_len_mod m ht hcap
  have h2 := stream_size_len_lt m
  have hl : (wire_msg m).length = stream_size_len m := by omega
  exact msg_encode_of mem m ht hcap (by omega) hl

/-- Decoding the bytes of a response needs no fuel. -/
theorem stream_decode_wire_resp (fuel : Nat) (u : decode_locals) (m : arcp_msg_t)
    (hok : msg_ok m) (hml : m.header.msg_length < 65536)
    (ht : m.header.msg_type = ARCP_MSG_RESPONSE)
    (hlen : (wire_msg m).length ≤ 1024) :
    ∃ s2, arcp_stream_decode fuel u (stream_of_bytes (wire_msg m))
      = some (0, s2, some (canon_resp m)) := by
  obtain ⟨k1, k2, k3, k4, k5, k6, k7⟩ := hok
  rw [stream_of_bytes_eq]
  unfold wire_msg at *
  have e1 := be32_val _ k1
  have e2 := be16_val _ hml
  have e3 := be16_val _ k2
  have e4 := be16_val _ k3
  have ht0 : ¬ m.header.msg_type = ARCP_MSG_COMMAND := by rw [ht]; decide
  rw [if_neg ht0, if_pos ht] at hlen ⊢
  have hh : m.header = ⟨m.header.magic_num, m.header.msg_length, m.header.exchange_id, 1,
      m.header.protocol_version⟩ :=
    header_eta _ _ _ _ _ _ rfl rfl rfl ht rfl
  unfold wire_header at hlen ⊢
  rw [uint32_of_nat_lt _ k1, uint16_of_nat_lt _ hml, uint16_of_nat_lt _ k2,
    uint16_of_nat_lt _ k3, ht] at hlen ⊢
  unfold be32 be16 at hlen ⊢
  simp only [List.append_assoc, List.cons_append, List.nil_append, List.length_cons] at hlen ⊢
  rw [stream_decode_header_resp fuel u _ _ _ _ _ _ _ _ _ _ _ _ (by omega) (by decide),
    e1, e2, e3, e4, ← hh]
  obtain ⟨s2, e⟩ := decode_resp_canon u
    [m.header.magic_num / 16777216 % 256, m.header.magic_num / 65536 % 256,
      m.header.magic_num / 256 % 256, m.header.magic_num % 256,
      m.header.msg_length / 256 % 256, m.header.msg_length % 256,
      m.header.exchange_id / 256 % 256, m.header.exchange_id % 256,
      uint8_of ((ARCP_MSG_RESPONSE : Nat) : Int),
      m.header.protocol_version / 256 % 256, m.header.protocol_version % 256]
    [] m ht k4 k5 (k7 ht)
  rw [List.append_nil] at e
  rw [e]
  exact ⟨s2, rfl⟩

theorem getD_take {α : Type} (l : List α) (n i : Nat) (d : α) (h : i < n) :
    (l.take n).getD i d = l.getD i d := by
  simp [List.getD_eq_getElem?_getD, List.getElem?_take, h]

theorem getD_take_append {α : Type} (l r : List α) (n i : Nat) (d : α) (h : i < n)
    (hl : n ≤ l.length) : (l.take n ++ r).getD i d = l.getD i d := by
  rw [List.getD_eq_getElem?_getD, List.getElem?_append_left (by simp; omega),
    ← List.getD_eq_getElem?_getD, getD_take _ _ _ _ h]

theorem getD_map_take {α : Type} (l : List α) (f : α → α) (n i : Nat) (d : α) (h : i < n)
    (hl : n ≤ l.length) : ((l.take n).map f).getD i d = f (l.getD i d) := by
  have hi : i < l.length := by omega
  simp [List.getD_eq_getElem?_getD, List.getElem?_take, h, List.getElem?_eq_getElem hi]

theorem canon_rf_card_same (c : arcp_rf_card_stat_t) : rf_card_same c (canon_rf_card c) :=
  ⟨rfl, rfl, rfl, fun _ hj => getD_take _ _ _ _ hj⟩

theorem canon_stx2unit_same (x : arcp_stx2unit_union_t) (hok : stx2unit_ok x) :
    stx2unit_same x (canon_stx2unit x) := by
  unfold canon_stx2unit
  by_cases ht : x.unit_v.type = ARCP_STX2_UNIT_EXT_COMBINER_SPLITTER
  · rw [if_pos ht]
    obtain ⟨_, _, hc⟩ := hok
    obtain ⟨h1, h2, _, h4, h5, _⟩ := hc ht
    refine ⟨rfl, fun _ => ⟨rfl, fun j hj => ?_, rfl, fun j hj => ?_⟩⟩
    · exact getD_take_append _ _ _ _ _ hj (by rw [h2]; exact h1)
    · exact getD_take_append _ _ _ _ _ hj (by rw [h5]; exact h4)
  · rw [if_neg ht]
    exact ⟨rfl, fun h => absurd h ht⟩

theorem canon_stx2stat_same (s : arcp_stx2stat_t) (hok : stx2stat_ok s)
    (hcd : s.chassis_datasize = 7 + 2 * s.n_chassis_fans) :
    stx2stat_same s (canon_stx2stat s) := by
  obtain ⟨_, _, _, _, _, _, h7, _, _, _, h11, h12, _, h14, h15⟩ := hok
  refine ⟨rfl, hcd.symm, rfl, rfl, rfl, rfl, fun i hi => getD_take _ _ _ _ hi, rfl, rfl,
    fun i hi => ?_, rfl, fun i hi => ?_⟩
  · show rf_card_same _ (((s.rf_card_stat.take s.n_rf_cards).map canon_rf_card).getD i _)
    rw [getD_map_take _ _ _ _ _ hi h11]
    exact canon_rf_card_same _
  · show stx2unit_same _ (((s.unit_stat.take s.n_units).map canon_stx2unit).getD i _)
    rw [getD_map_take _ _ _ _ _ hi h14]
    exact canon_stx2unit_same _ (h15 i hi)

theorem canon_bsmstat_same (s : arcp_bsmstat_t) (hok : bsmstat_ok s) :
    bsmstat_same s (canon_bsmstat s) := by
  obtain ⟨_, _, _, _, _, _, h7, h8, _, h10, h11, _⟩ := hok
  exact ⟨rfl, rfl, rfl, rfl, rfl, rfl,
    fun i hi => getD_take_append _ _ _ _ _ hi (by rw [h8]; exact h7), rfl,
    fun i hi => getD_take_append _ _ _ _ _ hi (by rw [h11]; exact h10)⟩

/-- The bytes of a `SYSSTAT` response within the limits fit a stream. -/
theorem wire_sysstat_fits (m : arcp_msg_t) (ht : m.header.msg_type = ARCP_MSG_RESPONSE)
    (hid : m.id = ARCP_RESP_SYSSTAT) (hok : sysstat_ok m.sysstat) :
    (wire_msg m).length ≤ 1024 := by
  obtain ⟨_, _, _, _, hs, hb⟩ := hok
  unfold wire_msg wire_resp wire_sysstat
  rw [if_neg (by rw [ht]; decide), if_pos ht, if_neg (by rw [hid]; decide), if_pos hid]
  simp only [List.length_append, wire_header_length, be16_length, List.length_cons,
    List.length_nil]
  by_cases h1 : m.sysstat.module_type = ARCP_MODULE_STX2
  · rw [if_pos h1, wire_stx2stat_length]
    obtain ⟨_, _, _, _, _, hf, _, _, _, hc, _, ho, hu, _, hcomb⟩ := (hs h1).2
    have b1 := range_sum_le m.sysstat.stx2.n_rf_cards 37
      (fun i => 5 + 4 *
        (m.sysstat.stx2.rf_card_stat.getD i arcp_rf_card_stat_t.zero).n_rf_outputs)
      (fun i hi => by
        have := (ho i hi).2.2.2.1
        simp only [ARCP_MAX_N_RF_CARD_OUTPUT] at this
        dsimp only
        omega)
    have b2 := range_sum_le m.sysstat.stx2.n_units 30
      (fun i => if (m.sysstat.stx2.unit_stat.getD i arcp_stx2unit_union_t.zero).unit_v.type
                = ARCP_STX2_UNIT_EXT_COMBINER_SPLITTER
            then 2 + (m.sysstat.stx2.unit_stat.getD i
                arcp_stx2unit_union_t.zero).comb_v.n_temperatures
              + 4 * (m.sysstat.stx2.unit_stat.getD i
                arcp_stx2unit_union_t.zero).comb_v.n_outputs
            else 0)
      (fun i hi => by
        dsimp only
        split_ifs with hty
        · obtain ⟨q1, _, _, q4, _⟩ := (hcomb i hi).2.2 hty
          simp only [ARCP_STX2_EXTCOMB_MAX_N_TEMPERATURES,
            ARCP_STX2_EXTCOMB_MAX_N_OUTPUTS] at q1 q4
          omega
        · omega)
    simp only [ARCP_MAX_N_CHASSIS_FANS, ARCP_MAX_N_RF_CARDS,
      ARCP_STX2_MAX_N_STX2_UNITS] at hf hc hu
    have b3 : m.sysstat.stx2.n_rf_cards * 37 ≤ 333 := by omega
    have b4 : m.sysstat.stx2.n_units * 30 ≤ 300 := by omega
    omega
  · rw [if_neg h1]
    by_cases h2 : m.sysstat.module_type = ARCP_MODULE_BSM
    · rw [if_pos h2, wire_bsmstat_length]
      obtain ⟨_, _, _, _, _, _, hf, _, _, hn, _⟩ := (hb h2).2
      simp only [ARCP_MAX_N_CHASSIS_FANS, ARCP_BSM_MAX_N_TEMPERATURES] at hf hn
      omega
    · rw [if_neg h2]
      simp

theorem sysstat_stx2_of_data (ss : arcp_sysstat_t) (x : arcp_stx2stat_t)
    (h : ss.data = .stx2 x) : ss.stx2 = x := by
  unfold arcp_sysstat_t.stx2
  rw [h]

theorem sysstat_bsm_of_data (ss : arcp_sysstat_t) (x : arcp_bsmstat_t)
    (h : ss.data = .bsm x) : ss.bsm = x := by
  unfold arcp_sysstat_t.bsm
  rw [h]

/-- The bytes of a `SET_PULSE_PARAM` command within the limits fit a stream. -/
theorem wire_pulse_param_fits (m : arcp_msg_t) (ht : m.header.msg_type = ARCP_MSG_COMMAND)
    (hid : m.id = ARCP_CMD_SET_PULSE_PARAM)
    (hok : pulse_ok m.pulse_map_index m.pulse_param) : (wire_msg m).length ≤ 1024 := by
  obtain ⟨_, _, _, _, _, _, hc⟩ := hok
  unfold wire_msg wire_cmd
  rw [if_pos ht, if_neg (by rw [hid]; decide), if_pos hid]
  simp only [List.length_append, wire_header_length, be16_length, be32_length,
    List.length_cons, List.length_nil, wire_pulsecode_length]
  have hl : arcp_pulsecode_getlength m.pulse_param.code ≤ 512 := by
    cases hcode : m.pulse_param.code with
    | none => decide
    | some c =>
      rw [hcode] at hc
      rcases hc with hc | hc
      · exact absurd hc (by simp)
      · exact hc.1
  split_ifs
  · omega
  · omega

/-- The bytes of a `SET_PHASE` command within the limits fit a stream. -/
theorem wire_phase_fits (m : arcp_msg_t) (ht : m.header.msg_type = ARCP_MSG_COMMAND)
    (hid : m.id = ARCP_CMD_SET_PHASE)
    (hok : phases_ok m.phase_slot m.n_phases m.phases) : (wire_msg m).length ≤ 1024 := by
  obtain ⟨_, hn, _⟩ := hok
  unfold wire_msg wire_cmd
  rw [if_pos ht, if_neg (by rw [hid]; decide), if_neg (by rw [hid]; decide),
    if_neg (by rw [hid]; decide), if_neg (by rw [hid]; decide), if_neg (by rw [hid]; decide),
    if_neg (by rw [hid]; decide), if_pos hid, if_neg (by omega)]
  simp only [List.length_append, wire_header_length, be16_length, flatten_range_length,
    wire_phase_entry_length, range_sum_const]
  simp only [ARCP_BSM_MAX_N_PHASES] at hn
  omega

/-- The bits of a pulse code and of its canonical form agree. -/
theorem canon_pulsecode_bits (c : arcp_pulsecode_t) (h1 : 1 ≤ c.code_length) :
    ∃ c2, canon_pulsecode (some c) = some c2 ∧ c2.code_length = c.code_length ∧
      ∀ k, k < c.code_length →
        arcp_pulsecode_getbit (some c2) k = arcp_pulsecode_getbit (some c) k := by
  unfold canon_pulsecode
  dsimp only
  rw [if_neg (by omega)]
  refine ⟨_, rfl, rfl, fun k hk => ?_⟩
  rw [getbit_eq c _ hk,
    getbit_eq ⟨c.code_length, c.code_length, c.data.take ((c.code_length + 7) / 8)⟩ k hk]
  dsimp only
  rw [getD_take _ _ _ _ (by omega)]

end ARCP

namespace ARCP

/-! ## Theorems about the codec, the framer and the exchange engine -/

/-- C1, counterexample.  A `SET_PULSE_PARAM` command whose pulse code is present but holds
no bit (all its counts within the limits) is encoded without error, and the decoder
accepts the bytes, but the message it returns differs from the one encoded: its pulse code
is `NULL`. -/
theorem round_trip_loses_empty_pulse_code :
    msg_ok example_empty_code ∧
    (arcp_msg_encode (fun _ => 0) example_empty_code).1 = 0 ∧
    (arcp_msg_encode (fun _ => 0) example_empty_code).2.2.pulse_param.code
      = some { size := 8, code_length := 0, data := [0] } ∧
    ((arcp_msg_encode (fun _ => 0) example_empty_code).2.1.bind (fun s =>
        (arcp_stream_decode 1 decode_locals.zero (stream_of_bytes s.data)).map
          (fun r => (r.1, r.2.2.map (fun d => (d.pulse_param.code,
            decide (d = (arcp_msg_encode (fun _ => 0) example_empty_code).2.2)))))))
      = some (0, some (none, false)) := by
  refine ⟨by decide, by decide, by decide, by decide⟩

/-- C1, amended.  Round trip: let `m` be a message whose fields are in the range of their
C types, whose counts respect the limits of the data model, whose arrays hold the elements
their counts announce and whose pulse sequence has at most 255 entries.  If
`arcp_msg_encode` succeeds on `m`, then `arcp_stream_decode`, given fuel for 255 passes of
a loop, returns 0 on the produced bytes and delivers the canonical form of the encoded
message: same header (with the `msg_length` the encoder has set), same id, same payload
fields and same array elements up to the counts, where a pulse code without bits comes
back as `NULL`, a pulse code comes back with its capacity equal to its length, the slots
of fixed arrays past the count and the data of an unknown module type come back zero, and
`chassis_datasize` comes back as 7 + 2 `n_chassis_fans`. -/
theorem msg_round_trip (mem : Nat → Nat) (m : arcp_msg_t) (fuel : Nat) (u : decode_locals)
    (hok : msg_ok m) (hfuel : 255 < fuel) (henc : (arcp_msg_encode mem m).1 = 0) :
    ∃ s s2, (arcp_msg_encode mem m).2.1 = some s ∧
      arcp_stream_decode fuel u (stream_of_bytes s.data)
        = some (0, s2, some (canon (arcp_msg_encode mem m).2.2)) ∧
      (canon (arcp_msg_encode mem m).2.2).header = (arcp_msg_encode mem m).2.2.header ∧
      (canon (arcp_msg_encode mem m).2.2).id = m.id := by
  obtain ⟨ht, hcap, h1, hl⟩ := msg_encode_ok mem m henc
  have e := msg_encode_of mem m ht hcap h1 hl
  have hl2 := wire_msg_set_stream_size_length m
  have hok2 := msg_ok_set_stream_size m hok
  have ht2 : (arcp_msg_set_stream_size m).2.header.msg_type = m.header.msg_type := by
    unfold arcp_msg_set_stream_size; simp only [set_header_header]
  have hml : (arcp_msg_set_stream_size m).2.header.msg_length < 65536 := by
    unfold arcp_msg_set_stream_size; simp only [set_header_header]; omega
  have hid : (arcp_msg_set_stream_size m).2.id = m.id := by
    unfold arcp_msg_set_stream_size; simp only [set_header_id]
  obtain ⟨s2, hd⟩ := stream_decode_wire fuel u (arcp_msg_set_stream_size m).2 hfuel hok2 hml
    (by rw [ht2]; exact ht) (by rw [hl2, hl]; exact h1)
  rw [e]
  refine ⟨_, s2, rfl, ?_, canon_header _, ?_⟩
  · simp only [strm_data, List.append_nil]
    exact hd
  · rw [canon_id, hid]

set_option maxRecDepth 100000 in
theorem msg_round_trip_witness :
    msg_ok example_stx2_sysstat ∧ 255 < 256 ∧
    (arcp_msg_encode (fun _ => 0) example_stx2_sysstat).1 = 0 ∧
    ∃ s s2, (arcp_msg_encode (fun _ => 0) example_stx2_sysstat).2.1 = some s ∧
      arcp_stream_decode 256 decode_locals.zero (stream_of_bytes s.data)
        = some (0, s2, some (canon (arcp_msg_encode (fun _ => 0) example_stx2_sysstat).2.2)) ∧
      (canon (arcp_msg_encode (fun _ => 0) example_stx2_sysstat).2.2).header
        = (arcp_msg_encode (fun _ => 0) example_stx2_sysstat).2.2.header ∧
      (canon (arcp_msg_encode (fun _ => 0) example_stx2_sysstat).2.2).id
        = example_stx2_sysstat.id :=
  have hok : msg_ok example_stx2_sysstat := by decide
  have henc : (arcp_msg_encode (fun _ => 0) example_stx2_sysstat).1 = 0 := by decide
  ⟨hok, by decide, henc, msg_round_trip _ _ 256 decode_locals.zero hok (by decide) henc⟩

/-- C2. Size agreement: when `arcp_msg_encode` succeeds (returns 0) it hands out a stream
whose size is the value `arcp_msg_set_stream_size` returns, which is also the `msg_length`
stored in the message and the big-endian value of bytes 4 and 5 of the output, and is at
most 1024; the buffer holds exactly that many bytes, the head stands at the end of the
buffer and the stream has no error, and the stream does not depend on what the allocated
buffer held before (every byte has been written). -/
theorem msg_encode_size_agreement (mem : Nat → Nat) (m : arcp_msg_t)
    (h : (arcp_msg_encode mem m).1 = 0) :
    ∃ s, arcp_msg_encode mem m = (0, some s, (arcp_msg_set_stream_size m).2) ∧
      s.size = (arcp_msg_set_stream_size m).1 ∧
      s.size = (arcp_msg_set_stream_size m).2.header.msg_length ∧
      s.size = s.data.getD 4 0 * 256 + s.data.getD 5 0 ∧
      s.size ≤ ARCP_MSG_MAX_SIZE ∧
      s.data.length = s.size ∧ s.head = s.size ∧ s.end_ = (s.size : Int) - 1 ∧ s.err = 0 ∧
      ∀ mem2, arcp_msg_encode mem2 m = arcp_msg_encode mem m := by
  obtain ⟨ht, hcap, h1, hl⟩ := msg_encode_ok mem m h
  have e := msg_encode_of mem m ht hcap h1 hl
  have hl2 := wire_msg_set_stream_size_length m
  have hsz : (strm (wire_msg (arcp_msg_set_stream_size m).2) []).size = stream_size_len m := by
    simp only [strm_size, List.length_nil, Nat.add_zero, hl2, hl]
  have hlen : (arcp_msg_set_stream_size m).2.header.msg_length = stream_size_len m := by
    unfold arcp_msg_set_stream_size; simp only [set_header_header]
  refine ⟨_, e, hsz, by rw [hsz, hlen], ?_, by rw [hsz]; exact h1, ?_, ?_, ?_, rfl, ?_⟩
  · rw [hsz]
    simp only [strm_data, List.append_nil]
    unfold wire_msg wire_header
    rw [hlen]
    simp only [be32, be16, uint16_of_nat, List.cons_append, List.nil_append,
      List.getD_cons_succ, List.getD_cons_zero, List.append_assoc]
    omega
  · rw [hsz]; simp only [strm_data, List.append_nil, hl2, hl]
  · rw [hsz]; simp only [strm_head, hl2, hl]
  · rw [hsz]; simp only [strm, List.length_nil, Nat.add_zero, hl2, hl]
  · intro mem2
    rw [e, msg_encode_of mem2 m ht hcap h1 hl]

theorem msg_encode_size_agreement_witness :
    (arcp_msg_encode (fun _ => 0xAA) example_pulse_seq).1 = 0 ∧
    ∃ s, arcp_msg_encode (fun _ => 0xAA) example_pulse_seq
        = (0, some s, (arcp_msg_set_stream_size example_pulse_seq).2) ∧
      s.size = 19 :=
  have h : (arcp_msg_encode (fun _ => 0xAA) example_pulse_seq).1 = 0 := by decide
  ⟨h, (msg_encode_size_agreement _ _ h).imp fun _ hs => ⟨hs.1, hs.2.1.trans (by decide)⟩⟩

/-- C3. Header layout: when `arcp_msg_encode` succeeds, the first 11 bytes of the output
are the magic number (4 bytes), the message length (2 bytes: the `msg_length` the encoder
has stored in the header, which is the size of the stream), the
exchange id (2 bytes), the message type (1 byte) and the protocol version (2 bytes), each
with its most significant byte first; the magic number of a message made by
`arcp_msg_new` gives the bytes 41 52 43 50; for a command whose id has no payload the
output is exactly these 11 bytes followed by the two bytes of the command id, most
significant first; and PING with exchange id 0x002A and protocol version 0x0001 encodes
to 41 52 43 50 00 0D 00 2A 00 00 01 00 01. -/
theorem msg_encode_header_layout :
    (∀ (mem : Nat → Nat) (m : arcp_msg_t), (arcp_msg_encode mem m).1 = 0 →
      ∃ s, (arcp_msg_encode mem m).2.1 = some s ∧
        (arcp_msg_encode mem m).2.2.header.msg_length = s.size ∧
        s.data.take 11 =
          [m.header.magic_num / 16777216 % 256, m.header.magic_num / 65536 % 256,
           m.header.magic_num / 256 % 256, m.header.magic_num % 256,
           s.size / 256 % 256, s.size % 256,
           m.header.exchange_id / 256 % 256, m.header.exchange_id % 256,
           m.header.msg_type % 256,
           m.header.protocol_version / 256 % 256, m.header.protocol_version % 256] ∧
        (m.header.msg_type = ARCP_MSG_COMMAND →
          m.id ≠ ARCP_CMD_SET_MODULE_ENABLE → m.id ≠ ARCP_CMD_SET_PULSE_PARAM →
          m.id ≠ ARCP_CMD_SET_PULSE_SEQ → m.id ≠ ARCP_CMD_SET_PULSE_SEQ_IDX →
          m.id ≠ ARCP_CMD_SET_TRIG_PARAM → m.id ≠ ARCP_CMD_SET_USRCTL_ENABLE →
          m.id ≠ ARCP_CMD_SET_PHASE →
          s.data = s.data.take 11 ++ [uint16_of m.id / 256 % 256, uint16_of m.id % 256])) ∧
    (∀ (type : Nat) (m : arcp_msg_t), arcp_msg_new type = some m →
      [m.header.magic_num / 16777216 % 256, m.header.magic_num / 65536 % 256,
       m.header.magic_num / 256 % 256, m.header.magic_num % 256] = [0x41, 0x52, 0x43, 0x50]) ∧
    (∀ mem : Nat → Nat, ∃ s m2, arcp_msg_encode mem example_ping = (0, some s, m2) ∧
      s.data = [0x41, 0x52, 0x43, 0x50, 0x00, 0x0D, 0x00, 0x2A, 0x00, 0x00, 0x01, 0x00, 0x01]) := by
  refine ⟨?_, ?_, ?_⟩
  · intro mem m h
    obtain ⟨ht, hcap, h1, hl⟩ := msg_encode_ok mem m h
    have e := msg_encode_of mem m ht hcap h1 hl
    have hl2 := wire_msg_set_stream_size_length m
    refine ⟨_, by rw [e], ?_, ?_, ?_⟩
    · rw [e]
      simp only [strm_size, List.length_nil, Nat.add_zero, hl2, hl]
      unfold arcp_msg_set_stream_size
      simp only [set_header_header]
    · simp only [strm_data, strm_size, List.append_nil, List.length_nil, Nat.add_zero, hl2, hl]
      unfold wire_msg wire_header arcp_msg_set_stream_size
      simp only [set_header_header, be32, be16, uint16_of_nat, uint32_of_nat, uint8_of_nat,
        List.cons_append, List.nil_append, List.append_assoc, List.take_succ_cons,
        List.take_zero]
      have : stream_size_len m % 65536 = stream_size_len m := by omega
      simp only [List.cons.injEq, and_true, true_and]
      omega
    · intro hc n1 n2 n3 n4 n5 n6 n7
      simp only [strm_data, List.append_nil]
      unfold wire_msg wire_header arcp_msg_set_stream_size
      simp only [set_header_header, wire_cmd_set_header]
      rw [if_pos hc]
      unfold wire_cmd
      rw [if_neg n1, if_neg n2, if_neg n3, if_neg n4, if_neg n5, if_neg n6, if_neg n7]
      simp [be32, be16]
  · intro type m hm
    unfold arcp_msg_new at hm
    have hmag : m.header.magic_num = ARCP_MAGIC_NUMBER := by
      split_ifs at hm <;> simp only [Option.some.injEq] at hm <;> subst hm <;> rfl
    rw [hmag]; decide
  · intro mem
    refine ⟨_, _, msg_encode_of mem example_ping (by decide)
      (by unfold over_cap; decide) (by decide) (by decide), by decide⟩

/-- C4, the failing input.  A `SYSSTAT` response for an STX2 with two RF cards, the first
of which declares 9 outputs (above the maximum of 8) and the second none:
`arcp_stream_decode` returns 0 and delivers a message, because the loop over the RF cards
assigns `err` anew for each card and so forgets the `BADMSG` of the first. -/
theorem stream_decode_rf_output_count_accepted :
    (arcp_stream_decode 1 decode_locals.zero (stream_of_bytes
        [0x41, 0x52, 0x43, 0x50, 0, 40, 0, 1, 1, 1, 1, 0, 0x10, 0, 0, 1, 0, 0, 0, 7, 0, 0, 0, 0,
         0, 0, 0, 0, 2, 0, 1, 0, 2, 9, 0, 3, 0, 4, 0, 0])).map (fun r => (r.1, r.2.2))
      = some (0, some (.resp_sysstat
          { magic_num := 0x41524350, msg_length := 40, exchange_id := 1, msg_type := 1,
            protocol_version := 0x0101 } ARCP_RESP_SYSSTAT 0
          { module_type := ARCP_MODULE_STX2, module_status := 0,
            data := .stx2
              { status_code := 0, chassis_datasize := 7, rail_supply := 0, rail_aux := 0,
                ambient_temp := 0, n_chassis_fans := 0, fan_speed := [], card_map := 0,
                n_rf_cards := 2,
                rf_card_stat :=
                  [{ rail_supply := 1, heatsink_temp := 2, n_rf_outputs := 0, output_stat := [] },
                   { rail_supply := 3, heatsink_temp := 4, n_rf_outputs := 0, output_stat := [] }],
                n_units := 0, unit_stat := [] } })) := by
  decide

/-- C5, the failing input.  The stream of 15 bytes `41 52 43 50 00 0F 00 00 00 00 01 01 02
01 00` is the start of a `SET_PULSE_SEQ` command that declares 256 entries, of which none
is present.  `arcp_stream_decode` does not return `BADMSG` on it: the loop that reads the
entries counts with a `uint8` against the 16 bit length, so it never ends, whatever the
fuel and whatever the uninitialised storage holds. -/
theorem stream_decode_pulse_seq_256 (fuel : Nat) (u : decode_locals) :
    arcp_stream_decode fuel u (stream_of_bytes
      [0x41, 0x52, 0x43, 0x50, 0x00, 0x0F, 0x00, 0x00, 0x00, 0x00, 0x01, 0x01, 0x02,
       0x01, 0x00]) = none := by
  rw [stream_of_bytes_eq, stream_decode_header_cmd fuel u _ _ _ _ _ _ _ _ _ _ _ _ (by decide)
    (by decide), decode_cmd_pulse_seq _ _ _ _ _ _ _ _ _ (by decide), if_neg (by decide)]
  cases hseq : arcp_pulseseq_new ((1 * 256 + 0) % 65536) with
  | none => exact absurd hseq (by decide)
  | some seq =>
    dsimp only
    rw [for_loop_uint8_none _ _ (by decide) _ _ _ (by decide)]
    rfl

/-- C6, counterexample.  A stream of 13 bytes whose magic is 0 and whose `msg_length`
field is 0 is decoded without error: `arcp_stream_decode` returns 0 and delivers a PING
command whose header carries the magic 0 and the length 0. -/
theorem stream_decode_accepts_bad_header :
    (arcp_stream_decode 1 decode_locals.zero
        (stream_of_bytes [0, 0, 0, 0, 0, 0, 0, 0x2A, 0, 0, 1, 0, 1])).map
        (fun r => (r.1, r.2.2))
      = some (0, some (.command { magic_num := 0, msg_length := 0, exchange_id := 0x2A,
                                  msg_type := 0, protocol_version := 1 } ARCP_CMD_PING)) := by
  decide

/-- C6, amended.  `arcp_stream_decode` returns `BADMSG` and delivers no message when the
size of the stream handed to it is below 11 or above 1024.  It compares neither the magic
with 0x41524350 nor the `msg_length` field of the header with any bound: a stream of 13
bytes whose message type is 0 and whose command id has no payload is decoded with return
value 0 to a command whose header carries the magic and the `msg_length` found in the
stream, whatever they are. -/
theorem stream_decode_header_checks :
    (∀ (fuel : Nat) (u : decode_locals) (stream : arcp_stream_t),
      stream.size < 11 ∨ stream.size > 1024 →
      arcp_stream_decode fuel u stream = some (ARCP_ERROR_BADMSG, stream, none)) ∧
    (∀ (fuel : Nat) (u : decode_locals) (b0 b1 b2 b3 b4 b5 b6 b7 b8 b9 b10 i0 i1 : Nat),
      b8 % 256 = 0 →
      int16_of ((i0 * 256 + i1 : Nat) : Int) ≠ ARCP_CMD_SET_MODULE_ENABLE →
      int16_of ((i0 * 256 + i1 : Nat) : Int) ≠ ARCP_CMD_SET_PULSE_PARAM →
      int16_of ((i0 * 256 + i1 : Nat) : Int) ≠ ARCP_CMD_SET_PULSE_SEQ →
      int16_of ((i0 * 256 + i1 : Nat) : Int) ≠ ARCP_CMD_SET_PULSE_SEQ_IDX →
      int16_of ((i0 * 256 + i1 : Nat) : Int) ≠ ARCP_CMD_SET_TRIG_PARAM →
      int16_of ((i0 * 256 + i1 : Nat) : Int) ≠ ARCP_CMD_SET_USRCTL_ENABLE →
      int16_of ((i0 * 256 + i1 : Nat) : Int) ≠ ARCP_CMD_SET_PHASE →
      (arcp_stream_decode fuel u
          (stream_of_bytes [b0, b1, b2, b3, b4, b5, b6, b7, b8, b9, b10, i0, i1])).map
          (fun r => (r.1, r.2.2))
        = some (0, some (.command
            { magic_num := (((b0 * 256 + b1) * 256 + b2) * 256 + b3) % 4294967296,
              msg_length := (b4 * 256 + b5) % 65536,
              exchange_id := (b6 * 256 + b7) % 65536,
              msg_type := 0,
              protocol_version := (b9 * 256 + b10) % 65536 }
            (int16_of ((i0 * 256 + i1 : Nat) : Int))))) := by
  refine ⟨?_, ?_⟩
  · intro fuel u stream h
    unfold arcp_stream_decode
    rw [if_pos (by simpa [ARCP_MSG_MAX_SIZE] using h)]
  · intro fuel u b0 b1 b2 b3 b4 b5 b6 b7 b8 b9 b10 i0 i1 h8 n1 n2 n3 n4 n5 n6 n7
    rw [stream_of_bytes_eq, stream_decode_header_cmd fuel u _ _ _ _ _ _ _ _ _ _ _ _
      (by simp) h8, decode_cmd_plain _ _ _ _ _ _ _ n1 n2 n3 n4 n5 n6 n7]
    rfl

/-- C7, the failing input.  One junk byte 00 followed by the ping response of Scenario A:
the first loop of `arcp_socket_process` reads at most four bytes, so the read ends with
`BADMSG` after the bytes 00 41 52 43 and delivers no frame, instead of finding the magic
one byte later.  Likewise with the 37 junk bytes of Scenario E: four of them are read and
the read ends with `BADMSG`. -/
theorem socket_process_no_resync :
    arcp_socket_process 8 (fun _ => 0)
        { rx := [.data [0x00, 0x41, 0x52, 0x43, 0x50, 0, 15, 0, 42, 1, 0, 1, 0, 0, 0, 0]] }
        true false
      = some (ARCP_ERROR_BADMSG, none, none,
          { rx := [.data [0x50, 0, 15, 0, 42, 1, 0, 1, 0, 0, 0, 0]] }) ∧
    arcp_socket_process 8 (fun _ => 0)
        { rx := [.data (List.replicate 37 0x55
                  ++ [0x41, 0x52, 0x43, 0x50, 0, 15, 0, 42, 1, 0, 1, 0, 0, 0, 0])] }
        true false
      = some (ARCP_ERROR_BADMSG, none, none,
          { rx := [.data (List.replicate 33 0x55
                  ++ [0x41, 0x52, 0x43, 0x50, 0, 15, 0, 42, 1, 0, 1, 0, 0, 0, 0])] }) := by
  constructor <;> decide

/-- C8. Bounded frames at the framer: once the first loop of `arcp_socket_process` has
matched the magic number, if the two bytes read next declare (big-endian) a `msg_length`
above 1024, below 11 or equal to 11, the call returns `BADMSG`, creates no stream and
leaves the socket as it was right after those two bytes: no byte of the body is read. -/
theorem socket_process_bounded_frames (fuel : Nat) (mem : Nat → Nat) (fd fd2 : arcp_socket_t)
    (want_ascii : Bool) (st : sync_state) (bytes : List Nat)
    (hsync : sync_loop (if want_ascii then MSG_ARCP ||| MSG_ASCII else MSG_ARCP) fuel
      { magic_num := 0, msg_size := 0, byte := 0, fd := fd } = some (0, st))
    (hmagic : st.magic_num = ARCP_MAGIC_NUMBER)
    (hlen : read_from_socket fuel st.fd [] 2 = some (2, bytes, fd2))
    (hbad : bytes.getD 0 0 * 256 + bytes.getD 1 0 > 1024 ∨
            bytes.getD 0 0 * 256 + bytes.getD 1 0 < 11 ∨
            bytes.getD 0 0 * 256 + bytes.getD 1 0 = 11) :
    arcp_socket_process fuel mem fd true want_ascii =
      some (ARCP_ERROR_BADMSG, none, none, fd2) := by
  have hbyte : st.byte = 0x50 := by
    have := sync_loop_low_byte _ fuel _ st 0 (by rfl) hsync
    simp only [hmagic, ARCP_MAGIC_NUMBER] at this
    omega
  cases want_ascii
  · simp only [Bool.false_eq_true, if_false] at hsync
    simp [arcp_socket_process, hsync, hlen, sync_pending, hmagic, hbyte]
    simp only [List.getD_eq_getElem?_getD, ARCP_MSG_MAX_SIZE] at hbad ⊢
    intro h1 h2
    omega
  · simp only [if_true] at hsync
    simp [arcp_socket_process, hsync, hlen, sync_pending, hmagic, hbyte]
    simp only [List.getD_eq_getElem?_getD, ARCP_MSG_MAX_SIZE] at hbad ⊢
    intro h1 h2
    omega


theorem socket_process_bounded_frames_witness :
    sync_loop (if false then MSG_ARCP ||| MSG_ASCII else MSG_ARCP) 8
      { magic_num := 0, msg_size := 0, byte := 0,
        fd := { rx := [.data [0x41, 0x52, 0x43, 0x50, 8, 0, 1, 2, 3]] } }
      = some (0, { magic_num := 0x41524350, msg_size := 4, byte := 0x50,
                   fd := { rx := [.data [8, 0, 1, 2, 3]] } }) ∧
    arcp_socket_process 8 (fun _ => 0) { rx := [.data [0x41, 0x52, 0x43, 0x50, 8, 0, 1, 2, 3]] }
      true false = some (ARCP_ERROR_BADMSG, none, none, { rx := [.data [1, 2, 3]] }) :=
  have hsync : sync_loop (if false then MSG_ARCP ||| MSG_ASCII else MSG_ARCP) 8
      { magic_num := 0, msg_size := 0, byte := 0,
        fd := { rx := [.data [0x41, 0x52, 0x43, 0x50, 8, 0, 1, 2, 3]] } }
      = some (0, { magic_num := 0x41524350, msg_size := 4, byte := 0x50,
                   fd := { rx := [.data [8, 0, 1, 2, 3]] } }) := by decide
  ⟨hsync, socket_process_bounded_frames 8 (fun _ => 0) _ { rx := [.data [1, 2, 3]] } false _
    [8, 0] hsync (by decide) (by decide) (by decide)⟩

/-- C9. Response validation: `arcp_check_resp_msg cmd resp` on a response that is present
returns `BADMSG` when the magic number of `resp` is not 0x41524350; otherwise `NOT_RESP`
when `resp` is not of type response; otherwise `SEQUENCE` when the exchange ids of `resp`
and `cmd` differ; otherwise `BAD_PROTO_VER` when the version of `cmd` is below that of
`resp`; otherwise 0.  Scenario D (a PING with exchange id 5 answered by an ACK with
exchange id 6) yields `SEQUENCE`. -/
theorem check_resp_msg_validation (cmd resp : arcp_msg_t) :
    (resp.header.magic_num ≠ 0x41524350 →
      arcp_check_resp_msg cmd (some resp) = ARCP_ERROR_BADMSG) ∧
    (resp.header.magic_num = 0x41524350 → resp.header.msg_type ≠ ARCP_MSG_RESPONSE →
      arcp_check_resp_msg cmd (some resp) = ARCP_ERROR_NOT_RESP) ∧
    (resp.header.magic_num = 0x41524350 → resp.header.msg_type = ARCP_MSG_RESPONSE →
      resp.header.exchange_id ≠ cmd.header.exchange_id →
      arcp_check_resp_msg cmd (some resp) = ARCP_ERROR_SEQUENCE) ∧
    (resp.header.magic_num = 0x41524350 → resp.header.msg_type = ARCP_MSG_RESPONSE →
      resp.header.exchange_id = cmd.header.exchange_id →
      cmd.header.protocol_version < resp.header.protocol_version →
      arcp_check_resp_msg cmd (some resp) = ARCP_ERROR_BAD_PROTO_VER) ∧
    (resp.header.magic_num = 0x41524350 → resp.header.msg_type = ARCP_MSG_RESPONSE →
      resp.header.exchange_id = cmd.header.exchange_id →
      resp.header.protocol_version ≤ cmd.header.protocol_version →
      arcp_check_resp_msg cmd (some resp) = 0) ∧
    arcp_check_resp_msg
      (.command { magic_num := 0x41524350, msg_length := 13, exchange_id := 5, msg_type := 0,
                  protocol_version := 0x0101 } ARCP_CMD_PING)
      (some (.response { magic_num := 0x41524350, msg_length := 15, exchange_id := 6,
                         msg_type := 1, protocol_version := 0x0101 } ARCP_RESP_ACK 0))
      = ARCP_ERROR_SEQUENCE := by
  refine ⟨?_, ?_, ?_, ?_, ?_, ?_⟩
  · intro h; simp [arcp_check_resp_msg, h]
  · intro h1 h2; simp [arcp_check_resp_msg, h1, h2]
  · intro h1 h2 h3; simp [arcp_check_resp_msg, h1, h2, h3]
  · intro h1 h2 h3 h4; simp [arcp_check_resp_msg, h1, h2, h3, h4]
  · intro h1 h2 h3 h4; simp [arcp_check_resp_msg, h1, h2, h3, Nat.not_lt.mpr h4]
  · decide

/-- C10. Version clamp: a new handle starts at version 0x0101.  When `arcp_msg_read`
returns, a successful read (return value 0) has delivered a message and has left the
handle at the minimum of its former version and the message's `protocol_version`; a
failed read has left the version as it was.  Hence over any sequence of reads the version
never increases, and never exceeds 0x0101 on a handle that started new. -/
theorem msg_read_version_clamp (fuel : Nat) (u : decode_locals) (mem : Nat → Nat)
    (h h' : arcp_handle_t) (res : Int) (msg : Option arcp_msg_t)
    (hread : arcp_msg_read fuel u mem h = some (res, msg, h')) :
    (∀ fd, (arcp_handle_new fd).connection_arcp_version = 0x0101) ∧
    (res = 0 → ∃ m, msg = some m ∧ h'.connection_arcp_version =
        min h.connection_arcp_version m.header.protocol_version) ∧
    (res ≠ 0 → h'.connection_arcp_version = h.connection_arcp_version) ∧
    (∀ reads h1 h2, msg_read_seq reads h1 = some h2 →
        h2.connection_arcp_version ≤ h1.connection_arcp_version) ∧
    (∀ reads fd h2, msg_read_seq reads (arcp_handle_new fd) = some h2 →
        h2.connection_arcp_version ≤ 0x0101) := by
  refine ⟨fun fd => rfl, (msg_read_version hread).1, (msg_read_version hread).2,
    fun reads h1 h2 hs => msg_read_seq_version_le reads h1 h2 hs, ?_⟩
  intro reads fd h2 hs
  have := msg_read_seq_version_le reads _ _ hs
  have h0 : (arcp_handle_new fd).connection_arcp_version = 0x0101 := rfl
  omega

theorem msg_read_version_clamp_witness :
    arcp_msg_read 8 decode_locals.zero (fun _ => 0)
        (arcp_handle_new
          { rx := [.data [0x41, 0x52, 0x43, 0x50, 0, 15, 0, 42, 1, 0, 1, 0, 0, 0, 0]] })
      = some (0,
          some (.response { magic_num := 0x41524350, msg_length := 15, exchange_id := 42,
                            msg_type := 1, protocol_version := 1 } 0 0),
          { fd := { rx := [] }, connection_arcp_version := 1 }) ∧
    ((0 : Int) = 0 → ∃ m,
      some (arcp_msg_t.response { magic_num := 0x41524350, msg_length := 15, exchange_id := 42,
                                  msg_type := 1, protocol_version := 1 } 0 0) = some m ∧
      (1 : Nat) = min 0x0101 m.header.protocol_version) :=
  have hread : arcp_msg_read 8 decode_locals.zero (fun _ => 0)
        (arcp_handle_new
          { rx := [.data [0x41, 0x52, 0x43, 0x50, 0, 15, 0, 42, 1, 0, 1, 0, 0, 0, 0]] })
      = some (0,
          some (.response { magic_num := 0x41524350, msg_length := 15, exchange_id := 42,
                            msg_type := 1, protocol_version := 1 } 0 0),
          { fd := { rx := [] }, connection_arcp_version := 1 }) := by decide
  ⟨hread, (msg_read_version_clamp _ _ _ _ _ _ _ hread).2.1⟩

/-! ## Theorems about the typed requests, the message sizes and the decoder's defaults -/

set_option maxRecDepth 100000 in
/-- C11, counterexample.  Two exchanges of `arcp_ping` in which the response passes
`arcp_check_resp_msg`, its id is not ACK, and the call does not return `BAD_RESPONSE`.
The id -3 (bytes FF FD) comes back as the return value -3: a value below `ARCP_RESP` is
taken for an error code and handed on.  The id 0x0100 comes back as ACK: `arcp_exec_cmd`
keeps the id in an `int8`. -/
theorem ping_other_ids_not_bad_response :
    exchange_ok 8 decode_locals.zero (fun _ => 0)
      (handle_answering 0x0101 (response_frame 0 0xff 0xfd 0 0)) ARCP_CMD_PING none 0
      (.response ⟨ARCP_MAGIC_NUMBER, 15, 0, 1, 0x0101⟩ (-3) 0)
      (handle_after 0x0101 (ping_frame 0)) ∧
    arcp_ping 8 decode_locals.zero (fun _ => 0)
      (handle_answering 0x0101 (response_frame 0 0xff 0xfd 0 0)) 0 =
      some (-3, handle_after 0x0101 (ping_frame 0), 1) ∧
    (-3 : Int) ≠ ARCP_ERROR_BAD_RESPONSE ∧
    exchange_ok 8 decode_locals.zero (fun _ => 0)
      (handle_answering 0x0101 (response_frame 0 0x01 0x00 0 0)) ARCP_CMD_PING none 0
      (.response ⟨ARCP_MAGIC_NUMBER, 15, 0, 1, 0x0101⟩ 0x0100 0)
      (handle_after 0x0101 (ping_frame 0)) ∧
    arcp_ping 8 decode_locals.zero (fun _ => 0)
      (handle_answering 0x0101 (response_frame 0 0x01 0x00 0 0)) 0 =
      some (ARCP_RESP_ACK, handle_after 0x0101 (ping_frame 0), 1) :=
  ⟨⟨.command new_cmd_header ARCP_CMD_PING,
    .command ⟨ARCP_MAGIC_NUMBER, 13, 0, 0, 0x0101⟩ ARCP_CMD_PING,
    handle_sent 0x0101 (response_frame 0 0xff 0xfd 0 0) (ping_frame 0),
    rfl, by decide, by decide, by decide⟩, by decide, by decide,
   ⟨.command new_cmd_header ARCP_CMD_PING,
    .command ⟨ARCP_MAGIC_NUMBER, 13, 0, 0, 0x0101⟩ ARCP_CMD_PING,
    handle_sent 0x0101 (response_frame 0 0x01 0x00 0 0) (ping_frame 0),
    rfl, by decide, by decide, by decide⟩, by decide⟩

/-- C11, amended.  Ping whitelist: in every exchange in which `arcp_ping` receives a
response `resp` that passes validation and whose id lies between -128 and 127, the call
returns ACK (0) if the id is ACK, `BAD_RESPONSE` if it is any other id from -2 (UNK) up to
127, and the id itself if it is below -2; the handle is the one the read left and the
counter `exchange_id` has advanced by one (modulo 2^16). -/
theorem ping_whitelist (fuel : Nat) (u : decode_locals) (mem : Nat → Nat)
    (handle : arcp_handle_t) (xid : Nat) (resp : arcp_msg_t) (h2 : arcp_handle_t)
    (hx : exchange_ok fuel u mem handle ARCP_CMD_PING none xid resp h2)
    (hlo : -128 ≤ resp.id) (hhi : resp.id ≤ 127) :
    arcp_ping fuel u mem handle xid =
      some (if resp.id = ARCP_RESP_ACK then ARCP_RESP_ACK
            else if ARCP_RESP_UNK ≤ resp.id then ARCP_ERROR_BAD_RESPONSE
            else resp.id,
        h2, (xid + 1) % 65536) := by
  obtain ⟨c1, he⟩ := exec_cmd_of_exchange fuel u mem handle ARCP_CMD_PING none none xid resp h2 hx
  unfold arcp_ping
  rw [he, int8_of_id _ hlo (by omega)]
  simp only [Option.map_some', arcp_id_is_response, ARCP_RESP, ARCP_RESP_ACK, ARCP_RESP_UNK,
    ARCP_ERROR_BAD_RESPONSE, ge_iff_le, decide_eq_true_eq]
  split_ifs <;> first | rfl | (exfalso; omega) | simp_all

set_option maxRecDepth 100000 in
/-- C11, witness: the ping of exchange 7 answered by an ACK returns ACK, and the counter
goes to 8. -/
theorem ping_whitelist_witness :
    arcp_ping 8 decode_locals.zero (fun _ => 0)
      (handle_answering 0x0101 (response_frame 7 0 0 0 0)) 7 =
      some (ARCP_RESP_ACK, handle_after 0x0101 (ping_frame 7), 8) :=
  ping_whitelist 8 decode_locals.zero (fun _ => 0)
    (handle_answering 0x0101 (response_frame 7 0 0 0 0)) 7
    (.response ⟨ARCP_MAGIC_NUMBER, 15, 7, 1, 0x0101⟩ 0 0) (handle_after 0x0101 (ping_frame 7))
    ⟨.command new_cmd_header ARCP_CMD_PING,
     .command ⟨ARCP_MAGIC_NUMBER, 13, 7, 0, 0x0101⟩ ARCP_CMD_PING,
     handle_sent 0x0101 (response_frame 7 0 0 0 0) (ping_frame 7),
     rfl, by decide, by decide, by decide⟩ (by decide) (by decide)

set_option maxRecDepth 100000 in
/-- C12, counterexample.  Two exchanges of `arcp_set_trigparam` in which the response
passes validation, its id is none of ACK, NAK and UNK, and the call does not return
`BAD_RESPONSE`: the id -3 comes back as the return value -3, and the id 0x0100, kept in
an `int8` by `arcp_exec_cmd`, comes back as ACK. -/
theorem set_trigparam_other_ids_not_bad_response :
    exchange_ok 8 decode_locals.zero (fun _ => 0)
      (handle_answering 0x0101 (response_frame 0 0xff 0xfd 0 0)) ARCP_CMD_SET_TRIG_PARAM
      (some (.cmd_set_trig_param new_cmd_header ARCP_CMD_SET_TRIG_PARAM example_trigger)) 0
      (.response ⟨ARCP_MAGIC_NUMBER, 15, 0, 1, 0x0101⟩ (-3) 0)
      (handle_after 0x0101 example_trigger_frame) ∧
    arcp_set_trigparam 8 decode_locals.zero (fun _ => 0)
      (handle_answering 0x0101 (response_frame 0 0xff 0xfd 0 0)) example_trigger 0 =
      some (-3, handle_after 0x0101 example_trigger_frame, 1) ∧
    (-3 : Int) ≠ ARCP_ERROR_BAD_RESPONSE ∧
    exchange_ok 8 decode_locals.zero (fun _ => 0)
      (handle_answering 0x0101 (response_frame 0 0x01 0x00 0 0)) ARCP_CMD_SET_TRIG_PARAM
      (some (.cmd_set_trig_param new_cmd_header ARCP_CMD_SET_TRIG_PARAM example_trigger)) 0
      (.response ⟨ARCP_MAGIC_NUMBER, 15, 0, 1, 0x0101⟩ 0x0100 0)
      (handle_after 0x0101 example_trigger_frame) ∧
    arcp_set_trigparam 8 decode_locals.zero (fun _ => 0)
      (handle_answering 0x0101 (response_frame 0 0x01 0x00 0 0)) example_trigger 0 =
      some (ARCP_RESP_ACK, handle_after 0x0101 example_trigger_frame, 1) :=
  ⟨⟨.cmd_set_trig_param new_cmd_header ARCP_CMD_SET_TRIG_PARAM example_trigger,
    .cmd_set_trig_param ⟨ARCP_MAGIC_NUMBER, 19, 0, 0, 0x0101⟩ ARCP_CMD_SET_TRIG_PARAM
      example_trigger,
    handle_sent 0x0101 (response_frame 0 0xff 0xfd 0 0) example_trigger_frame,
    rfl, by decide, by decide, by decide⟩, by decide, by decide,
   ⟨.cmd_set_trig_param new_cmd_header ARCP_CMD_SET_TRIG_PARAM example_trigger,
    .cmd_set_trig_param ⟨ARCP_MAGIC_NUMBER, 19, 0, 0, 0x0101⟩ ARCP_CMD_SET_TRIG_PARAM
      example_trigger,
    handle_sent 0x0101 (response_frame 0 0x01 0x00 0 0) example_trigger_frame,
    rfl, by decide, by decide, by decide⟩, by decide⟩

/-- C12, amended.  NAK info code: `arcp_set_pulseparam`, `arcp_set_pulseseq` and
`arcp_set_trigparam` are `arcp_do_set_params` on the command they build (the last three
parts).  In every exchange in which `arcp_do_set_params` receives a response `resp` that
passes validation and whose id lies between -128 and 127: if the id is NAK the call returns
the `info_code` when that is negative and NAK (-1) otherwise; if the id is ACK or UNK it
returns the id; for any other id from -2 up to 127 it returns `BAD_RESPONSE`; an id below
-2 is returned as it is. -/
theorem set_params_nak_info_code (fuel : Nat) (u : decode_locals) (mem : Nat → Nat)
    (handle : arcp_handle_t) (cmd_id : Int) (msg : arcp_msg_t) (xid : Nat) (resp : arcp_msg_t)
    (h2 : arcp_handle_t)
    (hx : exchange_ok fuel u mem handle cmd_id (some msg) xid resp h2)
    (hlo : -128 ≤ resp.id) (hhi : resp.id ≤ 127) :
    arcp_do_set_params fuel u mem handle cmd_id msg xid =
      some (if resp.id = ARCP_RESP_NAK then
              (if resp.info_code < 0 then resp.info_code else ARCP_RESP_NAK)
            else if resp.id = ARCP_RESP_ACK ∨ resp.id = ARCP_RESP_UNK then resp.id
            else if ARCP_RESP_UNK ≤ resp.id then ARCP_ERROR_BAD_RESPONSE
            else resp.id,
        h2, (xid + 1) % 65536) ∧
    (∀ slot param, arcp_set_pulseparam fuel u mem handle slot param xid =
      arcp_do_set_params fuel u mem handle ARCP_CMD_SET_PULSE_PARAM
        (.cmd_set_pulse_param new_cmd_header ARCP_CMD_SET_PULSE_PARAM slot param) xid) ∧
    (∀ seq, arcp_set_pulseseq fuel u mem handle seq xid =
      arcp_do_set_params fuel u mem handle ARCP_CMD_SET_PULSE_SEQ
        (.cmd_set_pulse_seq new_cmd_header ARCP_CMD_SET_PULSE_SEQ seq) xid) ∧
    (∀ param, arcp_set_trigparam fuel u mem handle param xid =
      arcp_do_set_params fuel u mem handle ARCP_CMD_SET_TRIG_PARAM
        (.cmd_set_trig_param new_cmd_header ARCP_CMD_SET_TRIG_PARAM param) xid) := by
  have hm : arcp_msg_new ARCP_MSG_COMMAND = some (.command new_cmd_header (-1)) := by decide
  have hs : ∀ id : Int, arcp_msg_set_cmd_id (.command new_cmd_header (-1)) id =
      (0, .command new_cmd_header id) := fun id => by
    unfold arcp_msg_set_cmd_id
    rw [if_neg (by decide), if_neg (by decide)]
    rfl
  refine ⟨?_, ?_, ?_, ?_⟩
  rotate_left
  · intro slot param
    unfold arcp_set_pulseparam
    rw [hm]
    dsimp only
    rw [hs, if_neg (by decide)]
    rfl
  · intro seq
    unfold arcp_set_pulseseq
    rw [hm]
    dsimp only
    rw [hs, if_neg (by decide)]
    rfl
  · intro param
    unfold arcp_set_trigparam
    rw [hm]
    dsimp only
    rw [hs, if_neg (by decide)]
    rfl
  obtain ⟨c1, he⟩ :=
    exec_cmd_of_exchange fuel u mem handle cmd_id (some msg) (some none) xid resp h2 hx
  obtain ⟨c, _, _, hp, _⟩ := hx
  have hg : ¬ (msg.header.msg_type ≠ ARCP_MSG_COMMAND ∨ msg.id ≠ cmd_id) := by
    intro hg
    unfold exec_cmd_prepare at hp
    dsimp only at hp
    rw [if_pos hg] at hp
    cases hp
  unfold arcp_do_set_params
  rw [if_neg hg, he, int8_of_id _ hlo (by omega)]
  simp only [Option.map_some', Option.join, Option.bind, Option.getD, arcp_id_is_response,
    ARCP_RESP, ARCP_RESP_ACK, ARCP_RESP_UNK, ARCP_RESP_NAK,
    ARCP_ERROR_BAD_RESPONSE, ge_iff_le, decide_eq_true_eq, id]
  split_ifs <;> first | rfl | (exfalso; omega) | simp_all

set_option maxRecDepth 100000 in
/-- C12, witness: trigger parameters answered by a NAK whose `info_code` is -200 (bytes
FF 38); the call returns -200. -/
theorem set_params_nak_info_code_witness :
    arcp_do_set_params 8 decode_locals.zero (fun _ => 0)
      (handle_answering 0x0101 (response_frame 0 0xff 0xff 0xff 0x38)) ARCP_CMD_SET_TRIG_PARAM
      (.cmd_set_trig_param new_cmd_header ARCP_CMD_SET_TRIG_PARAM example_trigger) 0 =
      some (-200, handle_after 0x0101 example_trigger_frame, 1) := by
  have hx : exchange_ok 8 decode_locals.zero (fun _ => 0)
      (handle_answering 0x0101 (response_frame 0 0xff 0xff 0xff 0x38)) ARCP_CMD_SET_TRIG_PARAM
      (some (.cmd_set_trig_param new_cmd_header ARCP_CMD_SET_TRIG_PARAM example_trigger)) 0
      (.response ⟨ARCP_MAGIC_NUMBER, 15, 0, 1, 0x0101⟩ (-1) (-200))
      (handle_after 0x0101 example_trigger_frame) :=
    ⟨.cmd_set_trig_param new_cmd_header ARCP_CMD_SET_TRIG_PARAM example_trigger,
     .cmd_set_trig_param ⟨ARCP_MAGIC_NUMBER, 19, 0, 0, 0x0101⟩ ARCP_CMD_SET_TRIG_PARAM
       example_trigger,
     handle_sent 0x0101 (response_frame 0 0xff 0xff 0xff 0x38) example_trigger_frame,
     rfl, by decide, by decide, by decide⟩
  exact (set_params_nak_info_code 8 decode_locals.zero (fun _ => 0)
    (handle_answering 0x0101 (response_frame 0 0xff 0xff 0xff 0x38)) ARCP_CMD_SET_TRIG_PARAM
    (.cmd_set_trig_param new_cmd_header ARCP_CMD_SET_TRIG_PARAM example_trigger) 0
    (.response ⟨ARCP_MAGIC_NUMBER, 15, 0, 1, 0x0101⟩ (-1) (-200))
    (handle_after 0x0101 example_trigger_frame) hx (by decide) (by decide)).1

set_option maxRecDepth 100000 in
/-- C13, counterexample.  `arcp_set_module_enable` with `enable` 1, answered by a response
that passes validation and whose id is UNK (bytes FF FE): the call returns `BAD_RESPONSE`
(-123), not UNK (-2). -/
theorem set_module_enable_rejects_unk :
    exchange_ok 8 decode_locals.zero (fun _ => 0)
      (handle_answering 0x0101 (response_frame 0 0xff 0xfe 0 0)) ARCP_CMD_SET_MODULE_ENABLE
      (some (.cmd_enable new_cmd_header ARCP_CMD_SET_MODULE_ENABLE 1)) 0
      (.response ⟨ARCP_MAGIC_NUMBER, 15, 0, 1, 0x0101⟩ ARCP_RESP_UNK 0)
      (handle_after 0x0101 example_enable_frame) ∧
    arcp_set_module_enable 8 decode_locals.zero (fun _ => 0)
      (handle_answering 0x0101 (response_frame 0 0xff 0xfe 0 0)) 1 0 =
      some (ARCP_ERROR_BAD_RESPONSE, handle_after 0x0101 example_enable_frame, 1) ∧
    ARCP_ERROR_BAD_RESPONSE ≠ ARCP_RESP_UNK :=
  ⟨⟨.cmd_enable new_cmd_header ARCP_CMD_SET_MODULE_ENABLE 1,
    .cmd_enable ⟨ARCP_MAGIC_NUMBER, 14, 0, 0, 0x0101⟩ ARCP_CMD_SET_MODULE_ENABLE 1,
    handle_sent 0x0101 (response_frame 0 0xff 0xfe 0 0) example_enable_frame,
    rfl, by decide, by decide, by decide⟩, by decide, by decide⟩

/-- C13, amended.  `arcp_set_module_enable` accepts ACK and NAK only: in every exchange in
which it receives a response `resp` that passes validation and whose id lies between -128
and 127, the call returns the id if it is ACK or NAK, `BAD_RESPONSE` if it is any other id
from -2 up to 127 (UNK included), and the id itself if it is below -2. -/
theorem set_module_enable_whitelist (fuel : Nat) (u : decode_locals) (mem : Nat → Nat)
    (handle : arcp_handle_t) (enable : Nat) (xid : Nat) (resp : arcp_msg_t)
    (h2 : arcp_handle_t)
    (hx : exchange_ok fuel u mem handle ARCP_CMD_SET_MODULE_ENABLE
      (some (.cmd_enable new_cmd_header ARCP_CMD_SET_MODULE_ENABLE (int8_of enable))) xid
      resp h2)
    (hlo : -128 ≤ resp.id) (hhi : resp.id ≤ 127) :
    arcp_set_module_enable fuel u mem handle enable xid =
      some (if resp.id = ARCP_RESP_ACK ∨ resp.id = ARCP_RESP_NAK then resp.id
            else if ARCP_RESP_UNK ≤ resp.id then ARCP_ERROR_BAD_RESPONSE
            else resp.id,
        h2, (xid + 1) % 65536) := by
  obtain ⟨c1, he⟩ := exec_cmd_of_exchange fuel u mem handle ARCP_CMD_SET_MODULE_ENABLE _ none
    xid resp h2 hx
  have hm : arcp_msg_new ARCP_MSG_COMMAND = some (.command new_cmd_header (-1)) := by decide
  unfold arcp_set_module_enable
  rw [hm]
  dsimp only
  have hh : (arcp_msg_t.command new_cmd_header (-1)).header = new_cmd_header := rfl
  rw [hh, he, int8_of_id _ hlo (by omega)]
  simp only [Option.map_some', arcp_id_is_response, ARCP_RESP, ARCP_RESP_ACK, ARCP_RESP_UNK,
    ARCP_RESP_NAK, ARCP_ERROR_BAD_RESPONSE, ge_iff_le, decide_eq_true_eq]
  split_ifs <;> first | rfl | (exfalso; omega)

set_option maxRecDepth 100000 in
/-- C13, witness: the request answered by a NAK (bytes FF FF) returns NAK. -/
theorem set_module_enable_whitelist_witness :
    arcp_set_module_enable 8 decode_locals.zero (fun _ => 0)
      (handle_answering 0x0101 (response_frame 0 0xff 0xff 0 0)) 1 0 =
      some (ARCP_RESP_NAK, handle_after 0x0101 example_enable_frame, 1) :=
  set_module_enable_whitelist 8 decode_locals.zero (fun _ => 0)
    (handle_answering 0x0101 (response_frame 0 0xff 0xff 0 0)) 1 0
    (.response ⟨ARCP_MAGIC_NUMBER, 15, 0, 1, 0x0101⟩ ARCP_RESP_NAK 0)
    (handle_after 0x0101 example_enable_frame)
    ⟨.cmd_enable new_cmd_header ARCP_CMD_SET_MODULE_ENABLE 1,
     .cmd_enable ⟨ARCP_MAGIC_NUMBER, 14, 0, 0, 0x0101⟩ ARCP_CMD_SET_MODULE_ENABLE 1,
     handle_sent 0x0101 (response_frame 0 0xff 0xff 0 0) example_enable_frame,
     rfl, by decide, by decide, by decide⟩ (by decide) (by decide)

set_option maxRecDepth 100000 in
/-- C14, the failing input.  A connection at version 1.1 whose peer answers with a `SYSID`
response (id 2) that passes validation.  `arcp_set_usrctl_enable` and `arcp_set_phase`
return 2; `arcp_set_pulseseq_index`, which checks the id it gets from `arcp_exec_cmd`,
returns `BAD_RESPONSE` on the same answer. -/
theorem set_usrctl_enable_no_whitelist :
    exchange_ok 8 decode_locals.zero (fun _ => 0) (handle_answering 0x0101 example_sysid_frame)
      ARCP_CMD_SET_USRCTL_ENABLE
      (some (.cmd_usrctl_enable new_cmd_header ARCP_CMD_SET_USRCTL_ENABLE 1)) 0
      (.resp_sysid ⟨ARCP_MAGIC_NUMBER, 24, 0, 1, 0x0101⟩ ARCP_RESP_SYSID 0 example_sysid)
      (handle_after 0x0101 example_usrctl_frame) ∧
    arcp_set_usrctl_enable 8 decode_locals.zero (fun _ => 0)
      (handle_answering 0x0101 example_sysid_frame) 1 0 =
      some (ARCP_RESP_SYSID, handle_after 0x0101 example_usrctl_frame, 1) ∧
    exchange_ok 8 decode_locals.zero (fun _ => 0) (handle_answering 0x0101 example_sysid_frame)
      ARCP_CMD_SET_PHASE
      (some (.cmd_set_phase new_cmd_header ARCP_CMD_SET_PHASE 0 1 [⟨1, 0⟩])) 0
      (.resp_sysid ⟨ARCP_MAGIC_NUMBER, 24, 0, 1, 0x0101⟩ ARCP_RESP_SYSID 0 example_sysid)
      (handle_after 0x0101 example_phase_frame) ∧
    arcp_set_phase 8 decode_locals.zero (fun _ => 0)
      (handle_answering 0x0101 example_sysid_frame) 0 [⟨1, 0⟩] 1 0 =
      some (ARCP_RESP_SYSID, handle_after 0x0101 example_phase_frame, 1) ∧
    arcp_set_pulseseq_index 8 decode_locals.zero (fun _ => 0)
      (handle_answering 0x0101 example_sysid_frame) 0 0 =
      some (ARCP_ERROR_BAD_RESPONSE,
        handle_after 0x0101 [0x41, 0x52, 0x43, 0x50, 0, 15, 0, 0, 0, 1, 1, 0x01, 0x03, 0, 0],
        1) :=
  ⟨⟨.cmd_usrctl_enable new_cmd_header ARCP_CMD_SET_USRCTL_ENABLE 1,
    .cmd_usrctl_enable ⟨ARCP_MAGIC_NUMBER, 14, 0, 0, 0x0101⟩ ARCP_CMD_SET_USRCTL_ENABLE 1,
    handle_sent 0x0101 example_sysid_frame example_usrctl_frame,
    rfl, by decide, by decide, by decide⟩, by decide,
   ⟨.cmd_set_phase new_cmd_header ARCP_CMD_SET_PHASE 0 1 [⟨1, 0⟩],
    .cmd_set_phase ⟨ARCP_MAGIC_NUMBER, 23, 0, 0, 0x0101⟩ ARCP_CMD_SET_PHASE 0 1 [⟨1, 0⟩],
    handle_sent 0x0101 example_sysid_frame example_phase_frame,
    rfl, by decide, by decide, by decide⟩, by decide, by decide⟩

/-- C15. Version gate of `arcp_set_phase`: on a handle whose negotiated version is below
0x0101 the call returns UNK (-2) for every phase slot, phase table and `n_phases`, and
leaves the handle and the counter `exchange_id` as they were: the socket of the handle,
with what it has received, what it will receive and what it has been sent, is unchanged (no
byte is written, none is read), and so is the version.  No fuel is needed. -/
theorem set_phase_version_gate (fuel : Nat) (u : decode_locals) (mem : Nat → Nat)
    (handle : arcp_handle_t) (phase_slot : Nat) (phases : List arcp_phase_entry_t)
    (n_phases : Nat) (xid : Nat) (hv : handle.connection_arcp_version < 0x0101) :
    arcp_set_phase fuel u mem handle phase_slot phases n_phases xid =
      some (ARCP_RESP_UNK, handle, xid) := by
  have e : ARCP_VERSION_1_1 = 0x0101 := by decide
  unfold arcp_set_phase
  dsimp only
  rw [e, if_pos hv]

/-- C15, witness: a handle at version 0x0100, slot 0 and the one entry (channel 1,
phase 0.0). -/
theorem set_phase_version_gate_witness :
    arcp_set_phase 0 decode_locals.zero (fun _ => 0)
      (handle_answering 0x0100 (response_frame 0 0 0 0 0)) 0 [⟨1, 0⟩] 1 42 =
      some (-2, handle_answering 0x0100 (response_frame 0 0 0 0 0), 42) :=
  set_phase_version_gate 0 decode_locals.zero (fun _ => 0)
    (handle_answering 0x0100 (response_frame 0 0 0 0 0)) 0 [⟨1, 0⟩] 1 42 (by decide)

set_option maxRecDepth 100000 in
/-- C16, counterexample.  Two exchanges in which the response passes validation and its id
is none of the matching data response, NAK and UNK, and the call does not return
`BAD_RESPONSE`.  `arcp_get_sysid` answered by the id -3 returns -3 (with a NULL payload).
`arcp_get_sysstat` answered by the id 0x0110, which `arcp_exec_cmd` keeps in an `int8`,
returns 0 with a NULL payload. -/
theorem get_sys_info_other_ids_not_bad_response :
    exchange_ok 8 decode_locals.zero (fun _ => 0)
      (handle_answering 0x0101 (response_frame 0 0xff 0xfd 0 0)) ARCP_CMD_GET_SYSID none 0
      (.response ⟨ARCP_MAGIC_NUMBER, 15, 0, 1, 0x0101⟩ (-3) 0)
      (handle_after 0x0101 example_get_sysid_frame) ∧
    arcp_get_sysid 8 decode_locals.zero (fun _ => 0)
      (handle_answering 0x0101 (response_frame 0 0xff 0xfd 0 0)) none 0 =
      some (-3, none, handle_after 0x0101 example_get_sysid_frame, 1) ∧
    (-3 : Int) ≠ ARCP_ERROR_BAD_RESPONSE ∧
    exchange_ok 8 decode_locals.zero (fun _ => 0)
      (handle_answering 0x0101 (response_frame 0 0x01 0x10 0 0)) ARCP_CMD_GET_SYSSTAT none 0
      (.response ⟨ARCP_MAGIC_NUMBER, 15, 0, 1, 0x0101⟩ 0x0110 0)
      (handle_after 0x0101 example_get_sysstat_frame) ∧
    arcp_get_sysstat 8 decode_locals.zero (fun _ => 0)
      (handle_answering 0x0101 (response_frame 0 0x01 0x10 0 0)) none 0 =
      some (0, none, handle_after 0x0101 example_get_sysstat_frame, 1) :=
  ⟨⟨.command new_cmd_header ARCP_CMD_GET_SYSID,
    .command ⟨ARCP_MAGIC_NUMBER, 13, 0, 0, 0x0101⟩ ARCP_CMD_GET_SYSID,
    handle_sent 0x0101 (response_frame 0 0xff 0xfd 0 0) example_get_sysid_frame,
    rfl, by decide, by decide, by decide⟩, by decide, by decide,
   ⟨.command new_cmd_header ARCP_CMD_GET_SYSSTAT,
    .command ⟨ARCP_MAGIC_NUMBER, 13, 0, 0, 0x0101⟩ ARCP_CMD_GET_SYSSTAT,
    handle_sent 0x0101 (response_frame 0 0x01 0x10 0 0) example_get_sysstat_frame,
    rfl, by decide, by decide, by decide⟩, by decide⟩

/-- C16, amended.  Results of `arcp_get_sysid` and `arcp_get_sysstat`.  In every exchange in
which the call receives a response `resp` that passes validation and whose id lies between
-128 and 127: if the id is the matching data response (SYSID, respectively SYSSTAT) the
call returns 0 and hands the caller the payload of `resp`, which is present; if the id is
NAK or UNK it returns the id with a NULL payload; for any other id from -2 up to 127 (ACK
included) it returns `BAD_RESPONSE` with a NULL payload; an id below -2 is returned as it is,
with a NULL payload.  In every exchange that fails with an error code `e` (a value below
`ARCP_RESP`, returned by the write, the read or the validation) the call returns `e` with a
NULL payload. -/
theorem get_sys_info_results (fuel : Nat) (u : decode_locals) (mem : Nat → Nat)
    (handle : arcp_handle_t) (resp0 : Option arcp_msg_t) (xid : Nat) :
    (∀ resp h2, exchange_ok fuel u mem handle ARCP_CMD_GET_SYSID none xid resp h2 →
      -128 ≤ resp.id → resp.id ≤ 127 →
      arcp_get_sysid fuel u mem handle resp0 xid =
        some (if resp.id = ARCP_RESP_SYSID then 0
              else if resp.id = ARCP_RESP_NAK ∨ resp.id = ARCP_RESP_UNK then resp.id
              else if ARCP_RESP_UNK ≤ resp.id then ARCP_ERROR_BAD_RESPONSE
              else resp.id,
          if resp.id = ARCP_RESP_SYSID then some resp.sysid else none,
          h2, (xid + 1) % 65536)) ∧
    (∀ resp h2, exchange_ok fuel u mem handle ARCP_CMD_GET_SYSSTAT none xid resp h2 →
      -128 ≤ resp.id → resp.id ≤ 127 →
      arcp_get_sysstat fuel u mem handle resp0 xid =
        some (if resp.id = ARCP_RESP_SYSSTAT then 0
              else if resp.id = ARCP_RESP_NAK ∨ resp.id = ARCP_RESP_UNK then resp.id
              else if ARCP_RESP_UNK ≤ resp.id then ARCP_ERROR_BAD_RESPONSE
              else resp.id,
          if resp.id = ARCP_RESP_SYSSTAT then some resp.sysstat else none,
          h2, (xid + 1) % 65536)) ∧
    (∀ e h2, exchange_fails fuel u mem handle ARCP_CMD_GET_SYSID none xid e h2 →
      e < ARCP_RESP →
      arcp_get_sysid fuel u mem handle resp0 xid = some (e, none, h2, (xid + 1) % 65536)) ∧
    (∀ e h2, exchange_fails fuel u mem handle ARCP_CMD_GET_SYSSTAT none xid e h2 →
      e < ARCP_RESP →
      arcp_get_sysstat fuel u mem handle resp0 xid = some (e, none, h2, (xid + 1) % 65536)) := by
  refine ⟨?_, ?_, ?_, ?_⟩
  · intro resp h2 hx hlo hhi
    have hp := (exchange_payload fuel u mem handle _ _ xid resp h2 hx).1
    unfold arcp_get_sysid
    rw [do_get_sys_info_of_exchange fuel u mem handle _ _ resp0 xid resp h2 hx hlo hhi
      (by decide)]
    simp only [ARCP_RESP_SYSID, ARCP_RESP_NAK, ARCP_RESP_UNK, ARCP_RESP_ACK,
      ARCP_ERROR_BAD_RESPONSE, Option.map_some', Option.join, Option.bind, id] at hp ⊢
    by_cases h1 : resp.id = 2
    · simp [h1, hp h1]
    · simp only [h1, if_false, false_or]
  · intro resp h2 hx hlo hhi
    have hp := (exchange_payload fuel u mem handle _ _ xid resp h2 hx).2
    unfold arcp_get_sysstat
    rw [do_get_sys_info_of_exchange fuel u mem handle _ _ resp0 xid resp h2 hx hlo hhi
      (by decide)]
    simp only [ARCP_RESP_SYSSTAT, ARCP_RESP_NAK, ARCP_RESP_UNK, ARCP_RESP_ACK,
      ARCP_ERROR_BAD_RESPONSE, Option.map_some', Option.join, Option.bind, id] at hp ⊢
    by_cases h1 : resp.id = 16
    · simp [h1, hp h1]
    · simp only [h1, if_false, false_or]
  · intro e h2 hx he
    unfold arcp_get_sysid
    rw [do_get_sys_info_of_failure fuel u mem handle _ _ resp0 xid e h2 hx he (by decide)]
    rfl
  · intro e h2 hx he
    unfold arcp_get_sysstat
    rw [do_get_sys_info_of_failure fuel u mem handle _ _ resp0 xid e h2 hx he (by decide)]
    rfl

set_option maxRecDepth 100000 in
/-- C16, witness: `arcp_get_sysid` answered by the `SYSID` response of a BSM returns 0 and
the system id the response carries; answered by nothing at all (the peer has closed the
connection) it returns `CONN_DROPPED` and NULL. -/
theorem get_sys_info_results_witness :
    arcp_get_sysid 8 decode_locals.zero (fun _ => 0)
      (handle_answering 0x0101 example_sysid_frame) none 0 =
      some (0, some example_sysid, handle_after 0x0101 example_get_sysid_frame, 1) ∧
    arcp_get_sysid 8 decode_locals.zero (fun _ => 0) (handle_after 0x0101 []) none 0 =
      some (ARCP_ERROR_CONN_DROPPED, none, handle_after 0x0101 example_get_sysid_frame, 1) := by
  have hx : exchange_ok 8 decode_locals.zero (fun _ => 0)
      (handle_answering 0x0101 example_sysid_frame) ARCP_CMD_GET_SYSID none 0
      (.resp_sysid ⟨ARCP_MAGIC_NUMBER, 24, 0, 1, 0x0101⟩ ARCP_RESP_SYSID 0 example_sysid)
      (handle_after 0x0101 example_get_sysid_frame) :=
    ⟨.command new_cmd_header ARCP_CMD_GET_SYSID,
     .command ⟨ARCP_MAGIC_NUMBER, 13, 0, 0, 0x0101⟩ ARCP_CMD_GET_SYSID,
     handle_sent 0x0101 example_sysid_frame example_get_sysid_frame,
     rfl, by decide, by decide, by decide⟩
  have hf : exchange_fails 8 decode_locals.zero (fun _ => 0) (handle_after 0x0101 [])
      ARCP_CMD_GET_SYSID none 0 ARCP_ERROR_CONN_DROPPED
      (handle_after 0x0101 example_get_sysid_frame) :=
    ⟨by decide, .command new_cmd_header ARCP_CMD_GET_SYSID, rfl,
     Or.inr ⟨.command ⟨ARCP_MAGIC_NUMBER, 13, 0, 0, 0x0101⟩ ARCP_CMD_GET_SYSID,
       handle_after 0x0101 example_get_sysid_frame, by decide, Or.inl ⟨none, by decide⟩⟩⟩
  exact ⟨(get_sys_info_results 8 decode_locals.zero (fun _ => 0)
      (handle_answering 0x0101 example_sysid_frame) none 0).1 _ _ hx (by decide) (by decide),
    (get_sys_info_results 8 decode_locals.zero (fun _ => 0)
      (handle_after 0x0101 []) none 0).2.2.1 _ _ hf (by decide)⟩

/-- C17, counterexample.  For a `SET_PULSE_PARAM` command without pulse code
`arcp_msg_set_stream_size` returns 25, not 11 + 2 + 12 + 2 + 0 = 27. -/
theorem set_pulse_param_size_null_code :
    (arcp_msg_set_stream_size (.cmd_set_pulse_param new_cmd_header ARCP_CMD_SET_PULSE_PARAM 0
      ⟨0, 0, 0, 0, none⟩)).1 = 25 ∧
    (25 : Nat) ≠ 11 + 2 + 12 + 2 + 0 := by decide

/-- C17, amended.  Size of `SET_PULSE_PARAM`: for every `SET_PULSE_PARAM` command (the
length of its pulse code, a `uint16`, being below 65536) `arcp_msg_set_stream_size` returns
11 (header) + 2 (command id) + 10 (fixed fields) + 2 (`code_length`) + ceil(code_length/8),
where the last term is 0 when the pulse code is NULL or has length 0 (25 in all); it stores
that value in `header.msg_length`. -/
theorem set_pulse_param_size (m : arcp_msg_t) (ht : m.header.msg_type = ARCP_MSG_COMMAND)
    (hid : m.id = ARCP_CMD_SET_PULSE_PARAM)
    (hl : ∀ c, m.pulse_param.code = some c → c.code_length < 65536) :
    (arcp_msg_set_stream_size m).1 =
      11 + 2 + 10 + 2 +
        (match m.pulse_param.code with
         | none => 0
         | some c => (c.code_length + 7) / 8) ∧
    (m.pulse_param.code = none ∨ arcp_pulsecode_getlength m.pulse_param.code = 0 →
      (arcp_msg_set_stream_size m).1 = 25) ∧
    (arcp_msg_set_stream_size m).2.header.msg_length = (arcp_msg_set_stream_size m).1 := by
  have key : (arcp_msg_set_stream_size m).1 =
      11 + 2 + 10 + 2 +
        (match m.pulse_param.code with
         | none => 0
         | some c => (c.code_length + 7) / 8) := by
    rw [set_stream_size_cmd m ht]
    unfold stream_size_cmd
    rw [hid]
    rw [if_neg (by decide), if_pos rfl]
    dsimp only
    cases hc : m.pulse_param.code with
    | none => simp [ARCP_HEADER_SIZE]
    | some c =>
      have hlc := hl c hc
      simp only [arcp_pulsecode_getlength, ARCP_HEADER_SIZE, ne_eq, reduceCtorEq,
        not_false_eq_true, true_and]
      by_cases h0 : c.code_length = 0
      · rw [if_neg (fun h => h h0), h0]
      · rw [if_pos h0]
        omega
  refine ⟨key, ?_, set_stream_size_msg_length m⟩
  intro h
  rw [key]
  cases hc : m.pulse_param.code with
  | none => rfl
  | some c =>
    rw [hc] at h
    rcases h with h | h
    · cases h
    · have : c.code_length = 0 := h
      simp [this]

/-- C17, witness: the command `example_pulse_code`, whose pulse code has 12 bits, takes
25 + 2 = 27 bytes. -/
theorem set_pulse_param_size_witness :
    (arcp_msg_set_stream_size example_pulse_code).1 = 27 :=
  (set_pulse_param_size example_pulse_code (by decide) (by decide)
    (fun c hc => by cases hc; decide)).1

/-- C18. Size table: `arcp_msg_set_stream_size` stores the value it returns in
`header.msg_length` and changes nothing else of the message.  For a command the value is 13
plus 1 (`SET_MODULE_ENABLE`, `SET_USRCTL_ENABLE`), 2 + 2 * length (`SET_PULSE_SEQ` of at
most 1024 entries), 2 (`SET_PULSE_SEQ_IDX`), 6 (`SET_TRIG_PARAM`), 4 + 6 * n_phases
(`SET_PHASE` of at most 32 entries), 0 (any id other than these and `SET_PULSE_PARAM`).  For
a response it is 15 plus 7 + 6 (`SYSID` of an STX2), 7 + 2 (`SYSID` of a BSM),
2 + 11 + 2 * n_fans + n_heatsink_temps (`SYSSTAT` of a BSM with at most 8 fans and 8
temperatures), 2 + 13 + 2 * n_chassis_fans + the sum over the RF cards of
5 + 4 * n_rf_outputs + the sum over the units of 2, plus 2 + n_temperatures + 4 * n_outputs
for a combiner (`SYSSTAT` of an STX2 with at most 8 fans, 9 cards of at most 8 outputs, 10
units, and combiners of at most 4 temperatures and 6 outputs), 0 (any id other than `SYSID`
and `SYSSTAT`). -/
theorem stream_size_table (m : arcp_msg_t) :
    (m.header.msg_type = ARCP_MSG_COMMAND →
      (m.id = ARCP_CMD_SET_MODULE_ENABLE ∨ m.id = ARCP_CMD_SET_USRCTL_ENABLE →
        (arcp_msg_set_stream_size m).1 = 13 + 1) ∧
      (m.id = ARCP_CMD_SET_PULSE_SEQ → m.seq.length ≤ 1024 →
        (arcp_msg_set_stream_size m).1 = 13 + (2 + 2 * m.seq.length)) ∧
      (m.id = ARCP_CMD_SET_PULSE_SEQ_IDX → (arcp_msg_set_stream_size m).1 = 13 + 2) ∧
      (m.id = ARCP_CMD_SET_TRIG_PARAM → (arcp_msg_set_stream_size m).1 = 13 + 6) ∧
      (m.id = ARCP_CMD_SET_PHASE → m.n_phases ≤ 32 →
        (arcp_msg_set_stream_size m).1 = 13 + (4 + 6 * m.n_phases)) ∧
      (m.id ≠ ARCP_CMD_SET_MODULE_ENABLE → m.id ≠ ARCP_CMD_SET_USRCTL_ENABLE →
        m.id ≠ ARCP_CMD_SET_PULSE_PARAM → m.id ≠ ARCP_CMD_SET_PULSE_SEQ →
        m.id ≠ ARCP_CMD_SET_PULSE_SEQ_IDX → m.id ≠ ARCP_CMD_SET_TRIG_PARAM →
        m.id ≠ ARCP_CMD_SET_PHASE → (arcp_msg_set_stream_size m).1 = 13 + 0)) ∧
    (m.header.msg_type = ARCP_MSG_RESPONSE →
      (m.id = ARCP_RESP_SYSID → m.sysid.module_type = ARCP_MODULE_STX2 →
        (arcp_msg_set_stream_size m).1 = 15 + (7 + 6)) ∧
      (m.id = ARCP_RESP_SYSID → m.sysid.module_type = ARCP_MODULE_BSM →
        (arcp_msg_set_stream_size m).1 = 15 + (7 + 2)) ∧
      (m.id = ARCP_RESP_SYSSTAT → m.sysstat.module_type = ARCP_MODULE_BSM →
        m.sysstat.bsm.n_fans ≤ 8 → m.sysstat.bsm.n_heatsink_temps ≤ 8 →
        (arcp_msg_set_stream_size m).1 =
          15 + (2 + 11 + 2 * m.sysstat.bsm.n_fans + m.sysstat.bsm.n_heatsink_temps)) ∧
      (m.id = ARCP_RESP_SYSSTAT → m.sysstat.module_type = ARCP_MODULE_STX2 →
        m.sysstat.stx2.n_chassis_fans ≤ 8 → m.sysstat.stx2.n_rf_cards ≤ 9 →
        (∀ i, i < m.sysstat.stx2.n_rf_cards →
          (m.sysstat.stx2.rf_card_stat.getD i arcp_rf_card_stat_t.zero).n_rf_outputs ≤ 8) →
        m.sysstat.stx2.n_units ≤ 10 →
        (∀ i, i < m.sysstat.stx2.n_units →
          (m.sysstat.stx2.unit_stat.getD i arcp_stx2unit_union_t.zero).unit_v.type
            = ARCP_STX2_UNIT_EXT_COMBINER_SPLITTER →
          (m.sysstat.stx2.unit_stat.getD i arcp_stx2unit_union_t.zero).comb_v.n_temperatures
            ≤ 4 ∧
          (m.sysstat.stx2.unit_stat.getD i arcp_stx2unit_union_t.zero).comb_v.n_outputs ≤ 6) →
        (arcp_msg_set_stream_size m).1 =
          15 + (2 + 13 + 2 * m.sysstat.stx2.n_chassis_fans
            + range_sum m.sysstat.stx2.n_rf_cards (fun i => 5 + 4 *
                (m.sysstat.stx2.rf_card_stat.getD i arcp_rf_card_stat_t.zero).n_rf_outputs)
            + range_sum m.sysstat.stx2.n_units (fun i => 2 +
                (if (m.sysstat.stx2.unit_stat.getD i arcp_stx2unit_union_t.zero).unit_v.type
                    = ARCP_STX2_UNIT_EXT_COMBINER_SPLITTER
                then 2 +
                  (m.sysstat.stx2.unit_stat.getD i
                    arcp_stx2unit_union_t.zero).comb_v.n_temperatures
                  + 4 * (m.sysstat.stx2.unit_stat.getD i
                    arcp_stx2unit_union_t.zero).comb_v.n_outputs
                else 0)))) ∧
      (m.id ≠ ARCP_RESP_SYSID → m.id ≠ ARCP_RESP_SYSSTAT →
        (arcp_msg_set_stream_size m).1 = 15 + 0)) ∧
    (arcp_msg_set_stream_size m).2.header.msg_length = (arcp_msg_set_stream_size m).1 ∧
    (arcp_msg_set_stream_size m).2 =
      m.set_header { m.header with msg_length := (arcp_msg_set_stream_size m).1 } := by
  refine ⟨fun ht => ?_, fun ht => ?_, set_stream_size_msg_length m, rfl⟩
  · rw [set_stream_size_cmd m ht]
    unfold stream_size_cmd
    simp only [ARCP_CMD_SET_MODULE_ENABLE, ARCP_CMD_SET_USRCTL_ENABLE,
      ARCP_CMD_SET_PULSE_PARAM, ARCP_CMD_SET_PULSE_SEQ, ARCP_CMD_SET_PULSE_SEQ_IDX,
      ARCP_CMD_SET_TRIG_PARAM, ARCP_CMD_SET_PHASE, ARCP_HEADER_SIZE]
    refine ⟨?_, ?_, ?_, ?_, ?_, ?_⟩
    · intro h
      rw [if_pos h]
    · intro h hl
      rw [h]
      simp only [if_neg (show ¬ ((258 : Int) = 32 ∨ (258 : Int) = 496) by decide),
        if_neg (show ¬ (258 : Int) = 257 by decide), if_true]
      omega
    · intro h
      rw [h]
      simp only [if_neg (show ¬ ((259 : Int) = 32 ∨ (259 : Int) = 496) by decide),
        if_neg (show ¬ (259 : Int) = 257 by decide),
        if_neg (show ¬ (259 : Int) = 258 by decide), if_true]
    · intro h
      rw [h]
      simp only [if_neg (show ¬ ((272 : Int) = 32 ∨ (272 : Int) = 496) by decide),
        if_neg (show ¬ (272 : Int) = 257 by decide),
        if_neg (show ¬ (272 : Int) = 258 by decide),
        if_neg (show ¬ (272 : Int) = 259 by decide), if_true]
    · intro h hl
      rw [h]
      simp only [if_neg (show ¬ ((512 : Int) = 32 ∨ (512 : Int) = 496) by decide),
        if_neg (show ¬ (512 : Int) = 257 by decide),
        if_neg (show ¬ (512 : Int) = 258 by decide),
        if_neg (show ¬ (512 : Int) = 259 by decide),
        if_neg (show ¬ (512 : Int) = 272 by decide), if_true]
      omega
    · intro n1 n2 n3 n4 n5 n6 n7
      rw [if_neg (by rintro (h | h); exact n1 h; exact n2 h), if_neg n3, if_neg n4,
        if_neg n5, if_neg n6, if_neg n7]
  · rw [set_stream_size_resp m ht]
    unfold stream_size_resp
    simp only [ARCP_RESP_SYSID, ARCP_RESP_SYSSTAT, ARCP_HEADER_SIZE, ARCP_MODULE_STX2,
      ARCP_MODULE_BSM]
    refine ⟨?_, ?_, ?_, ?_, ?_⟩
    · intro h hm
      rw [if_pos h]
      rw [if_pos hm]
    · intro h hm
      rw [if_pos h]
      rw [hm, if_neg (by decide), if_pos rfl]
    · intro h hm hf ht2
      rw [h, if_neg (by decide), if_pos rfl]
      rw [hm, if_neg (by decide), if_pos rfl]
      omega
    · intro h hm hf hc ho hu hcomb
      rw [h, if_neg (by decide), if_pos rfl]
      rw [if_pos hm, stream_size_stx2_eq _ _ (by omega) hf hc ho hu hcomb]
      omega
    · intro n1 n2
      rw [if_neg n1, if_neg n2]

/-- C18, witness: the `SYSSTAT` response `example_stx2_sysstat` (one fan, one RF card with
two outputs, a plain unit and a combiner with two temperatures and one output) takes
15 + 2 + 13 + 2 + 13 + (2 + 10) = 57 bytes. -/
theorem stream_size_table_witness :
    (arcp_msg_set_stream_size example_stx2_sysstat).1 = 57 :=
  ((stream_size_table example_stx2_sysstat).2.1 (by decide)).2.2.2.1 (by decide) (by decide)
    (by decide) (by decide) (by decide) (by decide) (by decide)

set_option maxRecDepth 100000 in
/-- C19.  Unknown ids are accepted.  A stream holds at most `ARCP_MSG_MAX_SIZE` = 1024
bytes: `arcp_stream_setsize` allocates no more.  For every stream of at least 13 bytes whose
`msg_type` byte is 0 and whose command id is none of 0x0020, 0x0101, 0x0102, 0x0103, 0x0110,
0x01f0 and 0x0200, `arcp_stream_decode` returns 0 (whatever the fuel) and a command that
carries exactly that id and the header fields of the wire; the bytes after the id are not
read.  For every stream of at least 15 bytes whose `msg_type` byte is 1 and whose response
id is neither 0x02 nor 0x10, it returns 0 and a response that carries exactly that id and
`info_code`. -/
theorem stream_decode_unknown_ids (fuel : Nat) (u : decode_locals)
    (b0 b1 b2 b3 b4 b5 b6 b7 b8 b9 b10 i0 i1 : Nat) :
    (∀ rest : List Nat, rest.length + 13 ≤ 1024 → b8 % 256 = 0 →
      int16_of ((i0 * 256 + i1 : Nat) : Int) ≠ ARCP_CMD_SET_MODULE_ENABLE →
      int16_of ((i0 * 256 + i1 : Nat) : Int) ≠ ARCP_CMD_SET_PULSE_PARAM →
      int16_of ((i0 * 256 + i1 : Nat) : Int) ≠ ARCP_CMD_SET_PULSE_SEQ →
      int16_of ((i0 * 256 + i1 : Nat) : Int) ≠ ARCP_CMD_SET_PULSE_SEQ_IDX →
      int16_of ((i0 * 256 + i1 : Nat) : Int) ≠ ARCP_CMD_SET_TRIG_PARAM →
      int16_of ((i0 * 256 + i1 : Nat) : Int) ≠ ARCP_CMD_SET_USRCTL_ENABLE →
      int16_of ((i0 * 256 + i1 : Nat) : Int) ≠ ARCP_CMD_SET_PHASE →
      arcp_stream_decode fuel u (stream_of_bytes (b0 :: b1 :: b2 :: b3 :: b4 :: b5 :: b6 :: b7
          :: b8 :: b9 :: b10 :: i0 :: i1 :: rest)) =
        some (0, strm [b0, b1, b2, b3, b4, b5, b6, b7, b8, b9, b10, i0, i1] rest,
          some (.command
            { magic_num := (((b0 * 256 + b1) * 256 + b2) * 256 + b3) % 4294967296,
              msg_length := (b4 * 256 + b5) % 65536,
              exchange_id := (b6 * 256 + b7) % 65536,
              msg_type := 0,
              protocol_version := (b9 * 256 + b10) % 65536 }
            (int16_of ((i0 * 256 + i1 : Nat) : Int))))) ∧
    (∀ (c0 c1 : Nat) (rest : List Nat), rest.length + 15 ≤ 1024 → b8 % 256 = 1 →
      int16_of ((i0 * 256 + i1 : Nat) : Int) ≠ ARCP_RESP_SYSID →
      int16_of ((i0 * 256 + i1 : Nat) : Int) ≠ ARCP_RESP_SYSSTAT →
      arcp_stream_decode fuel u (stream_of_bytes (b0 :: b1 :: b2 :: b3 :: b4 :: b5 :: b6 :: b7
          :: b8 :: b9 :: b10 :: i0 :: i1 :: c0 :: c1 :: rest)) =
        some (0, strm [b0, b1, b2, b3, b4, b5, b6, b7, b8, b9, b10, i0, i1, c0, c1] rest,
          some (.response
            { magic_num := (((b0 * 256 + b1) * 256 + b2) * 256 + b3) % 4294967296,
              msg_length := (b4 * 256 + b5) % 65536,
              exchange_id := (b6 * 256 + b7) % 65536,
              msg_type := 1,
              protocol_version := (b9 * 256 + b10) % 65536 }
            (int16_of ((i0 * 256 + i1 : Nat) : Int))
            (int16_of ((c0 * 256 + c1 : Nat) : Int))))) := by
  constructor
  · intro rest hlen h8 n1 n2 n3 n4 n5 n6 n7
    rw [stream_of_bytes_eq, stream_decode_header_cmd fuel u _ _ _ _ _ _ _ _ _ _ _ _
      (by simp only [List.length_cons]; omega) h8,
      decode_cmd_plain fuel u _ _ _ _ _ n1 n2 n3 n4 n5 n6 n7]
    simp only [Option.map_some', decode_result, lt_self_iff_false, if_false,
      List.cons_append, List.nil_append, arcp_msg_t.set_id]
  · intro c0 c1 rest hlen h8 n1 n2
    rw [stream_of_bytes_eq, stream_decode_header_resp fuel u _ _ _ _ _ _ _ _ _ _ _ _
      (by simp only [List.length_cons]; omega) h8]
    unfold decode_arcp_resp
    dsimp only
    rw [get_int16_strm]
    dsimp only
    have hs : ∀ (h : arcp_msg_header_t) (id : Int), h.msg_type = 1 →
        arcp_msg_set_resp_id (.response h (-1) 0) id = (0, .response h id 0) := by
      intro h id ht
      unfold arcp_msg_set_resp_id
      rw [if_neg (by simp only [arcp_msg_t.header, ht, ARCP_MSG_RESPONSE, ne_eq,
        not_true_eq_false, not_false_eq_true]), if_neg (by simp [arcp_msg_t.id])]
      rfl
    rw [hs _ _ rfl]
    dsimp only
    rw [if_neg (by decide), get_int16_strm]
    dsimp only
    rw [response_id, if_neg n1, if_neg n2, decode_finish_strm]
    simp only [decode_result, lt_self_iff_false, if_false, List.cons_append, List.nil_append,
      List.append_assoc, response_header]

/-- C19, witness: the 13 bytes of a command with the id 0x0030 followed by two more bytes
decode to a command with that id; the two bytes stay unread. -/
theorem stream_decode_unknown_ids_witness :
    arcp_stream_decode 0 decode_locals.zero (stream_of_bytes
        [0x41, 0x52, 0x43, 0x50, 0, 15, 0, 7, 0, 1, 1, 0x00, 0x30, 9, 9]) =
      some (0, strm [0x41, 0x52, 0x43, 0x50, 0, 15, 0, 7, 0, 1, 1, 0x00, 0x30] [9, 9],
        some (.command ⟨ARCP_MAGIC_NUMBER, 15, 7, 0, 0x0101⟩ 0x0030)) :=
  (stream_decode_unknown_ids 0 decode_locals.zero 0x41 0x52 0x43 0x50 0 15 0 7 0 1 1 0x00
    0x30).1 [9, 9] (by decide) (by decide) (by decide) (by decide) (by decide) (by decide)
    (by decide) (by decide) (by decide)

/-- C20. Null pulse code.  Encoding a `SET_PULSE_PARAM` command whose pulse code is NULL
succeeds and gives a stream of 25 bytes: the header, the id 01 01, the ten bytes of the
fixed fields and the `code_length` 00 00, with no code byte after it.  Decoding a
`SET_PULSE_PARAM` frame (25 to 1024 bytes, type 0, id 0x0101) whose `code_length` field is 0
returns 0 (whatever the fuel) and a command whose pulse code is NULL, the other fields
being those of the wire. -/
theorem null_pulse_code :
    (∀ (mem : Nat → Nat) (h : arcp_msg_header_t) (x : Nat) (p : arcp_pulse_t),
      h.msg_type = ARCP_MSG_COMMAND → p.code = none →
      ∃ s, arcp_msg_encode mem (.cmd_set_pulse_param h ARCP_CMD_SET_PULSE_PARAM x p) =
          (0, some s,
            .cmd_set_pulse_param { h with msg_length := 25 } ARCP_CMD_SET_PULSE_PARAM x p) ∧
        s.size = 25 ∧ s.data.length = 25 ∧
        s.data = wire_header { h with msg_length := 25 } ++ [0x01, 0x01]
          ++ [uint8_of x, uint8_of p.pulse_shape] ++ be16 (uint16_of p.pulse_ampl)
          ++ be16 (uint16_of p.pulse_options) ++ be32 (uint32_of p.pulse_width_ns)
          ++ [0, 0] ∧
        s.data.drop 23 = [0, 0]) ∧
    (∀ (fuel : Nat) (u : decode_locals)
      (b0 b1 b2 b3 b4 b5 b6 b7 b8 b9 b10 i0 i1 x s a0 a1 o0 o1 w0 w1 w2 w3 l0 l1 : Nat)
      (rest : List Nat), rest.length + 25 ≤ 1024 → b8 % 256 = 0 →
      int16_of ((i0 * 256 + i1 : Nat) : Int) = ARCP_CMD_SET_PULSE_PARAM →
      (l0 * 256 + l1) % 65536 = 0 →
      arcp_stream_decode fuel u (stream_of_bytes (b0 :: b1 :: b2 :: b3 :: b4 :: b5 :: b6 :: b7
          :: b8 :: b9 :: b10 :: i0 :: i1 :: x :: s :: a0 :: a1 :: o0 :: o1 :: w0 :: w1 :: w2
          :: w3 :: l0 :: l1 :: rest)) =
        some (0, strm [b0, b1, b2, b3, b4, b5, b6, b7, b8, b9, b10, i0, i1, x, s, a0, a1, o0,
            o1, w0, w1, w2, w3, l0, l1] rest,
          some (.cmd_set_pulse_param
            { magic_num := (((b0 * 256 + b1) * 256 + b2) * 256 + b3) % 4294967296,
              msg_length := (b4 * 256 + b5) % 65536,
              exchange_id := (b6 * 256 + b7) % 65536,
              msg_type := 0,
              protocol_version := (b9 * 256 + b10) % 65536 }
            ARCP_CMD_SET_PULSE_PARAM (x % 256)
            { pulse_shape := int8_of s,
              pulse_ampl := (a0 * 256 + a1) % 65536,
              pulse_options := (o0 * 256 + o1) % 65536,
              pulse_width_ns := (((w0 * 256 + w1) * 256 + w2) * 256 + w3) % 4294967296,
              code := none }))) := by
  constructor
  · intro mem h x p ht hc
    refine ⟨_, msg_encode_null_code mem h x p ht hc, ?_, ?_, rfl, ?_⟩
    · simp [strm_size, wire_header]
    · simp [strm_data, wire_header]
    · simp [strm_data, wire_header, be32, be16]
  · intro fuel u b0 b1 b2 b3 b4 b5 b6 b7 b8 b9 b10 i0 i1 x s a0 a1 o0 o1 w0 w1 w2 w3 l0 l1
      rest hlen h8 hid hl
    exact stream_decode_null_code fuel u b0 b1 b2 b3 b4 b5 b6 b7 b8 b9 b10 i0 i1 x s a0 a1 o0
      o1 w0 w1 w2 w3 l0 l1 rest hlen h8 hid hl

set_option maxRecDepth 100000 in
/-- C20, witness: a command without pulse code (slot 2, shape 1, amplitude 1000, width
13000 ns) and the 25 bytes it is encoded to, which decode to the same command. -/
theorem null_pulse_code_witness :
    arcp_msg_encode (fun _ => 0) (.cmd_set_pulse_param ⟨ARCP_MAGIC_NUMBER, 0, 3, 0, 0x0101⟩
        ARCP_CMD_SET_PULSE_PARAM 2 ⟨1, 1000, 0, 13000, none⟩) =
      (0, some (strm [0x41, 0x52, 0x43, 0x50, 0, 25, 0, 3, 0, 1, 1, 0x01, 0x01, 2, 1, 3, 232,
          0, 0, 0, 0, 50, 200, 0, 0] []),
        .cmd_set_pulse_param ⟨ARCP_MAGIC_NUMBER, 25, 3, 0, 0x0101⟩
          ARCP_CMD_SET_PULSE_PARAM 2 ⟨1, 1000, 0, 13000, none⟩) ∧
    arcp_stream_decode 0 decode_locals.zero (stream_of_bytes
        [0x41, 0x52, 0x43, 0x50, 0, 25, 0, 3, 0, 1, 1, 0x01, 0x01, 2, 1, 3, 232,
          0, 0, 0, 0, 50, 200, 0, 0]) =
      some (0, strm [0x41, 0x52, 0x43, 0x50, 0, 25, 0, 3, 0, 1, 1, 0x01, 0x01, 2, 1, 3, 232,
          0, 0, 0, 0, 50, 200, 0, 0] [],
        some (.cmd_set_pulse_param ⟨ARCP_MAGIC_NUMBER, 25, 3, 0, 0x0101⟩
          ARCP_CMD_SET_PULSE_PARAM 2 ⟨1, 1000, 0, 13000, none⟩)) := by
  obtain ⟨s, he, _, _, hd, _⟩ := null_pulse_code.1 (fun _ => 0)
    ⟨ARCP_MAGIC_NUMBER, 0, 3, 0, 0x0101⟩ 2 ⟨1, 1000, 0, 13000, none⟩ (by decide) rfl
  refine ⟨by decide, ?_⟩
  exact null_pulse_code.2 0 decode_locals.zero 0x41 0x52 0x43 0x50 0 25 0 3 0 1 1 0x01 0x01 2 1
    3 232 0 0 0 0 50 200 0 0 [] (by decide) (by decide) (by decide) (by decide)


/-! ## Theorems about the transport errors, the ASCII sideband, the replies and the containers -/

/-- C21, the failing input.  The socket delivers the magic, the length 15 and three of
the nine bytes of the body, after which the peer closes the connection (first and third
part) or the read times out (second and fourth part): `arcp_socket_process` and
`arcp_msg_read` return `BADMSG`, not `CONN_DROPPED` and `CONN_TIMEOUT`.  When the same
happens two bytes earlier, while the length is read, the call returns `CONN_DROPPED` and
`CONN_TIMEOUT` (last two parts). -/
theorem socket_process_body_error_is_badmsg :
    arcp_socket_process 8 (fun _ => 0)
        { rx := [.data [0x41, 0x52, 0x43, 0x50, 0, 15, 0, 42, 1], .closed] } true false
      = some (ARCP_ERROR_BADMSG, none, none, { rx := [.closed] }) ∧
    arcp_socket_process 8 (fun _ => 0)
        { rx := [.data [0x41, 0x52, 0x43, 0x50, 0, 15, 0, 42, 1], .error .EWOULDBLOCK] }
        true false
      = some (ARCP_ERROR_BADMSG, none, none, { rx := [] }) ∧
    arcp_msg_read 8 decode_locals.zero (fun _ => 0)
        ⟨{ rx := [.data [0x41, 0x52, 0x43, 0x50, 0, 15, 0, 42, 1], .closed] }, 0x0101⟩
      = some (ARCP_ERROR_BADMSG, none, ⟨{ rx := [.closed] }, 0x0101⟩) ∧
    arcp_msg_read 8 decode_locals.zero (fun _ => 0)
        ⟨{ rx := [.data [0x41, 0x52, 0x43, 0x50, 0, 15, 0, 42, 1], .error .EWOULDBLOCK] },
          0x0101⟩
      = some (ARCP_ERROR_BADMSG, none, ⟨{ rx := [] }, 0x0101⟩) ∧
    arcp_socket_process 8 (fun _ => 0)
        { rx := [.data [0x41, 0x52, 0x43, 0x50, 0], .closed] } true false
      = some (ARCP_ERROR_CONN_DROPPED, none, none, { rx := [.closed] }) ∧
    arcp_socket_process 8 (fun _ => 0)
        { rx := [.data [0x41, 0x52, 0x43, 0x50, 0], .error .EWOULDBLOCK] } true false
      = some (ARCP_ERROR_CONN_TIMEOUT, none, none, { rx := [] }) := by
  refine ⟨by decide, by decide, by decide, by decide, by decide, by decide⟩

/-- C22. ASCII sideband: with ASCII mode enabled (`ascii_msg` given, with or without
`stream`), when the socket delivers `n ≤ 3` octets none of which is LF, followed by LF, in
whatever segments and with whatever interrupted calls in between, `arcp_socket_process`
returns 0 and delivers as `*ascii_msg` those `n` bytes, without the last one if that is
CR, followed by the terminating NUL; it delivers no stream and takes exactly those `n + 1`
bytes from the socket.  `arcp_ascii_read` hands on the same.  When the socket delivers four
octets none of which is LF and, if `stream` is given as well, which are not the magic
number, `arcp_socket_process` returns `BADMSG` after taking those four bytes. -/
theorem socket_process_ascii (fuel : Nat) (mem : Nat → Nat) (fd : arcp_socket_t)
    (rx2 : List recv_event) (hfuel : fd.rx.length + 5 ≤ fuel) :
    (∀ (want_stream : Bool) (bs : List Nat), bs.length ≤ 3 → (∀ b ∈ bs, b < 256 ∧ b ≠ 10) →
      delivers fd.rx (bs ++ [10]) rx2 →
      arcp_socket_process fuel mem fd want_stream true =
        some (0, none, some ((if bs.getLast? = some 13 then bs.dropLast else bs) ++ [0]),
          { fd with rx := rx2 })) ∧
    (∀ (version : Nat) (bs : List Nat), bs.length ≤ 3 → (∀ b ∈ bs, b < 256 ∧ b ≠ 10) →
      delivers fd.rx (bs ++ [10]) rx2 →
      arcp_ascii_read fuel mem ⟨fd, version⟩ =
        some (0, some ((if bs.getLast? = some 13 then bs.dropLast else bs) ++ [0]),
          ⟨{ fd with rx := rx2 }, version⟩)) ∧
    (∀ (want_stream : Bool) (a b c d : Nat), a < 256 ∧ a ≠ 10 → b < 256 ∧ b ≠ 10 →
      c < 256 ∧ c ≠ 10 → d < 256 ∧ d ≠ 10 →
      (want_stream = true → ¬ (a = 0x41 ∧ b = 0x52 ∧ c = 0x43 ∧ d = 0x50)) →
      delivers fd.rx [a, b, c, d] rx2 →
      arcp_socket_process fuel mem fd want_stream true =
        some (ARCP_ERROR_BADMSG, none, none, { fd with rx := rx2 })) := by
  have hline : ∀ (want_stream : Bool) (bs : List Nat), bs.length ≤ 3 →
      (∀ b ∈ bs, b < 256 ∧ b ≠ 10) → delivers fd.rx (bs ++ [10]) rx2 →
      arcp_socket_process fuel mem fd want_stream true =
        some (0, none, some ((if bs.getLast? = some 13 then bs.dropLast else bs) ++ [0]),
          { fd with rx := rx2 }) := by
    intro want_stream bs hn hbs hd
    have hf : (if want_stream then 3 else 2) = 2 ∨ (if want_stream then 3 else 2) = 3 := by
      cases want_stream <;> simp
    have hsync := sync_loop_line _ hf fuel fd bs rx2 hn hbs hd hfuel
    rw [socket_process_ascii_eval mem fd want_stream _ _ rfl hsync]
    dsimp only
    rw [ascii_line_of_state bs hn hbs]
  refine ⟨hline, ?_, ?_⟩
  · intro version bs hn hbs hd
    unfold arcp_ascii_read
    rw [hline false bs hn hbs hd]
    rfl
  · intro want_stream a b c d ha hb hc hd hmagic hdel
    have hf : (if want_stream then 3 else 2) = 2 ∨ (if want_stream then 3 else 2) = 3 := by
      cases want_stream <;> simp
    have hsync := sync_loop_four _ hf fuel fd a b c d rx2 ha hb hc hd hdel hfuel
    rw [socket_process_pending_eval mem fd want_stream _ _ ?_ hsync]
    unfold sync_pending
    cases want_stream
    · simp [MSG_ARCP, MSG_ASCII, hd.2]
    · have hne : ((a * 256 + b) * 256 + c) * 256 + d ≠ ARCP_MAGIC_NUMBER := by
        simp only [ARCP_MAGIC_NUMBER]
        have := hmagic rfl
        omega
      simp [MSG_ARCP, MSG_ASCII, hd.2, hne]

theorem socket_process_ascii_witness :
    arcp_socket_process 8 (fun _ => 0)
        { rx := [.data [0x4f], .error .EINTR, .data [0x4b, 13, 10, 0x41]] } true true
      = some (0, none, some [0x4f, 0x4b, 0], { rx := [.data [0x41]] }) ∧
    arcp_socket_process 8 (fun _ => 0) { rx := [.data [0x4f, 0x4b, 10, 0x41]] } false true
      = some (0, none, some [0x4f, 0x4b, 0], { rx := [.data [0x41]] }) ∧
    arcp_socket_process 8 (fun _ => 0) { rx := [.data [0x4f, 0x4b, 0x4f, 0x4b, 0x41]] }
        false true
      = some (ARCP_ERROR_BADMSG, none, none, { rx := [.data [0x41]] }) :=
  ⟨(socket_process_ascii 8 (fun _ => 0)
      { rx := [.data [0x4f], .error .EINTR, .data [0x4b, 13, 10, 0x41]] } [.data [0x41]]
      (by decide)).1 true [0x4f, 0x4b, 13] (by decide) (by decide)
      (.byte 0x4f [] _ _ _ (.interrupted _ _ _ _
        (.byte 0x4b _ _ _ _ (.byte 13 _ _ _ _ (.byte 10 _ _ _ _ (.done _)))))),
   (socket_process_ascii 8 (fun _ => 0) { rx := [.data [0x4f, 0x4b, 10, 0x41]] }
      [.data [0x41]] (by decide)).1 false [0x4f, 0x4b] (by decide) (by decide)
      (.byte 0x4f _ _ _ _ (.byte 0x4b _ _ _ _ (.byte 10 _ _ _ _ (.done _)))),
   (socket_process_ascii 8 (fun _ => 0) { rx := [.data [0x4f, 0x4b, 0x4f, 0x4b, 0x41]] }
      [.data [0x41]] (by decide)).2.2 false 0x4f 0x4b 0x4f 0x4b (by decide) (by decide)
      (by decide) (by decide) (by decide)
      (.byte 0x4f _ _ _ _ (.byte 0x4b _ _ _ _ (.byte 0x4f _ _ _ _
        (.byte 0x4b _ _ _ _ (.done _)))))⟩

/-- C23. Slave-side replies: for every handle at version `c` and every command `cmd`,
whenever `arcp_send_ack`, `arcp_send_nak` (with `code`) or `arcp_send_unk` returns, the
handle's version is `min c cmd.protocol_version` and nothing has been read; when it
returns 0, what it has sent is exactly one frame of 15 bytes: the magic number, the length
15, the exchange id of `cmd`, type 1 (response), the version `min c cmd.protocol_version`,
the id ACK, NAK or UNK and the information code 0, `code` or 0.  It returns 0 when the
socket takes the bytes it is offered.  When `cmd` is NULL or is not a command, the three
functions return `INTERNAL` and leave the handle, and so what has been sent, as it was. -/
theorem send_reply_frames (fuel : Nat) (mem : Nat → Nat) (handle : arcp_handle_t)
    (cmd : arcp_msg_t) (code : Int)
    (hcmd : cmd.header.msg_type = ARCP_MSG_COMMAND)
    (hx : cmd.header.exchange_id < 65536) (hv : handle.connection_arcp_version < 65536) :
    (∀ e h2, arcp_send_ack fuel mem handle (some cmd) = some (e, h2) →
      h2.connection_arcp_version
        = min handle.connection_arcp_version cmd.header.protocol_version ∧
      h2.fd.rx = handle.fd.rx ∧
      (e = 0 → h2.fd.sent = handle.fd.sent ++ simple_response_frame cmd.header.exchange_id
        (min handle.connection_arcp_version cmd.header.protocol_version) ARCP_RESP_ACK 0)) ∧
    (∀ e h2, arcp_send_nak fuel mem handle (some cmd) code = some (e, h2) →
      h2.connection_arcp_version
        = min handle.connection_arcp_version cmd.header.protocol_version ∧
      h2.fd.rx = handle.fd.rx ∧
      (e = 0 → h2.fd.sent = handle.fd.sent ++ simple_response_frame cmd.header.exchange_id
        (min handle.connection_arcp_version cmd.header.protocol_version) ARCP_RESP_NAK code)) ∧
    (∀ e h2, arcp_send_unk fuel mem handle (some cmd) = some (e, h2) →
      h2.connection_arcp_version
        = min handle.connection_arcp_version cmd.header.protocol_version ∧
      h2.fd.rx = handle.fd.rx ∧
      (e = 0 → h2.fd.sent = handle.fd.sent ++ simple_response_frame cmd.header.exchange_id
        (min handle.connection_arcp_version cmd.header.protocol_version) ARCP_RESP_UNK 0)) ∧
    (handle.fd.tx = [] → 2 ≤ fuel →
      arcp_send_ack fuel mem handle (some cmd) = some (0,
        ⟨⟨handle.fd.rx, handle.fd.tx, handle.fd.sent ++ simple_response_frame
            cmd.header.exchange_id
            (min handle.connection_arcp_version cmd.header.protocol_version) ARCP_RESP_ACK 0⟩,
          min handle.connection_arcp_version cmd.header.protocol_version⟩) ∧
      arcp_send_nak fuel mem handle (some cmd) code = some (0,
        ⟨⟨handle.fd.rx, handle.fd.tx, handle.fd.sent ++ simple_response_frame
            cmd.header.exchange_id
            (min handle.connection_arcp_version cmd.header.protocol_version) ARCP_RESP_NAK
            code⟩,
          min handle.connection_arcp_version cmd.header.protocol_version⟩) ∧
      arcp_send_unk fuel mem handle (some cmd) = some (0,
        ⟨⟨handle.fd.rx, handle.fd.tx, handle.fd.sent ++ simple_response_frame
            cmd.header.exchange_id
            (min handle.connection_arcp_version cmd.header.protocol_version) ARCP_RESP_UNK 0⟩,
          min handle.connection_arcp_version cmd.header.protocol_version⟩)) ∧
    (∀ m : arcp_msg_t, m.header.msg_type ≠ ARCP_MSG_COMMAND →
      arcp_send_ack fuel mem handle (some m) = some (ARCP_ERROR_INTERNAL, handle) ∧
      arcp_send_nak fuel mem handle (some m) code = some (ARCP_ERROR_INTERNAL, handle) ∧
      arcp_send_unk fuel mem handle (some m) = some (ARCP_ERROR_INTERNAL, handle)) ∧
    (arcp_send_ack fuel mem handle none = some (ARCP_ERROR_INTERNAL, handle) ∧
      arcp_send_nak fuel mem handle none code = some (ARCP_ERROR_INTERNAL, handle) ∧
      arcp_send_unk fuel mem handle none = some (ARCP_ERROR_INTERNAL, handle)) := by
  have hack := exec_resp_simple_facts fuel mem handle cmd ARCP_RESP_ACK 0 hcmd hx hv
    (Or.inr (Or.inr rfl))
  have hnak := exec_resp_simple_facts fuel mem handle cmd ARCP_RESP_NAK code hcmd hx hv
    (Or.inr (Or.inl rfl))
  have hunk := exec_resp_simple_facts fuel mem handle cmd ARCP_RESP_UNK 0 hcmd hx hv
    (Or.inl rfl)
  have hany : ∀ (id c : Int) (e : Int) (h2 : arcp_handle_t),
      (arcp_exec_resp fuel mem handle (some cmd) id none c).map (fun r => (r.1, r.2.2))
        = some (e, h2) →
      ∃ r, arcp_exec_resp fuel mem handle (some cmd) id none c = some (e, r, h2) := by
    intro id c e h2 h
    cases hr : arcp_exec_resp fuel mem handle (some cmd) id none c with
    | none => rw [hr] at h; simp at h
    | some w =>
      rw [hr] at h
      simp only [Option.map_some', Option.some.injEq, Prod.mk.injEq] at h
      exact ⟨w.2.1, by rw [← h.1, ← h.2]⟩
  refine ⟨?_, ?_, ?_, ?_, ?_, ?_⟩
  · intro e h2 h
    obtain ⟨r, hr⟩ := hany _ _ e h2 h
    exact hack.1 e r h2 hr
  · intro e h2 h
    obtain ⟨r, hr⟩ := hany _ _ e h2 h
    exact hnak.1 e r h2 hr
  · intro e h2 h
    obtain ⟨r, hr⟩ := hany _ _ e h2 h
    exact hunk.1 e r h2 hr
  · intro htx hf
    unfold arcp_send_ack arcp_send_nak arcp_send_unk
    rw [hack.2 htx hf, hnak.2 htx hf, hunk.2 htx hf]
    exact ⟨rfl, rfl, rfl⟩
  · intro m hm
    unfold arcp_send_ack arcp_send_nak arcp_send_unk arcp_exec_resp
    simp only [if_pos hm]
    exact ⟨rfl, rfl, rfl⟩
  · exact ⟨rfl, rfl, rfl⟩

theorem send_reply_frames_witness :
    arcp_send_nak 2 (fun _ => 0) ⟨{ rx := [] }, 0x0101⟩
        (some (.command ⟨ARCP_MAGIC_NUMBER, 13, 42, ARCP_MSG_COMMAND, 0x0100⟩ ARCP_CMD_PING)) (-5)
      = some (0, ⟨⟨[], [], [0x41, 0x52, 0x43, 0x50, 0, 15, 0, 42, 1, 1, 0, 0xff, 0xff, 0xff,
          0xfb]⟩, 0x0100⟩) :=
  ((send_reply_frames 2 (fun _ => 0) ⟨{ rx := [] }, 0x0101⟩
    (.command ⟨ARCP_MAGIC_NUMBER, 13, 42, ARCP_MSG_COMMAND, 0x0100⟩ ARCP_CMD_PING) (-5)
    rfl (by decide) (by decide)).2.2.2.1 rfl (by decide)).2.1

/-- C24. Exchange-id counter: let `n` be the value of the counter `exchange_id`.  When
the argument checks of `arcp_exec_cmd` yield the command `c`, every result of the call,
whatever the write and the read did, leaves the counter at `(n + 1) mod 65536`; the command
handed to `arcp_msg_write` is `c` with the exchange id `n`, it keeps that id, it is what the
caller finds in `*cmd_msg`, and when the write returns 0 the frame sent holds `n` in its
bytes 6 and 7.  When the argument checks fail the counter stays at `n`.  When the write
fails, or the write succeeds and the read fails, the call returns the error code with the
counter at `(n + 1) mod 65536`.  So the call that follows a call with the counter at `n`
hands `arcp_msg_write` a command with the exchange id `(n + 1) mod 65536`, which is 0
after 65535. -/
theorem exec_cmd_exchange_counter (fuel : Nat) (u : decode_locals) (mem : Nat → Nat)
    (handle : arcp_handle_t) (cmd_id : Int) (cmd_msg : Option arcp_msg_t)
    (resp_ret : Option (Option arcp_msg_t)) (n : Nat) (hn : n < 65536) :
    (∀ c r, exec_cmd_prepare cmd_id cmd_msg = .ok c →
      arcp_exec_cmd fuel u mem handle cmd_id cmd_msg resp_ret n = some r →
      r.2.2.2.2 = (n + 1) % 65536 ∧
      ∃ e c1 h1,
        arcp_msg_write fuel mem handle (c.set_header { c.header with exchange_id := n })
          = some (e, c1, h1) ∧
        c1.header.exchange_id = n ∧ r.2.1 = cmd_msg.map (fun _ => c1) ∧
        (e = 0 → ∃ frame, h1.fd.sent = handle.fd.sent ++ frame ∧
          (frame.drop 6).take 2 = [n / 256, n % 256])) ∧
    (∀ e, exec_cmd_prepare cmd_id cmd_msg = .error e →
      arcp_exec_cmd fuel u mem handle cmd_id cmd_msg resp_ret n
        = some (e, cmd_msg, resp_ret, handle, n)) ∧
    (∀ c e c1 h1, exec_cmd_prepare cmd_id cmd_msg = .ok c →
      arcp_msg_write fuel mem handle (c.set_header { c.header with exchange_id := n })
        = some (e, c1, h1) → e ≠ 0 →
      arcp_exec_cmd fuel u mem handle cmd_id cmd_msg resp_ret n
        = some (e, cmd_msg.map (fun _ => c1), resp_ret.map (fun _ => none), h1,
            (n + 1) % 65536)) ∧
    (∀ c c1 h1 e r h2, exec_cmd_prepare cmd_id cmd_msg = .ok c →
      arcp_msg_write fuel mem handle (c.set_header { c.header with exchange_id := n })
        = some (0, c1, h1) →
      arcp_msg_read fuel u mem h1 = some (e, r, h2) → e ≠ 0 →
      arcp_exec_cmd fuel u mem handle cmd_id cmd_msg resp_ret n
        = some (e, cmd_msg.map (fun _ => c1), resp_ret.map (fun _ => r), h2,
            (n + 1) % 65536)) ∧
    (∀ c r fuel2 u2 mem2 cmd_id2 cmd_msg2 resp_ret2 c2 r2,
      exec_cmd_prepare cmd_id cmd_msg = .ok c →
      arcp_exec_cmd fuel u mem handle cmd_id cmd_msg resp_ret n = some r →
      exec_cmd_prepare cmd_id2 cmd_msg2 = .ok c2 →
      arcp_exec_cmd fuel2 u2 mem2 r.2.2.2.1 cmd_id2 cmd_msg2 resp_ret2 r.2.2.2.2 = some r2 →
      r2.2.2.2.2 = (n + 2) % 65536 ∧
      ∃ e c1 h1,
        arcp_msg_write fuel2 mem2 r.2.2.2.1
          (c2.set_header { c2.header with exchange_id := (n + 1) % 65536 })
          = some (e, c1, h1) ∧
        c1.header.exchange_id = (n + 1) % 65536) := by
  have key : ∀ (fuel : Nat) (u : decode_locals) (mem : Nat → Nat) (handle : arcp_handle_t)
      (cmd_id : Int) (cmd_msg : Option arcp_msg_t) (resp_ret : Option (Option arcp_msg_t))
      (n : Nat) (c : arcp_msg_t)
      (r : Int × Option arcp_msg_t × Option (Option arcp_msg_t) × arcp_handle_t × Nat),
      n < 65536 → exec_cmd_prepare cmd_id cmd_msg = .ok c →
      arcp_exec_cmd fuel u mem handle cmd_id cmd_msg resp_ret n = some r →
      r.2.2.2.2 = (n + 1) % 65536 ∧
      ∃ e c1 h1,
        arcp_msg_write fuel mem handle (c.set_header { c.header with exchange_id := n })
          = some (e, c1, h1) ∧
        c1.header.exchange_id = n ∧ r.2.1 = cmd_msg.map (fun _ => c1) ∧
        (e = 0 → ∃ frame, h1.fd.sent = handle.fd.sent ++ frame ∧
          (frame.drop 6).take 2 = [n / 256, n % 256]) := by
    intro fuel u mem handle cmd_id cmd_msg resp_ret n c r hn hp hr
    unfold arcp_exec_cmd at hr
    rw [hp] at hr
    dsimp only at hr
    rw [Nat.mod_eq_of_lt hn] at hr
    cases hw : arcp_msg_write fuel mem handle
        (c.set_header { c.header with exchange_id := n }) with
    | none => rw [hw] at hr; simp at hr
    | some w =>
      obtain ⟨e, c1, h1⟩ := w
      rw [hw] at hr
      dsimp only at hr
      have hf := msg_write_facts fuel mem handle _ e c1 h1 hw
      simp only [set_header_header] at hf
      have hres : r.2.2.2.2 = (n + 1) % 65536 ∧ r.2.1 = cmd_msg.map (fun _ => c1) := by
        split at hr
        · simp at hr
        · simp only [Option.some.injEq] at hr
          rw [← hr]
          exact ⟨rfl, rfl⟩
      refine ⟨hres.1, e, c1, h1, rfl, hf.1, hres.2, fun h0 => ⟨wire_msg c1, hf.2 h0, ?_⟩⟩
      rw [wire_msg_exchange_id, hf.1, uint16_of_nat_lt _ hn]
      unfold be16
      congr 1
      · omega
  refine ⟨fun c r hp hr => key fuel u mem handle cmd_id cmd_msg resp_ret n c r hn hp hr,
    ?_, ?_, ?_, ?_⟩
  · intro e hp
    unfold arcp_exec_cmd
    rw [hp]
  · intro c e c1 h1 hp hw he
    unfold arcp_exec_cmd
    rw [hp]
    dsimp only
    rw [Nat.mod_eq_of_lt hn, hw]
    dsimp only
    rw [if_neg he]
    dsimp only
    rw [if_neg he, if_pos he]
  · intro c c1 h1 e r h2 hp hw hr he
    unfold arcp_exec_cmd
    rw [hp]
    dsimp only
    rw [Nat.mod_eq_of_lt hn, hw]
    dsimp only
    rw [if_pos rfl, hr]
    dsimp only
    rw [if_neg he, if_pos he]
  · intro c r fuel2 u2 mem2 cmd_id2 cmd_msg2 resp_ret2 c2 r2 hp hr hp2 hr2
    have h1 := (key fuel u mem handle cmd_id cmd_msg resp_ret n c r hn hp hr).1
    rw [h1] at hr2
    have hlt : (n + 1) % 65536 < 65536 := Nat.mod_lt _ (by norm_num)
    obtain ⟨g1, e, c1, h1', g2, g3, _, _⟩ :=
      key fuel2 u2 mem2 r.2.2.2.1 cmd_id2 cmd_msg2 resp_ret2 _ c2 r2 hlt hp2 hr2
    refine ⟨?_, e, c1, h1', g2, g3⟩
    rw [g1]
    omega

theorem exec_cmd_exchange_counter_witness :
    arcp_exec_cmd 8 decode_locals.zero (fun _ => 0)
        (handle_answering 0x0101 [0x41, 0x52, 0x43, 0x50, 0, 15, 0xff, 0xff, 1, 1, 1, 0, 0, 0, 0])
        ARCP_CMD_PING none none 65535
      = some (0, none, none,
          handle_after 0x0101 [0x41, 0x52, 0x43, 0x50, 0, 13, 0xff, 0xff, 0, 1, 1, 0, 1], 0) ∧
    (0 : Nat) = (65535 + 1) % 65536 := by
  have hx : arcp_exec_cmd 8 decode_locals.zero (fun _ => 0)
        (handle_answering 0x0101 [0x41, 0x52, 0x43, 0x50, 0, 15, 0xff, 0xff, 1, 1, 1, 0, 0, 0, 0])
        ARCP_CMD_PING none none 65535
      = some (0, none, none,
          handle_after 0x0101 [0x41, 0x52, 0x43, 0x50, 0, 13, 0xff, 0xff, 0, 1, 1, 0, 1], 0) := by
    decide
  exact ⟨hx, ((exec_cmd_exchange_counter 8 decode_locals.zero (fun _ => 0) _ ARCP_CMD_PING none
    none 65535 (by decide)).1 (.command new_cmd_header ARCP_CMD_PING) _ rfl hx).1⟩

/-- C25. Bit storage: for every pulse code whose array holds the bytes of its capacity,
every bit index `k < 512` and every value `v`, `arcp_pulsecode_setbit code k v` succeeds
(returns 0) and `arcp_pulsecode_getbit` of the resulting code at `k` is 1 when `v` is not
zero and 0 when `v` is 0.  `arcp_pulsecode_getbit` is 0 for a NULL code and for every index
at or beyond the length of the code. -/
theorem pulsecode_bit_storage (code : arcp_pulsecode_t) (k v : Nat)
    (hcode : pulsecode_sized code) (hk : k < 512) :
    (∃ c, arcp_pulsecode_setbit code k v = some (0, c) ∧
      arcp_pulsecode_getbit (some c) k = if v = 0 then 0 else 1) ∧
    (∀ j, arcp_pulsecode_getbit none j = 0) ∧
    (∀ j, code.code_length ≤ j → arcp_pulsecode_getbit (some code) j = 0) := by
  refine ⟨⟨_, pulsecode_setbit_eq code k v hcode hk, ?_⟩, fun j => rfl,
    fun j hj => getbit_beyond code j hj⟩
  obtain ⟨h1, h2, h3⟩ := hcode
  have hb : k % 8 < 8 := Nat.mod_lt _ (by norm_num)
  rw [getbit_eq _ _ (by dsimp only; omega)]
  dsimp only
  rw [getD_set_same _ _ _ _ (by simp only [List.length_append, List.length_replicate]; omega)]
  have hbyte : code.data.getD (k / 8) 0 < 256 := by
    by_cases hl : k / 8 < code.data.length
    · rw [List.getD_eq_getElem _ _ hl]
      exact h3 _ (List.getElem_mem _)
    · rw [List.getD_eq_default _ _ (by omega)]; norm_num
  rw [setbit_byte_testBit _ _ _ _ hb hbyte, if_pos rfl]
  by_cases hv : v = 0
  · simp [hv]
  · simp [hv]

theorem pulsecode_bit_storage_witness :
    pulsecode_sized ⟨16, 12, [0xa5, 0x0f]⟩ ∧
    (∃ c, arcp_pulsecode_setbit ⟨16, 12, [0xa5, 0x0f]⟩ 20 1 = some (0, c) ∧
      arcp_pulsecode_getbit (some c) 20 = if 1 = 0 then 0 else 1) :=
  ⟨by decide, (pulsecode_bit_storage ⟨16, 12, [0xa5, 0x0f]⟩ 20 1 (by decide) (by decide)).1⟩

/-- C26. Postcondition of setbit: for every pulse code whose array holds the bytes of its
capacity and every `k < 512`, `arcp_pulsecode_setbit code k v` returns 0 and yields a code
whose length is `max L (k + 1)`, whose capacity is `max size (k + 1)`, whose array has
`max n (k / 8 + 1)` bytes (`n` the number of bytes before), all of them octets, in which
bit `k mod 8` of byte `k div 8` is set exactly when `v` is not zero, every other bit of
every byte is what it was before, and every byte added to the array other than byte
`k div 8` is zero. -/
theorem pulsecode_setbit_postcondition (code : arcp_pulsecode_t) (k v : Nat)
    (hcode : pulsecode_sized code) (hk : k < 512) :
    ∃ c, arcp_pulsecode_setbit code k v = some (0, c) ∧
      c.code_length = max code.code_length (k + 1) ∧
      c.size = max code.size (k + 1) ∧
      c.data.length = max code.data.length (k / 8 + 1) ∧
      (∀ b ∈ c.data, b < 256) ∧
      ((c.data.getD (k / 8) 0).testBit (k % 8) = decide (v ≠ 0)) ∧
      (∀ i j, (i ≠ k / 8 ∨ j ≠ k % 8) →
        (c.data.getD i 0).testBit j = (code.data.getD i 0).testBit j) ∧
      (∀ i, code.data.length ≤ i → i ≠ k / 8 → c.data.getD i 0 = 0) := by
  refine ⟨_, pulsecode_setbit_eq code k v hcode hk, rfl, rfl, ?_, ?_, ?_, ?_, ?_⟩
  · simp only [List.length_set, List.length_append, List.length_replicate]
    omega
  · obtain ⟨g1, g2, g3⟩ := hcode
    intro b hb
    rcases List.mem_or_eq_of_mem_set hb with h | h
    · rcases List.mem_append.mp h with h | h
      · exact g3 b h
      · rw [List.eq_of_mem_replicate h]; norm_num
    · rw [h]
      apply setbit_byte_lt _ _ _ (Nat.mod_lt _ (by norm_num))
      by_cases hl : k / 8 < code.data.length
      · rw [List.getD_eq_getElem _ _ hl]
        exact g3 _ (List.getElem_mem _)
      · rw [List.getD_eq_default _ _ (by omega)]; norm_num
  · obtain ⟨g1, g2, g3⟩ := hcode
    dsimp only
    rw [getD_set_same _ _ _ _
      (by simp only [List.length_append, List.length_replicate]; omega)]
    have hbyte : code.data.getD (k / 8) 0 < 256 := by
      by_cases hl : k / 8 < code.data.length
      · rw [List.getD_eq_getElem _ _ hl]
        exact g3 _ (List.getElem_mem _)
      · rw [List.getD_eq_default _ _ (by omega)]; norm_num
    rw [setbit_byte_testBit _ _ _ _ (Nat.mod_lt _ (by norm_num)) hbyte, if_pos rfl]
  · obtain ⟨g1, g2, g3⟩ := hcode
    intro i j hij
    dsimp only
    by_cases hi : i = k / 8
    · subst hi
      rw [getD_set_same _ _ _ _
        (by simp only [List.length_append, List.length_replicate]; omega)]
      have hbyte : code.data.getD (k / 8) 0 < 256 := by
        by_cases hl : k / 8 < code.data.length
        · rw [List.getD_eq_getElem _ _ hl]
          exact g3 _ (List.getElem_mem _)
        · rw [List.getD_eq_default _ _ (by omega)]; norm_num
      have hj : j ≠ k % 8 := by
        rcases hij with h | h
        · exact absurd rfl h
        · exact h
      rw [setbit_byte_testBit _ _ _ _ (Nat.mod_lt _ (by norm_num)) hbyte, if_neg hj]
    · rw [getD_set_other _ _ _ _ _ (fun h => hi h.symm), getD_append_zeros]
  · intro i hi hne
    dsimp only
    rw [getD_set_other _ _ _ _ _ (fun h => hne h.symm), getD_append_zeros,
      List.getD_eq_default _ _ hi]

theorem pulsecode_setbit_postcondition_witness :
    pulsecode_sized ⟨16, 12, [0xa5, 0x0f]⟩ ∧
    ∃ c, arcp_pulsecode_setbit ⟨16, 12, [0xa5, 0x0f]⟩ 33 1 = some (0, c) ∧
      c.code_length = max 12 (33 + 1) ∧
      c.size = max 16 (33 + 1) ∧
      c.data.length = max 2 (33 / 8 + 1) ∧
      (∀ b ∈ c.data, b < 256) ∧
      ((c.data.getD (33 / 8) 0).testBit (33 % 8) = decide (1 ≠ 0)) ∧
      (∀ i j, (i ≠ 33 / 8 ∨ j ≠ 33 % 8) →
        (c.data.getD i 0).testBit j = (([0xa5, 0x0f] : List Nat).getD i 0).testBit j) ∧
      (∀ i, 2 ≤ i → i ≠ 33 / 8 → c.data.getD i 0 = 0) :=
  ⟨by decide, pulsecode_setbit_postcondition ⟨16, 12, [0xa5, 0x0f]⟩ 33 1 (by decide)
    (by decide)⟩

/-- C28. Pulse-sequence resize: for every pulse sequence holding the `n` entries of its
length and every new length `m` that `arcp_pulseseq_set_length` accepts (returns 0), the
sequence after the call has length `m` and holds `m` entries; entry `i` is the old entry
`i` for every `i < min n m` and is (slot 0, flags 0) for every `i` with `n ≤ i < m`.  So
after shrinking to `m` and extending again to `m2`, the entries from `m` on are zero, not
the old values. -/
theorem pulseseq_resize (seq : arcp_pulseseq_t) (m : Nat)
    (hseq : seq.seq.length = seq.length)
    (hm : (arcp_pulseseq_set_length seq m).1 = 0) :
    (arcp_pulseseq_set_length seq m).2.length = m ∧
    (arcp_pulseseq_set_length seq m).2.seq.length = m ∧
    (∀ i, i < min seq.length m →
      (arcp_pulseseq_set_length seq m).2.seq[i]? = seq.seq[i]?) ∧
    (∀ i, seq.length ≤ i → i < m →
      (arcp_pulseseq_set_length seq m).2.seq[i]? = some ⟨0, 0⟩) ∧
    (∀ m2 i, (arcp_pulseseq_set_length (arcp_pulseseq_set_length seq m).2 m2).1 = 0 →
      m ≤ i → i < m2 →
      (arcp_pulseseq_set_length (arcp_pulseseq_set_length seq m).2 m2).2.seq[i]?
        = some ⟨0, 0⟩) := by
  have h5 := pulseseq_set_length_accepted seq m hm
  rw [pulseseq_set_length_eq seq m h5, ← hseq]
  refine ⟨rfl, set_new_size_length _ _ _, ?_, ?_, ?_⟩
  · intro i hi
    dsimp only
    rw [set_new_size_getElem, if_pos hi]
  · intro i h1 h2
    dsimp only
    rw [set_new_size_getElem, if_neg (by omega), if_pos h2]
    rfl
  · intro m2 i hacc h1 h2
    have h6 := pulseseq_set_length_accepted _ m2 hacc
    rw [pulseseq_set_length_eq _ m2 h6]
    dsimp only
    have hl : (set_new_size arcp_pulseseq_entry_t.zero seq.seq m seq.seq.length).length = m :=
      set_new_size_length _ _ _
    have := set_new_size_getElem arcp_pulseseq_entry_t.zero
      (set_new_size arcp_pulseseq_entry_t.zero seq.seq m seq.seq.length) m2 i
    rw [hl] at this
    rw [this, if_neg (by omega), if_pos h2]
    rfl

theorem pulseseq_resize_witness :
    (arcp_pulseseq_set_length ⟨3, [⟨1, 2⟩, ⟨3, 4⟩, ⟨5, 6⟩]⟩ 1).1 = 0 ∧
    (arcp_pulseseq_set_length (arcp_pulseseq_set_length ⟨3, [⟨1, 2⟩, ⟨3, 4⟩, ⟨5, 6⟩]⟩ 1).2 3).2
      = ⟨3, [⟨1, 2⟩, ⟨0, 0⟩, ⟨0, 0⟩]⟩ ∧
    (arcp_pulseseq_set_length (arcp_pulseseq_set_length ⟨3, [⟨1, 2⟩, ⟨3, 4⟩, ⟨5, 6⟩]⟩ 1).2
        3).2.seq[2]? = some ⟨0, 0⟩ :=
  ⟨by decide, by decide,
    (pulseseq_resize ⟨3, [⟨1, 2⟩, ⟨3, 4⟩, ⟨5, 6⟩]⟩ 1 (by decide) (by decide)).2.2.2.2 3 2
      (by decide) (by decide) (by decide)⟩

/-- C29, counterexample.  A code of capacity 16 in which bit 10 is set (length 11) is
shrunk to length 5 and extended again to length 16: both calls of
`arcp_pulsecode_setlength` return 0 and `arcp_pulsecode_getbit` at index 10, which lies
between the old length 5 and the new length 16, returns 1 and not 0. -/
theorem pulsecode_setlength_keeps_cut_bits :
    arcp_pulsecode_new 16 = some ⟨16, 0, [0, 0]⟩ ∧
    arcp_pulsecode_setbit ⟨16, 0, [0, 0]⟩ 10 1 = some (0, ⟨16, 11, [0, 4]⟩) ∧
    arcp_pulsecode_setlength ⟨16, 11, [0, 4]⟩ 5 = (0, ⟨16, 5, [0, 4]⟩) ∧
    arcp_pulsecode_setlength ⟨16, 5, [0, 4]⟩ 16 = (0, ⟨16, 16, [0, 4]⟩) ∧
    arcp_pulsecode_getbit (some ⟨16, 16, [0, 4]⟩) 10 = 1 ∧
    arcp_pulsecode_setlength ⟨16, 5, [0, 4]⟩ 20 = (0, ⟨20, 20, [0, 4, 0]⟩) ∧
    arcp_pulsecode_getbit (some ⟨20, 20, [0, 4, 0]⟩) 10 = 1 := by
  decide

/-- C29, amended.  For every pulse code of length `L` whose array holds the bytes of its
capacity and every `L2` with `L < L2 ≤ 512`, `arcp_pulsecode_setlength code L2` returns 0
and sets the length to `L2`; the bits at the indices below `L` are unchanged; at every
index `k` with `L ≤ k < L2`, `arcp_pulsecode_getbit` returns the bit the array held at `k`
before the call, which is 0 at every index from eight times the number of bytes of the
array on (the bytes the call adds are zero). -/
theorem pulsecode_setlength_bits (code : arcp_pulsecode_t) (L2 : Nat)
    (hcode : pulsecode_sized code) (hL : code.code_length < L2) (hL2 : L2 ≤ 512) :
    (arcp_pulsecode_setlength code L2).1 = 0 ∧
    (arcp_pulsecode_setlength code L2).2.code_length = L2 ∧
    (∀ k, k < code.code_length →
      arcp_pulsecode_getbit (some (arcp_pulsecode_setlength code L2).2) k
        = arcp_pulsecode_getbit (some code) k) ∧
    (∀ k, code.code_length ≤ k → k < L2 →
      arcp_pulsecode_getbit (some (arcp_pulsecode_setlength code L2).2) k
        = if (code.data.getD (k / 8) 0).testBit (k % 8) then 1 else 0) ∧
    (∀ k, 8 * code.data.length ≤ k → k < L2 →
      arcp_pulsecode_getbit (some (arcp_pulsecode_setlength code L2).2) k = 0) := by
  rw [pulsecode_setlength_eq code L2 hcode hL2]
  have hbit : ∀ k, k < L2 →
      arcp_pulsecode_getbit (some ⟨max code.size L2, L2,
        code.data ++ List.replicate ((L2 + 7) / 8 - code.data.length) 0⟩) k
        = if (code.data.getD (k / 8) 0).testBit (k % 8) then 1 else 0 := by
    intro k hk
    rw [getbit_eq _ _ hk]
    dsimp only
    rw [getD_append_zeros]
  refine ⟨rfl, rfl, ?_, ?_, ?_⟩
  · intro k hk
    rw [hbit k (by omega), getbit_eq _ _ hk]
  · intro k _ hk
    exact hbit k hk
  · intro k h8 hk
    rw [hbit k hk, List.getD_eq_default _ _ (by omega)]
    simp

theorem pulsecode_setlength_bits_witness :
    pulsecode_sized ⟨16, 5, [0, 4]⟩ ∧
    arcp_pulsecode_getbit (some (arcp_pulsecode_setlength ⟨16, 5, [0, 4]⟩ 40).2) 10
      = (if ((([0, 4] : List Nat).getD (10 / 8) 0).testBit (10 % 8)) then 1 else 0) ∧
    arcp_pulsecode_getbit (some (arcp_pulsecode_setlength ⟨16, 5, [0, 4]⟩ 40).2) 10 = 1 :=
  ⟨by decide,
    (pulsecode_setlength_bits ⟨16, 5, [0, 4]⟩ 40 (by decide) (by decide) (by decide)).2.2.2.1
      10 (by decide) (by decide),
    by decide⟩

/-- C30, counterexample.  `arcp_pulseseq_set_length` rejects the lengths 501 and 1024 with
`INTERNAL`, and `arcp_pulseseq_new` returns NULL for them. -/
theorem pulseseq_set_length_rejects_501 :
    arcp_pulseseq_set_length ⟨0, []⟩ 501 = (ARCP_ERROR_INTERNAL, ⟨0, []⟩) ∧
    arcp_pulseseq_set_length ⟨0, []⟩ 1024 = (ARCP_ERROR_INTERNAL, ⟨0, []⟩) ∧
    arcp_pulseseq_new 501 = none ∧ arcp_pulseseq_new 1024 = none := by
  decide

/-- C30, amended.  `arcp_pulseseq_set_length` accepts every length up to and including
500 (it returns 0 and sets the length), and rejects every length above 500 with
`INTERNAL` (-128), leaving the sequence unchanged; `arcp_pulseseq_new` returns a sequence
of zero entries for every length up to 500 and NULL for every length above 500. -/
theorem pulseseq_length_cap (seq : arcp_pulseseq_t) (m : Nat) :
    (m ≤ 500 → (arcp_pulseseq_set_length seq m).1 = 0 ∧
      (arcp_pulseseq_set_length seq m).2.length = m ∧
      arcp_pulseseq_new m = some ⟨m, List.replicate m ⟨0, 0⟩⟩) ∧
    (500 < m → arcp_pulseseq_set_length seq m = (-128, seq) ∧ arcp_pulseseq_new m = none) := by
  constructor
  · intro hm
    rw [pulseseq_set_length_eq seq m hm, pulseseq_new_eq m hm]
    exact ⟨rfl, rfl, rfl⟩
  · intro hm
    have h : ∀ s : arcp_pulseseq_t, arcp_pulseseq_set_length s m = (-128, s) := by
      intro s
      unfold arcp_pulseseq_set_length
      rw [if_pos (by simp only [ARCP_MAX_PULSESEQ_SIZE]; omega)]
    refine ⟨h seq, ?_⟩
    unfold arcp_pulseseq_new
    dsimp only
    rw [h]
    rfl


/-! ## Theorems about the status objects, the stream primitives, the round trips and the limits -/

/-- C31, counterexample.  `arcp_stx2stat_set_n_rf_cards` accepts 10 cards and 255 cards,
and `arcp_stx2stat_set_n_rf_outputs` accepts 9 outputs and 255 outputs on a card: each
returns 0 and stores the count. -/
theorem stx2stat_rf_counts_not_limited :
    (arcp_stx2stat_set_n_rf_cards arcp_stx2stat_new 10).1 = 0 ∧
    (arcp_stx2stat_set_n_rf_cards arcp_stx2stat_new 10).2.n_rf_cards = 10 ∧
    (arcp_stx2stat_set_n_rf_cards arcp_stx2stat_new 255).1 = 0 ∧
    (arcp_stx2stat_set_n_rf_cards arcp_stx2stat_new 255).2.n_rf_cards = 255 ∧
    example_one_card_stat.n_rf_cards = 1 ∧
    (arcp_stx2stat_set_n_rf_outputs example_one_card_stat 0 9).1 = 0 ∧
    ((arcp_stx2stat_set_n_rf_outputs example_one_card_stat 0 9).2.rf_card_stat.map
      (fun c => c.n_rf_outputs)) = [9] ∧
    (arcp_stx2stat_set_n_rf_outputs example_one_card_stat 0 255).1 = 0 ∧
    ((arcp_stx2stat_set_n_rf_outputs example_one_card_stat 0 255).2.rf_card_stat.map
      (fun c => c.n_rf_outputs)) = [255] := by
  refine ⟨by decide, by decide, by decide, by decide, by decide, by decide, by decide,
    by decide, by decide⟩

/-- C31, amended.  Status count setters: `arcp_stx2stat_set_n_chassis_fans` (maximum 8),
`arcp_stx2stat_set_n_units` (maximum 10) and `arcp_bsmstat_set_n_fans` (maximum 8) return a
negative error code (`LOCAL`, `INTERNAL`, `LOCAL`) and leave the status object unchanged
whenever the requested count exceeds the maximum, and return 0 and store the count
otherwise; `arcp_stx2stat_set_n_rf_outputs` returns `INTERNAL` and leaves the status
unchanged when `card_index >= n_rf_cards`, and returns 0 for any count otherwise;
`arcp_stx2stat_set_n_rf_cards` returns 0 and stores the count for any count. -/
theorem status_count_setters (stat : arcp_stx2stat_t) (bsm : arcp_bsmstat_t)
    (card_index n : Nat) :
    (n > 8 → arcp_stx2stat_set_n_chassis_fans stat n = (ARCP_ERROR_LOCAL, stat)) ∧
    (n ≤ 8 → (arcp_stx2stat_set_n_chassis_fans stat n).1 = 0 ∧
      (arcp_stx2stat_set_n_chassis_fans stat n).2.n_chassis_fans = n) ∧
    (n > 10 → arcp_stx2stat_set_n_units stat n = (ARCP_ERROR_INTERNAL, stat)) ∧
    (n ≤ 10 → (arcp_stx2stat_set_n_units stat n).1 = 0 ∧
      (arcp_stx2stat_set_n_units stat n).2.n_units = n) ∧
    (n > 8 → arcp_bsmstat_set_n_fans bsm n = (ARCP_ERROR_LOCAL, bsm)) ∧
    (n ≤ 8 → (arcp_bsmstat_set_n_fans bsm n).1 = 0 ∧
      (arcp_bsmstat_set_n_fans bsm n).2.n_fans = n) ∧
    (card_index ≥ stat.n_rf_cards →
      arcp_stx2stat_set_n_rf_outputs stat card_index n = (ARCP_ERROR_INTERNAL, stat)) ∧
    (card_index < stat.n_rf_cards → card_index < stat.rf_card_stat.length →
      (arcp_stx2stat_set_n_rf_outputs stat card_index n).1 = 0 ∧
      ((arcp_stx2stat_set_n_rf_outputs stat card_index n).2.rf_card_stat.getD card_index
        arcp_rf_card_stat_t.zero).n_rf_outputs = n) ∧
    (arcp_stx2stat_set_n_rf_cards stat n).1 = 0 ∧
    (arcp_stx2stat_set_n_rf_cards stat n).2.n_rf_cards = n ∧
    ARCP_ERROR_LOCAL < 0 ∧ ARCP_ERROR_INTERNAL < 0 := by
  refine ⟨?_, ?_, ?_, ?_, ?_, ?_, ?_, ?_, rfl, rfl, by decide, by decide⟩
  · intro h
    unfold arcp_stx2stat_set_n_chassis_fans
    rw [if_pos h]
  · intro h
    unfold arcp_stx2stat_set_n_chassis_fans
    rw [if_neg (by simp only [ARCP_MAX_N_CHASSIS_FANS]; omega)]
    exact ⟨rfl, rfl⟩
  · intro h
    unfold arcp_stx2stat_set_n_units
    rw [if_pos h]
  · intro h
    unfold arcp_stx2stat_set_n_units
    rw [if_neg (by simp only [ARCP_STX2_MAX_N_STX2_UNITS]; omega)]
    exact ⟨rfl, rfl⟩
  · intro h
    unfold arcp_bsmstat_set_n_fans
    rw [if_pos h]
  · intro h
    unfold arcp_bsmstat_set_n_fans
    rw [if_neg (by simp only [ARCP_MAX_N_CHASSIS_FANS]; omega)]
    exact ⟨rfl, rfl⟩
  · intro h
    unfold arcp_stx2stat_set_n_rf_outputs
    rw [if_pos h]
  · intro h hl
    unfold arcp_stx2stat_set_n_rf_outputs
    rw [if_neg (by omega)]
    refine ⟨rfl, ?_⟩
    dsimp only
    rw [List.getD_eq_getElem?_getD, List.getElem?_set_self hl]
    rfl

/-- C32. `chassis_datasize` invariant: whenever `arcp_stx2stat_set_n_chassis_fans(stat, n)`
succeeds (returns 0), the status it leaves has `chassis_datasize = 7 + 2 * n_chassis_fans`
with `n_chassis_fans = n`; and every STX2 status contained in a message that
`arcp_stream_decode` delivers, on any stream, has
`chassis_datasize = 7 + 2 * n_chassis_fans`, whatever byte the stream holds for
`chassis_datasize`. -/
theorem chassis_datasize_invariant :
    (∀ (stat : arcp_stx2stat_t) (n : Nat), (arcp_stx2stat_set_n_chassis_fans stat n).1 = 0 →
      (arcp_stx2stat_set_n_chassis_fans stat n).2.n_chassis_fans = n ∧
      (arcp_stx2stat_set_n_chassis_fans stat n).2.chassis_datasize
        = 7 + 2 * (arcp_stx2stat_set_n_chassis_fans stat n).2.n_chassis_fans) ∧
    (∀ (fuel : Nat) (u : decode_locals) (stream s2 : arcp_stream_t) (ret : Int)
      (msg : arcp_msg_t) (x : arcp_stx2stat_t),
      arcp_stream_decode fuel u stream = some (ret, s2, some msg) →
      msg.sysstat.data = .stx2 x → x.chassis_datasize = 7 + 2 * x.n_chassis_fans) := by
  refine ⟨fun stat n h0 => ?_, fun fuel u stream s2 ret msg x h hx => ?_⟩
  · unfold arcp_stx2stat_set_n_chassis_fans at h0 ⊢
    by_cases hn : n > ARCP_MAX_N_CHASSIS_FANS
    · rw [if_pos hn] at h0
      simp at h0
    · rw [if_neg hn]
      dsimp only
      simp only [ARCP_MAX_N_CHASSIS_FANS] at hn
      rw [uint8_of_nat_lt _ (by omega)]
      exact ⟨rfl, rfl⟩
  · obtain ⟨_, hc | hc⟩ := stream_decode_cases fuel u stream s2 ret msg h
    · obtain ⟨s, hd, hcmd⟩ := hc
      have hneg : ¬ ret < 0 := (stream_decode_cases fuel u stream s2 ret msg h).1
      have hnull := (decode_arcp_cmd_limits fuel u s hd _ hcmd hneg).1
      rw [show (ret, s2, msg).2.2 = msg from rfl, hx] at hnull
      exact absurd hnull (by simp)
    · obtain ⟨s, hd, hresp⟩ := hc
      have hdat := (decode_arcp_resp_data u s hd).2.2.2
      rw [hresp, show (ret, s2, msg).2.2 = msg from rfl, hx] at hdat
      rcases hdat with h1 | ⟨st, he, h1⟩ | ⟨st, h1⟩
      · exact absurd h1 (by simp)
      · have e : x = (decode_stx2stat st).stx2stat := by
          simpa using h1
        rw [e]
        exact (decode_stx2stat_inv st).2 he
      · exact absurd h1 (by simp)

theorem chassis_datasize_invariant_witness :
    arcp_stream_decode 0 decode_locals.zero (stream_of_bytes (example_stx2_frame 0x55))
      = some (0, strm (example_stx2_frame 0x55) [],
          some (.resp_sysstat ⟨ARCP_MAGIC_NUMBER, 50, 9, 1, 0x0101⟩ ARCP_RESP_SYSSTAT 0
            ⟨1, 1, .stx2 example_stx2_decoded⟩)) ∧
    example_stx2_decoded.n_chassis_fans = 1 ∧
    example_stx2_decoded.chassis_datasize = 7 + 2 * example_stx2_decoded.n_chassis_fans :=
  have h : arcp_stream_decode 0 decode_locals.zero
      (stream_of_bytes (example_stx2_frame 0x55))
      = some (0, strm (example_stx2_frame 0x55) [],
          some (.resp_sysstat ⟨ARCP_MAGIC_NUMBER, 50, 9, 1, 0x0101⟩ ARCP_RESP_SYSSTAT 0
            ⟨1, 1, .stx2 example_stx2_decoded⟩)) := by decide
  ⟨h, rfl, chassis_datasize_invariant.2 _ _ _ _ _ _ _ h rfl⟩

/-- C33.  Stream bounds and sticky error.  Let the stream have `n ≥ 1` bytes and its end
pointer at `data + n - 1`, as `arcp_stream_setsize` leaves it and as every typed operation
keeps it, and let the head be at the offset `p`.  Each of the eight typed operations of the
width `w` (get and store of int8, int16, int32 and float) returns 0, advances the head by
exactly `w` and leaves the error flag clear if the flag is clear and `p + w ≤ n`; it sets the
flag and returns `BADMSG` if `p + w > n`; it returns `BADMSG` with the flag still set if the
flag is set; and when it returns `BADMSG` it changes neither the head nor a data byte nor,
for a get, the value of the caller.  The size and the end pointer never change
(`stream_op_bounds`). -/
theorem stream_bounds_sticky (s : arcp_stream_t) (d v : Int) (f : Nat)
    (_ : 0 < s.size) (hend : s.end_ = (s.size : Int) - 1) :
    (stream_op_bounds 1 s (arcp_stream_get_int8 s d).1 (arcp_stream_get_int8 s d).2.1 ∧
      ((arcp_stream_get_int8 s d).1 ≠ 0 → (arcp_stream_get_int8 s d).2.2 = d)) ∧
    (stream_op_bounds 2 s (arcp_stream_get_int16 s d).1 (arcp_stream_get_int16 s d).2.1 ∧
      ((arcp_stream_get_int16 s d).1 ≠ 0 → (arcp_stream_get_int16 s d).2.2 = d)) ∧
    (stream_op_bounds 4 s (arcp_stream_get_int32 s d).1 (arcp_stream_get_int32 s d).2.1 ∧
      ((arcp_stream_get_int32 s d).1 ≠ 0 → (arcp_stream_get_int32 s d).2.2 = d)) ∧
    (stream_op_bounds 4 s (arcp_stream_get_float s f).1 (arcp_stream_get_float s f).2.1 ∧
      ((arcp_stream_get_float s f).1 ≠ 0 → (arcp_stream_get_float s f).2.2 = f)) ∧
    stream_op_bounds 1 s (arcp_stream_store_int8 s v).1 (arcp_stream_store_int8 s v).2 ∧
    stream_op_bounds 2 s (arcp_stream_store_int16 s v).1 (arcp_stream_store_int16 s v).2 ∧
    stream_op_bounds 4 s (arcp_stream_store_int32 s v).1 (arcp_stream_store_int32 s v).2 ∧
    stream_op_bounds 4 s (arcp_stream_store_float s f).1 (arcp_stream_store_float s f).2 :=
  ⟨get_int8_bounds s d hend, get_int16_bounds s d hend, get_int32_bounds s d hend,
    get_float_bounds s f hend, store_int8_bounds s v hend, store_int16_bounds s v hend,
    store_int32_bounds s v hend, store_int32_bounds s f hend⟩

/-- C33, witness: on a fresh stream sized to two bytes, `arcp_stream_get_int16` returns 0
and moves the head to the end, and `arcp_stream_get_int32` sets the error flag, returns
`BADMSG` and leaves the head, the data and the value of the caller as they were. -/
theorem stream_bounds_sticky_witness :
    example_sized_stream = ⟨2, [0, 0], 0, 1, 0⟩ ∧
    ((arcp_stream_get_int16 example_sized_stream 7).1 = 0 ∧
      (arcp_stream_get_int16 example_sized_stream 7).2.1.head = 2 ∧
      (arcp_stream_get_int16 example_sized_stream 7).2.1.err = 0) ∧
    ((arcp_stream_get_int32 example_sized_stream 7).1 = ARCP_ERROR_BADMSG ∧
      (arcp_stream_get_int32 example_sized_stream 7).2.1.err ≠ 0 ∧
      (arcp_stream_get_int32 example_sized_stream 7).2.1.head = 0 ∧
      (arcp_stream_get_int32 example_sized_stream 7).2.1.data = [0, 0]) ∧
    (arcp_stream_get_int32 example_sized_stream 7).2.2 = 7 :=
  ⟨by decide,
    (stream_bounds_sticky example_sized_stream 7 0 0 (by decide) (by decide)).2.1.1.1
      ⟨by decide, by decide⟩,
    (stream_bounds_sticky example_sized_stream 7 0 0 (by decide) (by decide)).2.2.1.1.2.1
      (by decide),
    (stream_bounds_sticky example_sized_stream 7 0 0 (by decide) (by decide)).2.2.1.2
      (by decide)⟩

/-- C34. Big-endian primitives: on a stream whose end pointer lies within its data, a
successful `arcp_stream_store_int16(v)` at the head offset `p` (it returns 0) writes byte
`p` = `v >> 8` and byte `p+1` = `v & 0xff` of the 16 bit pattern of `v`, a successful
`arcp_stream_store_int32(v)` writes the four bytes of the 32 bit pattern of `v`, most
significant first; both change no other byte and advance the head by their width.  The get
of the same width at the same offset, on any stream that holds these bytes, returns 0 and
the value of `v` as `int16` / `int32` (the unsigned macros: as `uint16` / `uint32`), which
is `v` itself for every `v` in the range of the type.  A float is stored as its 32 bit
pattern `f` through `arcp_stream_store_int32`, and `arcp_stream_get_float` returns `f`. -/
theorem stream_big_endian (s : arcp_stream_t) (v : Int) (f : Nat)
    (hreg : s.end_ + 1 ≤ (s.data.length : Int)) :
    ((arcp_stream_store_int16 s v).1 = 0 →
      (arcp_stream_store_int16 s v).2.data.getD s.head 0 = uint16_of v >>> 8 ∧
      (arcp_stream_store_int16 s v).2.data.getD (s.head + 1) 0 = uint16_of v &&& 0xff ∧
      (∀ i, i ≠ s.head → i ≠ s.head + 1 →
        (arcp_stream_store_int16 s v).2.data.getD i 0 = s.data.getD i 0) ∧
      (arcp_stream_store_int16 s v).2.data.length = s.data.length ∧
      (arcp_stream_store_int16 s v).2.head = s.head + 2 ∧
      (∀ (s2 : arcp_stream_t) (d : Int) (e : Nat),
        s2.data = (arcp_stream_store_int16 s v).2.data → s2.head = s.head → s2.err = 0 →
        (s2.head : Int) + 2 ≤ s2.end_ + 1 →
        arcp_stream_get_int16 s2 d = (0, { s2 with head := s.head + 2 }, int16_of v) ∧
        arcp_stream_get_uint16 s2 e = (0, { s2 with head := s.head + 2 }, uint16_of v))) ∧
    ((arcp_stream_store_int32 s v).1 = 0 →
      (arcp_stream_store_int32 s v).2.data.getD s.head 0 = uint32_of v >>> 24 ∧
      (arcp_stream_store_int32 s v).2.data.getD (s.head + 1) 0
        = (uint32_of v >>> 16) &&& 0xff ∧
      (arcp_stream_store_int32 s v).2.data.getD (s.head + 2) 0
        = (uint32_of v >>> 8) &&& 0xff ∧
      (arcp_stream_store_int32 s v).2.data.getD (s.head + 3) 0 = uint32_of v &&& 0xff ∧
      (∀ i, i < s.head ∨ s.head + 4 ≤ i →
        (arcp_stream_store_int32 s v).2.data.getD i 0 = s.data.getD i 0) ∧
      (arcp_stream_store_int32 s v).2.data.length = s.data.length ∧
      (arcp_stream_store_int32 s v).2.head = s.head + 4 ∧
      (∀ (s2 : arcp_stream_t) (d : Int) (e : Nat),
        s2.data = (arcp_stream_store_int32 s v).2.data → s2.head = s.head → s2.err = 0 →
        (s2.head : Int) + 4 ≤ s2.end_ + 1 →
        arcp_stream_get_int32 s2 d = (0, { s2 with head := s.head + 4 }, int32_of v) ∧
        arcp_stream_get_uint32 s2 e = (0, { s2 with head := s.head + 4 }, uint32_of v))) ∧
    (f < 4294967296 → (arcp_stream_store_float s f).1 = 0 →
      arcp_stream_store_float s f = arcp_stream_store_int32 s f ∧
      ∀ (s2 : arcp_stream_t) (e : Nat),
        s2.data = (arcp_stream_store_float s f).2.data → s2.head = s.head → s2.err = 0 →
        (s2.head : Int) + 4 ≤ s2.end_ + 1 →
        arcp_stream_get_float s2 e = (0, { s2 with head := s.head + 4 }, f)) ∧
    (-32768 ≤ v → v < 32768 → int16_of v = v) ∧
    (0 ≤ v → v < 65536 → (uint16_of v : Int) = v) ∧
    (-2147483648 ≤ v → v < 2147483648 → int32_of v = v) ∧
    (0 ≤ v → v < 4294967296 → (uint32_of v : Int) = v) := by
  refine ⟨fun h0 => store_int16_facts s v hreg h0, fun h0 => ?_, fun hf h0 => ⟨rfl, ?_⟩,
    int16_of_id v, ?_, int32_of_id v, ?_⟩
  · obtain ⟨a0, a1, a2, a3, a4, a5, a6, a7⟩ := store_int32_facts s v hreg h0
    exact ⟨a0, a1, a2, a3, a4, a5, a6, fun s2 d e hd hh herr hend =>
      ⟨(a7 s2 d e hd hh herr hend).1, (a7 s2 d e hd hh herr hend).2.1⟩⟩
  · intro s2 e hd hh herr hend
    have h := (store_int32_facts s (f : Int) hreg h0).2.2.2.2.2.2.2 s2 0 e hd hh herr hend
    rw [h.2.2, uint32_of_nat_lt f hf]
  · intro h1 h2
    unfold uint16_of
    omega
  · intro h1 h2
    unfold uint32_of
    omega

theorem stream_big_endian_witness :
    (strm [7] [0, 0, 0, 0, 9]).end_ + 1 ≤ ((strm [7] [0, 0, 0, 0, 9]).data.length : Int) ∧
    (arcp_stream_store_int16 (strm [7] [0, 0, 0, 0, 9]) (-2)).2.data = [7, 0xff, 0xfe, 0, 0, 9] ∧
    (arcp_stream_store_int16 (strm [7] [0, 0, 0, 0, 9]) (-2)).2.data.getD 1 0
      = uint16_of (-2) >>> 8 ∧
    (arcp_stream_store_int32 (strm [7] [0, 0, 0, 0, 9]) 0x01020304).2.data
      = [7, 1, 2, 3, 4, 9] ∧
    (arcp_stream_store_int32 (strm [7] [0, 0, 0, 0, 9]) 0x01020304).2.data.getD 1 0
      = uint32_of 0x01020304 >>> 24 :=
  ⟨by decide, by decide,
   ((stream_big_endian (strm [7] [0, 0, 0, 0, 9]) (-2) 0 (by decide)).1 (by decide)).1,
   by decide,
   ((stream_big_endian (strm [7] [0, 0, 0, 0, 9]) 0x01020304 0 (by decide)).2.1
     (by decide)).1⟩

/-- C35. System-status round trip: for every `SYSSTAT` response `m` that is a value of the
C type within the limits of the data model (`msg_ok`: BSM `n_fans <= 8` and
`n_heatsink_temps <= 8`; STX2 `n_chassis_fans <= 8`, `n_rf_cards <= 9`, every
`n_rf_outputs <= 8`, `n_units <= 10`, every combiner's `n_temperatures <= 4` and
`n_outputs <= 6`), `arcp_msg_encode` returns 0, and `arcp_stream_decode` on the bytes it
has produced returns 0, whatever the fuel and the uninitialised storage, with a response
that has the header of the encoded message, the same id, information code, module type and
module status, and a status equal in every scalar field and every counted array element
(for an STX2 when `chassis_datasize = 7 + 2 * n_chassis_fans`).  The Scenario B bytes
decode to the BSM status with `rail_supply` 5000, `rail_aux` 3000, one fan of speed 1500
and one heatsink temperature of 30. -/
theorem sysstat_round_trip (mem : Nat → Nat) (m : arcp_msg_t) (fuel : Nat)
    (u : decode_locals) (ht : m.header.msg_type = ARCP_MSG_RESPONSE)
    (hid : m.id = ARCP_RESP_SYSSTAT) (hok : msg_ok m) :
    (arcp_msg_encode mem m).1 = 0 ∧
    (∃ s s2 d, (arcp_msg_encode mem m).2.1 = some s ∧
      arcp_stream_decode fuel u (stream_of_bytes s.data) = some (0, s2, some d) ∧
      d.header = (arcp_msg_encode mem m).2.2.header ∧
      d.header.magic_num = m.header.magic_num ∧
      d.header.exchange_id = m.header.exchange_id ∧
      d.header.msg_type = m.header.msg_type ∧
      d.header.protocol_version = m.header.protocol_version ∧
      d.id = m.id ∧ d.info_code = m.info_code ∧
      d.sysstat.module_type = m.sysstat.module_type ∧
      d.sysstat.module_status = m.sysstat.module_status ∧
      (m.sysstat.module_type = ARCP_MODULE_STX2 →
        m.sysstat.stx2.chassis_datasize = 7 + 2 * m.sysstat.stx2.n_chassis_fans →
        d.sysstat.data = .stx2 d.sysstat.stx2 ∧
        stx2stat_same m.sysstat.stx2 d.sysstat.stx2) ∧
      (m.sysstat.module_type = ARCP_MODULE_BSM →
        d.sysstat.data = .bsm d.sysstat.bsm ∧
        bsmstat_same m.sysstat.bsm d.sysstat.bsm)) ∧
    (∃ s2 d, arcp_stream_decode fuel u (stream_of_bytes example_bsm_frame)
        = some (0, s2, some d) ∧
      d.id = ARCP_RESP_SYSSTAT ∧ d.sysstat.module_type = ARCP_MODULE_BSM ∧
      d.sysstat.data = .bsm d.sysstat.bsm ∧
      d.sysstat.bsm.rail_supply = 5000 ∧ d.sysstat.bsm.rail_aux = 3000 ∧
      d.sysstat.bsm.n_fans = 1 ∧ d.sysstat.bsm.fan_speed.getD 0 0 = 1500 ∧
      d.sysstat.bsm.n_heatsink_temps = 1 ∧ d.sysstat.bsm.heatsink_temp.getD 0 0 = 30) := by
  have hrt : m.header.msg_type = ARCP_MSG_COMMAND ∨ m.header.msg_type = ARCP_MSG_RESPONSE :=
    Or.inr ht
  have hcap : ¬ over_cap m := by
    unfold over_cap
    rw [ht]
    exact fun h => absurd h.1 (by decide)
  have hsok : sysstat_ok m.sysstat := (hok.2.2.2.2.2.2 ht).2.2.2 hid
  have hw := wire_sysstat_fits m ht hid hsok
  have e := msg_encode_within mem m hrt hcap hw
  have hok2 := msg_ok_set_stream_size m hok
  have hh2 : (arcp_msg_set_stream_size m).2.header
      = { m.header with msg_length := stream_size_len m } := by
    unfold arcp_msg_set_stream_size
    simp only [set_header_header]
  have ht2 : (arcp_msg_set_stream_size m).2.header.msg_type = ARCP_MSG_RESPONSE := by
    rw [hh2]; exact ht
  have hml : (arcp_msg_set_stream_size m).2.header.msg_length < 65536 := by
    rw [hh2]; exact stream_size_len_lt m
  have hid2 : (arcp_msg_set_stream_size m).2.id = m.id := by
    unfold arcp_msg_set_stream_size; simp only [set_header_id]
  have hic2 : (arcp_msg_set_stream_size m).2.info_code = m.info_code := by
    unfold arcp_msg_set_stream_size; simp only [set_header_info_code]
  have hss2 : (arcp_msg_set_stream_size m).2.sysstat = m.sysstat := by
    unfold arcp_msg_set_stream_size; simp only [set_header_sysstat]
  obtain ⟨s2, hd⟩ := stream_decode_wire_resp fuel u (arcp_msg_set_stream_size m).2 hok2 hml
    ht2 (by rw [wire_msg_set_stream_size_length]; exact hw)
  have hcanon : canon_resp (arcp_msg_set_stream_size m).2
      = .resp_sysstat (arcp_msg_set_stream_size m).2.header m.id m.info_code
          (canon_sysstat m.sysstat) := by
    unfold canon_resp
    rw [hid2, hic2, hss2, if_neg (by rw [hid]; decide), if_pos hid]
  rw [hcanon] at hd
  refine ⟨by rw [e], ⟨strm (wire_msg (arcp_msg_set_stream_size m).2) [], s2,
    .resp_sysstat (arcp_msg_set_stream_size m).2.header m.id m.info_code
      (canon_sysstat m.sysstat), by rw [e], ?_, ?_⟩, ?_⟩
  · simp only [strm_data, List.append_nil]
    exact hd
  · rw [e]
    refine ⟨rfl, ?_, ?_, ?_, ?_, rfl, rfl, rfl, rfl, ?_, ?_⟩
    · show (arcp_msg_set_stream_size m).2.header.magic_num = _
      rw [hh2]
    · show (arcp_msg_set_stream_size m).2.header.exchange_id = _
      rw [hh2]
    · show (arcp_msg_set_stream_size m).2.header.msg_type = _
      rw [hh2]
    · show (arcp_msg_set_stream_size m).2.header.protocol_version = _
      rw [hh2]
    · intro h1 hcd
      have hst := (hsok.2.2.2.2.1 h1).2
      have ed : (canon_sysstat m.sysstat).data = .stx2 (canon_stx2stat m.sysstat.stx2) := by
        unfold canon_sysstat
        dsimp only
        rw [if_pos h1]
      have es : (canon_sysstat m.sysstat).stx2 = canon_stx2stat m.sysstat.stx2 :=
        sysstat_stx2_of_data _ _ ed
      show (canon_sysstat m.sysstat).data = .stx2 (canon_sysstat m.sysstat).stx2 ∧
        stx2stat_same m.sysstat.stx2 (canon_sysstat m.sysstat).stx2
      rw [es]
      exact ⟨ed, canon_stx2stat_same _ hst hcd⟩
    · intro h1
      have hst := (hsok.2.2.2.2.2 h1).2
      have ed : (canon_sysstat m.sysstat).data = .bsm (canon_bsmstat m.sysstat.bsm) := by
        unfold canon_sysstat
        dsimp only
        rw [if_neg (by rw [h1]; decide), if_pos h1]
      have es : (canon_sysstat m.sysstat).bsm = canon_bsmstat m.sysstat.bsm :=
        sysstat_bsm_of_data _ _ ed
      show (canon_sysstat m.sysstat).data = .bsm (canon_sysstat m.sysstat).bsm ∧
        bsmstat_same m.sysstat.bsm (canon_sysstat m.sysstat).bsm
      rw [es]
      exact ⟨ed, canon_bsmstat_same _ hst⟩
  · have hb : wire_msg example_bsm_sysstat = example_bsm_frame := by decide
    obtain ⟨s3, hd3⟩ := stream_decode_wire_resp fuel u example_bsm_sysstat (by decide)
      (by decide) (by decide) (by decide)
    rw [hb] at hd3
    exact ⟨s3, _, hd3, by decide, by decide, by decide, by decide, by decide, by decide,
      by decide, by decide, by decide⟩

theorem sysstat_round_trip_witness :
    example_stx2_sysstat.header.msg_type = ARCP_MSG_RESPONSE ∧
    example_stx2_sysstat.id = ARCP_RESP_SYSSTAT ∧ msg_ok example_stx2_sysstat ∧
    (arcp_msg_encode (fun _ => 0) example_stx2_sysstat).1 = 0 :=
  ⟨by decide, by decide, by decide,
    (sysstat_round_trip (fun _ => 0) example_stx2_sysstat 0 decode_locals.zero (by decide)
      (by decide) (by decide)).1⟩

/-- C36. Pulse-parameter and phase round trip: for every `SET_PULSE_PARAM` command whose
pulse code is `NULL` or has a length from 1 to 512, and every `SET_PHASE` command with
`n_phases <= 32`, that is a value of the C type (`msg_ok`), `arcp_msg_encode` returns 0,
and `arcp_stream_decode`, given fuel for 255 passes of a loop, returns 0 on the bytes
produced, with a command that has the header of the encoded message and the same id; for
`SET_PULSE_PARAM` the same slot index, shape, amplitude, options and width, a `NULL` code
for a `NULL` code, and else a code of the same length with the same bit at every index
below the length; for `SET_PHASE` the same slot, the same `n_phases` and the same
(channel, phase) entries in the same order, the phase as its 32 bit pattern. -/
theorem pulse_param_phase_round_trip (mem : Nat → Nat) (m : arcp_msg_t) (fuel : Nat)
    (u : decode_locals) (hfuel : 255 < fuel) (ht : m.header.msg_type = ARCP_MSG_COMMAND)
    (hid : m.id = ARCP_CMD_SET_PULSE_PARAM ∨ m.id = ARCP_CMD_SET_PHASE) (hok : msg_ok m)
    (hcode : m.id = ARCP_CMD_SET_PULSE_PARAM →
      ∀ c, m.pulse_param.code = some c → 1 ≤ c.code_length) :
    (arcp_msg_encode mem m).1 = 0 ∧
    ∃ s s2 d, (arcp_msg_encode mem m).2.1 = some s ∧
      arcp_stream_decode fuel u (stream_of_bytes s.data) = some (0, s2, some d) ∧
      d.header = (arcp_msg_encode mem m).2.2.header ∧
      d.header.magic_num = m.header.magic_num ∧
      d.header.exchange_id = m.header.exchange_id ∧
      d.header.msg_type = m.header.msg_type ∧
      d.header.protocol_version = m.header.protocol_version ∧
      d.id = m.id ∧
      (m.id = ARCP_CMD_SET_PULSE_PARAM →
        d.pulse_map_index = m.pulse_map_index ∧
        d.pulse_param.pulse_shape = m.pulse_param.pulse_shape ∧
        d.pulse_param.pulse_ampl = m.pulse_param.pulse_ampl ∧
        d.pulse_param.pulse_options = m.pulse_param.pulse_options ∧
        d.pulse_param.pulse_width_ns = m.pulse_param.pulse_width_ns ∧
        (m.pulse_param.code = none → d.pulse_param.code = none) ∧
        ∀ c, m.pulse_param.code = some c →
          ∃ c2, d.pulse_param.code = some c2 ∧ c2.code_length = c.code_length ∧
            ∀ k, k < c.code_length →
              arcp_pulsecode_getbit (some c2) k = arcp_pulsecode_getbit (some c) k) ∧
      (m.id = ARCP_CMD_SET_PHASE →
        d.phase_slot = m.phase_slot ∧ d.n_phases = m.n_phases ∧
        ∀ i, i < m.n_phases →
          d.phases.getD i arcp_phase_entry_t.zero
            = m.phases.getD i arcp_phase_entry_t.zero) := by
  have hrt : m.header.msg_type = ARCP_MSG_COMMAND ∨ m.header.msg_type = ARCP_MSG_RESPONSE :=
    Or.inl ht
  have hcok : cmd_ok m := hok.2.2.2.2.2.1 ht
  have hcap : ¬ over_cap m := by
    unfold over_cap
    rintro ⟨_, ⟨h1, _⟩ | ⟨h1, h2⟩⟩
    · rcases hid with hid | hid
      · rw [hid] at h1; exact absurd h1 (by decide)
      · rw [hid] at h1; exact absurd h1 (by decide)
    · have := (hcok.2.2.2.2.2 h1).2.1
      omega
  have hw : (wire_msg m).length ≤ 1024 := by
    rcases hid with hid | hid
    · exact wire_pulse_param_fits m ht hid (hcok.2.1 hid)
    · exact wire_phase_fits m ht hid (hcok.2.2.2.2.2 hid)
  have e := msg_encode_within mem m hrt hcap hw
  have hok2 := msg_ok_set_stream_size m hok
  have hh2 : (arcp_msg_set_stream_size m).2.header
      = { m.header with msg_length := stream_size_len m } := by
    unfold arcp_msg_set_stream_size
    simp only [set_header_header]
  have ht2 : (arcp_msg_set_stream_size m).2.header.msg_type = ARCP_MSG_COMMAND := by
    rw [hh2]; exact ht
  have hml : (arcp_msg_set_stream_size m).2.header.msg_length < 65536 := by
    rw [hh2]; exact stream_size_len_lt m
  have hid2 : (arcp_msg_set_stream_size m).2.id = m.id := by
    unfold arcp_msg_set_stream_size; simp only [set_header_id]
  have hx2 : (arcp_msg_set_stream_size m).2.pulse_map_index = m.pulse_map_index := by
    unfold arcp_msg_set_stream_size; simp only [set_header_pulse_map_index]
  have hp2 : (arcp_msg_set_stream_size m).2.pulse_param = m.pulse_param := by
    unfold arcp_msg_set_stream_size; simp only [set_header_pulse_param]
  have hs2 : (arcp_msg_set_stream_size m).2.phase_slot = m.phase_slot := by
    unfold arcp_msg_set_stream_size; simp only [set_header_phase_slot]
  have hn2 : (arcp_msg_set_stream_size m).2.n_phases = m.n_phases := by
    unfold arcp_msg_set_stream_size; simp only [set_header_n_phases]
  have hl2 : (arcp_msg_set_stream_size m).2.phases = m.phases := by
    unfold arcp_msg_set_stream_size; simp only [set_header_phases]
  obtain ⟨s2, hd⟩ := stream_decode_wire fuel u (arcp_msg_set_stream_size m).2 hfuel hok2 hml
    (Or.inl ht2) (by rw [wire_msg_set_stream_size_length]; exact hw)
  have hc1 : canon (arcp_msg_set_stream_size m).2 = canon_cmd (arcp_msg_set_stream_size m).2 := by
    unfold canon
    rw [if_pos ht2]
  rw [hc1] at hd
  have hhd : ∀ d : arcp_msg_t, d.header = (arcp_msg_set_stream_size m).2.header →
      d.header = (arcp_msg_set_stream_size m).2.header ∧
      d.header.magic_num = m.header.magic_num ∧
      d.header.exchange_id = m.header.exchange_id ∧
      d.header.msg_type = m.header.msg_type ∧
      d.header.protocol_version = m.header.protocol_version := by
    intro d h
    rw [h, hh2]
    exact ⟨rfl, rfl, rfl, rfl, rfl⟩
  rcases hid with hid | hid
  · have hcanon : canon_cmd (arcp_msg_set_stream_size m).2
        = .cmd_set_pulse_param (arcp_msg_set_stream_size m).2.header m.id m.pulse_map_index
            { m.pulse_param with code := canon_pulsecode m.pulse_param.code } := by
      unfold canon_cmd
      rw [hid2, hx2, hp2, if_neg (by rw [hid]; decide), if_pos hid]
    rw [hcanon] at hd
    refine ⟨by rw [e], strm (wire_msg (arcp_msg_set_stream_size m).2) [], s2, _, by rw [e],
      by simp only [strm_data, List.append_nil]; exact hd, ?_⟩
    rw [e]
    obtain ⟨a1, a2, a3, a4, a5⟩ := hhd (.cmd_set_pulse_param
      (arcp_msg_set_stream_size m).2.header m.id m.pulse_map_index
      { m.pulse_param with code := canon_pulsecode m.pulse_param.code }) rfl
    refine ⟨a1, a2, a3, a4, a5, rfl, fun _ => ⟨rfl, rfl, rfl, rfl, rfl, fun hn => ?_,
      fun c hc => ?_⟩, fun h => ?_⟩
    · show canon_pulsecode m.pulse_param.code = none
      rw [hn]
      rfl
    · show ∃ c2, canon_pulsecode m.pulse_param.code = some c2 ∧ _
      rw [hc]
      exact canon_pulsecode_bits c (hcode hid c hc)
    · rw [hid] at h
      exact absurd h (by decide)
  · have hcanon : canon_cmd (arcp_msg_set_stream_size m).2
        = .cmd_set_phase (arcp_msg_set_stream_size m).2.header m.id m.phase_slot m.n_phases
            (m.phases.take m.n_phases) := by
      unfold canon_cmd
      rw [hid2, hs2, hn2, hl2, if_neg (by rw [hid]; decide), if_neg (by rw [hid]; decide),
        if_neg (by rw [hid]; decide), if_neg (by rw [hid]; decide),
        if_neg (by rw [hid]; decide), if_neg (by rw [hid]; decide), if_pos hid]
    rw [hcanon] at hd
    refine ⟨by rw [e], strm (wire_msg (arcp_msg_set_stream_size m).2) [], s2, _, by rw [e],
      by simp only [strm_data, List.append_nil]; exact hd, ?_⟩
    rw [e]
    obtain ⟨a1, a2, a3, a4, a5⟩ := hhd (.cmd_set_phase
      (arcp_msg_set_stream_size m).2.header m.id m.phase_slot m.n_phases
      (m.phases.take m.n_phases)) rfl
    refine ⟨a1, a2, a3, a4, a5, rfl, fun h => ?_, fun _ => ⟨rfl, rfl, fun i hi => ?_⟩⟩
    · rw [hid] at h
      exact absurd h (by decide)
    · exact getD_take _ _ _ _ hi

theorem pulse_param_phase_round_trip_witness :
    (255 < 256 ∧ example_pulse_code.header.msg_type = ARCP_MSG_COMMAND ∧
      example_pulse_code.id = ARCP_CMD_SET_PULSE_PARAM ∧ msg_ok example_pulse_code ∧
      (arcp_msg_encode (fun _ => 0) example_pulse_code).1 = 0) ∧
    (example_phase_cmd.id = ARCP_CMD_SET_PHASE ∧ msg_ok example_phase_cmd ∧
      (arcp_msg_encode (fun _ => 0) example_phase_cmd).1 = 0) :=
  ⟨⟨by decide, by decide, by decide, by decide,
    (pulse_param_phase_round_trip (fun _ => 0) example_pulse_code 256 decode_locals.zero
      (by decide) (by decide) (Or.inl (by decide)) (by decide)
      (fun _ c hc => by
        have e : c = ⟨16, 12, [0xa5, 0x0f]⟩ := (Option.some.inj hc).symm
        rw [e]
        decide)).1⟩,
   ⟨by decide, by decide,
    (pulse_param_phase_round_trip (fun _ => 0) example_phase_cmd 256 decode_locals.zero
      (by decide) (by decide) (Or.inr (by decide)) (by decide)
      (fun h => absurd h (by decide))).1⟩⟩

/-- C37.  A `PING` exchange in which the write, the read and `arcp_check_resp_msg` all
succeed: the response that arrives has the id 0x0100 (256) and `arcp_exec_cmd` returns 0,
not 256; when the response has the id 0x0080 (128) it returns -128, the value of
`ARCP_ERROR_INTERNAL`.  In both exchanges `*resp_ret` holds the response with its 16 bit
id. -/
theorem exec_cmd_truncates_response_id :
    exchange_ok 8 decode_locals.zero (fun _ => 0)
      (handle_answering 0x0101 (response_frame 0 0x01 0x00 0 0)) ARCP_CMD_PING none 0
      (.response ⟨ARCP_MAGIC_NUMBER, 15, 0, 1, 0x0101⟩ 0x0100 0)
      (handle_after 0x0101 (ping_frame 0)) ∧
    arcp_exec_cmd 8 decode_locals.zero (fun _ => 0)
      (handle_answering 0x0101 (response_frame 0 0x01 0x00 0 0)) ARCP_CMD_PING none
      (some none) 0 =
      some (0, none, some (some (.response ⟨ARCP_MAGIC_NUMBER, 15, 0, 1, 0x0101⟩ 0x0100 0)),
        handle_after 0x0101 (ping_frame 0), 1) ∧
    exchange_ok 8 decode_locals.zero (fun _ => 0)
      (handle_answering 0x0101 (response_frame 0 0x00 0x80 0 0)) ARCP_CMD_PING none 0
      (.response ⟨ARCP_MAGIC_NUMBER, 15, 0, 1, 0x0101⟩ 0x0080 0)
      (handle_after 0x0101 (ping_frame 0)) ∧
    arcp_exec_cmd 8 decode_locals.zero (fun _ => 0)
      (handle_answering 0x0101 (response_frame 0 0x00 0x80 0 0)) ARCP_CMD_PING none
      (some none) 0 =
      some (ARCP_ERROR_INTERNAL, none,
        some (some (.response ⟨ARCP_MAGIC_NUMBER, 15, 0, 1, 0x0101⟩ 0x0080 0)),
        handle_after 0x0101 (ping_frame 0), 1) :=
  ⟨⟨.command new_cmd_header ARCP_CMD_PING,
    .command ⟨ARCP_MAGIC_NUMBER, 13, 0, 0, 0x0101⟩ ARCP_CMD_PING,
    handle_sent 0x0101 (response_frame 0 0x01 0x00 0 0) (ping_frame 0),
    rfl, by decide, by decide, by decide⟩, by decide,
   ⟨.command new_cmd_header ARCP_CMD_PING,
    .command ⟨ARCP_MAGIC_NUMBER, 13, 0, 0, 0x0101⟩ ARCP_CMD_PING,
    handle_sent 0x0101 (response_frame 0 0x00 0x80 0 0) (ping_frame 0),
    rfl, by decide, by decide, by decide⟩, by decide⟩

/-- C38.  `arcp_stream_decode` on a complete `SET_PULSE_SEQ` frame that declares 256
entries and carries their 512 bytes (527 bytes in all), and on one that declares 500
entries and carries their 1000 bytes (1015 bytes): the call yields no result, whatever the
fuel and whatever the uninitialised storage holds.  The same holds for every declared
length from 256 to 500 and every number of bytes that follow, up to the 1024 bytes of a
stream: the loop over the entries counts with a `uint8` against the 16 bit length. -/
theorem stream_decode_pulse_seq_no_return :
    (pulse_seq_frame 256 (List.replicate 512 0)).length = 527 ∧
    (∀ fuel u, arcp_stream_decode fuel u
      (stream_of_bytes (pulse_seq_frame 256 (List.replicate 512 0))) = none) ∧
    (pulse_seq_frame 500 (List.replicate 1000 0)).length = 1015 ∧
    (∀ fuel u, arcp_stream_decode fuel u
      (stream_of_bytes (pulse_seq_frame 500 (List.replicate 1000 0))) = none) ∧
    (∀ fuel u len entries, 256 ≤ len → len ≤ 500 → entries.length + 15 ≤ 1024 →
      arcp_stream_decode fuel u (stream_of_bytes (pulse_seq_frame len entries)) = none) := by
  refine ⟨?_, fun fuel u => ?_, ?_, fun fuel u => ?_, fun fuel u len entries h1 h2 h3 =>
      stream_decode_pulse_seq_none fuel u len entries h1 h2 h3⟩
  · simp only [pulse_seq_frame, List.length_append, List.length_cons, List.length_nil,
      List.length_replicate]
  · exact stream_decode_pulse_seq_none fuel u 256 _ (by decide) (by decide)
      (by simp only [List.length_replicate]; decide)
  · simp only [pulse_seq_frame, List.length_append, List.length_cons, List.length_nil,
      List.length_replicate]
  · exact stream_decode_pulse_seq_none fuel u 500 _ (by decide) (by decide)
      (by simp only [List.length_replicate]; decide)

/-- C39. Decoded messages respect the limits: every message `arcp_stream_decode` delivers,
on any stream and with any content of the uninitialised storage, has its pulse code `NULL`
or of a length from 1 to 512, a pulse sequence of at most 1024 entries (at most 500 in
fact), `n_phases <= 32`, and in its status `n_chassis_fans <= 8`, `n_rf_cards <= 9`, every
card's `n_rf_outputs <= 8`, `n_units <= 10`, every unit's `n_temperatures <= 4` and
`n_outputs <= 6` (STX2), `n_fans <= 8` and `n_heatsink_temps <= 8` (BSM); the arrays of the
cards and of the units hold as many elements as the counts say. -/
theorem stream_decode_limits (fuel : Nat) (u : decode_locals) (stream s2 : arcp_stream_t)
    (ret : Int) (msg : arcp_msg_t)
    (h : arcp_stream_decode fuel u stream = some (ret, s2, some msg)) :
    msg_limits msg ∧ msg.seq.length ≤ ARCP_MAX_PULSESEQ_SIZE := by
  obtain ⟨hneg, hc | hc⟩ := stream_decode_cases fuel u stream s2 ret msg h
  · obtain ⟨s, hd, hcmd⟩ := hc
    obtain ⟨a, b, c, d⟩ := decode_arcp_cmd_limits fuel u s hd _ hcmd hneg
    have a2 : msg.sysstat.data = .null := a
    have hs : msg.sysstat.stx2 = arcp_stx2stat_t.zero := by
      unfold arcp_sysstat_t.stx2
      rw [a2]
    have hb : msg.sysstat.bsm = arcp_bsmstat_t.zero := by
      unfold arcp_sysstat_t.bsm
      rw [a2]
    refine ⟨⟨b, le_trans c (by decide), d, ?_, ?_⟩, c⟩
    · rw [hs]; exact stx2stat_limits_zero
    · rw [hb]; exact (by decide : bsmstat_limits arcp_bsmstat_t.zero)
  · obtain ⟨s, hd, hresp⟩ := hc
    obtain ⟨a, b, c, d⟩ := decode_arcp_resp_data u s hd
    rw [hresp] at a b c d
    have a2 : msg.pulse_param.code = none := a
    have b2 : msg.seq.length = 0 := b
    have c2 : msg.n_phases = 0 := c
    have d2 : msg.sysstat.data = .null ∨
        (∃ st, (decode_stx2stat st).err = 0 ∧
          msg.sysstat.data = .stx2 (decode_stx2stat st).stx2stat) ∨
        (∃ st, msg.sysstat.data = .bsm (decode_bsmstat st).2.1) := d
    refine ⟨⟨by rw [a2]; trivial, by rw [b2]; exact Nat.zero_le _,
      by rw [c2]; exact Nat.zero_le _, ?_, ?_⟩, by rw [b2]; exact Nat.zero_le _⟩
    · unfold arcp_sysstat_t.stx2
      rcases d2 with h1 | ⟨st, _, h1⟩ | ⟨st, h1⟩
      · rw [h1]; exact stx2stat_limits_zero
      · rw [h1]; exact (decode_stx2stat_inv st).1
      · rw [h1]; exact stx2stat_limits_zero
    · unfold arcp_sysstat_t.bsm
      rcases d2 with h1 | ⟨st, _, h1⟩ | ⟨st, h1⟩
      · rw [h1]; exact (by decide : bsmstat_limits arcp_bsmstat_t.zero)
      · rw [h1]; exact (by decide : bsmstat_limits arcp_bsmstat_t.zero)
      · rw [h1]; exact decode_bsmstat_limits st

theorem stream_decode_limits_witness :
    arcp_stream_decode 0 decode_locals.zero (stream_of_bytes (example_stx2_frame 9))
      = some (0, strm (example_stx2_frame 9) [],
          some (.resp_sysstat ⟨ARCP_MAGIC_NUMBER, 50, 9, 1, 0x0101⟩ ARCP_RESP_SYSSTAT 0
            ⟨1, 1, .stx2 example_stx2_decoded⟩)) ∧
    msg_limits (.resp_sysstat ⟨ARCP_MAGIC_NUMBER, 50, 9, 1, 0x0101⟩ ARCP_RESP_SYSSTAT 0
      ⟨1, 1, .stx2 example_stx2_decoded⟩) :=
  have h : arcp_stream_decode 0 decode_locals.zero
      (stream_of_bytes (example_stx2_frame 9))
      = some (0, strm (example_stx2_frame 9) [],
          some (.resp_sysstat ⟨ARCP_MAGIC_NUMBER, 50, 9, 1, 0x0101⟩ ARCP_RESP_SYSSTAT 0
            ⟨1, 1, .stx2 example_stx2_decoded⟩)) := by decide
  ⟨h, (stream_decode_limits _ _ _ _ _ _ h).1⟩

/-- C40.  `arcp_pulsecode_setbit` with the bit index 65535: on the code that
`arcp_pulsecode_new(8)` returns, and on every code whose capacity `size` is between 1 and
65535, the call does not return -1: `(uint16)(bitnum+1)` is 0, `arcp_pulsecode_setsize`
accepts the size 0, frees nothing, sets `data` to `NULL` and `size` to 0 and returns 0, and
the store to `data[8191]` that follows lies outside the array. -/
theorem pulsecode_setbit_65535_outside :
    (arcp_pulsecode_new 8).bind (fun c => arcp_pulsecode_setbit c 65535 1) = none ∧
    arcp_pulsecode_new 8 = some ⟨8, 0, [0]⟩ ∧
    arcp_pulsecode_setsize ⟨8, 0, [0]⟩ (uint16_of ((65535 + 1 : Nat) : Int))
      = (0, ⟨0, 0, []⟩) ∧
    (∀ (c : arcp_pulsecode_t) (v : Nat), c.size ≠ 0 → c.size < 65536 →
      arcp_pulsecode_setsize c (uint16_of ((65535 + 1 : Nat) : Int))
        = (0, { c with data := [], size := 0 }) ∧
      arcp_pulsecode_setbit c 65535 v = none) := by
  refine ⟨by decide, by decide, by decide, fun c v h0 h1 => pulsecode_setbit_65535 c v h0 h1⟩

end ARCP
